import Mathlib

/-!
Verification development for the compiler front-end in `compiler_ir`
(SLR(1) parser with AST-building semantic actions, plus the tree-walking
IR generator).  Definitions are shallow embeddings of the C++ sources:

  * `AST.h`            — the AST node family (nullable `shared_ptr` fields
                         become `Option`, node-owned vectors of pointers
                         become `List (Option _)`),
  * `SLRParser.cpp`    — grammar, ACTION/GOTO table cell filling, the
                         shift-reduce parse loop and the semantic actions,
  * `SymbolTable.h`    — the scope-stack symbol table,
  * `IRGenerator.cpp`  — the AST-to-IR lowering pass.

The IR object model (Module / Value / IRBuilder) is not part of the
sources; it is modelled from the spec as a module state that records
created functions, global variables, basic blocks and appended
instructions.
-/

namespace SysY

/-! ## Enumerations from AST.h -/

/-- Basic type enumeration (`enum class BType`, AST.h). -/
inductive BType where
  | INT
  | FLOAT
  | VOID
deriving DecidableEq, Repr

/-- Unary operator enumeration (`enum class UnaryOp`, AST.h). -/
inductive UnaryOp where
  | PLUS
  | MINUS
  | NOT
deriving DecidableEq, Repr

/-- Binary operator enumeration (`enum class BinaryOp`, AST.h). -/
inductive BinaryOp where
  | ADD
  | SUB
  | MUL
  | DIV
  | MOD
deriving DecidableEq, Repr

/-- Relational operator enumeration (`enum class RelOp`, AST.h). -/
inductive RelOp where
  | LT
  | GT
  | LE
  | GE
deriving DecidableEq, Repr

/-- Equality operator enumeration (`enum class EqOp`, AST.h). -/
inductive EqOp where
  | EQ
  | NE
deriving DecidableEq, Repr

/-- Statement kind enumeration (`enum class StmtType`, AST.h). -/
inductive StmtType where
  | ASSIGN
  | EXP
  | BLOCK
  | IF
  | RETURN
deriving DecidableEq, Repr

/-- Primary-expression kind (`PrimaryExpNode::PrimaryType`, AST.h). -/
inductive PrimaryType where
  | PAREN_EXP
  | LVAL
  | NUMBER
deriving DecidableEq, Repr

/-- Unary-expression kind (`UnaryExpNode::UnaryType`, AST.h). -/
inductive UnaryType where
  | PRIMARY
  | FUNC_CALL
  | UNARY_OP
deriving DecidableEq, Repr

/-! ## Leaf AST nodes

`LValNode` and `NumberNode` (AST.h) have no child node pointers.
Floating literals are modelled with `Rat`; no claim depends on binary
floating-point rounding, only on which constant constructor is used. -/

/-- Left-value node (`class LValNode`, AST.h): just an identifier. -/
structure LVal where
  ident : String
deriving DecidableEq, Repr

/-- Number literal node (`class NumberNode`, AST.h). -/
structure Number where
  isFloat : Bool
  intVal : Int
  floatVal : Rat
deriving DecidableEq, Repr

/-! ## The expression spine

Each C++ `shared_ptr` field becomes an `Option`; the vector of argument
pointers of a call becomes a `List (Option Exp)`.  `Exp` models the
dynamic type of a `shared_ptr<ExpNode>`: the IR generator dispatches on
the concrete subtype with `dynamic_pointer_cast`, which the `Exp` sum
reproduces exactly (the subtypes are pairwise-incompatible leaf
classes). -/

mutual

/-- Primary expression node (`class PrimaryExpNode`, AST.h). -/
inductive PrimaryExp where
  | mk (primaryType : PrimaryType) (exp : Option Exp) (lVal : Option LVal)
       (number : Option Number)

/-- Unary expression node (`class UnaryExpNode`, AST.h). -/
inductive UnaryExp where
  | mk (unaryType : UnaryType) (primaryExp : Option PrimaryExp) (funcName : String)
       (args : List (Option Exp)) (unaryOp : UnaryOp) (unaryExp : Option UnaryExp)

/-- Multiplicative chain node (`class MulExpNode`, AST.h). -/
inductive MulExp where
  | mk (left : Option MulExp) (op : BinaryOp) (right : Option UnaryExp)

/-- Additive chain node (`class AddExpNode`, AST.h). -/
inductive AddExp where
  | mk (left : Option AddExp) (op : BinaryOp) (right : Option MulExp)

/-- Relational chain node (`class RelExpNode`, AST.h). -/
inductive RelExp where
  | mk (left : Option RelExp) (op : RelOp) (right : Option AddExp)

/-- Equality chain node (`class EqExpNode`, AST.h). -/
inductive EqExp where
  | mk (left : Option EqExp) (op : EqOp) (right : Option RelExp)

/-- Logical-and chain node (`class LAndExpNode`, AST.h); it has no
operator field. -/
inductive LAndExp where
  | mk (left : Option LAndExp) (right : Option EqExp)

/-- Logical-or chain node (`class LOrExpNode`, AST.h); it has no
operator field. -/
inductive LOrExp where
  | mk (left : Option LOrExp) (right : Option LAndExp)

/-- Dynamic type of a `shared_ptr<ExpNode>` (base class `ExpNode`,
AST.h): one constructor per concrete subtype that can be stored. -/
inductive Exp where
  | addE (e : AddExp)
  | mulE (e : MulExp)
  | unaryE (e : UnaryExp)
  | primaryE (e : PrimaryExp)
  | lvalE (e : LVal)
  | numberE (e : Number)
  | relE (e : RelExp)
  | eqE (e : EqExp)
  | landE (e : LAndExp)
  | lorE (e : LOrExp)

end

/-! Field projections for the single-constructor expression nodes. -/

def PrimaryExp.primaryType : PrimaryExp → PrimaryType
  | .mk t _ _ _ => t

def PrimaryExp.exp : PrimaryExp → Option Exp
  | .mk _ e _ _ => e

def PrimaryExp.lVal : PrimaryExp → Option LVal
  | .mk _ _ l _ => l

def PrimaryExp.number : PrimaryExp → Option Number
  | .mk _ _ _ n => n

def UnaryExp.unaryType : UnaryExp → UnaryType
  | .mk t _ _ _ _ _ => t

def UnaryExp.primaryExp : UnaryExp → Option PrimaryExp
  | .mk _ p _ _ _ _ => p

def UnaryExp.funcName : UnaryExp → String
  | .mk _ _ n _ _ _ => n

def UnaryExp.args : UnaryExp → List (Option Exp)
  | .mk _ _ _ a _ _ => a

def UnaryExp.unaryOp : UnaryExp → UnaryOp
  | .mk _ _ _ _ o _ => o

def UnaryExp.unaryExp : UnaryExp → Option UnaryExp
  | .mk _ _ _ _ _ u => u

def MulExp.left : MulExp → Option MulExp
  | .mk l _ _ => l

def MulExp.op : MulExp → BinaryOp
  | .mk _ o _ => o

def MulExp.right : MulExp → Option UnaryExp
  | .mk _ _ r => r

def AddExp.left : AddExp → Option AddExp
  | .mk l _ _ => l

def AddExp.op : AddExp → BinaryOp
  | .mk _ o _ => o

def AddExp.right : AddExp → Option MulExp
  | .mk _ _ r => r

def RelExp.left : RelExp → Option RelExp
  | .mk l _ _ => l

def RelExp.op : RelExp → RelOp
  | .mk _ o _ => o

def RelExp.right : RelExp → Option AddExp
  | .mk _ _ r => r

def EqExp.left : EqExp → Option EqExp
  | .mk l _ _ => l

def EqExp.op : EqExp → EqOp
  | .mk _ o _ => o

def EqExp.right : EqExp → Option RelExp
  | .mk _ _ r => r

def LAndExp.left : LAndExp → Option LAndExp
  | .mk l _ => l

def LAndExp.right : LAndExp → Option EqExp
  | .mk _ r => r

def LOrExp.left : LOrExp → Option LOrExp
  | .mk l _ => l

def LOrExp.right : LOrExp → Option LAndExp
  | .mk _ r => r

/-! ## Statement-level AST nodes -/

/-- Condition node (`class CondNode`, AST.h). -/
structure Cond where
  lOrExp : Option LOrExp

/-- Constant definition node (`class ConstDefNode`, AST.h). -/
structure ConstDef where
  ident : String
  initVal : Option Exp

/-- Variable definition node (`class VarDefNode`, AST.h); `initVal` is
none when the declaration has no initializer. -/
structure VarDef where
  ident : String
  initVal : Option Exp

/-- Constant declaration node (`class ConstDeclNode`, AST.h). -/
structure ConstDecl where
  bType : BType
  constDefs : List (Option ConstDef)

/-- Variable declaration node (`class VarDeclNode`, AST.h). -/
structure VarDecl where
  bType : BType
  varDefs : List (Option VarDef)

/-- Dynamic type of a `shared_ptr<DeclNode>` (base class `DeclNode`):
the IR generator distinguishes the two subclasses by dynamic cast. -/
inductive Decl where
  | constD (c : ConstDecl)
  | varD (v : VarDecl)

mutual

/-- Statement node (`class StmtNode`, AST.h): one record with a kind tag
and all variant fields, exactly as in the source. -/
inductive Stmt where
  | mk (stmtType : StmtType) (lVal : Option LVal) (exp : Option Exp)
       (block : Option Block) (cond : Option Cond) (thenStmt : Option Stmt)
       (elseStmt : Option Stmt)

/-- Block node (`class BlockNode`, AST.h). -/
inductive Block where
  | mk (items : List (Option BlockItem))

/-- Block item node (`class BlockItemNode`, AST.h): a declaration or a
statement, each possibly null. -/
inductive BlockItem where
  | mk (decl : Option Decl) (stmt : Option Stmt)

end

def Stmt.stmtType : Stmt → StmtType
  | .mk t _ _ _ _ _ _ => t

def Stmt.lVal : Stmt → Option LVal
  | .mk _ l _ _ _ _ _ => l

def Stmt.exp : Stmt → Option Exp
  | .mk _ _ e _ _ _ _ => e

def Stmt.block : Stmt → Option Block
  | .mk _ _ _ b _ _ _ => b

def Stmt.cond : Stmt → Option Cond
  | .mk _ _ _ _ c _ _ => c

def Stmt.thenStmt : Stmt → Option Stmt
  | .mk _ _ _ _ _ t _ => t

def Stmt.elseStmt : Stmt → Option Stmt
  | .mk _ _ _ _ _ _ e => e

def Block.items : Block → List (Option BlockItem)
  | .mk is => is

def BlockItem.decl : BlockItem → Option Decl
  | .mk d _ => d

def BlockItem.stmt : BlockItem → Option Stmt
  | .mk _ s => s

/-- Function formal parameter node (`class FuncFParamNode`, AST.h). -/
structure FuncFParam where
  bType : BType
  ident : String

/-- Function definition node (`class FuncDefNode`, AST.h). -/
structure FuncDef where
  returnType : BType
  ident : String
  params : List (Option FuncFParam)
  block : Option Block

/-- Compilation unit node (`class CompUnitNode`, AST.h).  The semantic
actions only push non-null declarations and function definitions into
these two vectors (guarded in `SLRParser::reduce`, productions 3/4), so
the element types are not optional. -/
structure CompUnit where
  decls : List Decl
  funcDefs : List FuncDef

/-! ## The IR object model

Modelled from the spec: the low-level IR value/type/instruction object
model (Module, Function, BasicBlock, Value, Type, Constant, IRBuilder)
is an external collaborator "consumed as a target API the generator
emits into" (spec section 1).  It is embedded as plain data: a module
state records the created functions, global variables and basic blocks,
and the builder appends instructions to the current insertion block. -/

/-- IR types (`Type` of the external object model): 1-bit and 32-bit
integers, float, void, and pointers. -/
inductive Ty where
  | i1
  | i32
  | flt
  | void
  | ptr (elem : Ty)
deriving DecidableEq, Repr

/-- Comparison predicates used by `create_icmp_*` / `create_fcmp_*`. -/
inductive CmpOp where
  | eq
  | ne
  | lt
  | gt
  | le
  | ge
deriving DecidableEq, Repr

/-- Arithmetic operations used by `create_iadd` … `create_irem` and the
floating-point variants. -/
inductive ArithOp where
  | add
  | sub
  | mul
  | div
  | rem
deriving DecidableEq, Repr

/-- IR values (`Value*` of the external object model).  `null` models
the C++ null pointer that visitor functions return on errors;
`constB` models `ConstantInt::get(bool)` (an i1 constant), `constInt`
models `ConstantInt::get(int)` (an i32 constant); `reg` is the result
of a previously emitted instruction. -/
inductive Val where
  | null
  | constInt (n : Int)
  | constB (b : Bool)
  | constFP (q : Rat)
  | globalRef (name : String) (elemTy : Ty)
  | funcRef (name : String)
  | argRef (fn : String) (idx : Nat) (ty : Ty)
  | reg (id : Nat) (ty : Ty)
deriving DecidableEq, Repr

/-- Static type of a value (`Value::get_type`); `none` for the null
pointer (whose `get_type` would crash) and for function values (whose
function type is never inspected on the modelled paths). -/
def Val.getType : Val → Option Ty
  | .null => none
  | .constInt _ => some .i32
  | .constB _ => some .i1
  | .constFP _ => some .flt
  | .globalRef _ t => some (.ptr t)
  | .funcRef _ => none
  | .argRef _ _ t => some t
  | .reg _ t => some t

/-- Check `is_float_type()` on a value's type. -/
def Val.isFloatTy (v : Val) : Bool := v.getType == some .flt

/-- Check `is_int32_type()` on a value's type. -/
def Val.isInt32Ty (v : Val) : Bool := v.getType == some .i32

/-- Check `is_int1_type()` on a value's type. -/
def Val.isInt1Ty (v : Val) : Bool := v.getType == some .i1

/-- IR instructions as appended by the `IRBuilder` calls that
`IRGenerator.cpp` uses.  Block targets are block ids. -/
inductive Instr where
  | alloca (t : Ty)
  | store (v addr : Val)
  | load (t : Ty) (addr : Val)
  | call (rty : Ty) (callee : Val) (args : List Val)
  | zext (v : Val) (t : Ty)
  | sitofp (v : Val) (t : Ty)
  | icmp (op : CmpOp) (a b : Val)
  | fcmp (op : CmpOp) (a b : Val)
  | ibin (op : ArithOp) (a b : Val)
  | fbin (op : ArithOp) (a b : Val)
  | br (target : Nat)
  | condBr (c : Val) (ifTrue ifFalse : Nat)
  | ret (v : Val)
  | retVoid
  | phi (t : Ty) (incoming : List (Val × Nat))
deriving DecidableEq, Repr

/-- Terminator instructions (returns and branches). -/
def Instr.isTerminator : Instr → Bool
  | .br _ => true
  | .condBr _ _ _ => true
  | .ret _ => true
  | .retVoid => true
  | _ => false

/-- A basic block: id, print name, owning function, and the appended
instruction list. -/
structure BBlock where
  id : Nat
  name : String
  fn : String
  instrs : List Instr
deriving DecidableEq, Repr

/-! ## Symbol table (SymbolTable.h) -/

/-- Symbol information (`struct SymbolInfo`, SymbolTable.h). -/
structure SymbolInfo where
  value : Val
  type : Option Ty
  isConst : Bool
  isGlobal : Bool
deriving DecidableEq, Repr

/-- One scope (`class Scope`): a name-keyed map, modelled as an
association list (keys are unique because `Scope::insert` refuses
duplicates). -/
abbrev Scope := List (String × SymbolInfo)

/-- `Scope::lookup`. -/
def scopeLookup (sc : Scope) (name : String) : Option SymbolInfo :=
  (sc.find? (fun p => p.1 == name)).map (·.2)

/-- The scope stack (`std::vector<std::shared_ptr<Scope>> scopes`);
the head of the list is the innermost scope (`scopes.back()`). -/
abbrev SymTable := List Scope

/-- `SymbolTable::enterScope`. -/
def stEnterScope (st : SymTable) : SymTable := [] :: st

/-- `SymbolTable::exitScope`: pops the innermost scope but always keeps
the global (bottom) scope. -/
def stExitScope (st : SymTable) : SymTable :=
  if st.length > 1 then st.tail else st

/-- `SymbolTable::isGlobalScope`. -/
def stIsGlobalScope (st : SymTable) : Bool := st.length == 1

/-- `SymbolTable::lookup`: walk the scopes innermost-to-outermost. -/
def stLookup (st : SymTable) (name : String) : Option SymbolInfo :=
  match st with
  | [] => none
  | sc :: rest =>
    match scopeLookup sc name with
    | some i => some i
    | none => stLookup rest name

/-- `SymbolTable::lookupCurrentScope`: consult only the innermost
scope. -/
def stLookupCurrentScope (st : SymTable) (name : String) : Option SymbolInfo :=
  match st with
  | [] => none
  | sc :: _ => scopeLookup sc name

/-- `SymbolTable::insert`: add to the innermost scope unless the name is
already bound there (in which case the table is unchanged, mirroring the
`false` return). -/
def stInsert (st : SymTable) (name : String) (v : Val) (t : Option Ty)
    (c : Bool) : SymTable :=
  match st with
  | [] => []
  | sc :: rest =>
    if (scopeLookup sc name).isSome then sc :: rest
    else (sc ++ [(name, ⟨v, t, c, stIsGlobalScope (sc :: rest)⟩)]) :: rest

/-- `SymbolTable::put`: the simplified insert (no type, not const). -/
def stPut (st : SymTable) (name : String) (v : Val) : SymTable :=
  stInsert st name v none false

/-- `SymbolTable::getValue`: like `lookup`, but collapses a miss to the
null pointer. -/
def stGetValue (st : SymTable) (name : String) : Val :=
  match stLookup st name with
  | some i => i.value
  | none => Val.null

/-! ## Generator state (private fields of `IRGenerator` plus the module
being built) -/

/-- State of the generator: the module contents built so far
(functions, globals, blocks), the fresh-id counters, the builder's
insertion point (`currentBB`), the current function, the symbol table
and the diagnostics written to `std::cerr`. -/
structure GenState where
  funcs : List (String × Ty × List Ty) := []
  globals : List (String × Ty × Bool × Val) := []
  blocks : List BBlock := []
  nextReg : Nat := 0
  nextBB : Nat := 0
  curBB : Option Nat := none
  curFn : Option String := none
  symtab : SymTable := [[]]
  diags : List String := []
deriving DecidableEq, Repr

/-- Record a diagnostic printed to `std::cerr`. -/
def addDiag (msg : String) (s : GenState) : GenState :=
  { s with diags := s.diags ++ [msg] }

/-- `BasicBlock::create(module, name, func)`: a fresh block for the
current function; returns its id. -/
def createBB (name : String) (s : GenState) : Nat × GenState :=
  (s.nextBB,
   { s with
     blocks := s.blocks ++ [⟨s.nextBB, name, s.curFn.getD "", []⟩],
     nextBB := s.nextBB + 1 })

/-- The pair `currentBB = b; builder->set_insert_point(b)`. -/
def setInsertPoint (b : Nat) (s : GenState) : GenState :=
  { s with curBB := some b }

/-- Append an instruction to the current insertion block (the effect of
any `builder->create_*` call).  With no insertion block the source
would dereference a null pointer; modelled as a no-op (never reached
inside a function body). -/
def appendInstr (i : Instr) (s : GenState) : GenState :=
  match s.curBB with
  | none => s
  | some b =>
    { s with
      blocks := s.blocks.map (fun bb =>
        if bb.id == b then { bb with instrs := bb.instrs ++ [i] } else bb) }

/-- Append an instruction and return its result value with the given
result type. -/
def emit (i : Instr) (t : Ty) (s : GenState) : Val × GenState :=
  (Val.reg s.nextReg t, { appendInstr i s with nextReg := s.nextReg + 1 })

/-- `GlobalVariable::create(name, module, type, isConst, init)` as used
by `IRGenerator::createGlobalVariable`. -/
def createGlobalVariable (name : String) (t : Ty) (isConst : Bool)
    (init : Val) (s : GenState) : Val × GenState :=
  (Val.globalRef name t, { s with globals := s.globals ++ [(name, t, isConst, init)] })

/-- `IRGenerator::createLocalVariable`: `builder->create_alloca(type)`,
appended at the current insertion point. -/
def createLocalVariable (t : Ty) (s : GenState) : Val × GenState :=
  emit (.alloca t) (.ptr t) s

/-- `Function::create(funcType, name, module)`: registers the function
in the module's function list (not in the symbol table). -/
def createFunction (name : String) (ret : Ty) (ps : List Ty)
    (s : GenState) : GenState :=
  { s with funcs := s.funcs ++ [(name, ret, ps)] }

/-- `IRGenerator::declareRuntimeFunctions` (IRGenerator.cpp lines
76-114): create the eight runtime library functions in the module, in
source order. -/
def declareRuntimeFunctions (s : GenState) : GenState :=
  let s := createFunction "getint" .i32 [] s
  let s := createFunction "getch" .i32 [] s
  let s := createFunction "getarray" .i32 [.ptr .i32] s
  let s := createFunction "putint" .void [.i32] s
  let s := createFunction "putch" .void [.i32] s
  let s := createFunction "putarray" .void [.i32, .ptr .i32] s
  let s := createFunction "starttime" .void [] s
  let s := createFunction "stoptime" .void [] s
  s

/-- The generator state right after the `IRGenerator` constructor:
empty module except for the runtime declarations, a single (global)
scope, no insertion point. -/
def initGenState : GenState := declareRuntimeFunctions {}

/-- `IRGenerator::bTypeToLLVMType`. -/
def bTypeToLLVMType : BType → Ty
  | .INT => .i32
  | .FLOAT => .flt
  | .VOID => .void

/-- `IRGenerator::ensureInt32`: zero-extend an i1 value to i32,
otherwise return the value unchanged. -/
def ensureInt32 (v : Val) (s : GenState) : Val × GenState :=
  if v.isInt1Ty then emit (.zext v .i32) .i32 s else (v, s)

/-- `IRGenerator::ensureInt1`: compare an i32 value not-equal to the
integer constant 0, otherwise return the value unchanged. -/
def ensureInt1 (v : Val) (s : GenState) : Val × GenState :=
  if v.isInt32Ty then emit (.icmp .ne v (.constInt 0)) .i1 s else (v, s)

/-- Find a block by id. -/
def findBlock (s : GenState) (b : Nat) : Option BBlock :=
  s.blocks.find? (fun bb => bb.id == b)

/-- Modelled from the spec: `BasicBlock::get_terminator` belongs to the
external IR object model; a block "already ends in a terminator (return
or nested branch)" (spec section 4.4) iff its last appended instruction
is a terminator. -/
def blockHasTerminator (s : GenState) (b : Nat) : Bool :=
  match findBlock s b with
  | none => false
  | some bb =>
    match bb.instrs.getLast? with
    | some i => i.isTerminator
    | none => false

/-- Whether the block at the current insertion point already ends in a
terminator (`currentBB->get_terminator()`). -/
def curHasTerminator (s : GenState) : Bool :=
  match s.curBB with
  | some b => blockHasTerminator s b
  | none => false

/-- Modelled from the spec: `create_call` derives its result type from
the callee's function type, recorded in the module at declaration
time. -/
def funcRetTy (s : GenState) (v : Val) : Ty :=
  match v with
  | .funcRef n =>
    match s.funcs.find? (fun f => f.1 == n) with
    | some f => f.2.1
    | none => .i32
  | _ => .i32

/-! ## Constant evaluation (IRGenerator.cpp lines 131-176)

`evalConstInt` dispatches on the dynamic node type with
`dynamic_pointer_cast` exactly as the source does; every fall-through
returns 0.  A null argument is handled gracefully by the source (all
casts fail), so recursion through a null child is exact, not a model
choice. -/

/-- `IRGenerator::evalConstInt`.  (In the null-child branches the
recursive call receives a null pointer, on which every dynamic cast
fails and the source returns 0; those calls are inlined to 0 here.) -/
def evalConstInt : Exp → Int
  | .numberE n => n.intVal
  | .addE (.mk none _ (some m)) => evalConstInt (.mulE m)
  | .addE _ => 0
  | .mulE (.mk none _ (some u)) => evalConstInt (.unaryE u)
  | .mulE _ => 0
  | .unaryE (.mk .PRIMARY (some pe) _ _ _ _) => evalConstInt (.primaryE pe)
  | .unaryE (.mk .PRIMARY none _ _ _ _) => 0
  | .unaryE (.mk .UNARY_OP _ _ _ op (some e)) =>
    let v := evalConstInt (.unaryE e)
    match op with
    | .PLUS => v
    | .MINUS => -v
    | .NOT => if v == 0 then 1 else 0
  | .unaryE (.mk .UNARY_OP _ _ _ op none) =>
    match op with
    | .PLUS => 0
    | .MINUS => 0
    | .NOT => 1
  | .unaryE (.mk .FUNC_CALL _ _ _ _ _) => 0
  | .primaryE (.mk .NUMBER _ _ (some n)) => n.intVal
  | .primaryE (.mk .NUMBER _ _ none) => 0
  | .primaryE (.mk .PAREN_EXP (some e) _ _) => evalConstInt e
  | .primaryE (.mk .PAREN_EXP none _ _) => 0
  | .primaryE (.mk .LVAL _ _ _) => 0
  | _ => 0
termination_by e => sizeOf e

/-- `IRGenerator::evalConstFloat`: only number literals evaluate, with
int-to-float conversion; everything else is 0.0. -/
def evalConstFloat : Exp → Rat
  | .numberE n => if n.isFloat then n.floatVal else (n.intVal : Rat)
  | _ => 0

/-! ## Expression visitors (IRGenerator.cpp lines 472-821)

Each function returns the produced `Value*` (possibly `null`) and the
updated state.  The `…Opt` wrappers model call sites that pass a
possibly-null `shared_ptr`; for `visitExp` a null argument is handled
gracefully by the source itself (every dynamic cast fails, returning
null), for the other node types a null argument would be dereferenced,
which the model renders as returning null without touching the state. -/

/-- `IRGenerator::visitNumber`. -/
def visitNumber (node : Number) (s : GenState) : Val × GenState :=
  if node.isFloat then (Val.constFP node.floatVal, s)
  else (Val.constInt node.intVal, s)

/-- `IRGenerator::visitLVal` (IRGenerator.cpp lines 515-535): look the
name up through all scopes; a miss reports "未定义的变量" and returns
null.  With `load` set, a value that is a function argument
(`dynamic_cast<Argument*>`) is returned directly, anything else is
loaded through its pointer type; with `load` unset the stored value
(the address) is returned unchanged. -/
def visitLVal (node : LVal) (load : Bool) (s : GenState) : Val × GenState :=
  match stLookup s.symtab node.ident with
  | none => (Val.null, addDiag ("Error: 未定义的变量 " ++ node.ident) s)
  | some info =>
    if load then
      match info.value with
      | .argRef f i t => (Val.argRef f i t, s)
      | addr =>
        let loadTy := match addr.getType with
          | some (.ptr e) => e
          | _ => Ty.i32
        emit (.load loadTy addr) loadTy s
    else (info.value, s)

mutual

/-- `IRGenerator::visitExp`: dispatch on the dynamic node type (the
chain of `dynamic_pointer_cast` tests; the subtypes are disjoint, so
the test order is immaterial). -/
def visitExp : Exp → GenState → Val × GenState
  | .addE e, s => visitAddExp e s
  | .mulE e, s => visitMulExp e s
  | .unaryE e, s => visitUnaryExp e s
  | .primaryE e, s => visitPrimaryExp e s
  | .lvalE e, s => visitLVal e true s
  | .numberE e, s => visitNumber e s
  | .relE e, s => visitRelExp e s
  | .eqE e, s => visitEqExp e s
  | .landE e, s => visitLAndExp e s
  | .lorE e, s => visitLOrExp e s

/-- Call `visitExp` on a possibly-null expression (null is handled
gracefully by the source's cast chain). -/
def visitExpOpt : Option Exp → GenState → Val × GenState
  | some e, s => visitExp e s
  | none, s => (Val.null, s)

/-- `IRGenerator::visitPrimaryExp`. -/
def visitPrimaryExp : PrimaryExp → GenState → Val × GenState
  | .mk .PAREN_EXP e _ _, s => visitExpOpt e s
  | .mk .LVAL _ (some l) _, s => visitLVal l true s
  | .mk .LVAL _ none _, s => (Val.null, s)
  | .mk .NUMBER _ _ (some n), s => visitNumber n s
  | .mk .NUMBER _ _ none, s => (Val.null, s)

/-- Wrapper for a possibly-null `PrimaryExp` argument. -/
def visitPrimaryExpOpt : Option PrimaryExp → GenState → Val × GenState
  | some p, s => visitPrimaryExp p s
  | none, s => (Val.null, s)

/-- `IRGenerator::visitUnaryExp` (IRGenerator.cpp lines 558-604).  For
a call: resolve the callee with `symbolTable.getValue`; a null result
reports "未定义的函数" and returns null *before* any argument is
evaluated; otherwise evaluate the arguments left-to-right and emit a
call instruction. -/
def visitUnaryExp : UnaryExp → GenState → Val × GenState
  | .mk .PRIMARY p _ _ _ _, s => visitPrimaryExpOpt p s
  | .mk .FUNC_CALL _ fname args _ _, s =>
    let funcVal := stGetValue s.symtab fname
    if funcVal == Val.null then
      (Val.null, addDiag ("Error: 未定义的函数 " ++ fname) s)
    else
      let p := visitArgs args s
      emit (.call (funcRetTy p.2 funcVal) funcVal p.1) (funcRetTy p.2 funcVal) p.2
  | .mk .UNARY_OP _ _ _ op u, s =>
    let p := visitUnaryExpOpt u s
    match op with
    | .PLUS => p
    | .MINUS =>
      if p.1.isFloatTy then emit (.fbin .sub (Val.constFP 0) p.1) .flt p.2
      else emit (.ibin .sub (Val.constInt 0) p.1) .i32 p.2
    | .NOT => emit (.icmp .eq p.1 (Val.constInt 0)) .i1 p.2

/-- Wrapper for a possibly-null `UnaryExp` argument. -/
def visitUnaryExpOpt : Option UnaryExp → GenState → Val × GenState
  | some u, s => visitUnaryExp u s
  | none, s => (Val.null, s)

/-- Left-to-right evaluation of the arguments of a call (the `for`
loop of the FUNC_CALL case), collecting the produced values. -/
def visitArgs : List (Option Exp) → GenState → List Val × GenState
  | [], s => ([], s)
  | a :: rest, s =>
    let p := visitExpOpt a s
    let q := visitArgs rest p.2
    (p.1 :: q.1, q.2)

/-- `IRGenerator::visitMulExp` (IRGenerator.cpp lines 606-638): pass
through when there is no left child; otherwise evaluate left then
right, promote to float if either side is float, and emit the matching
operation (MOD is always the integer remainder; an ADD/SUB operator in
a MulExp node falls through to null). -/
def visitMulExp : MulExp → GenState → Val × GenState
  | .mk none _ r, s => visitUnaryExpOpt r s
  | .mk (some l) op r, s =>
    let pl := visitMulExp l s
    let pr := visitUnaryExpOpt r pl.2
    let isF := pl.1.isFloatTy || pr.1.isFloatTy
    let ql := if isF && pl.1.isInt32Ty then emit (.sitofp pl.1 .flt) .flt pr.2
              else (pl.1, pr.2)
    let qr := if isF && pr.1.isInt32Ty then emit (.sitofp pr.1 .flt) .flt ql.2
              else (pr.1, ql.2)
    match op with
    | .MUL =>
      if isF then emit (.fbin .mul ql.1 qr.1) .flt qr.2
      else emit (.ibin .mul ql.1 qr.1) .i32 qr.2
    | .DIV =>
      if isF then emit (.fbin .div ql.1 qr.1) .flt qr.2
      else emit (.ibin .div ql.1 qr.1) .i32 qr.2
    | .MOD => emit (.ibin .rem ql.1 qr.1) .i32 qr.2
    | _ => (Val.null, qr.2)

/-- Wrapper for a possibly-null `MulExp` argument. -/
def visitMulExpOpt : Option MulExp → GenState → Val × GenState
  | some m, s => visitMulExp m s
  | none, s => (Val.null, s)

/-- `IRGenerator::visitAddExp` (IRGenerator.cpp lines 640-669). -/
def visitAddExp : AddExp → GenState → Val × GenState
  | .mk none _ r, s => visitMulExpOpt r s
  | .mk (some l) op r, s =>
    let pl := visitAddExp l s
    let pr := visitMulExpOpt r pl.2
    let isF := pl.1.isFloatTy || pr.1.isFloatTy
    let ql := if isF && pl.1.isInt32Ty then emit (.sitofp pl.1 .flt) .flt pr.2
              else (pl.1, pr.2)
    let qr := if isF && pr.1.isInt32Ty then emit (.sitofp pr.1 .flt) .flt ql.2
              else (pr.1, ql.2)
    match op with
    | .ADD =>
      if isF then emit (.fbin .add ql.1 qr.1) .flt qr.2
      else emit (.ibin .add ql.1 qr.1) .i32 qr.2
    | .SUB =>
      if isF then emit (.fbin .sub ql.1 qr.1) .flt qr.2
      else emit (.ibin .sub ql.1 qr.1) .i32 qr.2
    | _ => (Val.null, qr.2)

/-- Wrapper for a possibly-null `AddExp` argument. -/
def visitAddExpOpt : Option AddExp → GenState → Val × GenState
  | some a, s => visitAddExp a s
  | none, s => (Val.null, s)

/-- `IRGenerator::visitRelExp` (IRGenerator.cpp lines 671-708): only
the left operand of an extension node is re-widened with
`ensureInt32`. -/
def visitRelExp : RelExp → GenState → Val × GenState
  | .mk none _ r, s => visitAddExpOpt r s
  | .mk (some l) op r, s =>
    let pl0 := visitRelExp l s
    let pl := ensureInt32 pl0.1 pl0.2
    let pr := visitAddExpOpt r pl.2
    let isF := pl.1.isFloatTy || pr.1.isFloatTy
    let ql := if isF && pl.1.isInt32Ty then emit (.sitofp pl.1 .flt) .flt pr.2
              else (pl.1, pr.2)
    let qr := if isF && pr.1.isInt32Ty then emit (.sitofp pr.1 .flt) .flt ql.2
              else (pr.1, ql.2)
    match op with
    | .LT =>
      if isF then emit (.fcmp .lt ql.1 qr.1) .i1 qr.2
      else emit (.icmp .lt ql.1 qr.1) .i1 qr.2
    | .GT =>
      if isF then emit (.fcmp .gt ql.1 qr.1) .i1 qr.2
      else emit (.icmp .gt ql.1 qr.1) .i1 qr.2
    | .LE =>
      if isF then emit (.fcmp .le ql.1 qr.1) .i1 qr.2
      else emit (.icmp .le ql.1 qr.1) .i1 qr.2
    | .GE =>
      if isF then emit (.fcmp .ge ql.1 qr.1) .i1 qr.2
      else emit (.icmp .ge ql.1 qr.1) .i1 qr.2

/-- `IRGenerator::visitEqExp` (IRGenerator.cpp lines 710-741): both
operands of an extension node are re-widened with `ensureInt32`. -/
def visitEqExp : EqExp → GenState → Val × GenState
  | .mk none _ r, s => visitRelExpOpt r s
  | .mk (some l) op r, s =>
    let pl0 := visitEqExp l s
    let pl := ensureInt32 pl0.1 pl0.2
    let pr0 := visitRelExpOpt r pl.2
    let pr := ensureInt32 pr0.1 pr0.2
    let isF := pl.1.isFloatTy || pr.1.isFloatTy
    let ql := if isF && pl.1.isInt32Ty then emit (.sitofp pl.1 .flt) .flt pr.2
              else (pl.1, pr.2)
    let qr := if isF && pr.1.isInt32Ty then emit (.sitofp pr.1 .flt) .flt ql.2
              else (pr.1, ql.2)
    match op with
    | .EQ =>
      if isF then emit (.fcmp .eq ql.1 qr.1) .i1 qr.2
      else emit (.icmp .eq ql.1 qr.1) .i1 qr.2
    | .NE =>
      if isF then emit (.fcmp .ne ql.1 qr.1) .i1 qr.2
      else emit (.icmp .ne ql.1 qr.1) .i1 qr.2

/-- Wrapper for a possibly-null `RelExp` argument. -/
def visitRelExpOpt : Option RelExp → GenState → Val × GenState
  | some r, s => visitRelExp r s
  | none, s => (Val.null, s)

/-- Wrapper for a possibly-null `EqExp` argument. -/
def visitEqExpOpt : Option EqExp → GenState → Val × GenState
  | some e, s => visitEqExp e s
  | none, s => (Val.null, s)

/-- `IRGenerator::visitLAndExp` (IRGenerator.cpp lines 743-781):
short-circuit lowering.  The rhs and merge blocks are created first,
then the left operand is evaluated in the current block and truncated
to i1; `leftBB` is the block current after that evaluation; the
conditional branch goes to the rhs block when true and the merge block
when false; the right operand is evaluated in the rhs block, truncated
to i1 and an unconditional branch to merge is appended; at merge a phi
selects constant false from `leftBB` and the right value from the
block current after the right evaluation. -/
def visitLAndExp : LAndExp → GenState → Val × GenState
  | .mk none r, s => visitEqExpOpt r s
  | .mk (some l) r, s =>
    let rhsBB := createBB "" s
    let mergeBB := createBB "" rhsBB.2
    let pl0 := visitLAndExp l mergeBB.2
    let pl := ensureInt1 pl0.1 pl0.2
    let leftBB := pl.2.curBB.getD 0
    let s1 := appendInstr (.condBr pl.1 rhsBB.1 mergeBB.1) pl.2
    let s2 := setInsertPoint rhsBB.1 s1
    let pr0 := visitEqExpOpt r s2
    let pr := ensureInt1 pr0.1 pr0.2
    let s3 := appendInstr (.br mergeBB.1) pr.2
    let rightEndBB := s3.curBB.getD 0
    let s4 := setInsertPoint mergeBB.1 s3
    emit (.phi .i1 [(Val.constB false, leftBB), (pr.1, rightEndBB)]) .i1 s4

/-- `IRGenerator::visitLOrExp` (IRGenerator.cpp lines 783-821):
symmetric to `visitLAndExp` with the branch arms swapped and constant
true on the short-circuit edge. -/
def visitLOrExp : LOrExp → GenState → Val × GenState
  | .mk none r, s => visitLAndExpOpt r s
  | .mk (some l) r, s =>
    let rhsBB := createBB "" s
    let mergeBB := createBB "" rhsBB.2
    let pl0 := visitLOrExp l mergeBB.2
    let pl := ensureInt1 pl0.1 pl0.2
    let leftBB := pl.2.curBB.getD 0
    let s1 := appendInstr (.condBr pl.1 mergeBB.1 rhsBB.1) pl.2
    let s2 := setInsertPoint rhsBB.1 s1
    let pr0 := visitLAndExpOpt r s2
    let pr := ensureInt1 pr0.1 pr0.2
    let s3 := appendInstr (.br mergeBB.1) pr.2
    let rightEndBB := s3.curBB.getD 0
    let s4 := setInsertPoint mergeBB.1 s3
    emit (.phi .i1 [(Val.constB true, leftBB), (pr.1, rightEndBB)]) .i1 s4

/-- Wrapper for a possibly-null `LAndExp` argument. -/
def visitLAndExpOpt : Option LAndExp → GenState → Val × GenState
  | some a, s => visitLAndExp a s
  | none, s => (Val.null, s)

end

/-- `IRGenerator::visitCond`. -/
def visitCond (node : Cond) (s : GenState) : Val × GenState :=
  match node.lOrExp with
  | some o => visitLOrExp o s
  | none => (Val.null, s)

/-! ## Declaration visitors (IRGenerator.cpp lines 192-291) -/

/-- `IRGenerator::visitConstDef` (IRGenerator.cpp lines 212-250): a
name already bound in the innermost scope reports "重复定义变量" and
returns without defining anything.  At global scope the initializer is
folded by the constant evaluator (integer constant for an int
declaration, float constant otherwise; integer constant 0 when
absent); at local scope an alloca is created and an initializer, when
present, is fully evaluated and stored. -/
def visitConstDef (node : ConstDef) (bType : BType) (s : GenState) : GenState :=
  let t := bTypeToLLVMType bType
  let name := node.ident
  if (stLookupCurrentScope s.symtab name).isSome then
    addDiag ("Error: 重复定义变量 " ++ name) s
  else if stIsGlobalScope s.symtab then
    let init := match node.initVal with
      | some iv =>
        if bType == BType.INT then Val.constInt (evalConstInt iv)
        else Val.constFP (evalConstFloat iv)
      | none => Val.constInt 0
    let g := createGlobalVariable name t true init s
    { g.2 with symtab := stInsert g.2.symtab name g.1 (some t) true }
  else
    let a := createLocalVariable t s
    let s2 := match node.initVal with
      | some iv =>
        let p := visitExp iv a.2
        appendInstr (.store p.1 a.1) p.2
      | none => a.2
    { s2 with symtab := stInsert s2.symtab name a.1 (some t) true }

/-- `IRGenerator::visitVarDef` (IRGenerator.cpp lines 252-291): same
shape as `visitConstDef` with the const flag cleared; a global
declaration without initializer is initialized with the integer
constant 0 (no case split on the declared type in the source). -/
def visitVarDef (node : VarDef) (bType : BType) (s : GenState) : GenState :=
  let t := bTypeToLLVMType bType
  let name := node.ident
  if (stLookupCurrentScope s.symtab name).isSome then
    addDiag ("Error: 重复定义变量 " ++ name) s
  else if stIsGlobalScope s.symtab then
    let init := match node.initVal with
      | some iv =>
        if bType == BType.INT then Val.constInt (evalConstInt iv)
        else Val.constFP (evalConstFloat iv)
      | none => Val.constInt 0
    let g := createGlobalVariable name t false init s
    { g.2 with symtab := stInsert g.2.symtab name g.1 (some t) false }
  else
    let a := createLocalVariable t s
    let s2 := match node.initVal with
      | some iv =>
        let p := visitExp iv a.2
        appendInstr (.store p.1 a.1) p.2
      | none => a.2
    { s2 with symtab := stInsert s2.symtab name a.1 (some t) false }

/-- The loop of `IRGenerator::visitConstDecl`; a null element would be
dereferenced by the source and is skipped here. -/
def visitConstDefs : List (Option ConstDef) → BType → GenState → GenState
  | [], _, s => s
  | some d :: rest, bt, s => visitConstDefs rest bt (visitConstDef d bt s)
  | none :: rest, bt, s => visitConstDefs rest bt s

/-- `IRGenerator::visitConstDecl`. -/
def visitConstDecl (node : ConstDecl) (s : GenState) : GenState :=
  visitConstDefs node.constDefs node.bType s

/-- The loop of `IRGenerator::visitVarDecl`; a null element would be
dereferenced by the source and is skipped here. -/
def visitVarDefs : List (Option VarDef) → BType → GenState → GenState
  | [], _, s => s
  | some d :: rest, bt, s => visitVarDefs rest bt (visitVarDef d bt s)
  | none :: rest, bt, s => visitVarDefs rest bt s

/-- `IRGenerator::visitVarDecl`. -/
def visitVarDecl (node : VarDecl) (s : GenState) : GenState :=
  visitVarDefs node.varDefs node.bType s

/-- `IRGenerator::visitDecl`: dispatch on the dynamic declaration
subtype. -/
def visitDecl : Decl → GenState → GenState
  | .constD c, s => visitConstDecl c s
  | .varD v, s => visitVarDecl v s

/-! ## Statement visitors (IRGenerator.cpp lines 355-470) -/

mutual

/-- `IRGenerator::visitStmt`: dispatch on the statement kind tag. -/
def visitStmt (node : Stmt) (s : GenState) : GenState :=
  match node.stmtType with
  | .ASSIGN => visitAssignStmt node s
  | .EXP => visitExpStmt node s
  | .BLOCK => visitBlockStmt node s
  | .IF => visitIfStmt node s
  | .RETURN => visitReturnStmt node s
termination_by (sizeOf node, 1)

/-- Call `visitStmt` on a possibly-null statement (the source would
dereference the null pointer; modelled as a no-op). -/
def visitStmtOpt : Option Stmt → GenState → GenState
  | some st, s => visitStmt st s
  | none, s => s
termination_by o _ => (sizeOf o, 0)

/-- `IRGenerator::visitAssignStmt` (IRGenerator.cpp lines 395-404):
resolve the left value to its address (no load), evaluate the
right-hand side, and store. -/
def visitAssignStmt : Stmt → GenState → GenState
  | .mk _ lv e _ _ _ _, s =>
    let pa := match lv with
      | some l => visitLVal l false s
      | none => (Val.null, s)
    let pv := visitExpOpt e pa.2
    appendInstr (.store pv.1 pa.1) pv.2

/-- `IRGenerator::visitExpStmt`. -/
def visitExpStmt : Stmt → GenState → GenState
  | .mk _ _ (some e) _ _ _ _, s => (visitExp e s).2
  | .mk _ _ none _ _ _ _, s => s

/-- `IRGenerator::visitBlockStmt`. -/
def visitBlockStmt : Stmt → GenState → GenState
  | .mk _ _ _ (some b) _ _ _, s => visitBlock b s
  | .mk _ _ _ none _ _ _, s => s
termination_by node _ => (sizeOf node, 0)

/-- `IRGenerator::visitIfStmt` (IRGenerator.cpp lines 418-461): create
the then block, an else block only when an else arm is present, and
the merge block; evaluate the condition and coerce it with
`ensureInt1`; branch to then/else (or then/merge without an else arm);
emit each arm, appending a branch to merge unless the arm's final
block already ends in a terminator; finally continue emission at
merge. -/
def visitIfStmt : Stmt → GenState → GenState
  | .mk _ _ _ _ c th el, s =>
    let thenBB := createBB "" s
    let elseBBp : Option Nat × GenState :=
      match el with
      | some _ => let e := createBB "" thenBB.2; (some e.1, e.2)
      | none => (none, thenBB.2)
    let mergeBB := createBB "" elseBBp.2
    let pc0 := match c with
      | some cn => visitCond cn mergeBB.2
      | none => (Val.null, mergeBB.2)
    let pc := ensureInt1 pc0.1 pc0.2
    let s1 := match elseBBp.1 with
      | some e => appendInstr (.condBr pc.1 thenBB.1 e) pc.2
      | none => appendInstr (.condBr pc.1 thenBB.1 mergeBB.1) pc.2
    let s2 := setInsertPoint thenBB.1 s1
    let s3 := visitStmtOpt th s2
    let s4 := if curHasTerminator s3 then s3 else appendInstr (.br mergeBB.1) s3
    let s7 :=
      match elseBBp.1, el with
      | some e, some est =>
        let t2 := setInsertPoint e s4
        let t3 := visitStmt est t2
        if curHasTerminator t3 then t3 else appendInstr (.br mergeBB.1) t3
      | _, _ => s4
    setInsertPoint mergeBB.1 s7
termination_by node _ => (sizeOf node, 0)

/-- `IRGenerator::visitReturnStmt`. -/
def visitReturnStmt : Stmt → GenState → GenState
  | .mk _ _ (some e) _ _ _ _, s =>
    let p := visitExp e s
    appendInstr (.ret p.1) p.2
  | .mk _ _ none _ _ _ _, s => appendInstr .retVoid s

/-- `IRGenerator::visitBlock` (IRGenerator.cpp lines 355-365): enter a
fresh scope, process the items, and pop the scope. -/
def visitBlock : Block → GenState → GenState
  | .mk items, s =>
    let s1 := { s with symtab := stEnterScope s.symtab }
    let s2 := visitBlockItems items s1
    { s2 with symtab := stExitScope s2.symtab }
termination_by node _ => (sizeOf node, 0)

/-- The item loop shared by `visitBlock` and `visitFuncDef`; a null
item would be dereferenced by the source and is skipped here. -/
def visitBlockItems : List (Option BlockItem) → GenState → GenState
  | [], s => s
  | some i :: rest, s => visitBlockItems rest (visitBlockItem i s)
  | none :: rest, s => visitBlockItems rest s
termination_by l _ => (sizeOf l, 0)

/-- `IRGenerator::visitBlockItem`: a declaration if present, otherwise
a statement if present. -/
def visitBlockItem : BlockItem → GenState → GenState
  | .mk (some d) _, s => visitDecl d s
  | .mk none (some st), s => visitStmt st s
  | .mk none none, s => s
termination_by node _ => (sizeOf node, 0)

end

/-! ## Function definitions and the compilation unit
(IRGenerator.cpp lines 180-353) -/

/-- The parameter loop of `IRGenerator::visitFuncDef`: allocate a slot
per parameter, store the incoming argument into it, and bind the
parameter name to the slot.  A null parameter node would be
dereferenced by the source; it is skipped while keeping the argument
iterator in lockstep. -/
def visitFuncDefParams : List (Option FuncFParam) → String → Nat → GenState → GenState
  | [], _, _, s => s
  | some p :: rest, fn, idx, s =>
    let t := bTypeToLLVMType p.bType
    let a := createLocalVariable t s
    let s1 := appendInstr (.store (Val.argRef fn idx t) a.1) a.2
    let s2 := { s1 with symtab := stInsert s1.symtab p.ident a.1 (some t) false }
    visitFuncDefParams rest fn (idx + 1) s2
  | none :: rest, fn, idx, s => visitFuncDefParams rest fn (idx + 1) s

/-- The prologue-and-body part of `IRGenerator::visitFuncDef`
(IRGenerator.cpp lines 293-338): create the function and register it in
the symbol table (before the body, enabling recursion), create the
entry block, enter the function scope, process the parameters, then
process the body's items directly (no extra scope for the function's
own block). -/
def funcDefBody (node : FuncDef) (s : GenState) : GenState :=
  let retType := bTypeToLLVMType node.returnType
  let paramTypes := node.params.map (fun o =>
    match o with
    | some p => bTypeToLLVMType p.bType
    | none => Ty.i32)
  let s1 := createFunction node.ident retType paramTypes s
  let s2 := { s1 with curFn := some node.ident }
  let s3 := { s2 with symtab := stPut s2.symtab node.ident (Val.funcRef node.ident) }
  let e := createBB (node.ident ++ "_ENTRY") s3
  let s4 := setInsertPoint e.1 e.2
  let s5 := { s4 with symtab := stEnterScope s4.symtab }
  let s6 := visitFuncDefParams node.params node.ident 0 s5
  match node.block with
  | some b => visitBlockItems b.items s6
  | none => s6

/-- `IRGenerator::visitFuncDef` (IRGenerator.cpp lines 293-353):
after the body, if the current block exists and lacks a terminator, a
default return is synthesized — a void return for a void function and
a return of the integer constant 0 otherwise; then the function scope
is popped and the current function cleared. -/
def visitFuncDef (node : FuncDef) (s : GenState) : GenState :=
  let retType := bTypeToLLVMType node.returnType
  let s7 := funcDefBody node s
  let s8 :=
    match s7.curBB with
    | some bb =>
      if blockHasTerminator s7 bb then s7
      else if retType == Ty.void then appendInstr .retVoid s7
      else appendInstr (.ret (Val.constInt 0)) s7
    | none => s7
  let s9 := { s8 with symtab := stExitScope s8.symtab }
  { s9 with curFn := none }

/-- The declaration loop of `IRGenerator::visitCompUnit`. -/
def visitDecls : List Decl → GenState → GenState
  | [], s => s
  | d :: rest, s => visitDecls rest (visitDecl d s)

/-- The function loop of `IRGenerator::visitCompUnit`. -/
def visitFuncDefs : List FuncDef → GenState → GenState
  | [], s => s
  | f :: rest, s => visitFuncDefs rest (visitFuncDef f s)

/-- `IRGenerator::visitCompUnit`: all global declarations first, then
all function definitions. -/
def visitCompUnit (node : CompUnit) (s : GenState) : GenState :=
  visitFuncDefs node.funcDefs (visitDecls node.decls s)

/-- `IRGenerator::generate`: run the visitor when the root is
non-null. -/
def generate (ast : Option CompUnit) (s : GenState) : GenState :=
  match ast with
  | some root => visitCompUnit root s
  | none => s

/-! ## Tokens (Lexer.h) -/

/-- Token classification (`enum class TokenType`, Lexer.h). -/
inductive TokenType where
  | KW_INT
  | KW_VOID
  | KW_RETURN
  | KW_CONST
  | KW_MAIN
  | KW_FLOAT
  | KW_IF
  | KW_ELSE
  | OP_PLUS
  | OP_MINUS
  | OP_MUL
  | OP_DIV
  | OP_MOD
  | OP_ASSIGN
  | OP_GT
  | OP_LT
  | OP_EQ
  | OP_LE
  | OP_GE
  | OP_NE
  | OP_AND
  | OP_OR
  | SE_LPAREN
  | SE_RPAREN
  | SE_LBRACE
  | SE_RBRACE
  | SE_SEMI
  | SE_COMMA
  | OP_NOT
  | IDN
  | INT
  | FLOAT
  | END_OF_FILE
  | ERROR
deriving DecidableEq, Repr

/-- Lexical token (`struct Token`, Lexer.h); the default constructor
produces an ERROR token with empty text. -/
structure Token where
  type : TokenType := .ERROR
  value : String := ""
  line : Int := 0
  column : Int := 0
deriving DecidableEq, Repr

instance : Inhabited Token := ⟨{}⟩

/-- `SLRParser::getTokenSymbol` (SLRParser.cpp lines 12-48): map a
token to its grammar terminal; anything not listed (including KW_MAIN
and ERROR tokens) maps to "UNKNOWN", which no table entry mentions. -/
def getTokenSymbol (t : Token) : String :=
  match t.type with
  | .IDN => "Ident"
  | .INT => "IntConst"
  | .FLOAT => "floatConst"
  | .KW_INT => "int"
  | .KW_FLOAT => "float"
  | .KW_VOID => "void"
  | .KW_CONST => "const"
  | .KW_RETURN => "return"
  | .KW_IF => "if"
  | .KW_ELSE => "else"
  | .OP_PLUS => "+"
  | .OP_MINUS => "-"
  | .OP_MUL => "*"
  | .OP_DIV => "/"
  | .OP_MOD => "%"
  | .OP_ASSIGN => "="
  | .OP_EQ => "=="
  | .OP_NE => "!="
  | .OP_LT => "<"
  | .OP_GT => ">"
  | .OP_LE => "<="
  | .OP_GE => ">="
  | .OP_AND => "&&"
  | .OP_OR => "||"
  | .OP_NOT => "!"
  | .SE_LPAREN => "("
  | .SE_RPAREN => ")"
  | .SE_LBRACE => "\x7b"
  | .SE_RBRACE => "\x7d"
  | .SE_SEMI => ";"
  | .SE_COMMA => ","
  | .END_OF_FILE => "$"
  | _ => "UNKNOWN"

/-! ## Grammar (SLRParser.cpp `initGrammar`, lines 50-153) -/

/-- Grammar production (`struct Production`, SLRParser.h): 1-based id,
left-hand nonterminal, right-hand symbol sequence ("epsilon" marks an
empty production). -/
structure Production where
  id : Nat := 0
  lhs : String := ""
  rhs : List String := []
deriving DecidableEq, Repr, Inhabited

set_option maxHeartbeats 1000000 in
/-- The fixed production list of `SLRParser::initGrammar`, in
registration order with ids 1..81. -/
def grammar : List Production := [
  ⟨1, "S'", ["Program"]⟩,
  ⟨2, "Program", ["compUnit"]⟩,
  ⟨3, "compUnit", ["compUnit", "element"]⟩,
  ⟨4, "compUnit", ["element"]⟩,
  ⟨5, "element", ["decl"]⟩,
  ⟨6, "element", ["funcDef"]⟩,
  ⟨7, "decl", ["constDecl"]⟩,
  ⟨8, "decl", ["varDecl"]⟩,
  ⟨9, "constDecl", ["const", "bType", "constDefList", ";"]⟩,
  ⟨10, "constDefList", ["constDefList", ",", "constDef"]⟩,
  ⟨11, "constDefList", ["constDef"]⟩,
  ⟨12, "bType", ["int"]⟩,
  ⟨13, "bType", ["float"]⟩,
  ⟨14, "constDef", ["Ident", "=", "constInitVal"]⟩,
  ⟨15, "constInitVal", ["constExp"]⟩,
  ⟨16, "varDecl", ["bType", "varDefList", ";"]⟩,
  ⟨17, "varDefList", ["varDefList", ",", "varDef"]⟩,
  ⟨18, "varDefList", ["varDef"]⟩,
  ⟨19, "varDef", ["Ident"]⟩,
  ⟨20, "varDef", ["Ident", "=", "initVal"]⟩,
  ⟨21, "initVal", ["exp"]⟩,
  ⟨22, "funcDef", ["funcType", "Ident", "(", ")", "block"]⟩,
  ⟨23, "funcDef", ["bType", "Ident", "(", ")", "block"]⟩,
  ⟨24, "funcDef", ["funcType", "Ident", "(", "funcFParams", ")", "block"]⟩,
  ⟨25, "funcDef", ["bType", "Ident", "(", "funcFParams", ")", "block"]⟩,
  ⟨26, "funcType", ["void"]⟩,
  ⟨27, "funcFParams", ["funcFParams", ",", "funcFParam"]⟩,
  ⟨28, "funcFParams", ["funcFParam"]⟩,
  ⟨29, "funcFParam", ["bType", "Ident"]⟩,
  ⟨30, "block", ["\x7b", "blockItemList", "\x7d"]⟩,
  ⟨31, "block", ["\x7b", "\x7d"]⟩,
  ⟨32, "blockItemList", ["blockItemList", "blockItem"]⟩,
  ⟨33, "blockItemList", ["blockItem"]⟩,
  ⟨34, "blockItem", ["decl"]⟩,
  ⟨35, "blockItem", ["stmt"]⟩,
  ⟨36, "stmt", ["lVal", "=", "exp", ";"]⟩,
  ⟨37, "stmt", ["exp", ";"]⟩,
  ⟨38, "stmt", [";"]⟩,
  ⟨39, "stmt", ["block"]⟩,
  ⟨40, "stmt", ["if", "(", "cond", ")", "stmt", "ElsePart"]⟩,
  ⟨41, "stmt", ["return", "exp", ";"]⟩,
  ⟨42, "stmt", ["return", ";"]⟩,
  ⟨43, "ElsePart", ["else", "stmt"]⟩,
  ⟨44, "ElsePart", ["epsilon"]⟩,
  ⟨45, "lVal", ["Ident"]⟩,
  ⟨46, "exp", ["lOrExp"]⟩,
  ⟨47, "lOrExp", ["lAndExp"]⟩,
  ⟨48, "lOrExp", ["lOrExp", "||", "lAndExp"]⟩,
  ⟨49, "lAndExp", ["eqExp"]⟩,
  ⟨50, "lAndExp", ["lAndExp", "&&", "eqExp"]⟩,
  ⟨51, "eqExp", ["relExp"]⟩,
  ⟨52, "eqExp", ["eqExp", "==", "relExp"]⟩,
  ⟨53, "eqExp", ["eqExp", "!=", "relExp"]⟩,
  ⟨54, "relExp", ["addExp"]⟩,
  ⟨55, "relExp", ["relExp", "<", "addExp"]⟩,
  ⟨56, "relExp", ["relExp", ">", "addExp"]⟩,
  ⟨57, "relExp", ["relExp", "<=", "addExp"]⟩,
  ⟨58, "relExp", ["relExp", ">=", "addExp"]⟩,
  ⟨59, "addExp", ["mulExp"]⟩,
  ⟨60, "addExp", ["addExp", "+", "mulExp"]⟩,
  ⟨61, "addExp", ["addExp", "-", "mulExp"]⟩,
  ⟨62, "mulExp", ["unaryExp"]⟩,
  ⟨63, "mulExp", ["mulExp", "*", "unaryExp"]⟩,
  ⟨64, "mulExp", ["mulExp", "/", "unaryExp"]⟩,
  ⟨65, "mulExp", ["mulExp", "%", "unaryExp"]⟩,
  ⟨66, "unaryExp", ["primaryExp"]⟩,
  ⟨67, "unaryExp", ["unaryOp", "unaryExp"]⟩,
  ⟨68, "unaryExp", ["Ident", "(", ")"]⟩,
  ⟨69, "unaryExp", ["Ident", "(", "funcRParams", ")"]⟩,
  ⟨70, "primaryExp", ["(", "exp", ")"]⟩,
  ⟨71, "primaryExp", ["lVal"]⟩,
  ⟨72, "primaryExp", ["number"]⟩,
  ⟨73, "number", ["IntConst"]⟩,
  ⟨74, "number", ["floatConst"]⟩,
  ⟨75, "unaryOp", ["+"]⟩,
  ⟨76, "unaryOp", ["-"]⟩,
  ⟨77, "unaryOp", ["!"]⟩,
  ⟨78, "funcRParams", ["exp", ",", "funcRParams"]⟩,
  ⟨79, "funcRParams", ["exp"]⟩,
  ⟨80, "constExp", ["addExp"]⟩,
  ⟨81, "cond", ["lOrExp"]⟩]

/-! ## Semantic values and the semantic actions
(SLRParser.h lines 55-95, SLRParser.cpp lines 381-853) -/

/-- Semantic value (`struct SemanticValue`, SLRParser.h): a terminal's
literal text plus one nullable slot per AST result type and the list
slots for the flattened left-recursive productions.  Defaults mirror
the C++ default constructor (null pointers, empty vectors, INT, PLUS). -/
structure SemanticValue where
  terminal : String := ""
  compUnit : Option CompUnit := none
  decl : Option Decl := none
  constDecl : Option ConstDecl := none
  varDecl : Option VarDecl := none
  constDef : Option ConstDef := none
  varDef : Option VarDef := none
  funcDef : Option FuncDef := none
  funcFParam : Option FuncFParam := none
  block : Option Block := none
  blockItem : Option BlockItem := none
  stmt : Option Stmt := none
  lVal : Option LVal := none
  exp : Option AddExp := none
  cond : Option Cond := none
  primaryExp : Option PrimaryExp := none
  unaryExp : Option UnaryExp := none
  mulExp : Option MulExp := none
  addExp : Option AddExp := none
  relExp : Option RelExp := none
  eqExp : Option EqExp := none
  lAndExp : Option LAndExp := none
  lOrExp : Option LOrExp := none
  number : Option Number := none
  bType : BType := .INT
  unaryOp : UnaryOp := .PLUS
  constDefList : List (Option ConstDef) := []
  varDefList : List (Option VarDef) := []
  funcFParams : List (Option FuncFParam) := []
  blockItemList : List (Option BlockItem) := []
  funcRParams : List (Option Exp) := []

instance : Inhabited SemanticValue := ⟨{}⟩

/-- Model of `std::stoi` on the digit string of an IntConst token. -/
def parseIntLit (lit : String) : Int :=
  (lit.toInt?).getD 0

/-- Modelled from the spec: `std::stof` on a floatConst token —
"Numeric literal productions parse the terminal's literal text into
int or float per token kind".  Decimal literals only; the exact value
plays no role in any claim. -/
def parseFloatLit (lit : String) : Rat :=
  match lit.splitOn "." with
  | [ipart] => ((ipart.toInt?).getD 0 : Int)
  | [ipart, fpart] =>
    ((ipart.toInt?).getD 0 : Int) + ((fpart.toNat?).getD 0 : Rat) / ((10 : Rat) ^ fpart.length)
  | _ => 0

/-- `SLRParser::reduce` (SLRParser.cpp lines 381-853): the semantic
action for each production, a pure function of the popped values.
Out-of-range accesses cannot occur with table-driven calls; they
default to an empty semantic value.  In production 3 the pushes into a
null `compUnit` (a crash in the source) are modelled as no-ops.  The
`unaryOp` member left uninitialized by the `UnaryExpNode` constructor
is rendered as PLUS. -/
def reduce (prodId : Nat) (vals : List SemanticValue) : SemanticValue :=
  let v0 := vals.getD 0 default
  let v1 := vals.getD 1 default
  let v2 := vals.getD 2 default
  let v3 := vals.getD 3 default
  let v4 := vals.getD 4 default
  let v5 := vals.getD 5 default
  if prodId == 1 then v0
  else if prodId == 2 then v0
  else if prodId == 3 then
    match v1.decl with
    | some d => { v0 with compUnit := v0.compUnit.map (fun cu => { cu with decls := cu.decls ++ [d] }) }
    | none =>
      match v1.funcDef with
      | some f => { v0 with compUnit := v0.compUnit.map (fun cu => { cu with funcDefs := cu.funcDefs ++ [f] }) }
      | none => v0
  else if prodId == 4 then
    match v0.decl with
    | some d => { compUnit := some ⟨[d], []⟩ }
    | none =>
      match v0.funcDef with
      | some f => { compUnit := some ⟨[], [f]⟩ }
      | none => { compUnit := some ⟨[], []⟩ }
  else if prodId == 5 then v0
  else if prodId == 6 then v0
  else if prodId == 7 then { decl := v0.constDecl.map .constD }
  else if prodId == 8 then { decl := v0.varDecl.map .varD }
  else if prodId == 9 then { constDecl := some ⟨v1.bType, v2.constDefList⟩ }
  else if prodId == 10 then { constDefList := v0.constDefList ++ [v2.constDef] }
  else if prodId == 11 then { constDefList := [v0.constDef] }
  else if prodId == 12 then { bType := .INT }
  else if prodId == 13 then { bType := .FLOAT }
  else if prodId == 14 then { constDef := some ⟨v0.terminal, v2.exp.map .addE⟩ }
  else if prodId == 15 then { exp := v0.exp }
  else if prodId == 16 then { varDecl := some ⟨v0.bType, v1.varDefList⟩ }
  else if prodId == 17 then { varDefList := v0.varDefList ++ [v2.varDef] }
  else if prodId == 18 then { varDefList := [v0.varDef] }
  else if prodId == 19 then { varDef := some ⟨v0.terminal, none⟩ }
  else if prodId == 20 then { varDef := some ⟨v0.terminal, v2.exp.map .addE⟩ }
  else if prodId == 21 then { exp := v0.exp }
  else if prodId == 22 then { funcDef := some ⟨.VOID, v1.terminal, [], v4.block⟩ }
  else if prodId == 23 then { funcDef := some ⟨v0.bType, v1.terminal, [], v4.block⟩ }
  else if prodId == 24 then { funcDef := some ⟨.VOID, v1.terminal, v3.funcFParams, v5.block⟩ }
  else if prodId == 25 then { funcDef := some ⟨v0.bType, v1.terminal, v3.funcFParams, v5.block⟩ }
  else if prodId == 26 then { bType := .VOID }
  else if prodId == 27 then { funcFParams := v0.funcFParams ++ [v2.funcFParam] }
  else if prodId == 28 then { funcFParams := [v0.funcFParam] }
  else if prodId == 29 then { funcFParam := some ⟨v0.bType, v1.terminal⟩ }
  else if prodId == 30 then { block := some ⟨v1.blockItemList⟩ }
  else if prodId == 31 then { block := some ⟨[]⟩ }
  else if prodId == 32 then { blockItemList := v0.blockItemList ++ [v1.blockItem] }
  else if prodId == 33 then { blockItemList := [v0.blockItem] }
  else if prodId == 34 then { blockItem := some ⟨v0.decl, none⟩ }
  else if prodId == 35 then { blockItem := some ⟨none, v0.stmt⟩ }
  else if prodId == 36 then
    { stmt := some (.mk .ASSIGN v0.lVal (v2.exp.map .addE) none none none none) }
  else if prodId == 37 then
    { stmt := some (.mk .EXP none (v0.exp.map .addE) none none none none) }
  else if prodId == 38 then
    { stmt := some (.mk .EXP none none none none none none) }
  else if prodId == 39 then
    { stmt := some (.mk .BLOCK none none v0.block none none none) }
  else if prodId == 40 then
    { stmt := some (.mk .IF none none none v2.cond v4.stmt v5.stmt) }
  else if prodId == 41 then
    { stmt := some (.mk .RETURN none (v1.exp.map .addE) none none none none) }
  else if prodId == 42 then
    { stmt := some (.mk .RETURN none none none none none none) }
  else if prodId == 43 then { stmt := v1.stmt }
  else if prodId == 44 then { stmt := none }
  else if prodId == 45 then { lVal := some ⟨v0.terminal⟩ }
  else if prodId == 46 then
    { exp := some (.mk none .ADD (some (.mk none .MUL (some (.mk .PRIMARY
        (some (.mk .PAREN_EXP (v0.lOrExp.map .lorE) none none)) "" [] .PLUS none))))) }
  else if prodId == 47 then { lOrExp := some (.mk none v0.lAndExp) }
  else if prodId == 48 then { lOrExp := some (.mk v0.lOrExp v2.lAndExp) }
  else if prodId == 49 then { lAndExp := some (.mk none v0.eqExp) }
  else if prodId == 50 then { lAndExp := some (.mk v0.lAndExp v2.eqExp) }
  else if prodId == 51 then { eqExp := some (.mk none .EQ v0.relExp) }
  else if prodId == 52 then { eqExp := some (.mk v0.eqExp .EQ v2.relExp) }
  else if prodId == 53 then { eqExp := some (.mk v0.eqExp .NE v2.relExp) }
  else if prodId == 54 then { relExp := some (.mk none .LT v0.addExp) }
  else if prodId == 55 then { relExp := some (.mk v0.relExp .LT v2.addExp) }
  else if prodId == 56 then { relExp := some (.mk v0.relExp .GT v2.addExp) }
  else if prodId == 57 then { relExp := some (.mk v0.relExp .LE v2.addExp) }
  else if prodId == 58 then { relExp := some (.mk v0.relExp .GE v2.addExp) }
  else if prodId == 59 then { addExp := some (.mk none .ADD v0.mulExp) }
  else if prodId == 60 then { addExp := some (.mk v0.addExp .ADD v2.mulExp) }
  else if prodId == 61 then { addExp := some (.mk v0.addExp .SUB v2.mulExp) }
  else if prodId == 62 then { mulExp := some (.mk none .MUL v0.unaryExp) }
  else if prodId == 63 then { mulExp := some (.mk v0.mulExp .MUL v2.unaryExp) }
  else if prodId == 64 then { mulExp := some (.mk v0.mulExp .DIV v2.unaryExp) }
  else if prodId == 65 then { mulExp := some (.mk v0.mulExp .MOD v2.unaryExp) }
  else if prodId == 66 then
    { unaryExp := some (.mk .PRIMARY v0.primaryExp "" [] .PLUS none) }
  else if prodId == 67 then
    { unaryExp := some (.mk .UNARY_OP none "" [] v0.unaryOp v1.unaryExp) }
  else if prodId == 68 then
    { unaryExp := some (.mk .FUNC_CALL none v0.terminal [] .PLUS none) }
  else if prodId == 69 then
    { unaryExp := some (.mk .FUNC_CALL none v0.terminal v2.funcRParams .PLUS none) }
  else if prodId == 70 then
    { primaryExp := some (.mk .PAREN_EXP (v1.exp.map .addE) none none) }
  else if prodId == 71 then
    { primaryExp := some (.mk .LVAL none v0.lVal none) }
  else if prodId == 72 then
    { primaryExp := some (.mk .NUMBER none none v0.number) }
  else if prodId == 73 then
    { number := some ⟨false, parseIntLit v0.terminal, 0⟩ }
  else if prodId == 74 then
    { number := some ⟨true, 0, parseFloatLit v0.terminal⟩ }
  else if prodId == 75 then { unaryOp := .PLUS }
  else if prodId == 76 then { unaryOp := .MINUS }
  else if prodId == 77 then { unaryOp := .NOT }
  else if prodId == 78 then { funcRParams := [v0.exp.map .addE] ++ v2.funcRParams }
  else if prodId == 79 then { funcRParams := [v0.exp.map .addE] }
  else if prodId == 80 then { exp := v0.addExp }
  else if prodId == 81 then { cond := some ⟨v0.lOrExp⟩ }
  else default

/-! ## ACTION table cells and their conflict resolution
(SLRParser.h lines 47-53, SLRParser.cpp `buildTable`, lines 281-312) -/

/-- Parser action (`struct Action` with `enum ActionType`,
SLRParser.h). -/
inductive PAction where
  | SHIFT (target : Nat)
  | REDUCE (target : Nat)
  | ACC
  | ERR
deriving DecidableEq, Repr

/-- One registration event for an ACTION-table cell while `buildTable`
iterates over the items of a state: a shift entry (item with the dot
before terminal `a`, lines 284-297), a reduce entry (completed item,
reduce on each FOLLOW terminal, lines 301-307), or the accept entry
(completed augmented start item, line 300). -/
inductive CellReg where
  | regShift (target : Nat)
  | regReduce (prodId : Nat)
  | regAccept
deriving DecidableEq, Repr

/-- The effect of one registration on a cell's current contents,
exactly as `buildTable` updates `actionTable[{i, a}]`:

  * a shift registration assigns `{SHIFT, k}` unconditionally (the
    shift-reduce conflict `if` at lines 290-292 has an empty body, so
    the assignment at line 293 is reached in every case);
  * a reduce registration is skipped when the cell already holds a
    shift (line 303's `continue`) and otherwise overwrites the cell
    (line 306), including a previously registered reduce;
  * the accept registration assigns ACC (line 300). -/
def buildTableCell (cur : Option PAction) : CellReg → Option PAction
  | .regShift k => some (.SHIFT k)
  | .regReduce p =>
    match cur with
    | some (.SHIFT k) => some (.SHIFT k)
    | _ => some (.REDUCE p)
  | .regAccept => some .ACC

/-- Net contents of one ACTION-table cell after a sequence of
registrations, starting from an absent entry. -/
def fillCell (events : List CellReg) : Option PAction :=
  events.foldl buildTableCell none

/-! ## The parse loop (SLRParser.cpp `parse`, lines 314-378) -/

/-- The ACTION table: `std::map<std::pair<int,std::string>, Action>`,
modelled as an association list. -/
abbrev ActionTable := List ((Nat × String) × PAction)

/-- The GOTO table. -/
abbrev GotoTable := List ((Nat × String) × Nat)

/-- `actionTable.find({s, a})`. -/
def lookupAction (tbl : ActionTable) (s : Nat) (a : String) : Option PAction :=
  (tbl.find? (fun e => e.1.1 == s && e.1.2 == a)).map (·.2)

/-- `gotoTable.find({t, lhs})`. -/
def lookupGoto (tbl : GotoTable) (t : Nat) (lhs : String) : Option Nat :=
  (tbl.find? (fun e => e.1.1 == t && e.1.2 == lhs)).map (·.2)

/-- Mutable state of `SLRParser::parse` plus the `astRoot`/`hasError`
members it assigns; stack heads are the stack tops. -/
structure ParserSt where
  stateStack : List Nat := [0]
  valueStack : List SemanticValue := []
  ip : Nat := 0
  astRoot : Option CompUnit := none
  hasError : Bool := false
  diags : List String := []
deriving Inhabited

/-- Result of one iteration of the `while (true)` loop: continue with a
new state, or return from `parse` with a verdict. -/
inductive StepRes where
  | cont (st : ParserSt)
  | done (ok : Bool) (st : ParserSt)

/-- One iteration of the parse loop (SLRParser.cpp lines 321-377):
look at the top state and the lookahead symbol ("$" when input is
exhausted); a missing ACTION entry reports the offending token and
fails; SHIFT pushes the target state and a semantic value wrapping the
token text; REDUCE pops |rhs| states and values (zero for the epsilon
production), runs the semantic action, and pushes the GOTO state (a
missing GOTO entry reports "Goto error" and fails); ACC copies the top
value's compUnit into astRoot (when the value stack is non-empty) and
succeeds.  An ERR entry matches no branch in the source, leaving the
configuration unchanged forever; `cont` with an unchanged state models
that. -/
def parseStep (actionT : ActionTable) (gotoT : GotoTable)
    (tokens : List Token) (st : ParserSt) : StepRes :=
  let s := st.stateStack.headD 0
  let a := if st.ip ≥ tokens.length then "$" else getTokenSymbol (tokens.getD st.ip default)
  match lookupAction actionT s a with
  | none =>
    .done false { st with
      hasError := true
      diags := st.diags ++ ["Parse error at token: " ++
        (if st.ip < tokens.length then (tokens.getD st.ip default).value else "$")] }
  | some (.SHIFT t) =>
    let val : SemanticValue :=
      if st.ip < tokens.length then { terminal := (tokens.getD st.ip default).value } else {}
    .cont { st with
      stateStack := t :: st.stateStack
      valueStack := val :: st.valueStack
      ip := st.ip + 1 }
  | some (.REDUCE pid) =>
    let p := grammar.getD (pid - 1) default
    let len := if p.rhs.headD "" == "epsilon" then 0 else p.rhs.length
    let rhsValues := (st.valueStack.take len).reverse
    let states2 := st.stateStack.drop len
    let values2 := st.valueStack.drop len
    let result := reduce pid rhsValues
    let t := states2.headD 0
    match lookupGoto gotoT t p.lhs with
    | none =>
      .done false { st with
        stateStack := states2
        valueStack := values2
        hasError := true
        diags := st.diags ++ ["Goto error"] }
    | some ns =>
      .cont { st with
        stateStack := ns :: states2
        valueStack := result :: values2 }
  | some .ACC =>
    .done true { st with
      astRoot := if st.valueStack.isEmpty then st.astRoot
                 else (st.valueStack.headD default).compUnit }
  | some .ERR => .cont st

/-- The fueled `while (true)` loop; `none` means the fuel ran out
(which models the infinite loop an ERR entry would cause — unreachable
with tables built by `buildTable`). -/
def parseLoop (actionT : ActionTable) (gotoT : GotoTable)
    (tokens : List Token) : Nat → ParserSt → Option (Bool × ParserSt)
  | 0, _ => none
  | fuel + 1, st =>
    match parseStep actionT gotoT tokens st with
    | .done ok st2 => some (ok, st2)
    | .cont st2 => parseLoop actionT gotoT tokens fuel st2

/-- `SLRParser::parse` on a fresh parser: state stack [0], empty value
stack, null astRoot. -/
def parse (actionT : ActionTable) (gotoT : GotoTable)
    (tokens : List Token) (fuel : Nat) : Option (Bool × ParserSt) :=
  parseLoop actionT gotoT tokens fuel {}

/-! ## Concrete fixtures used by the claim witnesses -/

/-- A call expression `putint(0)` as the parser would build it. -/
def putintCall : UnaryExp :=
  .mk .FUNC_CALL none "putint" [some (.numberE ⟨false, 0, 0⟩)] .PLUS none

/-- A float function with an empty body: `float f() { }`. -/
def floatFn : FuncDef := ⟨.FLOAT, "f", [], some ⟨[]⟩⟩

/-- Generator state after lowering the global declaration
`const int c = …;` without initializer text (`const int c;`-style def
with no initializer): binds `c` as a global constant. -/
def constBoundState : GenState := visitConstDef ⟨"c", none⟩ .INT initGenState

/-- Symbol information recorded for the global constant `c` in
`constBoundState`. -/
def constInfo : SymbolInfo := ⟨.globalRef "c" .i32, some .i32, true, true⟩

/-- Generator state after lowering a first global `int x;`. -/
def xBoundState : GenState := visitVarDef ⟨"x", none⟩ .INT initGenState

/-- A fully well-formed singleton lOrExp chain for the literal `1`,
as the semantic actions produce for the expression `1`. -/
def lorChainNode : LOrExp :=
  .mk none (some (.mk none (some (.mk none .EQ (some (.mk none .LT (some (.mk none .ADD
    (some (.mk none .MUL (some (.mk .PRIMARY
      (some (.mk .NUMBER none none (some ⟨false, 1, 0⟩))) "" [] .PLUS none))))))))))))

/-- A present value satisfying a predicate (used for shapes that
require the slot to be populated). -/
def optShape {α : Type} (o : Option α) (f : α → Bool) : Bool :=
  match o with
  | some x => f x
  | none => false

/-- A possibly-absent value satisfying a predicate when present. -/
def optAll {α : Type} (o : Option α) (f : α → Bool) : Bool :=
  match o with
  | some x => f x
  | none => true

/-! ## The binary-expression-chain invariant (spec section 3)

A chain node is well formed when its `right` child is non-null and
well formed, and its `left` child, when present, is a well-formed node
of the same level; below the chain levels the predicates only require
that every embedded expression (parenthesized contents, call
arguments, unary operands) is well formed in turn. -/

mutual

/-- Chain invariant for a dynamic expression node. -/
def expWF : Exp → Bool
  | .addE a => addWF a
  | .mulE m => mulWF m
  | .unaryE u => unaryWF u
  | .primaryE p => primWF p
  | .lvalE _ => true
  | .numberE _ => true
  | .relE r => relWF r
  | .eqE e => eqWF e
  | .landE a => landWF a
  | .lorE o => lorWF o

/-- Chain invariant inside a primary expression: any parenthesized
expression is well formed. -/
def primWF : PrimaryExp → Bool
  | .mk _ e _ _ =>
    match e with
    | some e' => expWF e'
    | none => true

/-- Chain invariant inside a unary expression: the nested primary,
every present call argument and the nested unary operand are well
formed. -/
def unaryWF : UnaryExp → Bool
  | .mk _ p _ args _ u =>
    (match p with
     | some p' => primWF p'
     | none => true) &&
    argsListWF args &&
    (match u with
     | some u' => unaryWF u'
     | none => true)

/-- Present call arguments are well formed. -/
def argsListWF : List (Option Exp) → Bool
  | [] => true
  | some e :: rest => expWF e && argsListWF rest
  | none :: rest => argsListWF rest

/-- Chain invariant for MulExp: non-null well-formed right child,
optional same-level left child. -/
def mulWF : MulExp → Bool
  | .mk l _ r =>
    (match r with
     | some u => unaryWF u
     | none => false) &&
    (match l with
     | some l' => mulWF l'
     | none => true)

/-- Chain invariant for AddExp. -/
def addWF : AddExp → Bool
  | .mk l _ r =>
    (match r with
     | some m => mulWF m
     | none => false) &&
    (match l with
     | some l' => addWF l'
     | none => true)

/-- Chain invariant for RelExp. -/
def relWF : RelExp → Bool
  | .mk l _ r =>
    (match r with
     | some a => addWF a
     | none => false) &&
    (match l with
     | some l' => relWF l'
     | none => true)

/-- Chain invariant for EqExp. -/
def eqWF : EqExp → Bool
  | .mk l _ r =>
    (match r with
     | some a => relWF a
     | none => false) &&
    (match l with
     | some l' => eqWF l'
     | none => true)

/-- Chain invariant for LAndExp. -/
def landWF : LAndExp → Bool
  | .mk l r =>
    (match r with
     | some a => eqWF a
     | none => false) &&
    (match l with
     | some l' => landWF l'
     | none => true)

/-- Chain invariant for LOrExp. -/
def lorWF : LOrExp → Bool
  | .mk l r =>
    (match r with
     | some a => landWF a
     | none => false) &&
    (match l with
     | some l' => lorWF l'
     | none => true)

end

/-- Chain invariant inside a condition node. -/
def condWF (c : Cond) : Bool :=
  match c.lOrExp with
  | some o => lorWF o
  | none => true

/-- Chain invariant inside a constant definition. -/
def constDefWF (d : ConstDef) : Bool :=
  match d.initVal with
  | some e => expWF e
  | none => true

/-- Chain invariant inside a variable definition. -/
def varDefWF (d : VarDef) : Bool :=
  match d.initVal with
  | some e => expWF e
  | none => true

/-- Chain invariant inside a constant declaration. -/
def constDeclWF (d : ConstDecl) : Bool :=
  d.constDefs.all (fun o => optAll o constDefWF)

/-- Chain invariant inside a variable declaration. -/
def varDeclWF (d : VarDecl) : Bool :=
  d.varDefs.all (fun o => optAll o varDefWF)

/-- Chain invariant inside a declaration. -/
def declWF : Decl → Bool
  | .constD c => constDeclWF c
  | .varD v => varDeclWF v

mutual

/-- Chain invariant inside a statement, recursing through every
embedded expression, block and nested statement. -/
def stmtWF : Stmt → Bool
  | .mk _ _ e b c th el =>
    (match e with
     | some e' => expWF e'
     | none => true) &&
    (match b with
     | some b' => blockWF b'
     | none => true) &&
    (match c with
     | some c' => condWF c'
     | none => true) &&
    (match th with
     | some t => stmtWF t
     | none => true) &&
    (match el with
     | some t => stmtWF t
     | none => true)

/-- Chain invariant inside a block. -/
def blockWF : Block → Bool
  | .mk items => itemsWF items

/-- Chain invariant for a list of block items (present items only). -/
def itemsWF : List (Option BlockItem) → Bool
  | [] => true
  | some i :: rest => blockItemWF i && itemsWF rest
  | none :: rest => itemsWF rest

/-- Chain invariant inside a block item. -/
def blockItemWF : BlockItem → Bool
  | .mk d st =>
    (match d with
     | some d' => declWF d'
     | none => true) &&
    (match st with
     | some s => stmtWF s
     | none => true)

end

/-- Chain invariant inside a function definition. -/
def funcDefWF (f : FuncDef) : Bool :=
  match f.block with
  | some b => blockWF b
  | none => true

/-- Chain invariant inside a compilation unit. -/
def compUnitWF (cu : CompUnit) : Bool :=
  cu.decls.all declWF && cu.funcDefs.all funcDefWF

/-- The well-shapedness contract of the semantic value produced for
each grammar symbol: which slot the value populates and that the
populated tree satisfies the chain invariant.  Terminals (and any
unknown symbol) admit any value; the `funcDef` contract also records
that the `decl` slot is empty, which productions 3/4 rely on when they
test `vals[k].decl` before `vals[k].funcDef`. -/
def symbolShape (sym : String) (v : SemanticValue) : Bool :=
  match sym with
  | "S'" => optShape v.compUnit compUnitWF
  | "Program" => optShape v.compUnit compUnitWF
  | "compUnit" => optShape v.compUnit compUnitWF
  | "element" =>
    match v.decl with
    | some d => declWF d
    | none => optAll v.funcDef funcDefWF
  | "decl" => optShape v.decl declWF
  | "constDecl" => optShape v.constDecl constDeclWF
  | "varDecl" => optShape v.varDecl varDeclWF
  | "constDefList" => v.constDefList.all (fun o => optShape o constDefWF)
  | "varDefList" => v.varDefList.all (fun o => optShape o varDefWF)
  | "constDef" => optShape v.constDef constDefWF
  | "varDef" => optShape v.varDef varDefWF
  | "constInitVal" => optShape v.exp addWF
  | "initVal" => optShape v.exp addWF
  | "exp" => optShape v.exp addWF
  | "constExp" => optShape v.exp addWF
  | "funcDef" => optShape v.funcDef funcDefWF && v.decl.isNone
  | "funcFParam" => v.funcFParam.isSome
  | "funcFParams" => v.funcFParams.all (·.isSome)
  | "block" => optShape v.block blockWF
  | "blockItem" => optShape v.blockItem blockItemWF
  | "blockItemList" => v.blockItemList.all (fun o => optShape o blockItemWF)
  | "stmt" => optShape v.stmt stmtWF
  | "ElsePart" => optAll v.stmt stmtWF
  | "lVal" => v.lVal.isSome
  | "number" => v.number.isSome
  | "cond" => optShape v.cond condWF
  | "lOrExp" => optShape v.lOrExp lorWF
  | "lAndExp" => optShape v.lAndExp landWF
  | "eqExp" => optShape v.eqExp eqWF
  | "relExp" => optShape v.relExp relWF
  | "addExp" => optShape v.addExp addWF
  | "mulExp" => optShape v.mulExp mulWF
  | "unaryExp" => optShape v.unaryExp unaryWF
  | "primaryExp" => optShape v.primaryExp primWF
  | "funcRParams" => v.funcRParams.all (fun o => optShape o expWF)
  | "bType" => true
  | "funcType" => true
  | "unaryOp" => true
  | _ => true

/-- Elementwise well-shapedness of the popped values against a
production's right-hand side. -/
def valsShaped : List String → List SemanticValue → Prop
  | [], [] => True
  | sym :: srest, v :: vrest => symbolShape sym v = true ∧ valsShaped srest vrest
  | _, _ => False

/-- Well-shapedness of the argument list handed to the semantic action
of a production: zero values for the epsilon production, otherwise one
per right-hand symbol. -/
def prodArgsShaped (p : Production) (vals : List SemanticValue) : Prop :=
  if p.rhs.headD "" == "epsilon" then vals = [] else valsShaped p.rhs vals

def WFSt (s : GenState) : Prop :=
  (∀ bb ∈ s.blocks, bb.id < s.nextBB) ∧
  (∀ b ∈ s.curBB.toList, b < s.nextBB ∧ (findBlock s b).isSome = true)

instance (s : GenState) : Decidable (WFSt s) := by
  unfold WFSt
  infer_instance

structure Loc (s s' : GenState) : Prop where
  mono : s.nextBB ≤ s'.nextBB
  old_blocks : ∀ b bbl, findBlock s b = some bbl → s.curBB ≠ some b →
    findBlock s' b = some bbl
  cur_fresh : s'.curBB = s.curBB ∨ ∃ b, s'.curBB = some b ∧ s.nextBB ≤ b
  wf : WFSt s → WFSt s'

/-- State with one empty entry block, insertion point on it. -/
def entryState : GenState :=
  { blocks := [⟨0, "entry", "main", []⟩], nextBB := 1, curBB := some 0,
    curFn := some "main" }

/-- Well-formed singleton `EqExp` chain for the integer literal `1`. -/
def eqOneChain : EqExp :=
  .mk none .EQ (some (.mk none .LT (some (.mk none .ADD (some (.mk none .MUL
    (some (.mk .PRIMARY (some (.mk .NUMBER none none (some ⟨false, 1, 0⟩))) ""
      [] .PLUS none))))))))

/-- Condition node carrying the float literal `1.5`. -/
def floatCond : Cond :=
  ⟨some (.mk none (some (.mk none (some (.mk none .EQ (some (.mk none .LT
    (some (.mk none .ADD (some (.mk none .MUL (some (.mk .PRIMARY
      (some (.mk .NUMBER none none (some ⟨true, 0, 3/2⟩))) "" [] .PLUS
        none)))))))))))))⟩

/-- Condition node carrying the integer literal `1`. -/
def intCond : Cond := ⟨some lorChainNode⟩

/-- A single identifier token. -/
def identToken : Token := { type := .IDN, value := "a" }

/-- ACTION table that shifts the identifier and then, at end of input,
reduces the one-symbol production 34 (`blockItem -> decl`), whose GOTO
entry is missing.  On this trace every stack access of the source is in
bounds: the reduction pops one state and one value off stacks holding
two states and one value before the GOTO lookup fails. -/
def gotoFailActions : ActionTable :=
  [((0, "Ident"), PAction.SHIFT 1), ((1, "$"), PAction.REDUCE 34)]

/-! # Theorems

General lemmas about the embedding first, then one theorem per claim
(with counterexamples and witnesses where required). -/

/-! ## Symbol-table and builder lemmas -/

/-- A scope-level miss stated on the underlying association list. -/
theorem find?_scope_none {sc : Scope} {name : String}
    (h : scopeLookup sc name = none) :
    List.find? (fun p => p.1 == name) sc = none := by
  simpa [scopeLookup] using h

/-- Appending a fresh binding to a scope makes it found. -/
theorem scopeLookup_append_self (sc : Scope) (name : String) (info : SymbolInfo)
    (h : scopeLookup sc name = none) :
    scopeLookup (sc ++ [(name, info)]) name = some info := by
  simp [scopeLookup, List.find?_append, find?_scope_none h]

/-- Inserting a name that is free in the innermost scope binds it
there. -/
theorem stInsert_binds (sc : Scope) (rest : List Scope) (name : String)
    (v : Val) (t : Option Ty) (c : Bool) (h : scopeLookup sc name = none) :
    (stLookupCurrentScope (stInsert (sc :: rest) name v t c) name).isSome = true := by
  simp only [stInsert]
  rw [h]
  simp [stLookupCurrentScope, scopeLookup_append_self _ _ _ h]

/-- Appending an instruction writes no diagnostic. -/
theorem appendInstr_diags (i : Instr) (st : GenState) :
    (appendInstr i st).diags = st.diags := by
  cases hcur : st.curBB <;> simp [appendInstr, hcur]

/-- Appending an instruction leaves the symbol table unchanged. -/
theorem appendInstr_symtab (i : Instr) (st : GenState) :
    (appendInstr i st).symtab = st.symtab := by
  cases hcur : st.curBB <;> simp [appendInstr, hcur]

/-! ## C1 — runtime function calls do not resolve

The spec claims the eight pre-declared runtime functions resolve in the
symbol table.  `declareRuntimeFunctions` registers them in the module's
function list only; `visitUnaryExp` resolves callees exclusively
through `symbolTable.getValue`, which walks the scope stack that nothing
ever populated with those functions.  A call to `putint` in a fresh
generator therefore reports an undefined-function error and emits no
call instruction, although "putint" is present in the module. -/

/-- C1: in the state produced by the generator constructor, "putint" is
declared in the module, yet lowering the call `putint(0)` yields the
null value, reports "未定义的函数", and emits no call instruction (the
module still has no basic block at all, so no instruction was
appended anywhere). -/
theorem C1_runtime_call_unresolved :
    (initGenState.funcs.map (·.1)).contains "putint" = true ∧
    (visitUnaryExp putintCall initGenState).1 = Val.null ∧
    (visitUnaryExp putintCall initGenState).2.diags
      = ["Error: 未定义的函数 putint"] ∧
    (visitUnaryExp putintCall initGenState).2.blocks = [] := by
  decide

/-! ## C2 — zero initialization of globals without initializer -/

/-- C2 counterexample: a float global declared without an initializer
is initialized with the *integer* constant 0, not the float constant
0.0 claimed by the spec. -/
theorem C2_counterexample :
    (visitVarDef ⟨"g", none⟩ .FLOAT initGenState).globals
      = [("g", Ty.flt, false, Val.constInt 0)] ∧
    Val.constInt 0 ≠ Val.constFP 0 := by
  decide

/-- C2 (amended): for every global variable declaration without an
initializer (int or float), the registered global's initializer is the
integer constant 0 — the source has no case split on the declared type
in the no-initializer branch of `visitVarDef`. -/
theorem C2_zeroinit_amended (name : String) (bType : BType) (s : GenState)
    (hglob : stIsGlobalScope s.symtab = true)
    (hfresh : stLookupCurrentScope s.symtab name = none)
    (_hbt : bType = .INT ∨ bType = .FLOAT) :
    (visitVarDef ⟨name, none⟩ bType s).globals
      = s.globals ++ [(name, bTypeToLLVMType bType, false, Val.constInt 0)] := by
  simp [visitVarDef, hglob, hfresh, createGlobalVariable]

/-- C2 witness: the amended theorem applied to a float and an int
global in a fresh generator. -/
theorem C2_witness :
    (visitVarDef ⟨"gf", none⟩ .FLOAT initGenState).globals
      = [("gf", Ty.flt, false, Val.constInt 0)] ∧
    (visitVarDef ⟨"gi", none⟩ .INT initGenState).globals
      = [("gi", Ty.i32, false, Val.constInt 0)] := by
  have h1 := C2_zeroinit_amended "gf" .FLOAT initGenState (by decide) (by decide)
    (Or.inr rfl)
  have h2 := C2_zeroinit_amended "gi" .INT initGenState (by decide) (by decide)
    (Or.inl rfl)
  rw [h1, h2]
  decide

/-! ## C3 — implicit return synthesis -/

/-- C3 counterexample: a float function whose body falls through gets
an implicit `ret` of the *integer* constant 0, not the float constant
0.0 claimed by the spec. -/
theorem C3_counterexample :
    (findBlock (visitFuncDef floatFn initGenState) 0).map (·.instrs)
      = some [.ret (Val.constInt 0)] ∧
    Instr.ret (Val.constInt 0) ≠ Instr.ret (Val.constFP 0) := by
  constructor
  · simp [visitFuncDef, funcDefBody, floatFn, visitBlockItems, Block.items, initGenState,
      declareRuntimeFunctions, createFunction, createBB, setInsertPoint, stPut, stInsert,
      stEnterScope, stExitScope, scopeLookup, stIsGlobalScope, visitFuncDefParams,
      blockHasTerminator, findBlock, appendInstr, bTypeToLLVMType]
  · decide

/-- C3 (amended): whenever the block current after the prologue, the
parameters and the body lacks a terminator, `visitFuncDef` appends an
implicit return: an empty return for a void function and a return of
the integer constant 0 for both int and float functions (the source
falls into the same `create_ret(ConstantInt::get(0))` branch for every
non-void return type). -/
theorem C3_implicit_return_amended (node : FuncDef) (s : GenState) (bb : Nat)
    (h1 : (funcDefBody node s).curBB = some bb)
    (h2 : blockHasTerminator (funcDefBody node s) bb = false) :
    (visitFuncDef node s).blocks
      = (appendInstr
          (match node.returnType with
           | .VOID => .retVoid
           | .INT => .ret (Val.constInt 0)
           | .FLOAT => .ret (Val.constInt 0))
          (funcDefBody node s)).blocks := by
  simp only [visitFuncDef, h1, h2]
  cases h : node.returnType <;> simp [bTypeToLLVMType, appendInstr]

/-- C3 witness: the amended theorem applied to the empty float
function in a fresh generator state. -/
theorem C3_witness :
    (visitFuncDef floatFn initGenState).blocks
      = (appendInstr (.ret (Val.constInt 0)) (funcDefBody floatFn initGenState)).blocks := by
  have hbody : funcDefBody floatFn initGenState
      = { initGenState with
          funcs := initGenState.funcs ++ [("f", Ty.flt, [])]
          blocks := [⟨0, "f_ENTRY", "f", []⟩]
          nextBB := 1
          curBB := some 0
          curFn := some "f"
          symtab := [[], [("f", ⟨.funcRef "f", none, false, true⟩)]] } := by
    simp [funcDefBody, floatFn, visitBlockItems, Block.items, initGenState,
      declareRuntimeFunctions, createFunction, createBB, setInsertPoint, stPut, stInsert,
      stEnterScope, scopeLookup, stIsGlobalScope, visitFuncDefParams, bTypeToLLVMType]
  have h := C3_implicit_return_amended floatFn initGenState 0
    (by rw [hbody]) (by rw [hbody]; decide)
  simpa using h

/-! ## C5 — the binary-expression-chain invariant is preserved by the
semantic actions

For every production of the grammar, if the popped semantic values are
well shaped for the production's right-hand symbols (each slot
populated and satisfying the chain invariant), then the value built by
`SLRParser::reduce` is well shaped for the left-hand symbol — in
particular every binary-chain node it builds has a non-null well-formed
`right` child and an optional same-level `left` child, recursively down
to the `UnaryExp` leaves, including the nodes synthesized by the
rewrap production 46 (`exp → lOrExp`).  ("op is set" has no separate
observable content: the operator members are plain enums, set exactly
in the extension actions.) -/

theorem valsShaped_cons {s : String} {ss : List String} {vv : List SemanticValue} :
    valsShaped (s :: ss) vv ↔
      ∃ v vs, vv = v :: vs ∧ symbolShape s v = true ∧ valsShaped ss vs := by
  cases vv with
  | nil => simp [valsShaped]
  | cons v vs =>
    constructor
    · intro ⟨h1, h2⟩; exact ⟨v, vs, rfl, h1, h2⟩
    · rintro ⟨v', vs', heq, h1, h2⟩
      cases heq
      exact ⟨h1, h2⟩

theorem valsShaped_nil {vv : List SemanticValue} : valsShaped [] vv ↔ vv = [] := by
  cases vv <;> simp [valsShaped]

theorem optShape_iff {α : Type} {o : Option α} {f : α → Bool} :
    optShape o f = true ↔ ∃ x, o = some x ∧ f x = true := by
  cases o <;> simp [optShape]

theorem all_optAll_of_optShape {α : Type} {f : α → Bool} {l : List (Option α)}
    (h : l.all (fun o => optShape o f) = true) :
    l.all (fun o => optAll o f) = true := by
  induction l with
  | nil => rfl
  | cons o rest ih =>
    simp only [List.all_cons, Bool.and_eq_true] at h ⊢
    refine ⟨?_, ih h.2⟩
    cases o <;> simp_all [optShape, optAll]

theorem itemsWF_of_all {l : List (Option BlockItem)}
    (h : l.all (fun o => optShape o blockItemWF) = true) :
    itemsWF l = true := by
  induction l with
  | nil => rfl
  | cons o rest ih =>
    simp only [List.all_cons, Bool.and_eq_true] at h
    cases o with
    | none => simp [itemsWF, ih h.2]
    | some i =>
      simp only [optShape] at h
      simp [itemsWF, h.1, ih h.2]

theorem argsListWF_of_all {l : List (Option Exp)}
    (h : l.all (fun o => optShape o expWF) = true) :
    argsListWF l = true := by
  induction l with
  | nil => rfl
  | cons o rest ih =>
    simp only [List.all_cons, Bool.and_eq_true] at h
    cases o with
    | none => simp [argsListWF, ih h.2]
    | some e =>
      simp only [optShape] at h
      simp [argsListWF, h.1, ih h.2]

set_option maxHeartbeats 4000000 in
theorem C5_chain_invariant :
    ∀ p ∈ grammar, ∀ vals : List SemanticValue,
      prodArgsShaped p vals → symbolShape p.lhs (reduce p.id vals) = true := by
  intro p hp vals h
  fin_cases hp
  · -- 1: S' -> Program
    replace h : valsShaped ["Program"] vals := h
    rw [valsShaped_cons] at h
    obtain ⟨v0, vs0, rfl, h0, h⟩ := h
    rw [valsShaped_nil] at h
    subst h
    simp only [symbolShape, optShape_iff] at h0
    obtain ⟨x0, hx0, hw0⟩ := h0
    simp [reduce, symbolShape, optShape, hx0, hw0]
  · -- 2: Program -> compUnit
    replace h : valsShaped ["compUnit"] vals := h
    rw [valsShaped_cons] at h
    obtain ⟨v0, vs0, rfl, h0, h⟩ := h
    rw [valsShaped_nil] at h
    subst h
    simp only [symbolShape, optShape_iff] at h0
    obtain ⟨x0, hx0, hw0⟩ := h0
    simp [reduce, symbolShape, optShape, hx0, hw0]
  · -- 3: compUnit -> compUnit element
    replace h : valsShaped ["compUnit", "element"] vals := h
    rw [valsShaped_cons] at h
    obtain ⟨v0, vs0, rfl, h0, h⟩ := h
    rw [valsShaped_cons] at h
    obtain ⟨v1, vs1, rfl, h1, h⟩ := h
    rw [valsShaped_nil] at h
    subst h
    simp only [symbolShape] at h1
    simp only [symbolShape, optShape_iff] at h0
    obtain ⟨x0, hx0, hw0⟩ := h0
    simp only [compUnitWF, Bool.and_eq_true] at hw0
    obtain ⟨hwd, hwf⟩ := hw0
    rcases hd : v1.decl with _ | d
    · rw [hd] at h1
      rcases hf : v1.funcDef with _ | f
      · simp [reduce, symbolShape, hd, hf, hx0, optShape, compUnitWF, hwd, hwf]
      · rw [hf] at h1
        simp only [optAll] at h1
        simp [reduce, symbolShape, hd, hf, hx0, optShape, compUnitWF, List.all_append,
          hwd, hwf, h1]
    · rw [hd] at h1
      replace h1 : declWF d = true := h1
      simp [reduce, symbolShape, hd, hx0, optShape, compUnitWF, List.all_append,
        hwd, hwf, h1]
  · -- 4: compUnit -> element
    replace h : valsShaped ["element"] vals := h
    rw [valsShaped_cons] at h
    obtain ⟨v0, vs0, rfl, h0, h⟩ := h
    rw [valsShaped_nil] at h
    subst h
    simp only [symbolShape] at h0
    rcases hd : v0.decl with _ | d
    · rw [hd] at h0
      rcases hf : v0.funcDef with _ | f
      · simp [reduce, symbolShape, hd, hf, optShape, compUnitWF]
      · rw [hf] at h0
        simp only [optAll] at h0
        simp [reduce, symbolShape, hd, hf, optShape, compUnitWF, h0]
    · rw [hd] at h0
      replace h0 : declWF d = true := h0
      simp [reduce, symbolShape, hd, optShape, compUnitWF, h0]
  · -- 5: element -> decl
    replace h : valsShaped ["decl"] vals := h
    rw [valsShaped_cons] at h
    obtain ⟨v0, vs0, rfl, h0, h⟩ := h
    rw [valsShaped_nil] at h
    subst h
    simp only [symbolShape, optShape_iff] at h0
    obtain ⟨x0, hx0, hw0⟩ := h0
    simp [reduce, symbolShape, optShape, hx0, hw0]
  · -- 6: element -> funcDef
    replace h : valsShaped ["funcDef"] vals := h
    rw [valsShaped_cons] at h
    obtain ⟨v0, vs0, rfl, h0, h⟩ := h
    rw [valsShaped_nil] at h
    subst h
    simp only [symbolShape, Bool.and_eq_true, optShape_iff, Option.isNone_iff_eq_none] at h0
    obtain ⟨⟨x0, hx0, hw0⟩, hn0⟩ := h0
    simp [reduce, symbolShape, optShape, optAll, hx0, hw0, hn0]
  · -- 7: decl -> constDecl
    replace h : valsShaped ["constDecl"] vals := h
    rw [valsShaped_cons] at h
    obtain ⟨v0, vs0, rfl, h0, h⟩ := h
    rw [valsShaped_nil] at h
    subst h
    simp only [symbolShape, optShape_iff] at h0
    obtain ⟨x0, hx0, hw0⟩ := h0
    simp [reduce, symbolShape, optShape, declWF, hx0, hw0]
  · -- 8: decl -> varDecl
    replace h : valsShaped ["varDecl"] vals := h
    rw [valsShaped_cons] at h
    obtain ⟨v0, vs0, rfl, h0, h⟩ := h
    rw [valsShaped_nil] at h
    subst h
    simp only [symbolShape, optShape_iff] at h0
    obtain ⟨x0, hx0, hw0⟩ := h0
    simp [reduce, symbolShape, optShape, declWF, hx0, hw0]
  · -- 9: constDecl -> const bType constDefList ;
    replace h : valsShaped ["const", "bType", "constDefList", ";"] vals := h
    rw [valsShaped_cons] at h
    obtain ⟨v0, vs0, rfl, h0, h⟩ := h
    rw [valsShaped_cons] at h
    obtain ⟨v1, vs1, rfl, h1, h⟩ := h
    rw [valsShaped_cons] at h
    obtain ⟨v2, vs2, rfl, h2, h⟩ := h
    rw [valsShaped_cons] at h
    obtain ⟨v3, vs3, rfl, h3, h⟩ := h
    rw [valsShaped_nil] at h
    subst h
    simp only [symbolShape] at h2
    simp [reduce, symbolShape, optShape, constDeclWF, all_optAll_of_optShape h2, h2]
  · -- 10: constDefList -> constDefList , constDef
    replace h : valsShaped ["constDefList", ",", "constDef"] vals := h
    rw [valsShaped_cons] at h
    obtain ⟨v0, vs0, rfl, h0, h⟩ := h
    rw [valsShaped_cons] at h
    obtain ⟨v1, vs1, rfl, h1, h⟩ := h
    rw [valsShaped_cons] at h
    obtain ⟨v2, vs2, rfl, h2, h⟩ := h
    rw [valsShaped_nil] at h
    subst h
    simp only [symbolShape] at h0
    simp only [symbolShape, optShape_iff] at h2
    obtain ⟨x2, hx2, hw2⟩ := h2
    simp_all [reduce, symbolShape, optShape, List.all_append]
  · -- 11: constDefList -> constDef
    replace h : valsShaped ["constDef"] vals := h
    rw [valsShaped_cons] at h
    obtain ⟨v0, vs0, rfl, h0, h⟩ := h
    rw [valsShaped_nil] at h
    subst h
    simp only [symbolShape, optShape_iff] at h0
    obtain ⟨x0, hx0, hw0⟩ := h0
    simp [reduce, symbolShape, optShape, hx0, hw0]
  · -- 12: bType -> int
    replace h : valsShaped ["int"] vals := h
    rw [valsShaped_cons] at h
    obtain ⟨v0, vs0, rfl, h0, h⟩ := h
    rw [valsShaped_nil] at h
    subst h
    simp [reduce, symbolShape, optShape]
  · -- 13: bType -> float
    replace h : valsShaped ["float"] vals := h
    rw [valsShaped_cons] at h
    obtain ⟨v0, vs0, rfl, h0, h⟩ := h
    rw [valsShaped_nil] at h
    subst h
    simp [reduce, symbolShape, optShape]
  · -- 14: constDef -> Ident = constInitVal
    replace h : valsShaped ["Ident", "=", "constInitVal"] vals := h
    rw [valsShaped_cons] at h
    obtain ⟨v0, vs0, rfl, h0, h⟩ := h
    rw [valsShaped_cons] at h
    obtain ⟨v1, vs1, rfl, h1, h⟩ := h
    rw [valsShaped_cons] at h
    obtain ⟨v2, vs2, rfl, h2, h⟩ := h
    rw [valsShaped_nil] at h
    subst h
    simp only [symbolShape, optShape_iff] at h2
    obtain ⟨x2, hx2, hw2⟩ := h2
    simp [reduce, symbolShape, optShape, constDefWF, expWF, hx2, hw2]
  · -- 15: constInitVal -> constExp
    replace h : valsShaped ["constExp"] vals := h
    rw [valsShaped_cons] at h
    obtain ⟨v0, vs0, rfl, h0, h⟩ := h
    rw [valsShaped_nil] at h
    subst h
    simp only [symbolShape, optShape_iff] at h0
    obtain ⟨x0, hx0, hw0⟩ := h0
    simp [reduce, symbolShape, optShape, hx0, hw0]
  · -- 16: varDecl -> bType varDefList ;
    replace h : valsShaped ["bType", "varDefList", ";"] vals := h
    rw [valsShaped_cons] at h
    obtain ⟨v0, vs0, rfl, h0, h⟩ := h
    rw [valsShaped_cons] at h
    obtain ⟨v1, vs1, rfl, h1, h⟩ := h
    rw [valsShaped_cons] at h
    obtain ⟨v2, vs2, rfl, h2, h⟩ := h
    rw [valsShaped_nil] at h
    subst h
    simp only [symbolShape] at h1
    simp [reduce, symbolShape, optShape, varDeclWF, all_optAll_of_optShape h1, h1]
  · -- 17: varDefList -> varDefList , varDef
    replace h : valsShaped ["varDefList", ",", "varDef"] vals := h
    rw [valsShaped_cons] at h
    obtain ⟨v0, vs0, rfl, h0, h⟩ := h
    rw [valsShaped_cons] at h
    obtain ⟨v1, vs1, rfl, h1, h⟩ := h
    rw [valsShaped_cons] at h
    obtain ⟨v2, vs2, rfl, h2, h⟩ := h
    rw [valsShaped_nil] at h
    subst h
    simp only [symbolShape] at h0
    simp only [symbolShape, optShape_iff] at h2
    obtain ⟨x2, hx2, hw2⟩ := h2
    simp_all [reduce, symbolShape, optShape, List.all_append]
  · -- 18: varDefList -> varDef
    replace h : valsShaped ["varDef"] vals := h
    rw [valsShaped_cons] at h
    obtain ⟨v0, vs0, rfl, h0, h⟩ := h
    rw [valsShaped_nil] at h
    subst h
    simp only [symbolShape, optShape_iff] at h0
    obtain ⟨x0, hx0, hw0⟩ := h0
    simp [reduce, symbolShape, optShape, hx0, hw0]
  · -- 19: varDef -> Ident
    replace h : valsShaped ["Ident"] vals := h
    rw [valsShaped_cons] at h
    obtain ⟨v0, vs0, rfl, h0, h⟩ := h
    rw [valsShaped_nil] at h
    subst h
    simp [reduce, symbolShape, optShape, varDefWF]
  · -- 20: varDef -> Ident = initVal
    replace h : valsShaped ["Ident", "=", "initVal"] vals := h
    rw [valsShaped_cons] at h
    obtain ⟨v0, vs0, rfl, h0, h⟩ := h
    rw [valsShaped_cons] at h
    obtain ⟨v1, vs1, rfl, h1, h⟩ := h
    rw [valsShaped_cons] at h
    obtain ⟨v2, vs2, rfl, h2, h⟩ := h
    rw [valsShaped_nil] at h
    subst h
    simp only [symbolShape, optShape_iff] at h2
    obtain ⟨x2, hx2, hw2⟩ := h2
    simp [reduce, symbolShape, optShape, varDefWF, expWF, hx2, hw2]
  · -- 21: initVal -> exp
    replace h : valsShaped ["exp"] vals := h
    rw [valsShaped_cons] at h
    obtain ⟨v0, vs0, rfl, h0, h⟩ := h
    rw [valsShaped_nil] at h
    subst h
    simp only [symbolShape, optShape_iff] at h0
    obtain ⟨x0, hx0, hw0⟩ := h0
    simp [reduce, symbolShape, optShape, hx0, hw0]
  · -- 22: funcDef -> funcType Ident ( ) block
    replace h : valsShaped ["funcType", "Ident", "(", ")", "block"] vals := h
    rw [valsShaped_cons] at h
    obtain ⟨v0, vs0, rfl, h0, h⟩ := h
    rw [valsShaped_cons] at h
    obtain ⟨v1, vs1, rfl, h1, h⟩ := h
    rw [valsShaped_cons] at h
    obtain ⟨v2, vs2, rfl, h2, h⟩ := h
    rw [valsShaped_cons] at h
    obtain ⟨v3, vs3, rfl, h3, h⟩ := h
    rw [valsShaped_cons] at h
    obtain ⟨v4, vs4, rfl, h4, h⟩ := h
    rw [valsShaped_nil] at h
    subst h
    simp only [symbolShape, optShape_iff] at h4
    obtain ⟨x4, hx4, hw4⟩ := h4
    simp [reduce, symbolShape, optShape, funcDefWF, hx4, hw4]
  · -- 23: funcDef -> bType Ident ( ) block
    replace h : valsShaped ["bType", "Ident", "(", ")", "block"] vals := h
    rw [valsShaped_cons] at h
    obtain ⟨v0, vs0, rfl, h0, h⟩ := h
    rw [valsShaped_cons] at h
    obtain ⟨v1, vs1, rfl, h1, h⟩ := h
    rw [valsShaped_cons] at h
    obtain ⟨v2, vs2, rfl, h2, h⟩ := h
    rw [valsShaped_cons] at h
    obtain ⟨v3, vs3, rfl, h3, h⟩ := h
    rw [valsShaped_cons] at h
    obtain ⟨v4, vs4, rfl, h4, h⟩ := h
    rw [valsShaped_nil] at h
    subst h
    simp only [symbolShape, optShape_iff] at h4
    obtain ⟨x4, hx4, hw4⟩ := h4
    simp [reduce, symbolShape, optShape, funcDefWF, hx4, hw4]
  · -- 24: funcDef -> funcType Ident ( funcFParams ) block
    replace h : valsShaped ["funcType", "Ident", "(", "funcFParams", ")", "block"] vals := h
    rw [valsShaped_cons] at h
    obtain ⟨v0, vs0, rfl, h0, h⟩ := h
    rw [valsShaped_cons] at h
    obtain ⟨v1, vs1, rfl, h1, h⟩ := h
    rw [valsShaped_cons] at h
    obtain ⟨v2, vs2, rfl, h2, h⟩ := h
    rw [valsShaped_cons] at h
    obtain ⟨v3, vs3, rfl, h3, h⟩ := h
    rw [valsShaped_cons] at h
    obtain ⟨v4, vs4, rfl, h4, h⟩ := h
    rw [valsShaped_cons] at h
    obtain ⟨v5, vs5, rfl, h5, h⟩ := h
    rw [valsShaped_nil] at h
    subst h
    simp only [symbolShape] at h3
    simp only [symbolShape, optShape_iff] at h5
    obtain ⟨x5, hx5, hw5⟩ := h5
    simp [reduce, symbolShape, optShape, funcDefWF, h3, hx5, hw5]
  · -- 25: funcDef -> bType Ident ( funcFParams ) block
    replace h : valsShaped ["bType", "Ident", "(", "funcFParams", ")", "block"] vals := h
    rw [valsShaped_cons] at h
    obtain ⟨v0, vs0, rfl, h0, h⟩ := h
    rw [valsShaped_cons] at h
    obtain ⟨v1, vs1, rfl, h1, h⟩ := h
    rw [valsShaped_cons] at h
    obtain ⟨v2, vs2, rfl, h2, h⟩ := h
    rw [valsShaped_cons] at h
    obtain ⟨v3, vs3, rfl, h3, h⟩ := h
    rw [valsShaped_cons] at h
    obtain ⟨v4, vs4, rfl, h4, h⟩ := h
    rw [valsShaped_cons] at h
    obtain ⟨v5, vs5, rfl, h5, h⟩ := h
    rw [valsShaped_nil] at h
    subst h
    simp only [symbolShape] at h3
    simp only [symbolShape, optShape_iff] at h5
    obtain ⟨x5, hx5, hw5⟩ := h5
    simp [reduce, symbolShape, optShape, funcDefWF, h3, hx5, hw5]
  · -- 26: funcType -> void
    replace h : valsShaped ["void"] vals := h
    rw [valsShaped_cons] at h
    obtain ⟨v0, vs0, rfl, h0, h⟩ := h
    rw [valsShaped_nil] at h
    subst h
    simp [reduce, symbolShape, optShape]
  · -- 27: funcFParams -> funcFParams , funcFParam
    replace h : valsShaped ["funcFParams", ",", "funcFParam"] vals := h
    rw [valsShaped_cons] at h
    obtain ⟨v0, vs0, rfl, h0, h⟩ := h
    rw [valsShaped_cons] at h
    obtain ⟨v1, vs1, rfl, h1, h⟩ := h
    rw [valsShaped_cons] at h
    obtain ⟨v2, vs2, rfl, h2, h⟩ := h
    rw [valsShaped_nil] at h
    subst h
    simp only [symbolShape] at h0
    simp only [symbolShape, Option.isSome_iff_exists] at h2
    obtain ⟨x2, hx2⟩ := h2
    simp_all [reduce, symbolShape, optShape, List.all_append]
  · -- 28: funcFParams -> funcFParam
    replace h : valsShaped ["funcFParam"] vals := h
    rw [valsShaped_cons] at h
    obtain ⟨v0, vs0, rfl, h0, h⟩ := h
    rw [valsShaped_nil] at h
    subst h
    simp only [symbolShape, Option.isSome_iff_exists] at h0
    obtain ⟨x0, hx0⟩ := h0
    simp [reduce, symbolShape, optShape, hx0]
  · -- 29: funcFParam -> bType Ident
    replace h : valsShaped ["bType", "Ident"] vals := h
    rw [valsShaped_cons] at h
    obtain ⟨v0, vs0, rfl, h0, h⟩ := h
    rw [valsShaped_cons] at h
    obtain ⟨v1, vs1, rfl, h1, h⟩ := h
    rw [valsShaped_nil] at h
    subst h
    simp [reduce, symbolShape, optShape]
  · -- 30: block -> { blockItemList }
    replace h : valsShaped ["\x7b", "blockItemList", "\x7d"] vals := h
    rw [valsShaped_cons] at h
    obtain ⟨v0, vs0, rfl, h0, h⟩ := h
    rw [valsShaped_cons] at h
    obtain ⟨v1, vs1, rfl, h1, h⟩ := h
    rw [valsShaped_cons] at h
    obtain ⟨v2, vs2, rfl, h2, h⟩ := h
    rw [valsShaped_nil] at h
    subst h
    simp only [symbolShape] at h1
    simp [reduce, symbolShape, optShape, blockWF, itemsWF_of_all h1, h1]
  · -- 31: block -> { }
    replace h : valsShaped ["\x7b", "\x7d"] vals := h
    rw [valsShaped_cons] at h
    obtain ⟨v0, vs0, rfl, h0, h⟩ := h
    rw [valsShaped_cons] at h
    obtain ⟨v1, vs1, rfl, h1, h⟩ := h
    rw [valsShaped_nil] at h
    subst h
    simp [reduce, symbolShape, optShape, blockWF, itemsWF]
  · -- 32: blockItemList -> blockItemList blockItem
    replace h : valsShaped ["blockItemList", "blockItem"] vals := h
    rw [valsShaped_cons] at h
    obtain ⟨v0, vs0, rfl, h0, h⟩ := h
    rw [valsShaped_cons] at h
    obtain ⟨v1, vs1, rfl, h1, h⟩ := h
    rw [valsShaped_nil] at h
    subst h
    simp only [symbolShape] at h0
    simp only [symbolShape, optShape_iff] at h1
    obtain ⟨x1, hx1, hw1⟩ := h1
    simp_all [reduce, symbolShape, optShape, List.all_append]
  · -- 33: blockItemList -> blockItem
    replace h : valsShaped ["blockItem"] vals := h
    rw [valsShaped_cons] at h
    obtain ⟨v0, vs0, rfl, h0, h⟩ := h
    rw [valsShaped_nil] at h
    subst h
    simp only [symbolShape, optShape_iff] at h0
    obtain ⟨x0, hx0, hw0⟩ := h0
    simp [reduce, symbolShape, optShape, hx0, hw0]
  · -- 34: blockItem -> decl
    replace h : valsShaped ["decl"] vals := h
    rw [valsShaped_cons] at h
    obtain ⟨v0, vs0, rfl, h0, h⟩ := h
    rw [valsShaped_nil] at h
    subst h
    simp only [symbolShape, optShape_iff] at h0
    obtain ⟨x0, hx0, hw0⟩ := h0
    simp [reduce, symbolShape, optShape, blockItemWF, hx0, hw0]
  · -- 35: blockItem -> stmt
    replace h : valsShaped ["stmt"] vals := h
    rw [valsShaped_cons] at h
    obtain ⟨v0, vs0, rfl, h0, h⟩ := h
    rw [valsShaped_nil] at h
    subst h
    simp only [symbolShape, optShape_iff] at h0
    obtain ⟨x0, hx0, hw0⟩ := h0
    simp [reduce, symbolShape, optShape, blockItemWF, hx0, hw0]
  · -- 36: stmt -> lVal = exp ;
    replace h : valsShaped ["lVal", "=", "exp", ";"] vals := h
    rw [valsShaped_cons] at h
    obtain ⟨v0, vs0, rfl, h0, h⟩ := h
    rw [valsShaped_cons] at h
    obtain ⟨v1, vs1, rfl, h1, h⟩ := h
    rw [valsShaped_cons] at h
    obtain ⟨v2, vs2, rfl, h2, h⟩ := h
    rw [valsShaped_cons] at h
    obtain ⟨v3, vs3, rfl, h3, h⟩ := h
    rw [valsShaped_nil] at h
    subst h
    simp only [symbolShape, Option.isSome_iff_exists] at h0
    obtain ⟨x0, hx0⟩ := h0
    simp only [symbolShape, optShape_iff] at h2
    obtain ⟨x2, hx2, hw2⟩ := h2
    simp [reduce, symbolShape, optShape, stmtWF, expWF, hx0, hx2, hw2]
  · -- 37: stmt -> exp ;
    replace h : valsShaped ["exp", ";"] vals := h
    rw [valsShaped_cons] at h
    obtain ⟨v0, vs0, rfl, h0, h⟩ := h
    rw [valsShaped_cons] at h
    obtain ⟨v1, vs1, rfl, h1, h⟩ := h
    rw [valsShaped_nil] at h
    subst h
    simp only [symbolShape, optShape_iff] at h0
    obtain ⟨x0, hx0, hw0⟩ := h0
    simp [reduce, symbolShape, optShape, stmtWF, expWF, hx0, hw0]
  · -- 38: stmt -> ;
    replace h : valsShaped [";"] vals := h
    rw [valsShaped_cons] at h
    obtain ⟨v0, vs0, rfl, h0, h⟩ := h
    rw [valsShaped_nil] at h
    subst h
    simp [reduce, symbolShape, optShape, stmtWF]
  · -- 39: stmt -> block
    replace h : valsShaped ["block"] vals := h
    rw [valsShaped_cons] at h
    obtain ⟨v0, vs0, rfl, h0, h⟩ := h
    rw [valsShaped_nil] at h
    subst h
    simp only [symbolShape, optShape_iff] at h0
    obtain ⟨x0, hx0, hw0⟩ := h0
    simp [reduce, symbolShape, optShape, stmtWF, hx0, hw0]
  · -- 40: stmt -> if ( cond ) stmt ElsePart
    replace h : valsShaped ["if", "(", "cond", ")", "stmt", "ElsePart"] vals := h
    rw [valsShaped_cons] at h
    obtain ⟨v0, vs0, rfl, h0, h⟩ := h
    rw [valsShaped_cons] at h
    obtain ⟨v1, vs1, rfl, h1, h⟩ := h
    rw [valsShaped_cons] at h
    obtain ⟨v2, vs2, rfl, h2, h⟩ := h
    rw [valsShaped_cons] at h
    obtain ⟨v3, vs3, rfl, h3, h⟩ := h
    rw [valsShaped_cons] at h
    obtain ⟨v4, vs4, rfl, h4, h⟩ := h
    rw [valsShaped_cons] at h
    obtain ⟨v5, vs5, rfl, h5, h⟩ := h
    rw [valsShaped_nil] at h
    subst h
    simp only [symbolShape, optShape_iff] at h2 h4
    obtain ⟨x2, hx2, hw2⟩ := h2
    obtain ⟨x4, hx4, hw4⟩ := h4
    simp only [symbolShape] at h5
    rcases hv : v5.stmt with _ | est
    · simp [reduce, symbolShape, optShape, stmtWF, hx2, hw2, hx4, hw4, hv]
    · rw [hv] at h5
      simp only [optAll] at h5
      simp [reduce, symbolShape, optShape, stmtWF, hx2, hw2, hx4, hw4, hv, h5]
  · -- 41: stmt -> return exp ;
    replace h : valsShaped ["return", "exp", ";"] vals := h
    rw [valsShaped_cons] at h
    obtain ⟨v0, vs0, rfl, h0, h⟩ := h
    rw [valsShaped_cons] at h
    obtain ⟨v1, vs1, rfl, h1, h⟩ := h
    rw [valsShaped_cons] at h
    obtain ⟨v2, vs2, rfl, h2, h⟩ := h
    rw [valsShaped_nil] at h
    subst h
    simp only [symbolShape, optShape_iff] at h1
    obtain ⟨x1, hx1, hw1⟩ := h1
    simp [reduce, symbolShape, optShape, stmtWF, expWF, hx1, hw1]
  · -- 42: stmt -> return ;
    replace h : valsShaped ["return", ";"] vals := h
    rw [valsShaped_cons] at h
    obtain ⟨v0, vs0, rfl, h0, h⟩ := h
    rw [valsShaped_cons] at h
    obtain ⟨v1, vs1, rfl, h1, h⟩ := h
    rw [valsShaped_nil] at h
    subst h
    simp [reduce, symbolShape, optShape, stmtWF]
  · -- 43: ElsePart -> else stmt
    replace h : valsShaped ["else", "stmt"] vals := h
    rw [valsShaped_cons] at h
    obtain ⟨v0, vs0, rfl, h0, h⟩ := h
    rw [valsShaped_cons] at h
    obtain ⟨v1, vs1, rfl, h1, h⟩ := h
    rw [valsShaped_nil] at h
    subst h
    simp only [symbolShape, optShape_iff] at h1
    obtain ⟨x1, hx1, hw1⟩ := h1
    simp [reduce, symbolShape, optShape, optAll, hx1, hw1]
  · -- 44: ElsePart -> epsilon
    replace h : vals = [] := h
    subst h
    simp [reduce, symbolShape, optShape, optAll]
  · -- 45: lVal -> Ident
    replace h : valsShaped ["Ident"] vals := h
    rw [valsShaped_cons] at h
    obtain ⟨v0, vs0, rfl, h0, h⟩ := h
    rw [valsShaped_nil] at h
    subst h
    simp [reduce, symbolShape, optShape]
  · -- 46: exp -> lOrExp
    replace h : valsShaped ["lOrExp"] vals := h
    rw [valsShaped_cons] at h
    obtain ⟨v0, vs0, rfl, h0, h⟩ := h
    rw [valsShaped_nil] at h
    subst h
    simp only [symbolShape, optShape_iff] at h0
    obtain ⟨x0, hx0, hw0⟩ := h0
    simp [reduce, symbolShape, optShape, addWF, mulWF, unaryWF, primWF, argsListWF, expWF, hx0, hw0]
  · -- 47: lOrExp -> lAndExp
    replace h : valsShaped ["lAndExp"] vals := h
    rw [valsShaped_cons] at h
    obtain ⟨v0, vs0, rfl, h0, h⟩ := h
    rw [valsShaped_nil] at h
    subst h
    simp only [symbolShape, optShape_iff] at h0
    obtain ⟨x0, hx0, hw0⟩ := h0
    simp [reduce, symbolShape, optShape, lorWF, hx0, hw0]
  · -- 48: lOrExp -> lOrExp || lAndExp
    replace h : valsShaped ["lOrExp", "||", "lAndExp"] vals := h
    rw [valsShaped_cons] at h
    obtain ⟨v0, vs0, rfl, h0, h⟩ := h
    rw [valsShaped_cons] at h
    obtain ⟨v1, vs1, rfl, h1, h⟩ := h
    rw [valsShaped_cons] at h
    obtain ⟨v2, vs2, rfl, h2, h⟩ := h
    rw [valsShaped_nil] at h
    subst h
    simp only [symbolShape, optShape_iff] at h0
    obtain ⟨x0, hx0, hw0⟩ := h0
    simp only [symbolShape, optShape_iff] at h2
    obtain ⟨x2, hx2, hw2⟩ := h2
    simp [reduce, symbolShape, optShape, lorWF, hx0, hw0, hx2, hw2]
  · -- 49: lAndExp -> eqExp
    replace h : valsShaped ["eqExp"] vals := h
    rw [valsShaped_cons] at h
    obtain ⟨v0, vs0, rfl, h0, h⟩ := h
    rw [valsShaped_nil] at h
    subst h
    simp only [symbolShape, optShape_iff] at h0
    obtain ⟨x0, hx0, hw0⟩ := h0
    simp [reduce, symbolShape, optShape, landWF, hx0, hw0]
  · -- 50: lAndExp -> lAndExp && eqExp
    replace h : valsShaped ["lAndExp", "&&", "eqExp"] vals := h
    rw [valsShaped_cons] at h
    obtain ⟨v0, vs0, rfl, h0, h⟩ := h
    rw [valsShaped_cons] at h
    obtain ⟨v1, vs1, rfl, h1, h⟩ := h
    rw [valsShaped_cons] at h
    obtain ⟨v2, vs2, rfl, h2, h⟩ := h
    rw [valsShaped_nil] at h
    subst h
    simp only [symbolShape, optShape_iff] at h0
    obtain ⟨x0, hx0, hw0⟩ := h0
    simp only [symbolShape, optShape_iff] at h2
    obtain ⟨x2, hx2, hw2⟩ := h2
    simp [reduce, symbolShape, optShape, landWF, hx0, hw0, hx2, hw2]
  · -- 51: eqExp -> relExp
    replace h : valsShaped ["relExp"] vals := h
    rw [valsShaped_cons] at h
    obtain ⟨v0, vs0, rfl, h0, h⟩ := h
    rw [valsShaped_nil] at h
    subst h
    simp only [symbolShape, optShape_iff] at h0
    obtain ⟨x0, hx0, hw0⟩ := h0
    simp [reduce, symbolShape, optShape, eqWF, hx0, hw0]
  · -- 52: eqExp -> eqExp == relExp
    replace h : valsShaped ["eqExp", "==", "relExp"] vals := h
    rw [valsShaped_cons] at h
    obtain ⟨v0, vs0, rfl, h0, h⟩ := h
    rw [valsShaped_cons] at h
    obtain ⟨v1, vs1, rfl, h1, h⟩ := h
    rw [valsShaped_cons] at h
    obtain ⟨v2, vs2, rfl, h2, h⟩ := h
    rw [valsShaped_nil] at h
    subst h
    simp only [symbolShape, optShape_iff] at h0
    obtain ⟨x0, hx0, hw0⟩ := h0
    simp only [symbolShape, optShape_iff] at h2
    obtain ⟨x2, hx2, hw2⟩ := h2
    simp [reduce, symbolShape, optShape, eqWF, hx0, hw0, hx2, hw2]
  · -- 53: eqExp -> eqExp != relExp
    replace h : valsShaped ["eqExp", "!=", "relExp"] vals := h
    rw [valsShaped_cons] at h
    obtain ⟨v0, vs0, rfl, h0, h⟩ := h
    rw [valsShaped_cons] at h
    obtain ⟨v1, vs1, rfl, h1, h⟩ := h
    rw [valsShaped_cons] at h
    obtain ⟨v2, vs2, rfl, h2, h⟩ := h
    rw [valsShaped_nil] at h
    subst h
    simp only [symbolShape, optShape_iff] at h0
    obtain ⟨x0, hx0, hw0⟩ := h0
    simp only [symbolShape, optShape_iff] at h2
    obtain ⟨x2, hx2, hw2⟩ := h2
    simp [reduce, symbolShape, optShape, eqWF, hx0, hw0, hx2, hw2]
  · -- 54: relExp -> addExp
    replace h : valsShaped ["addExp"] vals := h
    rw [valsShaped_cons] at h
    obtain ⟨v0, vs0, rfl, h0, h⟩ := h
    rw [valsShaped_nil] at h
    subst h
    simp only [symbolShape, optShape_iff] at h0
    obtain ⟨x0, hx0, hw0⟩ := h0
    simp [reduce, symbolShape, optShape, relWF, hx0, hw0]
  · -- 55: relExp -> relExp < addExp
    replace h : valsShaped ["relExp", "<", "addExp"] vals := h
    rw [valsShaped_cons] at h
    obtain ⟨v0, vs0, rfl, h0, h⟩ := h
    rw [valsShaped_cons] at h
    obtain ⟨v1, vs1, rfl, h1, h⟩ := h
    rw [valsShaped_cons] at h
    obtain ⟨v2, vs2, rfl, h2, h⟩ := h
    rw [valsShaped_nil] at h
    subst h
    simp only [symbolShape, optShape_iff] at h0
    obtain ⟨x0, hx0, hw0⟩ := h0
    simp only [symbolShape, optShape_iff] at h2
    obtain ⟨x2, hx2, hw2⟩ := h2
    simp [reduce, symbolShape, optShape, relWF, hx0, hw0, hx2, hw2]
  · -- 56: relExp -> relExp > addExp
    replace h : valsShaped ["relExp", ">", "addExp"] vals := h
    rw [valsShaped_cons] at h
    obtain ⟨v0, vs0, rfl, h0, h⟩ := h
    rw [valsShaped_cons] at h
    obtain ⟨v1, vs1, rfl, h1, h⟩ := h
    rw [valsShaped_cons] at h
    obtain ⟨v2, vs2, rfl, h2, h⟩ := h
    rw [valsShaped_nil] at h
    subst h
    simp only [symbolShape, optShape_iff] at h0
    obtain ⟨x0, hx0, hw0⟩ := h0
    simp only [symbolShape, optShape_iff] at h2
    obtain ⟨x2, hx2, hw2⟩ := h2
    simp [reduce, symbolShape, optShape, relWF, hx0, hw0, hx2, hw2]
  · -- 57: relExp -> relExp <= addExp
    replace h : valsShaped ["relExp", "<=", "addExp"] vals := h
    rw [valsShaped_cons] at h
    obtain ⟨v0, vs0, rfl, h0, h⟩ := h
    rw [valsShaped_cons] at h
    obtain ⟨v1, vs1, rfl, h1, h⟩ := h
    rw [valsShaped_cons] at h
    obtain ⟨v2, vs2, rfl, h2, h⟩ := h
    rw [valsShaped_nil] at h
    subst h
    simp only [symbolShape, optShape_iff] at h0
    obtain ⟨x0, hx0, hw0⟩ := h0
    simp only [symbolShape, optShape_iff] at h2
    obtain ⟨x2, hx2, hw2⟩ := h2
    simp [reduce, symbolShape, optShape, relWF, hx0, hw0, hx2, hw2]
  · -- 58: relExp -> relExp >= addExp
    replace h : valsShaped ["relExp", ">=", "addExp"] vals := h
    rw [valsShaped_cons] at h
    obtain ⟨v0, vs0, rfl, h0, h⟩ := h
    rw [valsShaped_cons] at h
    obtain ⟨v1, vs1, rfl, h1, h⟩ := h
    rw [valsShaped_cons] at h
    obtain ⟨v2, vs2, rfl, h2, h⟩ := h
    rw [valsShaped_nil] at h
    subst h
    simp only [symbolShape, optShape_iff] at h0
    obtain ⟨x0, hx0, hw0⟩ := h0
    simp only [symbolShape, optShape_iff] at h2
    obtain ⟨x2, hx2, hw2⟩ := h2
    simp [reduce, symbolShape, optShape, relWF, hx0, hw0, hx2, hw2]
  · -- 59: addExp -> mulExp
    replace h : valsShaped ["mulExp"] vals := h
    rw [valsShaped_cons] at h
    obtain ⟨v0, vs0, rfl, h0, h⟩ := h
    rw [valsShaped_nil] at h
    subst h
    simp only [symbolShape, optShape_iff] at h0
    obtain ⟨x0, hx0, hw0⟩ := h0
    simp [reduce, symbolShape, optShape, addWF, hx0, hw0]
  · -- 60: addExp -> addExp + mulExp
    replace h : valsShaped ["addExp", "+", "mulExp"] vals := h
    rw [valsShaped_cons] at h
    obtain ⟨v0, vs0, rfl, h0, h⟩ := h
    rw [valsShaped_cons] at h
    obtain ⟨v1, vs1, rfl, h1, h⟩ := h
    rw [valsShaped_cons] at h
    obtain ⟨v2, vs2, rfl, h2, h⟩ := h
    rw [valsShaped_nil] at h
    subst h
    simp only [symbolShape, optShape_iff] at h0
    obtain ⟨x0, hx0, hw0⟩ := h0
    simp only [symbolShape, optShape_iff] at h2
    obtain ⟨x2, hx2, hw2⟩ := h2
    simp [reduce, symbolShape, optShape, addWF, hx0, hw0, hx2, hw2]
  · -- 61: addExp -> addExp - mulExp
    replace h : valsShaped ["addExp", "-", "mulExp"] vals := h
    rw [valsShaped_cons] at h
    obtain ⟨v0, vs0, rfl, h0, h⟩ := h
    rw [valsShaped_cons] at h
    obtain ⟨v1, vs1, rfl, h1, h⟩ := h
    rw [valsShaped_cons] at h
    obtain ⟨v2, vs2, rfl, h2, h⟩ := h
    rw [valsShaped_nil] at h
    subst h
    simp only [symbolShape, optShape_iff] at h0
    obtain ⟨x0, hx0, hw0⟩ := h0
    simp only [symbolShape, optShape_iff] at h2
    obtain ⟨x2, hx2, hw2⟩ := h2
    simp [reduce, symbolShape, optShape, addWF, hx0, hw0, hx2, hw2]
  · -- 62: mulExp -> unaryExp
    replace h : valsShaped ["unaryExp"] vals := h
    rw [valsShaped_cons] at h
    obtain ⟨v0, vs0, rfl, h0, h⟩ := h
    rw [valsShaped_nil] at h
    subst h
    simp only [symbolShape, optShape_iff] at h0
    obtain ⟨x0, hx0, hw0⟩ := h0
    simp [reduce, symbolShape, optShape, mulWF, hx0, hw0]
  · -- 63: mulExp -> mulExp * unaryExp
    replace h : valsShaped ["mulExp", "*", "unaryExp"] vals := h
    rw [valsShaped_cons] at h
    obtain ⟨v0, vs0, rfl, h0, h⟩ := h
    rw [valsShaped_cons] at h
    obtain ⟨v1, vs1, rfl, h1, h⟩ := h
    rw [valsShaped_cons] at h
    obtain ⟨v2, vs2, rfl, h2, h⟩ := h
    rw [valsShaped_nil] at h
    subst h
    simp only [symbolShape, optShape_iff] at h0
    obtain ⟨x0, hx0, hw0⟩ := h0
    simp only [symbolShape, optShape_iff] at h2
    obtain ⟨x2, hx2, hw2⟩ := h2
    simp [reduce, symbolShape, optShape, mulWF, hx0, hw0, hx2, hw2]
  · -- 64: mulExp -> mulExp / unaryExp
    replace h : valsShaped ["mulExp", "/", "unaryExp"] vals := h
    rw [valsShaped_cons] at h
    obtain ⟨v0, vs0, rfl, h0, h⟩ := h
    rw [valsShaped_cons] at h
    obtain ⟨v1, vs1, rfl, h1, h⟩ := h
    rw [valsShaped_cons] at h
    obtain ⟨v2, vs2, rfl, h2, h⟩ := h
    rw [valsShaped_nil] at h
    subst h
    simp only [symbolShape, optShape_iff] at h0
    obtain ⟨x0, hx0, hw0⟩ := h0
    simp only [symbolShape, optShape_iff] at h2
    obtain ⟨x2, hx2, hw2⟩ := h2
    simp [reduce, symbolShape, optShape, mulWF, hx0, hw0, hx2, hw2]
  · -- 65: mulExp -> mulExp % unaryExp
    replace h : valsShaped ["mulExp", "%", "unaryExp"] vals := h
    rw [valsShaped_cons] at h
    obtain ⟨v0, vs0, rfl, h0, h⟩ := h
    rw [valsShaped_cons] at h
    obtain ⟨v1, vs1, rfl, h1, h⟩ := h
    rw [valsShaped_cons] at h
    obtain ⟨v2, vs2, rfl, h2, h⟩ := h
    rw [valsShaped_nil] at h
    subst h
    simp only [symbolShape, optShape_iff] at h0
    obtain ⟨x0, hx0, hw0⟩ := h0
    simp only [symbolShape, optShape_iff] at h2
    obtain ⟨x2, hx2, hw2⟩ := h2
    simp [reduce, symbolShape, optShape, mulWF, hx0, hw0, hx2, hw2]
  · -- 66: unaryExp -> primaryExp
    replace h : valsShaped ["primaryExp"] vals := h
    rw [valsShaped_cons] at h
    obtain ⟨v0, vs0, rfl, h0, h⟩ := h
    rw [valsShaped_nil] at h
    subst h
    simp only [symbolShape, optShape_iff] at h0
    obtain ⟨x0, hx0, hw0⟩ := h0
    simp [reduce, symbolShape, optShape, unaryWF, argsListWF, hx0, hw0]
  · -- 67: unaryExp -> unaryOp unaryExp
    replace h : valsShaped ["unaryOp", "unaryExp"] vals := h
    rw [valsShaped_cons] at h
    obtain ⟨v0, vs0, rfl, h0, h⟩ := h
    rw [valsShaped_cons] at h
    obtain ⟨v1, vs1, rfl, h1, h⟩ := h
    rw [valsShaped_nil] at h
    subst h
    simp only [symbolShape, optShape_iff] at h1
    obtain ⟨x1, hx1, hw1⟩ := h1
    simp [reduce, symbolShape, optShape, unaryWF, argsListWF, hx1, hw1]
  · -- 68: unaryExp -> Ident ( )
    replace h : valsShaped ["Ident", "(", ")"] vals := h
    rw [valsShaped_cons] at h
    obtain ⟨v0, vs0, rfl, h0, h⟩ := h
    rw [valsShaped_cons] at h
    obtain ⟨v1, vs1, rfl, h1, h⟩ := h
    rw [valsShaped_cons] at h
    obtain ⟨v2, vs2, rfl, h2, h⟩ := h
    rw [valsShaped_nil] at h
    subst h
    simp [reduce, symbolShape, optShape, unaryWF, argsListWF]
  · -- 69: unaryExp -> Ident ( funcRParams )
    replace h : valsShaped ["Ident", "(", "funcRParams", ")"] vals := h
    rw [valsShaped_cons] at h
    obtain ⟨v0, vs0, rfl, h0, h⟩ := h
    rw [valsShaped_cons] at h
    obtain ⟨v1, vs1, rfl, h1, h⟩ := h
    rw [valsShaped_cons] at h
    obtain ⟨v2, vs2, rfl, h2, h⟩ := h
    rw [valsShaped_cons] at h
    obtain ⟨v3, vs3, rfl, h3, h⟩ := h
    rw [valsShaped_nil] at h
    subst h
    simp only [symbolShape] at h2
    simp [reduce, symbolShape, optShape, unaryWF, argsListWF_of_all h2, h2]
  · -- 70: primaryExp -> ( exp )
    replace h : valsShaped ["(", "exp", ")"] vals := h
    rw [valsShaped_cons] at h
    obtain ⟨v0, vs0, rfl, h0, h⟩ := h
    rw [valsShaped_cons] at h
    obtain ⟨v1, vs1, rfl, h1, h⟩ := h
    rw [valsShaped_cons] at h
    obtain ⟨v2, vs2, rfl, h2, h⟩ := h
    rw [valsShaped_nil] at h
    subst h
    simp only [symbolShape, optShape_iff] at h1
    obtain ⟨x1, hx1, hw1⟩ := h1
    simp [reduce, symbolShape, optShape, primWF, expWF, hx1, hw1]
  · -- 71: primaryExp -> lVal
    replace h : valsShaped ["lVal"] vals := h
    rw [valsShaped_cons] at h
    obtain ⟨v0, vs0, rfl, h0, h⟩ := h
    rw [valsShaped_nil] at h
    subst h
    simp only [symbolShape, Option.isSome_iff_exists] at h0
    obtain ⟨x0, hx0⟩ := h0
    simp [reduce, symbolShape, optShape, primWF, hx0]
  · -- 72: primaryExp -> number
    replace h : valsShaped ["number"] vals := h
    rw [valsShaped_cons] at h
    obtain ⟨v0, vs0, rfl, h0, h⟩ := h
    rw [valsShaped_nil] at h
    subst h
    simp only [symbolShape, Option.isSome_iff_exists] at h0
    obtain ⟨x0, hx0⟩ := h0
    simp [reduce, symbolShape, optShape, primWF, hx0]
  · -- 73: number -> IntConst
    replace h : valsShaped ["IntConst"] vals := h
    rw [valsShaped_cons] at h
    obtain ⟨v0, vs0, rfl, h0, h⟩ := h
    rw [valsShaped_nil] at h
    subst h
    simp [reduce, symbolShape, optShape]
  · -- 74: number -> floatConst
    replace h : valsShaped ["floatConst"] vals := h
    rw [valsShaped_cons] at h
    obtain ⟨v0, vs0, rfl, h0, h⟩ := h
    rw [valsShaped_nil] at h
    subst h
    simp [reduce, symbolShape, optShape]
  · -- 75: unaryOp -> +
    replace h : valsShaped ["+"] vals := h
    rw [valsShaped_cons] at h
    obtain ⟨v0, vs0, rfl, h0, h⟩ := h
    rw [valsShaped_nil] at h
    subst h
    simp [reduce, symbolShape, optShape]
  · -- 76: unaryOp -> -
    replace h : valsShaped ["-"] vals := h
    rw [valsShaped_cons] at h
    obtain ⟨v0, vs0, rfl, h0, h⟩ := h
    rw [valsShaped_nil] at h
    subst h
    simp [reduce, symbolShape, optShape]
  · -- 77: unaryOp -> !
    replace h : valsShaped ["!"] vals := h
    rw [valsShaped_cons] at h
    obtain ⟨v0, vs0, rfl, h0, h⟩ := h
    rw [valsShaped_nil] at h
    subst h
    simp [reduce, symbolShape, optShape]
  · -- 78: funcRParams -> exp , funcRParams
    replace h : valsShaped ["exp", ",", "funcRParams"] vals := h
    rw [valsShaped_cons] at h
    obtain ⟨v0, vs0, rfl, h0, h⟩ := h
    rw [valsShaped_cons] at h
    obtain ⟨v1, vs1, rfl, h1, h⟩ := h
    rw [valsShaped_cons] at h
    obtain ⟨v2, vs2, rfl, h2, h⟩ := h
    rw [valsShaped_nil] at h
    subst h
    simp only [symbolShape, optShape_iff] at h0
    obtain ⟨x0, hx0, hw0⟩ := h0
    simp only [symbolShape] at h2
    simp_all [reduce, symbolShape, optShape, List.all_append, expWF]
  · -- 79: funcRParams -> exp
    replace h : valsShaped ["exp"] vals := h
    rw [valsShaped_cons] at h
    obtain ⟨v0, vs0, rfl, h0, h⟩ := h
    rw [valsShaped_nil] at h
    subst h
    simp only [symbolShape, optShape_iff] at h0
    obtain ⟨x0, hx0, hw0⟩ := h0
    simp [reduce, symbolShape, optShape, expWF, hx0, hw0]
  · -- 80: constExp -> addExp
    replace h : valsShaped ["addExp"] vals := h
    rw [valsShaped_cons] at h
    obtain ⟨v0, vs0, rfl, h0, h⟩ := h
    rw [valsShaped_nil] at h
    subst h
    simp only [symbolShape, optShape_iff] at h0
    obtain ⟨x0, hx0, hw0⟩ := h0
    simp [reduce, symbolShape, optShape, hx0, hw0]
  · -- 81: cond -> lOrExp
    replace h : valsShaped ["lOrExp"] vals := h
    rw [valsShaped_cons] at h
    obtain ⟨v0, vs0, rfl, h0, h⟩ := h
    rw [valsShaped_nil] at h
    subst h
    simp only [symbolShape, optShape_iff] at h0
    obtain ⟨x0, hx0, hw0⟩ := h0
    simp [reduce, symbolShape, optShape, condWF, hx0, hw0]


/-- C5 witness: the rewrap production 46 applied to a well-formed
singleton chain for the literal `1`. -/
theorem C5_witness :
    symbolShape "exp" (reduce 46 [{ lOrExp := some lorChainNode }]) = true := by
  have h := C5_chain_invariant ⟨46, "exp", ["lOrExp"]⟩ (by decide)
    [{ lOrExp := some lorChainNode }]
    (show valsShaped ["lOrExp"] [{ lOrExp := some lorChainNode }] from ⟨by decide, trivial⟩)
  simpa using h

/-! ## C6 — ACTION-table conflict resolution -/

/-- C6 counterexample: two reduce registrations for the same cell leave
the *last* one in the table, falsifying "the first-registered Reduce
wins" — the reduce branch of `buildTable` overwrites an existing
REDUCE entry. -/
theorem C6_counterexample :
    fillCell [.regReduce 1, .regReduce 2] = some (.REDUCE 2) ∧
    some (PAction.REDUCE 2) ≠ some (PAction.REDUCE 1) := by
  decide

/-- Folding registrations over a cell that already holds a shift never
changes it (absent an accept registration and with every shift
agreeing). -/
theorem fold_stays_shift (events : List CellReg) (k : Nat)
    (huniq : ∀ k', CellReg.regShift k' ∈ events → k' = k)
    (hnoacc : CellReg.regAccept ∉ events) :
    events.foldl buildTableCell (some (.SHIFT k)) = some (.SHIFT k) := by
  induction events with
  | nil => rfl
  | cons e rest ih =>
    have hnoacc' : CellReg.regAccept ∉ rest := fun h => hnoacc (List.mem_cons_of_mem _ h)
    have huniq' : ∀ k', CellReg.regShift k' ∈ rest → k' = k :=
      fun k' hk => huniq k' (List.mem_cons_of_mem _ hk)
    cases e with
    | regShift k' =>
      have hk : k' = k := huniq k' (List.mem_cons_self _ _)
      simp only [List.foldl_cons, buildTableCell, hk]
      exact ih huniq' hnoacc'
    | regReduce p =>
      simp only [List.foldl_cons, buildTableCell]
      exact ih huniq' hnoacc'
    | regAccept => exact absurd (List.mem_cons_self _ _) hnoacc

/-- From any non-shift cell contents, a registration sequence that
contains a shift (all shifts agreeing, no accept) ends with that
shift. -/
theorem fold_shift_wins (events : List CellReg) (k : Nat) (cur : Option PAction)
    (hcur : cur = none ∨ (∃ p, cur = some (.REDUCE p)) ∨ cur = some .ACC ∨ cur = some .ERR)
    (hmem : CellReg.regShift k ∈ events)
    (huniq : ∀ k', CellReg.regShift k' ∈ events → k' = k)
    (hnoacc : CellReg.regAccept ∉ events) :
    events.foldl buildTableCell cur = some (.SHIFT k) := by
  induction events generalizing cur with
  | nil => exact absurd hmem (List.not_mem_nil _)
  | cons e rest ih =>
    have hnoacc' : CellReg.regAccept ∉ rest := fun h => hnoacc (List.mem_cons_of_mem _ h)
    have huniq' : ∀ k', CellReg.regShift k' ∈ rest → k' = k :=
      fun k' hk => huniq k' (List.mem_cons_of_mem _ hk)
    cases e with
    | regShift k' =>
      have hk : k' = k := huniq k' (List.mem_cons_self _ _)
      simp only [List.foldl_cons, buildTableCell, hk]
      exact fold_stays_shift rest k huniq' hnoacc'
    | regReduce p =>
      have hmem' : CellReg.regShift k ∈ rest := by
        rcases List.mem_cons.mp hmem with h | h
        · exact absurd h (by simp)
        · exact h
      have hstep : buildTableCell cur (.regReduce p) = some (.REDUCE p) := by
        rcases hcur with h | ⟨q, h⟩ | h | h <;> subst h <;> rfl
      simp only [List.foldl_cons, hstep]
      exact ih (some (.REDUCE p)) (Or.inr (Or.inl ⟨p, rfl⟩)) hmem' huniq' hnoacc'
    | regAccept => exact absurd (List.mem_cons_self _ _) hnoacc

/-- C6 (amended): in a conflicted ACTION cell, a Shift registration
wins over Reduce registrations regardless of registration order; for a
cell that only receives Reduce registrations, the *last*-registered
Reduce wins (each later reduce overwrites an earlier one). -/
theorem C6_conflict_resolution_amended :
    (∀ (events : List CellReg) (k : Nat),
       CellReg.regShift k ∈ events →
       (∀ k', CellReg.regShift k' ∈ events → k' = k) →
       CellReg.regAccept ∉ events →
       fillCell events = some (.SHIFT k)) ∧
    (∀ ps : List Nat,
       fillCell (ps.map CellReg.regReduce) = (ps.getLast?).map PAction.REDUCE) := by
  constructor
  · intro events k hmem huniq hnoacc
    exact fold_shift_wins events k none (Or.inl rfl) hmem huniq hnoacc
  · have fillFromReduce : ∀ (ps : List Nat) (q : Nat),
        (ps.map CellReg.regReduce).foldl buildTableCell (some (.REDUCE q))
          = some (.REDUCE (ps.getLastD q)) := by
      intro ps
      induction ps with
      | nil => intro q; simp
      | cons p rest ih =>
        intro q
        simp [buildTableCell, ih, List.getLastD_eq_getLast?, List.getLast?_cons]
    intro ps
    cases ps with
    | nil => simp [fillCell]
    | cons p rest =>
      simp [fillCell, buildTableCell, fillFromReduce, List.getLast?_cons,
        List.getLastD_eq_getLast?]

/-- C6 witness: a shift-reduce cell in both registration orders, and a
reduce-reduce cell. -/
theorem C6_witness :
    fillCell [.regReduce 5, .regShift 7] = some (.SHIFT 7) ∧
    fillCell [.regShift 7, .regReduce 5] = some (.SHIFT 7) ∧
    fillCell [.regReduce 1, .regReduce 2] = some (.REDUCE 2) := by
  refine ⟨?_, ?_, ?_⟩
  · exact C6_conflict_resolution_amended.1 _ 7 (by decide)
      (by intro k' hk; simpa using hk) (by decide)
  · exact C6_conflict_resolution_amended.1 _ 7 (by decide)
      (by intro k' hk; simpa using hk) (by decide)
  · have h := C6_conflict_resolution_amended.2 [1, 2]
    simpa using h

/-! ## C9 — redeclaration handling during IR generation -/

/-- C9: defining a name already bound in the innermost scope reports a
redeclaration diagnostic and changes nothing else (the definition is
skipped and the visitor returns normally), while defining a name that
is fresh in the innermost scope — even one bound in an outer scope —
produces no diagnostic and adds the binding to the innermost scope. -/
theorem C9_redeclaration_current_scope_only :
    (∀ (node : VarDef) (bType : BType) (s : GenState),
       (stLookupCurrentScope s.symtab node.ident).isSome = true →
       visitVarDef node bType s = addDiag ("Error: 重复定义变量 " ++ node.ident) s) ∧
    (∀ (name : String) (bType : BType) (sc : Scope) (rest : List Scope) (s : GenState),
       s.symtab = sc :: rest →
       stLookupCurrentScope s.symtab name = none →
       (visitVarDef ⟨name, none⟩ bType s).diags = s.diags ∧
       (stLookupCurrentScope (visitVarDef ⟨name, none⟩ bType s).symtab name).isSome = true) := by
  constructor
  · intro node bType s h
    simp [visitVarDef, h]
  · intro name bType sc rest s hst hfresh
    have hfresh' : stLookupCurrentScope (sc :: rest) name = none := hst ▸ hfresh
    have hfresh2 : scopeLookup sc name = none := by
      simpa [stLookupCurrentScope] using hfresh'
    by_cases hg : stIsGlobalScope (sc :: rest) = true
    · refine ⟨?_, ?_⟩
      · simp [visitVarDef, hst, hfresh', hg, createGlobalVariable]
      · simp [visitVarDef, hst, hfresh', hg, createGlobalVariable, stInsert_binds, hfresh2]
    · have hg2 : stIsGlobalScope (sc :: rest) = false := by simpa using hg
      refine ⟨?_, ?_⟩
      · simp [visitVarDef, hst, hfresh', hg2, createLocalVariable, emit, appendInstr_diags]
      · simp [visitVarDef, hst, hfresh', hg2, createLocalVariable, emit, appendInstr_symtab,
          stInsert_binds, hfresh2]

/-- C9 witness: the scenario `int x; int x;` — the first definition
binds `x` with no diagnostic; the second reports the redeclaration and
leaves the state otherwise unchanged (so generation continues from it
unharmed). -/
theorem C9_witness :
    xBoundState.diags = [] ∧
    (stLookupCurrentScope xBoundState.symtab "x").isSome = true ∧
    visitVarDef ⟨"x", none⟩ .INT xBoundState
      = addDiag ("Error: 重复定义变量 " ++ "x") xBoundState := by
  refine ⟨?_, ?_, ?_⟩
  · exact (C9_redeclaration_current_scope_only.2 "x" .INT [] [] initGenState
      (by decide) (by decide)).1.trans (by decide)
  · exact (C9_redeclaration_current_scope_only.2 "x" .INT [] [] initGenState
      (by decide) (by decide)).2
  · exact C9_redeclaration_current_scope_only.1 ⟨"x", none⟩ .INT xBoundState (by decide)

/-! ## C10 — assignments to constants are not rejected -/

/-- C10: address resolution of a left value returns the stored slot
without consulting the isConst flag, and an assignment whose target is
const-bound lowers to an ordinary store with the diagnostics stream
unchanged. -/
theorem C10_const_assignment_not_rejected :
    (∀ (name : String) (s : GenState) (info : SymbolInfo),
       stLookup s.symtab name = some info →
       visitLVal ⟨name⟩ false s = (info.value, s)) ∧
    (∀ (name : String) (num : Number) (s : GenState) (info : SymbolInfo),
       stLookup s.symtab name = some info →
       info.isConst = true →
       visitAssignStmt (.mk .ASSIGN (some ⟨name⟩) (some (.numberE num)) none none none none) s
         = appendInstr
             (.store (if num.isFloat then Val.constFP num.floatVal else Val.constInt num.intVal)
               info.value) s ∧
       (visitAssignStmt (.mk .ASSIGN (some ⟨name⟩) (some (.numberE num)) none none none none)
           s).diags = s.diags) := by
  constructor
  · intro name s info h
    simp [visitLVal, h]
  · intro name num s info h hc
    constructor
    · simp [visitAssignStmt, visitLVal, h, visitExpOpt, visitExp, visitNumber]
      split <;> rfl
    · simp [visitAssignStmt, visitLVal, h, visitExpOpt, visitExp, visitNumber]
      split <;> simp [appendInstr_diags]

/-- C10 witness: assigning `7` to the global constant `c` stores to its
slot and reports nothing. -/
theorem C10_witness :
    visitLVal ⟨"c"⟩ false constBoundState = (Val.globalRef "c" Ty.i32, constBoundState) ∧
    visitAssignStmt
        (.mk .ASSIGN (some ⟨"c"⟩) (some (.numberE ⟨false, 7, 0⟩)) none none none none)
        constBoundState
      = appendInstr (.store (Val.constInt 7) (Val.globalRef "c" Ty.i32)) constBoundState := by
  constructor
  · have h := C10_const_assignment_not_rejected.1 "c" constBoundState constInfo (by decide)
    simpa [constInfo] using h
  · have h := (C10_const_assignment_not_rejected.2 "c" ⟨false, 7, 0⟩ constBoundState constInfo
      (by decide) (by decide)).1
    simpa [constInfo] using h


theorem findBlock_mem {s : GenState} {b : Nat} {bbl : BBlock}
    (h : findBlock s b = some bbl) : bbl ∈ s.blocks ∧ bbl.id = b := by
  have h1 := List.find?_some h
  have h2 := List.mem_of_find?_eq_some h
  simp at h1
  exact ⟨h2, h1⟩

theorem findBlock_lt {s : GenState} {b : Nat} {bbl : BBlock}
    (hwf : WFSt s) (h : findBlock s b = some bbl) : b < s.nextBB := by
  obtain ⟨hm, hid⟩ := findBlock_mem h
  exact hid ▸ hwf.1 bbl hm

theorem Loc.refl {s : GenState} : Loc s s :=
  ⟨le_refl _, fun _ _ h _ => h, Or.inl (Eq.refl _), id⟩

theorem Loc.trans {s s1 s2 : GenState} (hwf : WFSt s)
    (h1 : Loc s s1) (h2 : Loc s1 s2) : Loc s s2 := by
  refine ⟨le_trans h1.mono h2.mono, ?_, ?_, fun h => h2.wf (h1.wf h)⟩
  · intro b bbl hf hne
    have hb : b < s.nextBB := findBlock_lt hwf hf
    have hf1 : findBlock s1 b = some bbl := h1.old_blocks b bbl hf hne
    refine h2.old_blocks b bbl hf1 ?_
    rcases h1.cur_fresh with hc | ⟨b', hb', hge⟩
    · rw [hc]; exact hne
    · rw [hb']
      intro heq
      have : b' = b := by injection heq
      omega
  · rcases h2.cur_fresh with hc | ⟨b', hb', hge⟩
    · rw [hc]; exact h1.cur_fresh
    · exact Or.inr ⟨b', hb', le_trans h1.mono hge⟩

theorem appendInstr_eq_some {s : GenState} {b0 : Nat} (i : Instr)
    (h : s.curBB = some b0) :
    appendInstr i s = { s with blocks := s.blocks.map (fun bb =>
      if bb.id == b0 then { bb with instrs := bb.instrs ++ [i] } else bb) } := by
  unfold appendInstr
  rw [h]

theorem appendInstr_eq_none {s : GenState} (i : Instr) (h : s.curBB = none) :
    appendInstr i s = s := by
  unfold appendInstr
  rw [h]

theorem find?_map_id_pres (f : BBlock → BBlock) (hf : ∀ bb, (f bb).id = bb.id)
    (l : List BBlock) (b : Nat) :
    (l.map f).find? (fun bb => bb.id == b) = (l.find? (fun bb => bb.id == b)).map f := by
  induction l with
  | nil => rfl
  | cons a rest ih =>
    by_cases hb : (a.id == b) = true
    · simp [List.find?_cons, hf, hb]
    · simp only [List.map_cons, List.find?_cons, hf a, hb]
      simp only [Bool.false_eq_true] at hb
      simp [hb, ih]

theorem findBlock_append_update {s : GenState} {b0 : Nat} (i : Instr) (b : Nat)
    (hcur : s.curBB = some b0) :
    findBlock (appendInstr i s) b
      = (findBlock s b).map (fun bb =>
          if bb.id == b0 then { bb with instrs := bb.instrs ++ [i] } else bb) := by
  rw [appendInstr_eq_some i hcur]
  unfold findBlock
  exact find?_map_id_pres _ (fun bb => by by_cases h : bb.id == b0 <;> simp [h]) _ _

theorem loc_appendInstr (i : Instr) (s : GenState) : Loc s (appendInstr i s) := by
  cases hcur : s.curBB with
  | none => rw [appendInstr_eq_none i hcur]; exact Loc.refl
  | some b0 =>
    have hblocks : (appendInstr i s).nextBB = s.nextBB := by
      rw [appendInstr_eq_some i hcur]
    have hcur2 : (appendInstr i s).curBB = s.curBB := by
      rw [appendInstr_eq_some i hcur]
    refine ⟨le_of_eq hblocks.symm, ?_, Or.inl hcur2, ?_⟩
    · intro b bbl hf hne
      rw [findBlock_append_update i b hcur, hf]
      have hbb : bbl.id = b := (findBlock_mem hf).2
      have hbne : b ≠ b0 := fun h => (h ▸ hcur ▸ hne) rfl
      simp [hbb, hbne]
    · intro hwf
      constructor
      · intro bb hbb
        rw [appendInstr_eq_some i hcur] at hbb
        simp only [List.mem_map] at hbb
        obtain ⟨a, ha, rfl⟩ := hbb
        rw [hblocks]
        by_cases h : (a.id == b0) = true <;> simp [h] <;> exact hwf.1 a ha
      · intro b hb
        rw [hcur2, hcur] at hb
        simp at hb
        subst hb
        have h2 := hwf.2 b (by simp [hcur])
        refine ⟨by rw [hblocks]; exact h2.1, ?_⟩
        rw [findBlock_append_update i b hcur]
        rcases ho : findBlock s b with _ | bbl
        · rw [ho] at h2; simp at h2
        · simp

theorem loc_emit (i : Instr) (t : Ty) (s : GenState) : Loc s (emit i t s).2 := by
  have h := loc_appendInstr i s
  unfold emit
  exact ⟨h.mono, h.old_blocks, h.cur_fresh, fun hw => by
    have hw2 := h.wf hw
    exact ⟨hw2.1, hw2.2⟩⟩

theorem loc_of_frame_eq {s s' : GenState} (hb : s'.blocks = s.blocks)
    (hn : s'.nextBB = s.nextBB) (hc : s'.curBB = s.curBB) : Loc s s' := by
  refine ⟨le_of_eq hn.symm, ?_, Or.inl hc, ?_⟩
  · intro b bbl hf _
    unfold findBlock at hf ⊢
    rw [hb]
    exact hf
  · intro hw
    constructor
    · intro bb hbb
      rw [hb] at hbb
      rw [hn]
      exact hw.1 bb hbb
    · intro b hbmem
      rw [hc] at hbmem
      have h2 := hw.2 b hbmem
      refine ⟨by rw [hn]; exact h2.1, ?_⟩
      unfold findBlock
      rw [hb]
      exact h2.2

theorem loc_addDiag (msg : String) (s : GenState) : Loc s (addDiag msg s) :=
  loc_of_frame_eq rfl rfl rfl

theorem findBlock_createBB_old {s : GenState} {nm : String} (b : Nat)
    (hne : b ≠ s.nextBB) (_hwf : WFSt s) :
    findBlock (createBB nm s).2 b = findBlock s b := by
  unfold createBB findBlock
  simp only
  rw [List.find?_append]
  rcases ho : List.find? (fun bb => bb.id == b) s.blocks with _ | bbl
  · simp [hne, Ne.symm hne]
  · rw [ho]; simp

theorem findBlock_createBB_new {s : GenState} {nm : String} (hwf : WFSt s) :
    findBlock (createBB nm s).2 s.nextBB
      = some ⟨s.nextBB, nm, s.curFn.getD "", []⟩ := by
  unfold createBB findBlock
  simp only
  rw [List.find?_append]
  have : List.find? (fun bb => bb.id == s.nextBB) s.blocks = none := by
    rw [List.find?_eq_none]
    intro bb hbb
    have := hwf.1 bb hbb
    simp
    omega
  rw [this]
  simp

theorem loc_createBB (nm : String) (s : GenState) (hwf : WFSt s) :
    Loc s (createBB nm s).2 := by
  refine ⟨?_, ?_, ?_, ?_⟩
  · unfold createBB; simp
  · intro b bbl hf _
    have hb : b < s.nextBB := findBlock_lt hwf hf
    rw [findBlock_createBB_old b (by omega) hwf]
    exact hf
  · exact Or.inl (by unfold createBB; simp)
  · intro hw
    constructor
    · intro bb hbb
      unfold createBB at hbb
      simp at hbb
      rcases hbb with hbb | hbb
      · have := hw.1 bb hbb
        unfold createBB
        simp
        omega
      · subst hbb
        unfold createBB
        simp
    · intro b hbmem
      unfold createBB at hbmem
      simp at hbmem
      have h2 := hw.2 b (by simp [hbmem])
      refine ⟨?_, ?_⟩
      · unfold createBB; simp; omega
      · rw [findBlock_createBB_old b (by omega) hw]
        exact h2.2

theorem loc_setCur {s s' : GenState} (b : Nat) (h : Loc s s')
    (hge : s.nextBB ≤ b) (hlt : b < s'.nextBB)
    (hfind : (findBlock s' b).isSome = true) :
    Loc s (setInsertPoint b s') := by
  refine ⟨?_, ?_, ?_, ?_⟩
  · unfold setInsertPoint; simp [h.mono]
  · intro bn bbl hf hne
    have := h.old_blocks bn bbl hf hne
    unfold setInsertPoint findBlock at this ⊢
    simpa using this
  · exact Or.inr ⟨b, by unfold setInsertPoint; simp, hge⟩
  · intro hw
    have hw2 := h.wf hw
    constructor
    · intro bb hbb
      unfold setInsertPoint at hbb
      simp at hbb
      unfold setInsertPoint
      simp
      exact hw2.1 bb hbb
    · intro bn hbmem
      unfold setInsertPoint at hbmem
      simp at hbmem
      subst hbmem
      unfold setInsertPoint
      simp
      refine ⟨hlt, ?_⟩
      unfold findBlock at hfind ⊢
      simpa using hfind

theorem createBB_nextBB (nm : String) (s : GenState) :
    (createBB nm s).2.nextBB = s.nextBB + 1 := rfl

theorem createBB_curBB (nm : String) (s : GenState) :
    (createBB nm s).2.curBB = s.curBB := rfl

theorem createBB_fst (nm : String) (s : GenState) : (createBB nm s).1 = s.nextBB := rfl

theorem appendInstr_nextBB (i : Instr) (s : GenState) :
    (appendInstr i s).nextBB = s.nextBB := by
  cases h : s.curBB
  · rw [appendInstr_eq_none i h]
  · rw [appendInstr_eq_some i h]

theorem appendInstr_curBB (i : Instr) (s : GenState) :
    (appendInstr i s).curBB = s.curBB := by
  cases h : s.curBB
  · rw [appendInstr_eq_none i h, h]
  · rw [appendInstr_eq_some i h, h]

theorem emit_nextBB (i : Instr) (t : Ty) (s : GenState) :
    (emit i t s).2.nextBB = s.nextBB := by
  unfold emit
  simp [appendInstr_nextBB]

theorem emit_curBB (i : Instr) (t : Ty) (s : GenState) :
    (emit i t s).2.curBB = s.curBB := by
  unfold emit
  simp [appendInstr_curBB]

theorem ensureInt1_nextBB (v : Val) (s : GenState) :
    (ensureInt1 v s).2.nextBB = s.nextBB := by
  unfold ensureInt1
  split
  · exact emit_nextBB _ _ _
  · rfl

theorem ensureInt1_curBB (v : Val) (s : GenState) :
    (ensureInt1 v s).2.curBB = s.curBB := by
  unfold ensureInt1
  split
  · exact emit_curBB _ _ _
  · rfl

theorem ensureInt32_nextBB (v : Val) (s : GenState) :
    (ensureInt32 v s).2.nextBB = s.nextBB := by
  unfold ensureInt32
  split
  · exact emit_nextBB _ _ _
  · rfl

theorem loc_ensureInt1 (v : Val) (s : GenState) : Loc s (ensureInt1 v s).2 := by
  unfold ensureInt1
  split
  · exact loc_emit _ _ _
  · exact Loc.refl

theorem loc_ensureInt32 (v : Val) (s : GenState) : Loc s (ensureInt32 v s).2 := by
  unfold ensureInt32
  split
  · exact loc_emit _ _ _
  · exact Loc.refl

theorem loc_if_emit (c : Bool) (i : Instr) (t : Ty) (v : Val) (s : GenState) :
    Loc s (if c then emit i t s else (v, s)).2 := by
  cases c
  · exact Loc.refl
  · exact loc_emit _ _ _

theorem loc_if_emit2 (c : Bool) (i1 : Instr) (t1 : Ty) (i2 : Instr) (t2 : Ty)
    (s : GenState) : Loc s (if c then emit i1 t1 s else emit i2 t2 s).2 := by
  cases c
  · exact loc_emit _ _ _
  · exact loc_emit _ _ _

theorem cur_ne_fresh {s : GenState} {b : Nat} (hwf : WFSt s) (hge : s.nextBB ≤ b) :
    s.curBB ≠ some b := by
  intro h
  have := (hwf.2 b (by simp [h])).1
  omega

theorem Loc.cur_ne {s s' : GenState} (h : Loc s s') {X : Nat} (hlt : X < s.nextBB)
    (hne : s.curBB ≠ some X) : s'.curBB ≠ some X := by
  rcases h.cur_fresh with hc | ⟨b, hb, hge⟩
  · rw [hc]; exact hne
  · rw [hb]
    intro heq
    have : b = X := by injection heq
    omega

theorem loc_visitLVal (node : LVal) (load : Bool) (s : GenState) :
    Loc s (visitLVal node load s).2 := by
  unfold visitLVal
  rcases stLookup s.symtab node.ident with _ | info
  · exact loc_addDiag _ _
  · by_cases h : load = true
    · subst h
      simp only [if_true]
      rcases info.value with _ | _ | _ | _ | _ | _ | _ | _ <;>
        first
          | exact loc_emit _ _ _
          | exact Loc.refl
    · simp only [Bool.not_eq_true] at h
      subst h
      simp only [Bool.false_eq_true, if_false]
      exact Loc.refl

theorem loc_visitNumber (node : Number) (s : GenState) :
    Loc s (visitNumber node s).2 := by
  unfold visitNumber
  split
  · exact Loc.refl
  · exact Loc.refl

mutual

theorem loc_visitExp : ∀ (e : Exp) (s : GenState), WFSt s → Loc s (visitExp e s).2
  | .addE e, s, hwf => by simp only [visitExp]; exact loc_visitAddExp e s hwf
  | .mulE e, s, hwf => by simp only [visitExp]; exact loc_visitMulExp e s hwf
  | .unaryE e, s, hwf => by simp only [visitExp]; exact loc_visitUnaryExp e s hwf
  | .primaryE e, s, hwf => by simp only [visitExp]; exact loc_visitPrimaryExp e s hwf
  | .lvalE e, s, _ => by simp only [visitExp]; exact loc_visitLVal e true s
  | .numberE e, s, _ => by simp only [visitExp]; exact loc_visitNumber e s
  | .relE e, s, hwf => by simp only [visitExp]; exact loc_visitRelExp e s hwf
  | .eqE e, s, hwf => by simp only [visitExp]; exact loc_visitEqExp e s hwf
  | .landE e, s, hwf => by simp only [visitExp]; exact loc_visitLAndExp e s hwf
  | .lorE e, s, hwf => by simp only [visitExp]; exact loc_visitLOrExp e s hwf

theorem loc_visitExpOpt : ∀ (o : Option Exp) (s : GenState), WFSt s → Loc s (visitExpOpt o s).2
  | some e, s, hwf => by simp only [visitExpOpt]; exact loc_visitExp e s hwf
  | none, s, _ => by simp only [visitExpOpt]; exact Loc.refl

theorem loc_visitPrimaryExp : ∀ (p : PrimaryExp) (s : GenState), WFSt s → Loc s (visitPrimaryExp p s).2
  | .mk .PAREN_EXP e _ _, s, hwf => by simp only [visitPrimaryExp]; exact loc_visitExpOpt e s hwf
  | .mk .LVAL _ (some l) _, s, _ => by simp only [visitPrimaryExp]; exact loc_visitLVal l true s
  | .mk .LVAL _ none _, s, _ => by simp only [visitPrimaryExp]; exact Loc.refl
  | .mk .NUMBER _ _ (some n), s, _ => by simp only [visitPrimaryExp]; exact loc_visitNumber n s
  | .mk .NUMBER _ _ none, s, _ => by simp only [visitPrimaryExp]; exact Loc.refl

theorem loc_visitPrimaryExpOpt : ∀ (o : Option PrimaryExp) (s : GenState), WFSt s → Loc s (visitPrimaryExpOpt o s).2
  | some p, s, hwf => by simp only [visitPrimaryExpOpt]; exact loc_visitPrimaryExp p s hwf
  | none, s, _ => by simp only [visitPrimaryExpOpt]; exact Loc.refl

theorem loc_visitUnaryExp : ∀ (u : UnaryExp) (s : GenState), WFSt s → Loc s (visitUnaryExp u s).2
  | .mk .PRIMARY p _ _ _ _, s, hwf => by
    simp only [visitUnaryExp]; exact loc_visitPrimaryExpOpt p s hwf
  | .mk .FUNC_CALL _ fname args _ _, s, hwf => by
    simp only [visitUnaryExp]
    split
    · exact loc_addDiag _ _
    · have L1 : Loc s (visitArgs args s).2 := loc_visitArgs args s hwf
      exact Loc.trans hwf L1 (loc_emit _ _ _)
  | .mk .UNARY_OP _ _ _ op u, s, hwf => by
    simp only [visitUnaryExp]
    have L1 : Loc s (visitUnaryExpOpt u s).2 := loc_visitUnaryExpOpt u s hwf
    cases op with
    | PLUS => exact L1
    | MINUS => exact Loc.trans hwf L1 (loc_if_emit2 _ _ _ _ _ _)
    | NOT => exact Loc.trans hwf L1 (loc_emit _ _ _)

theorem loc_visitUnaryExpOpt : ∀ (o : Option UnaryExp) (s : GenState), WFSt s → Loc s (visitUnaryExpOpt o s).2
  | some u, s, hwf => by simp only [visitUnaryExpOpt]; exact loc_visitUnaryExp u s hwf
  | none, s, _ => by simp only [visitUnaryExpOpt]; exact Loc.refl

theorem loc_visitArgs : ∀ (l : List (Option Exp)) (s : GenState), WFSt s → Loc s (visitArgs l s).2
  | [], s, _ => by simp only [visitArgs]; exact Loc.refl
  | a :: rest, s, hwf => by
    simp only [visitArgs]
    have L1 : Loc s (visitExpOpt a s).2 := loc_visitExpOpt a s hwf
    exact Loc.trans hwf L1 (loc_visitArgs rest _ (L1.wf hwf))

theorem loc_visitMulExp : ∀ (m : MulExp) (s : GenState), WFSt s → Loc s (visitMulExp m s).2
  | .mk none _ r, s, hwf => by simp only [visitMulExp]; exact loc_visitUnaryExpOpt r s hwf
  | .mk (some l) op r, s, hwf => by
    simp only [visitMulExp]
    have L1 : Loc s (visitMulExp l s).2 := loc_visitMulExp l s hwf
    set pl := visitMulExp l s with hpl
    have L2 : Loc s (visitUnaryExpOpt r pl.2).2 :=
      Loc.trans hwf L1 (loc_visitUnaryExpOpt r pl.2 (L1.wf hwf))
    set pr := visitUnaryExpOpt r pl.2 with hpr
    have L3 : Loc s (if (pl.1.isFloatTy || pr.1.isFloatTy) && pl.1.isInt32Ty then
        emit (.sitofp pl.1 .flt) .flt pr.2 else (pl.1, pr.2)).2 :=
      Loc.trans hwf L2 (loc_if_emit _ _ _ _ _)
    set ql := (if (pl.1.isFloatTy || pr.1.isFloatTy) && pl.1.isInt32Ty then
        emit (.sitofp pl.1 .flt) .flt pr.2 else (pl.1, pr.2)) with hql
    have L4 : Loc s (if (pl.1.isFloatTy || pr.1.isFloatTy) && pr.1.isInt32Ty then
        emit (.sitofp pr.1 .flt) .flt ql.2 else (pr.1, ql.2)).2 :=
      Loc.trans hwf L3 (loc_if_emit _ _ _ _ _)
    set qr := (if (pl.1.isFloatTy || pr.1.isFloatTy) && pr.1.isInt32Ty then
        emit (.sitofp pr.1 .flt) .flt ql.2 else (pr.1, ql.2)) with hqr
    cases op <;>
      first
        | exact Loc.trans hwf L4 (loc_if_emit2 _ _ _ _ _ _)
        | exact Loc.trans hwf L4 (loc_emit _ _ _)
        | exact L4

theorem loc_visitMulExpOpt : ∀ (o : Option MulExp) (s : GenState), WFSt s → Loc s (visitMulExpOpt o s).2
  | some m, s, hwf => by simp only [visitMulExpOpt]; exact loc_visitMulExp m s hwf
  | none, s, _ => by simp only [visitMulExpOpt]; exact Loc.refl

theorem loc_visitAddExp : ∀ (a : AddExp) (s : GenState), WFSt s → Loc s (visitAddExp a s).2
  | .mk none _ r, s, hwf => by simp only [visitAddExp]; exact loc_visitMulExpOpt r s hwf
  | .mk (some l) op r, s, hwf => by
    simp only [visitAddExp]
    have L1 : Loc s (visitAddExp l s).2 := loc_visitAddExp l s hwf
    set pl := visitAddExp l s with hpl
    have L2 : Loc s (visitMulExpOpt r pl.2).2 :=
      Loc.trans hwf L1 (loc_visitMulExpOpt r pl.2 (L1.wf hwf))
    set pr := visitMulExpOpt r pl.2 with hpr
    have L3 : Loc s (if (pl.1.isFloatTy || pr.1.isFloatTy) && pl.1.isInt32Ty then
        emit (.sitofp pl.1 .flt) .flt pr.2 else (pl.1, pr.2)).2 :=
      Loc.trans hwf L2 (loc_if_emit _ _ _ _ _)
    set ql := (if (pl.1.isFloatTy || pr.1.isFloatTy) && pl.1.isInt32Ty then
        emit (.sitofp pl.1 .flt) .flt pr.2 else (pl.1, pr.2)) with hql
    have L4 : Loc s (if (pl.1.isFloatTy || pr.1.isFloatTy) && pr.1.isInt32Ty then
        emit (.sitofp pr.1 .flt) .flt ql.2 else (pr.1, ql.2)).2 :=
      Loc.trans hwf L3 (loc_if_emit _ _ _ _ _)
    set qr := (if (pl.1.isFloatTy || pr.1.isFloatTy) && pr.1.isInt32Ty then
        emit (.sitofp pr.1 .flt) .flt ql.2 else (pr.1, ql.2)) with hqr
    cases op <;>
      first
        | exact Loc.trans hwf L4 (loc_if_emit2 _ _ _ _ _ _)
        | exact L4

theorem loc_visitRelExp : ∀ (n : RelExp) (s : GenState), WFSt s → Loc s (visitRelExp n s).2
  | .mk none _ r, s, hwf => by simp only [visitRelExp]; exact loc_visitAddExpOpt r s hwf
  | .mk (some l) op r, s, hwf => by
    simp only [visitRelExp]
    have L0 : Loc s (visitRelExp l s).2 := loc_visitRelExp l s hwf
    set pl0 := visitRelExp l s with hpl0
    have L1 : Loc s (ensureInt32 pl0.1 pl0.2).2 :=
      Loc.trans hwf L0 (loc_ensureInt32 pl0.1 pl0.2)
    set pl := ensureInt32 pl0.1 pl0.2 with hpl
    have L2 : Loc s (visitAddExpOpt r pl.2).2 :=
      Loc.trans hwf L1 (loc_visitAddExpOpt r pl.2 (L1.wf hwf))
    set pr := visitAddExpOpt r pl.2 with hpr
    have L3 : Loc s (if (pl.1.isFloatTy || pr.1.isFloatTy) && pl.1.isInt32Ty then
        emit (.sitofp pl.1 .flt) .flt pr.2 else (pl.1, pr.2)).2 :=
      Loc.trans hwf L2 (loc_if_emit _ _ _ _ _)
    set ql := (if (pl.1.isFloatTy || pr.1.isFloatTy) && pl.1.isInt32Ty then
        emit (.sitofp pl.1 .flt) .flt pr.2 else (pl.1, pr.2)) with hql
    have L4 : Loc s (if (pl.1.isFloatTy || pr.1.isFloatTy) && pr.1.isInt32Ty then
        emit (.sitofp pr.1 .flt) .flt ql.2 else (pr.1, ql.2)).2 :=
      Loc.trans hwf L3 (loc_if_emit _ _ _ _ _)
    set qr := (if (pl.1.isFloatTy || pr.1.isFloatTy) && pr.1.isInt32Ty then
        emit (.sitofp pr.1 .flt) .flt ql.2 else (pr.1, ql.2)) with hqr
    cases op <;> exact Loc.trans hwf L4 (loc_if_emit2 _ _ _ _ _ _)

theorem loc_visitEqExp : ∀ (n : EqExp) (s : GenState), WFSt s → Loc s (visitEqExp n s).2
  | .mk none _ r, s, hwf => by simp only [visitEqExp]; exact loc_visitRelExpOpt r s hwf
  | .mk (some l) op r, s, hwf => by
    simp only [visitEqExp]
    have L0 : Loc s (visitEqExp l s).2 := loc_visitEqExp l s hwf
    set pl0 := visitEqExp l s with hpl0
    have L1 : Loc s (ensureInt32 pl0.1 pl0.2).2 :=
      Loc.trans hwf L0 (loc_ensureInt32 pl0.1 pl0.2)
    set pl := ensureInt32 pl0.1 pl0.2 with hpl
    have L2 : Loc s (visitRelExpOpt r pl.2).2 :=
      Loc.trans hwf L1 (loc_visitRelExpOpt r pl.2 (L1.wf hwf))
    set pr0 := visitRelExpOpt r pl.2 with hpr0
    have L2b : Loc s (ensureInt32 pr0.1 pr0.2).2 :=
      Loc.trans hwf L2 (loc_ensureInt32 pr0.1 pr0.2)
    set pr := ensureInt32 pr0.1 pr0.2 with hpr
    have L3 : Loc s (if (pl.1.isFloatTy || pr.1.isFloatTy) && pl.1.isInt32Ty then
        emit (.sitofp pl.1 .flt) .flt pr.2 else (pl.1, pr.2)).2 :=
      Loc.trans hwf L2b (loc_if_emit _ _ _ _ _)
    set ql := (if (pl.1.isFloatTy || pr.1.isFloatTy) && pl.1.isInt32Ty then
        emit (.sitofp pl.1 .flt) .flt pr.2 else (pl.1, pr.2)) with hql
    have L4 : Loc s (if (pl.1.isFloatTy || pr.1.isFloatTy) && pr.1.isInt32Ty then
        emit (.sitofp pr.1 .flt) .flt ql.2 else (pr.1, ql.2)).2 :=
      Loc.trans hwf L3 (loc_if_emit _ _ _ _ _)
    set qr := (if (pl.1.isFloatTy || pr.1.isFloatTy) && pr.1.isInt32Ty then
        emit (.sitofp pr.1 .flt) .flt ql.2 else (pr.1, ql.2)) with hqr
    cases op <;> exact Loc.trans hwf L4 (loc_if_emit2 _ _ _ _ _ _)

theorem loc_visitRelExpOpt : ∀ (o : Option RelExp) (s : GenState), WFSt s → Loc s (visitRelExpOpt o s).2
  | some n, s, hwf => by simp only [visitRelExpOpt]; exact loc_visitRelExp n s hwf
  | none, s, _ => by simp only [visitRelExpOpt]; exact Loc.refl

theorem loc_visitEqExpOpt : ∀ (o : Option EqExp) (s : GenState), WFSt s → Loc s (visitEqExpOpt o s).2
  | some n, s, hwf => by simp only [visitEqExpOpt]; exact loc_visitEqExp n s hwf
  | none, s, _ => by simp only [visitEqExpOpt]; exact Loc.refl

theorem loc_visitAddExpOpt : ∀ (o : Option AddExp) (s : GenState), WFSt s → Loc s (visitAddExpOpt o s).2
  | some n, s, hwf => by simp only [visitAddExpOpt]; exact loc_visitAddExp n s hwf
  | none, s, _ => by simp only [visitAddExpOpt]; exact Loc.refl

theorem loc_visitLAndExp : ∀ (n : LAndExp) (s : GenState), WFSt s → Loc s (visitLAndExp n s).2
  | .mk none r, s, hwf => by simp only [visitLAndExp]; exact loc_visitEqExpOpt r s hwf
  | .mk (some l) r, s, hwf => by
    simp only [visitLAndExp]
    have LA : Loc s (createBB "" s).2 := loc_createBB "" s hwf
    set A := createBB "" s with hA
    have WA : WFSt A.2 := LA.wf hwf
    have LB0 : Loc A.2 (createBB "" A.2).2 := loc_createBB "" A.2 WA
    have LB : Loc s (createBB "" A.2).2 := Loc.trans hwf LA LB0
    set B := createBB "" A.2 with hB
    have WB : WFSt B.2 := LB.wf hwf
    have q10 : A.1 = s.nextBB := rfl
    have q1 : B.1 = s.nextBB + 1 := rfl
    have q2 : B.2.nextBB = s.nextBB + 2 := rfl
    have Lc0 : Loc B.2 (visitLAndExp l B.2).2 := loc_visitLAndExp l B.2 WB
    have Lpl0 : Loc s (visitLAndExp l B.2).2 := Loc.trans hwf LB Lc0
    set pl0 := visitLAndExp l B.2 with hpl0
    have Le1 : Loc pl0.2 (ensureInt1 pl0.1 pl0.2).2 := loc_ensureInt1 pl0.1 pl0.2
    have Lpl : Loc s (ensureInt1 pl0.1 pl0.2).2 := Loc.trans hwf Lpl0 Le1
    set pl := ensureInt1 pl0.1 pl0.2 with hpl
    have La1 : Loc pl.2 (appendInstr (Instr.condBr pl.1 A.1 B.1) pl.2) :=
      loc_appendInstr _ pl.2
    have Ls1 : Loc s (appendInstr (Instr.condBr pl.1 A.1 B.1) pl.2) :=
      Loc.trans hwf Lpl La1
    set s1 := appendInstr (Instr.condBr pl.1 A.1 B.1) pl.2 with hs1
    have q3 : B.2.nextBB ≤ pl0.2.nextBB := Lc0.mono
    have q4 : pl.2.nextBB = pl0.2.nextBB := ensureInt1_nextBB _ _
    have q5 : s1.nextBB = pl.2.nextBB := appendInstr_nextBB _ _
    -- the rhs block survives from its creation to s1
    have f0 : findBlock A.2 A.1 = some ⟨s.nextBB, "", s.curFn.getD "", []⟩ :=
      findBlock_createBB_new hwf
    have hneAB : A.1 ≠ A.2.nextBB := by
      show s.nextBB ≠ s.nextBB + 1
      omega
    have f1 : findBlock B.2 A.1 = some ⟨s.nextBB, "", s.curFn.getD "", []⟩ := by
      rw [hB, findBlock_createBB_old A.1 hneAB WA]
      exact f0
    have hcurB_neA : B.2.curBB ≠ some A.1 :=
      show s.curBB ≠ some A.1 from cur_ne_fresh hwf (Nat.le_refl _)
    have f2 : findBlock pl0.2 A.1 = some ⟨s.nextBB, "", s.curFn.getD "", []⟩ :=
      Lc0.old_blocks A.1 _ f1 hcurB_neA
    have hcur_pl0_neA : pl0.2.curBB ≠ some A.1 :=
      Lc0.cur_ne (by rw [q10, q2]; omega) hcurB_neA
    have f3 : findBlock pl.2 A.1 = some ⟨s.nextBB, "", s.curFn.getD "", []⟩ :=
      Le1.old_blocks A.1 _ f2 hcur_pl0_neA
    have hcur_pl_neA : pl.2.curBB ≠ some A.1 := by
      rw [hpl, ensureInt1_curBB]
      exact hcur_pl0_neA
    have f4 : findBlock s1 A.1 = some ⟨s.nextBB, "", s.curFn.getD "", []⟩ :=
      La1.old_blocks A.1 _ f3 hcur_pl_neA
    have Ls2 : Loc s (setInsertPoint A.1 s1) :=
      loc_setCur A.1 Ls1 (Nat.le_refl _) (by omega) (by rw [f4]; rfl)
    set s2 := setInsertPoint A.1 s1 with hs2
    have q6 : s2.nextBB = s1.nextBB := rfl
    have Lr0 : Loc s2 (visitEqExpOpt r s2).2 := loc_visitEqExpOpt r s2 (Ls2.wf hwf)
    have Lpr0 : Loc s (visitEqExpOpt r s2).2 := Loc.trans hwf Ls2 Lr0
    set pr0 := visitEqExpOpt r s2 with hpr0
    have Le2 : Loc pr0.2 (ensureInt1 pr0.1 pr0.2).2 := loc_ensureInt1 pr0.1 pr0.2
    have Lpr : Loc s (ensureInt1 pr0.1 pr0.2).2 := Loc.trans hwf Lpr0 Le2
    set pr := ensureInt1 pr0.1 pr0.2 with hpr
    have La2 : Loc pr.2 (appendInstr (Instr.br B.1) pr.2) := loc_appendInstr _ pr.2
    have Ls3 : Loc s (appendInstr (Instr.br B.1) pr.2) := Loc.trans hwf Lpr La2
    set s3 := appendInstr (Instr.br B.1) pr.2 with hs3
    have q7 : s2.nextBB ≤ pr0.2.nextBB := Lr0.mono
    have q8 : pr.2.nextBB = pr0.2.nextBB := ensureInt1_nextBB _ _
    have q9 : s3.nextBB = pr.2.nextBB := appendInstr_nextBB _ _
    -- the merge block survives from its creation to s3
    have g0 : findBlock B.2 B.1 = some ⟨s.nextBB + 1, "", s.curFn.getD "", []⟩ :=
      findBlock_createBB_new WA
    have hcurB_neB : B.2.curBB ≠ some B.1 :=
      show s.curBB ≠ some B.1 from cur_ne_fresh hwf (Nat.le_succ _)
    have g1 : findBlock pl0.2 B.1 = some ⟨s.nextBB + 1, "", s.curFn.getD "", []⟩ :=
      Lc0.old_blocks B.1 _ g0 hcurB_neB
    have hcur_pl0_neB : pl0.2.curBB ≠ some B.1 :=
      Lc0.cur_ne (by rw [q1, q2]; omega) hcurB_neB
    have g2 : findBlock pl.2 B.1 = some ⟨s.nextBB + 1, "", s.curFn.getD "", []⟩ :=
      Le1.old_blocks B.1 _ g1 hcur_pl0_neB
    have hcur_pl_neB : pl.2.curBB ≠ some B.1 := by
      rw [hpl, ensureInt1_curBB]
      exact hcur_pl0_neB
    have g3 : findBlock s1 B.1 = some ⟨s.nextBB + 1, "", s.curFn.getD "", []⟩ :=
      La1.old_blocks B.1 _ g2 hcur_pl_neB
    have g4 : findBlock s2 B.1 = some ⟨s.nextBB + 1, "", s.curFn.getD "", []⟩ := g3
    have hcur_s2_neB : s2.curBB ≠ some B.1 := by
      intro h
      have h2 : some A.1 = some B.1 := h
      injection h2 with h3
      omega
    have g5 : findBlock pr0.2 B.1 = some ⟨s.nextBB + 1, "", s.curFn.getD "", []⟩ :=
      Lr0.old_blocks B.1 _ g4 hcur_s2_neB
    have hcur_pr0_neB : pr0.2.curBB ≠ some B.1 :=
      Lr0.cur_ne (by omega) hcur_s2_neB
    have g6 : findBlock pr.2 B.1 = some ⟨s.nextBB + 1, "", s.curFn.getD "", []⟩ :=
      Le2.old_blocks B.1 _ g5 hcur_pr0_neB
    have hcur_pr_neB : pr.2.curBB ≠ some B.1 := by
      rw [hpr, ensureInt1_curBB]
      exact hcur_pr0_neB
    have g7 : findBlock s3 B.1 = some ⟨s.nextBB + 1, "", s.curFn.getD "", []⟩ :=
      La2.old_blocks B.1 _ g6 hcur_pr_neB
    have Ls4 : Loc s (setInsertPoint B.1 s3) :=
      loc_setCur B.1 Ls3 (by omega) (by omega) (by rw [g7]; rfl)
    exact Loc.trans hwf Ls4 (loc_emit _ _ _)

theorem loc_visitLOrExp : ∀ (n : LOrExp) (s : GenState), WFSt s → Loc s (visitLOrExp n s).2
  | .mk none r, s, hwf => by simp only [visitLOrExp]; exact loc_visitLAndExpOpt r s hwf
  | .mk (some l) r, s, hwf => by
    simp only [visitLOrExp]
    have LA : Loc s (createBB "" s).2 := loc_createBB "" s hwf
    set A := createBB "" s with hA
    have WA : WFSt A.2 := LA.wf hwf
    have LB0 : Loc A.2 (createBB "" A.2).2 := loc_createBB "" A.2 WA
    have LB : Loc s (createBB "" A.2).2 := Loc.trans hwf LA LB0
    set B := createBB "" A.2 with hB
    have WB : WFSt B.2 := LB.wf hwf
    have q10 : A.1 = s.nextBB := rfl
    have q1 : B.1 = s.nextBB + 1 := rfl
    have q2 : B.2.nextBB = s.nextBB + 2 := rfl
    have Lc0 : Loc B.2 (visitLOrExp l B.2).2 := loc_visitLOrExp l B.2 WB
    have Lpl0 : Loc s (visitLOrExp l B.2).2 := Loc.trans hwf LB Lc0
    set pl0 := visitLOrExp l B.2 with hpl0
    have Le1 : Loc pl0.2 (ensureInt1 pl0.1 pl0.2).2 := loc_ensureInt1 pl0.1 pl0.2
    have Lpl : Loc s (ensureInt1 pl0.1 pl0.2).2 := Loc.trans hwf Lpl0 Le1
    set pl := ensureInt1 pl0.1 pl0.2 with hpl
    have La1 : Loc pl.2 (appendInstr (Instr.condBr pl.1 B.1 A.1) pl.2) :=
      loc_appendInstr _ pl.2
    have Ls1 : Loc s (appendInstr (Instr.condBr pl.1 B.1 A.1) pl.2) :=
      Loc.trans hwf Lpl La1
    set s1 := appendInstr (Instr.condBr pl.1 B.1 A.1) pl.2 with hs1
    have q3 : B.2.nextBB ≤ pl0.2.nextBB := Lc0.mono
    have q4 : pl.2.nextBB = pl0.2.nextBB := ensureInt1_nextBB _ _
    have q5 : s1.nextBB = pl.2.nextBB := appendInstr_nextBB _ _
    have f0 : findBlock A.2 A.1 = some ⟨s.nextBB, "", s.curFn.getD "", []⟩ :=
      findBlock_createBB_new hwf
    have hneAB : A.1 ≠ A.2.nextBB := by
      show s.nextBB ≠ s.nextBB + 1
      omega
    have f1 : findBlock B.2 A.1 = some ⟨s.nextBB, "", s.curFn.getD "", []⟩ := by
      rw [hB, findBlock_createBB_old A.1 hneAB WA]
      exact f0
    have hcurB_neA : B.2.curBB ≠ some A.1 :=
      show s.curBB ≠ some A.1 from cur_ne_fresh hwf (Nat.le_refl _)
    have f2 : findBlock pl0.2 A.1 = some ⟨s.nextBB, "", s.curFn.getD "", []⟩ :=
      Lc0.old_blocks A.1 _ f1 hcurB_neA
    have hcur_pl0_neA : pl0.2.curBB ≠ some A.1 :=
      Lc0.cur_ne (by rw [q10, q2]; omega) hcurB_neA
    have f3 : findBlock pl.2 A.1 = some ⟨s.nextBB, "", s.curFn.getD "", []⟩ :=
      Le1.old_blocks A.1 _ f2 hcur_pl0_neA
    have hcur_pl_neA : pl.2.curBB ≠ some A.1 := by
      rw [hpl, ensureInt1_curBB]
      exact hcur_pl0_neA
    have f4 : findBlock s1 A.1 = some ⟨s.nextBB, "", s.curFn.getD "", []⟩ :=
      La1.old_blocks A.1 _ f3 hcur_pl_neA
    have Ls2 : Loc s (setInsertPoint A.1 s1) :=
      loc_setCur A.1 Ls1 (Nat.le_refl _) (by omega) (by rw [f4]; rfl)
    set s2 := setInsertPoint A.1 s1 with hs2
    have q6 : s2.nextBB = s1.nextBB := rfl
    have Lr0 : Loc s2 (visitLAndExpOpt r s2).2 := loc_visitLAndExpOpt r s2 (Ls2.wf hwf)
    have Lpr0 : Loc s (visitLAndExpOpt r s2).2 := Loc.trans hwf Ls2 Lr0
    set pr0 := visitLAndExpOpt r s2 with hpr0
    have Le2 : Loc pr0.2 (ensureInt1 pr0.1 pr0.2).2 := loc_ensureInt1 pr0.1 pr0.2
    have Lpr : Loc s (ensureInt1 pr0.1 pr0.2).2 := Loc.trans hwf Lpr0 Le2
    set pr := ensureInt1 pr0.1 pr0.2 with hpr
    have La2 : Loc pr.2 (appendInstr (Instr.br B.1) pr.2) := loc_appendInstr _ pr.2
    have Ls3 : Loc s (appendInstr (Instr.br B.1) pr.2) := Loc.trans hwf Lpr La2
    set s3 := appendInstr (Instr.br B.1) pr.2 with hs3
    have q7 : s2.nextBB ≤ pr0.2.nextBB := Lr0.mono
    have q8 : pr.2.nextBB = pr0.2.nextBB := ensureInt1_nextBB _ _
    have q9 : s3.nextBB = pr.2.nextBB := appendInstr_nextBB _ _
    have g0 : findBlock B.2 B.1 = some ⟨s.nextBB + 1, "", s.curFn.getD "", []⟩ :=
      findBlock_createBB_new WA
    have hcurB_neB : B.2.curBB ≠ some B.1 :=
      show s.curBB ≠ some B.1 from cur_ne_fresh hwf (Nat.le_succ _)
    have g1 : findBlock pl0.2 B.1 = some ⟨s.nextBB + 1, "", s.curFn.getD "", []⟩ :=
      Lc0.old_blocks B.1 _ g0 hcurB_neB
    have hcur_pl0_neB : pl0.2.curBB ≠ some B.1 :=
      Lc0.cur_ne (by rw [q1, q2]; omega) hcurB_neB
    have g2 : findBlock pl.2 B.1 = some ⟨s.nextBB + 1, "", s.curFn.getD "", []⟩ :=
      Le1.old_blocks B.1 _ g1 hcur_pl0_neB
    have hcur_pl_neB : pl.2.curBB ≠ some B.1 := by
      rw [hpl, ensureInt1_curBB]
      exact hcur_pl0_neB
    have g3 : findBlock s1 B.1 = some ⟨s.nextBB + 1, "", s.curFn.getD "", []⟩ :=
      La1.old_blocks B.1 _ g2 hcur_pl_neB
    have g4 : findBlock s2 B.1 = some ⟨s.nextBB + 1, "", s.curFn.getD "", []⟩ := g3
    have hcur_s2_neB : s2.curBB ≠ some B.1 := by
      intro h
      have h2 : some A.1 = some B.1 := h
      injection h2 with h3
      omega
    have g5 : findBlock pr0.2 B.1 = some ⟨s.nextBB + 1, "", s.curFn.getD "", []⟩ :=
      Lr0.old_blocks B.1 _ g4 hcur_s2_neB
    have hcur_pr0_neB : pr0.2.curBB ≠ some B.1 :=
      Lr0.cur_ne (by omega) hcur_s2_neB
    have g6 : findBlock pr.2 B.1 = some ⟨s.nextBB + 1, "", s.curFn.getD "", []⟩ :=
      Le2.old_blocks B.1 _ g5 hcur_pr0_neB
    have hcur_pr_neB : pr.2.curBB ≠ some B.1 := by
      rw [hpr, ensureInt1_curBB]
      exact hcur_pr0_neB
    have g7 : findBlock s3 B.1 = some ⟨s.nextBB + 1, "", s.curFn.getD "", []⟩ :=
      La2.old_blocks B.1 _ g6 hcur_pr_neB
    have Ls4 : Loc s (setInsertPoint B.1 s3) :=
      loc_setCur B.1 Ls3 (by omega) (by omega) (by rw [g7]; rfl)
    exact Loc.trans hwf Ls4 (loc_emit _ _ _)

theorem loc_visitLAndExpOpt : ∀ (o : Option LAndExp) (s : GenState), WFSt s → Loc s (visitLAndExpOpt o s).2
  | some n, s, hwf => by simp only [visitLAndExpOpt]; exact loc_visitLAndExp n s hwf
  | none, s, _ => by simp only [visitLAndExpOpt]; exact Loc.refl

end

theorem loc_visitCond (n : Cond) (s : GenState) (hwf : WFSt s) :
    Loc s (visitCond n s).2 := by
  unfold visitCond
  rcases n.lOrExp with _ | o
  · exact Loc.refl
  · exact loc_visitLOrExp o s hwf

theorem loc_symtab_only {s : GenState} (st : SymTable) :
    Loc s { s with symtab := st } := loc_of_frame_eq rfl rfl rfl

theorem loc_visitConstDef (node : ConstDef) (bt : BType) (s : GenState)
    (hwf : WFSt s) : Loc s (visitConstDef node bt s) := by
  simp only [visitConstDef]
  split
  · exact loc_addDiag _ _
  · split
    · exact loc_of_frame_eq rfl rfl rfl
    · have La : Loc s (createLocalVariable (bTypeToLLVMType bt) s).2 :=
        loc_emit _ _ _
      set a := createLocalVariable (bTypeToLLVMType bt) s with ha
      rcases node.initVal with _ | iv
      · exact Loc.trans hwf La (loc_of_frame_eq rfl rfl rfl)
      · have Lv : Loc s (visitExp iv a.2).2 :=
          Loc.trans hwf La (loc_visitExp iv a.2 (La.wf hwf))
        have Ls2 : Loc s (appendInstr (Instr.store (visitExp iv a.2).1 a.1) (visitExp iv a.2).2) :=
          Loc.trans hwf Lv (loc_appendInstr _ _)
        exact Loc.trans hwf Ls2 (loc_of_frame_eq rfl rfl rfl)

theorem loc_visitVarDef (node : VarDef) (bt : BType) (s : GenState)
    (hwf : WFSt s) : Loc s (visitVarDef node bt s) := by
  simp only [visitVarDef]
  split
  · exact loc_addDiag _ _
  · split
    · exact loc_of_frame_eq rfl rfl rfl
    · have La : Loc s (createLocalVariable (bTypeToLLVMType bt) s).2 :=
        loc_emit _ _ _
      set a := createLocalVariable (bTypeToLLVMType bt) s with ha
      rcases node.initVal with _ | iv
      · exact Loc.trans hwf La (loc_of_frame_eq rfl rfl rfl)
      · have Lv : Loc s (visitExp iv a.2).2 :=
          Loc.trans hwf La (loc_visitExp iv a.2 (La.wf hwf))
        have Ls2 : Loc s (appendInstr (Instr.store (visitExp iv a.2).1 a.1) (visitExp iv a.2).2) :=
          Loc.trans hwf Lv (loc_appendInstr _ _)
        exact Loc.trans hwf Ls2 (loc_of_frame_eq rfl rfl rfl)

theorem loc_visitConstDefs : ∀ (l : List (Option ConstDef)) (bt : BType) (s : GenState),
    WFSt s → Loc s (visitConstDefs l bt s)
  | [], _, s, _ => by simp only [visitConstDefs]; exact Loc.refl
  | some d :: rest, bt, s, hwf => by
    simp only [visitConstDefs]
    have L1 : Loc s (visitConstDef d bt s) := loc_visitConstDef d bt s hwf
    exact Loc.trans hwf L1 (loc_visitConstDefs rest bt _ (L1.wf hwf))
  | none :: rest, bt, s, hwf => by
    simp only [visitConstDefs]
    exact loc_visitConstDefs rest bt s hwf

theorem loc_visitVarDefs : ∀ (l : List (Option VarDef)) (bt : BType) (s : GenState),
    WFSt s → Loc s (visitVarDefs l bt s)
  | [], _, s, _ => by simp only [visitVarDefs]; exact Loc.refl
  | some d :: rest, bt, s, hwf => by
    simp only [visitVarDefs]
    have L1 : Loc s (visitVarDef d bt s) := loc_visitVarDef d bt s hwf
    exact Loc.trans hwf L1 (loc_visitVarDefs rest bt _ (L1.wf hwf))
  | none :: rest, bt, s, hwf => by
    simp only [visitVarDefs]
    exact loc_visitVarDefs rest bt s hwf

theorem loc_visitDecl (d : Decl) (s : GenState) (hwf : WFSt s) :
    Loc s (visitDecl d s) := by
  rcases d with c | v
  · simp only [visitDecl, visitConstDecl]
    exact loc_visitConstDefs c.constDefs c.bType s hwf
  · simp only [visitDecl, visitVarDecl]
    exact loc_visitVarDefs v.varDefs v.bType s hwf

/-- Shared tail of the if-statement lowering when no else block exists:
then block id `s.nextBB`, merge block id `s.nextBB + 1`, both already
present in `spc` (the state after the condition was evaluated and
coerced). -/
theorem loc_ifTail_noelse (s spc : GenState) (hwf : WFSt s) (pcv : Val)
    (armF : GenState → GenState)
    (harm : ∀ t, WFSt t → Loc t (armF t))
    (hL : Loc s spc)
    (bA bB : BBlock)
    (hfA : findBlock spc s.nextBB = some bA)
    (hfB : findBlock spc (s.nextBB + 1) = some bB)
    (hcurA : spc.curBB ≠ some s.nextBB)
    (hcurB : spc.curBB ≠ some (s.nextBB + 1))
    (hnext : s.nextBB + 2 ≤ spc.nextBB) :
    Loc s (setInsertPoint (s.nextBB + 1)
      (if curHasTerminator
          (armF (setInsertPoint s.nextBB
            (appendInstr (Instr.condBr pcv s.nextBB (s.nextBB + 1)) spc)))
       then armF (setInsertPoint s.nextBB
            (appendInstr (Instr.condBr pcv s.nextBB (s.nextBB + 1)) spc))
       else appendInstr (Instr.br (s.nextBB + 1))
            (armF (setInsertPoint s.nextBB
              (appendInstr (Instr.condBr pcv s.nextBB (s.nextBB + 1)) spc))))) := by
  have La1 : Loc spc (appendInstr (Instr.condBr pcv s.nextBB (s.nextBB + 1)) spc) :=
    loc_appendInstr _ spc
  have Ls1 : Loc s (appendInstr (Instr.condBr pcv s.nextBB (s.nextBB + 1)) spc) :=
    Loc.trans hwf hL La1
  set s1 := appendInstr (Instr.condBr pcv s.nextBB (s.nextBB + 1)) spc with hs1
  have q1 : s1.nextBB = spc.nextBB := appendInstr_nextBB _ _
  have fA1 : findBlock s1 s.nextBB = some bA := La1.old_blocks _ _ hfA hcurA
  have gB1 : findBlock s1 (s.nextBB + 1) = some bB := La1.old_blocks _ _ hfB hcurB
  have Ls2 : Loc s (setInsertPoint s.nextBB s1) :=
    loc_setCur s.nextBB Ls1 (Nat.le_refl _) (by omega) (by rw [fA1]; rfl)
  set s2 := setInsertPoint s.nextBB s1 with hs2
  have q2 : s2.nextBB = s1.nextBB := rfl
  have L3 : Loc s2 (armF s2) := harm s2 (Ls2.wf hwf)
  have Ls3 : Loc s (armF s2) := Loc.trans hwf Ls2 L3
  set s3 := armF s2 with hs3
  have q3 : s2.nextBB ≤ s3.nextBB := L3.mono
  have gB2 : findBlock s2 (s.nextBB + 1) = some bB := gB1
  have hcur_s2_neB : s2.curBB ≠ some (s.nextBB + 1) := by
    intro h
    have h2 : some s.nextBB = some (s.nextBB + 1) := h
    injection h2 with h3
    omega
  have gB3 : findBlock s3 (s.nextBB + 1) = some bB :=
    L3.old_blocks _ _ gB2 hcur_s2_neB
  have hcur_s3_neB : s3.curBB ≠ some (s.nextBB + 1) :=
    L3.cur_ne (by omega) hcur_s2_neB
  have Ls4 : Loc s (if curHasTerminator s3 then s3
      else appendInstr (Instr.br (s.nextBB + 1)) s3) := by
    split
    · exact Ls3
    · exact Loc.trans hwf Ls3 (loc_appendInstr _ _)
  set s4 := (if curHasTerminator s3 then s3
      else appendInstr (Instr.br (s.nextBB + 1)) s3) with hs4
  have q4 : s4.nextBB = s3.nextBB := by
    rw [hs4]
    split
    · rfl
    · exact appendInstr_nextBB _ _
  have gB4 : findBlock s4 (s.nextBB + 1) = some bB := by
    rw [hs4]
    split
    · exact gB3
    · exact (loc_appendInstr _ _).old_blocks _ _ gB3 hcur_s3_neB
  exact loc_setCur (s.nextBB + 1) Ls4 (by omega) (by omega) (by rw [gB4]; rfl)

/-- Shared tail of the if-statement lowering with an else block:
then/else/merge block ids `s.nextBB`, `s.nextBB + 1`, `s.nextBB + 2`. -/
theorem loc_ifTail_else (s spc : GenState) (hwf : WFSt s) (pcv : Val)
    (armT armE : GenState → GenState)
    (harmT : ∀ t, WFSt t → Loc t (armT t))
    (harmE : ∀ t, WFSt t → Loc t (armE t))
    (hL : Loc s spc)
    (bA bE bB : BBlock)
    (hfA : findBlock spc s.nextBB = some bA)
    (hfE : findBlock spc (s.nextBB + 1) = some bE)
    (hfB : findBlock spc (s.nextBB + 2) = some bB)
    (hcurA : spc.curBB ≠ some s.nextBB)
    (hcurE : spc.curBB ≠ some (s.nextBB + 1))
    (hcurB : spc.curBB ≠ some (s.nextBB + 2))
    (hnext : s.nextBB + 3 ≤ spc.nextBB) :
    Loc s (setInsertPoint (s.nextBB + 2)
      (if curHasTerminator
          (armE (setInsertPoint (s.nextBB + 1)
            (if curHasTerminator
                (armT (setInsertPoint s.nextBB
                  (appendInstr (Instr.condBr pcv s.nextBB (s.nextBB + 1)) spc)))
             then armT (setInsertPoint s.nextBB
                  (appendInstr (Instr.condBr pcv s.nextBB (s.nextBB + 1)) spc))
             else appendInstr (Instr.br (s.nextBB + 2))
                  (armT (setInsertPoint s.nextBB
                    (appendInstr (Instr.condBr pcv s.nextBB (s.nextBB + 1)) spc))))))
       then armE (setInsertPoint (s.nextBB + 1)
            (if curHasTerminator
                (armT (setInsertPoint s.nextBB
                  (appendInstr (Instr.condBr pcv s.nextBB (s.nextBB + 1)) spc)))
             then armT (setInsertPoint s.nextBB
                  (appendInstr (Instr.condBr pcv s.nextBB (s.nextBB + 1)) spc))
             else appendInstr (Instr.br (s.nextBB + 2))
                  (armT (setInsertPoint s.nextBB
                    (appendInstr (Instr.condBr pcv s.nextBB (s.nextBB + 1)) spc)))))
       else appendInstr (Instr.br (s.nextBB + 2))
            (armE (setInsertPoint (s.nextBB + 1)
              (if curHasTerminator
                  (armT (setInsertPoint s.nextBB
                    (appendInstr (Instr.condBr pcv s.nextBB (s.nextBB + 1)) spc)))
               then armT (setInsertPoint s.nextBB
                    (appendInstr (Instr.condBr pcv s.nextBB (s.nextBB + 1)) spc))
               else appendInstr (Instr.br (s.nextBB + 2))
                    (armT (setInsertPoint s.nextBB
                      (appendInstr (Instr.condBr pcv s.nextBB (s.nextBB + 1)) spc)))))))) := by
  have La1 : Loc spc (appendInstr (Instr.condBr pcv s.nextBB (s.nextBB + 1)) spc) :=
    loc_appendInstr _ spc
  have Ls1 : Loc s (appendInstr (Instr.condBr pcv s.nextBB (s.nextBB + 1)) spc) :=
    Loc.trans hwf hL La1
  set s1 := appendInstr (Instr.condBr pcv s.nextBB (s.nextBB + 1)) spc with hs1
  have q1 : s1.nextBB = spc.nextBB := appendInstr_nextBB _ _
  have fA1 : findBlock s1 s.nextBB = some bA := La1.old_blocks _ _ hfA hcurA
  have fE1 : findBlock s1 (s.nextBB + 1) = some bE := La1.old_blocks _ _ hfE hcurE
  have gB1 : findBlock s1 (s.nextBB + 2) = some bB := La1.old_blocks _ _ hfB hcurB
  have Ls2 : Loc s (setInsertPoint s.nextBB s1) :=
    loc_setCur s.nextBB Ls1 (Nat.le_refl _) (by omega) (by rw [fA1]; rfl)
  set s2 := setInsertPoint s.nextBB s1 with hs2
  have q2 : s2.nextBB = s1.nextBB := rfl
  have L3 : Loc s2 (armT s2) := harmT s2 (Ls2.wf hwf)
  have Ls3 : Loc s (armT s2) := Loc.trans hwf Ls2 L3
  set s3 := armT s2 with hs3
  have q3 : s2.nextBB ≤ s3.nextBB := L3.mono
  have fE2 : findBlock s2 (s.nextBB + 1) = some bE := fE1
  have gB2 : findBlock s2 (s.nextBB + 2) = some bB := gB1
  have hcur_s2_neE : s2.curBB ≠ some (s.nextBB + 1) := by
    intro h
    have h2 : some s.nextBB = some (s.nextBB + 1) := h
    injection h2 with h3
    omega
  have hcur_s2_neB : s2.curBB ≠ some (s.nextBB + 2) := by
    intro h
    have h2 : some s.nextBB = some (s.nextBB + 2) := h
    injection h2 with h3
    omega
  have fE3 : findBlock s3 (s.nextBB + 1) = some bE :=
    L3.old_blocks _ _ fE2 hcur_s2_neE
  have gB3 : findBlock s3 (s.nextBB + 2) = some bB :=
    L3.old_blocks _ _ gB2 hcur_s2_neB
  have hcur_s3_neE : s3.curBB ≠ some (s.nextBB + 1) :=
    L3.cur_ne (by omega) hcur_s2_neE
  have hcur_s3_neB : s3.curBB ≠ some (s.nextBB + 2) :=
    L3.cur_ne (by omega) hcur_s2_neB
  have Ls4 : Loc s (if curHasTerminator s3 then s3
      else appendInstr (Instr.br (s.nextBB + 2)) s3) := by
    split
    · exact Ls3
    · exact Loc.trans hwf Ls3 (loc_appendInstr _ _)
  set s4 := (if curHasTerminator s3 then s3
      else appendInstr (Instr.br (s.nextBB + 2)) s3) with hs4
  have q4 : s4.nextBB = s3.nextBB := by
    rw [hs4]
    split
    · rfl
    · exact appendInstr_nextBB _ _
  have fE4 : findBlock s4 (s.nextBB + 1) = some bE := by
    rw [hs4]
    split
    · exact fE3
    · exact (loc_appendInstr _ _).old_blocks _ _ fE3 hcur_s3_neE
  have gB4 : findBlock s4 (s.nextBB + 2) = some bB := by
    rw [hs4]
    split
    · exact gB3
    · exact (loc_appendInstr _ _).old_blocks _ _ gB3 hcur_s3_neB
  have Lt2 : Loc s (setInsertPoint (s.nextBB + 1) s4) :=
    loc_setCur (s.nextBB + 1) Ls4 (by omega) (by omega) (by rw [fE4]; rfl)
  set t2 := setInsertPoint (s.nextBB + 1) s4 with ht2
  have q5 : t2.nextBB = s4.nextBB := rfl
  have Lt3 : Loc t2 (armE t2) := harmE t2 (Lt2.wf hwf)
  have Lst3 : Loc s (armE t2) := Loc.trans hwf Lt2 Lt3
  set t3 := armE t2 with ht3
  have q6 : t2.nextBB ≤ t3.nextBB := Lt3.mono
  have gB5 : findBlock t2 (s.nextBB + 2) = some bB := gB4
  have hcur_t2_neB : t2.curBB ≠ some (s.nextBB + 2) := by
    intro h
    have h2 : some (s.nextBB + 1) = some (s.nextBB + 2) := h
    injection h2 with h3
    omega
  have gB6 : findBlock t3 (s.nextBB + 2) = some bB :=
    Lt3.old_blocks _ _ gB5 hcur_t2_neB
  have hcur_t3_neB : t3.curBB ≠ some (s.nextBB + 2) :=
    Lt3.cur_ne (by omega) hcur_t2_neB
  have Ls7 : Loc s (if curHasTerminator t3 then t3
      else appendInstr (Instr.br (s.nextBB + 2)) t3) := by
    split
    · exact Lst3
    · exact Loc.trans hwf Lst3 (loc_appendInstr _ _)
  set s7 := (if curHasTerminator t3 then t3
      else appendInstr (Instr.br (s.nextBB + 2)) t3) with hs7
  have q7 : s7.nextBB = t3.nextBB := by
    rw [hs7]
    split
    · rfl
    · exact appendInstr_nextBB _ _
  have gB7 : findBlock s7 (s.nextBB + 2) = some bB := by
    rw [hs7]
    split
    · exact gB6
    · exact (loc_appendInstr _ _).old_blocks _ _ gB6 hcur_t3_neB
  exact loc_setCur (s.nextBB + 2) Ls7 (by omega) (by omega) (by rw [gB7]; rfl)

theorem loc_visitAssignStmt : ∀ (node : Stmt) (s : GenState), WFSt s → Loc s (visitAssignStmt node s)
  | .mk _ lv e _ _ _ _, s, hwf => by
    simp only [visitAssignStmt]
    rcases lv with _ | l
    · have L1 : Loc s (visitExpOpt e s).2 := loc_visitExpOpt e s hwf
      exact Loc.trans hwf L1 (loc_appendInstr _ _)
    · have L0 : Loc s (visitLVal l false s).2 := loc_visitLVal l false s
      have L1 : Loc s (visitExpOpt e (visitLVal l false s).2).2 :=
        Loc.trans hwf L0 (loc_visitExpOpt e _ (L0.wf hwf))
      exact Loc.trans hwf L1 (loc_appendInstr _ _)

theorem loc_visitExpStmt : ∀ (node : Stmt) (s : GenState), WFSt s → Loc s (visitExpStmt node s)
  | .mk _ _ (some e) _ _ _ _, s, hwf => by
    simp only [visitExpStmt]
    exact loc_visitExp e s hwf
  | .mk _ _ none _ _ _ _, s, _ => by
    simp only [visitExpStmt]
    exact Loc.refl

theorem loc_visitReturnStmt : ∀ (node : Stmt) (s : GenState), WFSt s → Loc s (visitReturnStmt node s)
  | .mk _ _ (some e) _ _ _ _, s, hwf => by
    simp only [visitReturnStmt]
    have L1 : Loc s (visitExp e s).2 := loc_visitExp e s hwf
    exact Loc.trans hwf L1 (loc_appendInstr _ _)
  | .mk _ _ none _ _ _ _, s, _ => by
    simp only [visitReturnStmt]
    exact loc_appendInstr _ _

mutual

theorem loc_visitStmt (node : Stmt) (s : GenState) (hwf : WFSt s) :
    Loc s (visitStmt node s) := by
  simp only [visitStmt]
  cases h : node.stmtType
  · exact loc_visitAssignStmt node s hwf
  · exact loc_visitExpStmt node s hwf
  · exact loc_visitBlockStmt node s hwf
  · exact loc_visitIfStmt node s hwf
  · exact loc_visitReturnStmt node s hwf
termination_by (sizeOf node, 1)

theorem loc_visitStmtOpt : ∀ (o : Option Stmt) (s : GenState), WFSt s → Loc s (visitStmtOpt o s)
  | some st, s, hwf => by
    simp only [visitStmtOpt]
    exact loc_visitStmt st s hwf
  | none, s, _ => by
    simp only [visitStmtOpt]
    exact Loc.refl
termination_by o _ => (sizeOf o, 0)

theorem loc_visitBlockStmt : ∀ (node : Stmt) (s : GenState), WFSt s → Loc s (visitBlockStmt node s)
  | .mk _ _ _ (some b) _ _ _, s, hwf => by
    simp only [visitBlockStmt]
    exact loc_visitBlock b s hwf
  | .mk _ _ _ none _ _ _, s, _ => by
    simp only [visitBlockStmt]
    exact Loc.refl
termination_by node _ => (sizeOf node, 0)

theorem loc_visitIfStmt : ∀ (node : Stmt) (s : GenState), WFSt s → Loc s (visitIfStmt node s)
  | .mk _ _ _ _ c th el, s, hwf => by
    rcases el with _ | est <;> rcases c with _ | cn
    · -- no else, no cond
      simp only [visitIfStmt]
      have LA : Loc s (createBB "" s).2 := loc_createBB "" s hwf
      set A := createBB "" s with hA
      have WA : WFSt A.2 := LA.wf hwf
      have LB0 : Loc A.2 (createBB "" A.2).2 := loc_createBB "" A.2 WA
      have LBl : Loc s (createBB "" A.2).2 := Loc.trans hwf LA LB0
      set B := createBB "" A.2 with hB
      have WB : WFSt B.2 := LBl.wf hwf
      have qB2 : B.2.nextBB = s.nextBB + 2 := rfl
      have fA0 : findBlock A.2 s.nextBB = some ⟨s.nextBB, "", s.curFn.getD "", []⟩ :=
        findBlock_createBB_new hwf
      have fA1 : findBlock B.2 s.nextBB = some ⟨s.nextBB, "", s.curFn.getD "", []⟩ := by
        rw [hB, findBlock_createBB_old s.nextBB (show s.nextBB ≠ s.nextBB + 1 by omega) WA]
        exact fA0
      have fB0 : findBlock B.2 (s.nextBB + 1) = some ⟨s.nextBB + 1, "", s.curFn.getD "", []⟩ :=
        findBlock_createBB_new WA
      have hcurB2A : B.2.curBB ≠ some s.nextBB :=
        show s.curBB ≠ some s.nextBB from cur_ne_fresh hwf (Nat.le_refl _)
      have hcurB2B : B.2.curBB ≠ some (s.nextBB + 1) :=
        show s.curBB ≠ some (s.nextBB + 1) from cur_ne_fresh hwf (Nat.le_succ _)
      have Lp : Loc B.2 (ensureInt1 Val.null B.2).2 := loc_ensureInt1 Val.null B.2
      set pc := ensureInt1 Val.null B.2 with hpc
      have qe : pc.2.nextBB = B.2.nextBB := by
        rw [hpc]
        exact ensureInt1_nextBB _ _
      have ffA : findBlock pc.2 s.nextBB = some ⟨s.nextBB, "", s.curFn.getD "", []⟩ :=
        Lp.old_blocks _ _ fA1 hcurB2A
      have ffB : findBlock pc.2 (s.nextBB + 1) = some ⟨s.nextBB + 1, "", s.curFn.getD "", []⟩ :=
        Lp.old_blocks _ _ fB0 hcurB2B
      have hcurpcA : pc.2.curBB ≠ some s.nextBB := by
        rw [hpc, ensureInt1_curBB]
        exact hcurB2A
      have hcurpcB : pc.2.curBB ≠ some (s.nextBB + 1) := by
        rw [hpc, ensureInt1_curBB]
        exact hcurB2B
      have hL : Loc s pc.2 := Loc.trans hwf LBl Lp
      exact loc_ifTail_noelse s pc.2 hwf pc.1 (visitStmtOpt th)
        (fun t hw => loc_visitStmtOpt th t hw) hL _ _ ffA ffB hcurpcA hcurpcB (by omega)
    · -- no else, with cond
      simp only [visitIfStmt]
      have LA : Loc s (createBB "" s).2 := loc_createBB "" s hwf
      set A := createBB "" s with hA
      have WA : WFSt A.2 := LA.wf hwf
      have LB0 : Loc A.2 (createBB "" A.2).2 := loc_createBB "" A.2 WA
      have LBl : Loc s (createBB "" A.2).2 := Loc.trans hwf LA LB0
      set B := createBB "" A.2 with hB
      have WB : WFSt B.2 := LBl.wf hwf
      have qB2 : B.2.nextBB = s.nextBB + 2 := rfl
      have fA0 : findBlock A.2 s.nextBB = some ⟨s.nextBB, "", s.curFn.getD "", []⟩ :=
        findBlock_createBB_new hwf
      have fA1 : findBlock B.2 s.nextBB = some ⟨s.nextBB, "", s.curFn.getD "", []⟩ := by
        rw [hB, findBlock_createBB_old s.nextBB (show s.nextBB ≠ s.nextBB + 1 by omega) WA]
        exact fA0
      have fB0 : findBlock B.2 (s.nextBB + 1) = some ⟨s.nextBB + 1, "", s.curFn.getD "", []⟩ :=
        findBlock_createBB_new WA
      have hcurB2A : B.2.curBB ≠ some s.nextBB :=
        show s.curBB ≠ some s.nextBB from cur_ne_fresh hwf (Nat.le_refl _)
      have hcurB2B : B.2.curBB ≠ some (s.nextBB + 1) :=
        show s.curBB ≠ some (s.nextBB + 1) from cur_ne_fresh hwf (Nat.le_succ _)
      have Lcnd : Loc B.2 (visitCond cn B.2).2 := loc_visitCond cn B.2 WB
      set P := visitCond cn B.2 with hP
      have qm : B.2.nextBB ≤ P.2.nextBB := Lcnd.mono
      have Lp : Loc P.2 (ensureInt1 P.1 P.2).2 := loc_ensureInt1 P.1 P.2
      set pc := ensureInt1 P.1 P.2 with hpc
      have qe : pc.2.nextBB = P.2.nextBB := by
        rw [hpc]
        exact ensureInt1_nextBB _ _
      have fmA : findBlock P.2 s.nextBB = some ⟨s.nextBB, "", s.curFn.getD "", []⟩ :=
        Lcnd.old_blocks _ _ fA1 hcurB2A
      have fmB : findBlock P.2 (s.nextBB + 1) = some ⟨s.nextBB + 1, "", s.curFn.getD "", []⟩ :=
        Lcnd.old_blocks _ _ fB0 hcurB2B
      have hcurPA : P.2.curBB ≠ some s.nextBB := Lcnd.cur_ne (by omega) hcurB2A
      have hcurPB : P.2.curBB ≠ some (s.nextBB + 1) := Lcnd.cur_ne (by omega) hcurB2B
      have ffA : findBlock pc.2 s.nextBB = some ⟨s.nextBB, "", s.curFn.getD "", []⟩ :=
        Lp.old_blocks _ _ fmA hcurPA
      have ffB : findBlock pc.2 (s.nextBB + 1) = some ⟨s.nextBB + 1, "", s.curFn.getD "", []⟩ :=
        Lp.old_blocks _ _ fmB hcurPB
      have hcurpcA : pc.2.curBB ≠ some s.nextBB := by
        rw [hpc, ensureInt1_curBB]
        exact hcurPA
      have hcurpcB : pc.2.curBB ≠ some (s.nextBB + 1) := by
        rw [hpc, ensureInt1_curBB]
        exact hcurPB
      have hL : Loc s pc.2 := Loc.trans hwf LBl (Loc.trans WB Lcnd Lp)
      exact loc_ifTail_noelse s pc.2 hwf pc.1 (visitStmtOpt th)
        (fun t hw => loc_visitStmtOpt th t hw) hL _ _ ffA ffB hcurpcA hcurpcB (by omega)
    · -- with else, no cond
      simp only [visitIfStmt]
      have LA : Loc s (createBB "" s).2 := loc_createBB "" s hwf
      set A := createBB "" s with hA
      have WA : WFSt A.2 := LA.wf hwf
      have LE0 : Loc A.2 (createBB "" A.2).2 := loc_createBB "" A.2 WA
      have LEl : Loc s (createBB "" A.2).2 := Loc.trans hwf LA LE0
      set E := createBB "" A.2 with hE
      have WE : WFSt E.2 := LEl.wf hwf
      have LB0 : Loc E.2 (createBB "" E.2).2 := loc_createBB "" E.2 WE
      have LBl : Loc s (createBB "" E.2).2 := Loc.trans hwf LEl LB0
      set B := createBB "" E.2 with hB
      have WB : WFSt B.2 := LBl.wf hwf
      have qB2 : B.2.nextBB = s.nextBB + 3 := rfl
      have fA0 : findBlock A.2 s.nextBB = some ⟨s.nextBB, "", s.curFn.getD "", []⟩ :=
        findBlock_createBB_new hwf
      have fA1 : findBlock E.2 s.nextBB = some ⟨s.nextBB, "", s.curFn.getD "", []⟩ := by
        rw [hE, findBlock_createBB_old s.nextBB (show s.nextBB ≠ s.nextBB + 1 by omega) WA]
        exact fA0
      have fA2 : findBlock B.2 s.nextBB = some ⟨s.nextBB, "", s.curFn.getD "", []⟩ := by
        rw [hB, findBlock_createBB_old s.nextBB (show s.nextBB ≠ s.nextBB + 2 by omega) WE]
        exact fA1
      have fE0 : findBlock E.2 (s.nextBB + 1) = some ⟨s.nextBB + 1, "", s.curFn.getD "", []⟩ :=
        findBlock_createBB_new WA
      have fE1 : findBlock B.2 (s.nextBB + 1) = some ⟨s.nextBB + 1, "", s.curFn.getD "", []⟩ := by
        rw [hB, findBlock_createBB_old (s.nextBB + 1) (show s.nextBB + 1 ≠ s.nextBB + 2 by omega) WE]
        exact fE0
      have fB0 : findBlock B.2 (s.nextBB + 2) = some ⟨s.nextBB + 2, "", s.curFn.getD "", []⟩ :=
        findBlock_createBB_new WE
      have hcurB2A : B.2.curBB ≠ some s.nextBB :=
        show s.curBB ≠ some s.nextBB from cur_ne_fresh hwf (Nat.le_refl _)
      have hcurB2E : B.2.curBB ≠ some (s.nextBB + 1) :=
        show s.curBB ≠ some (s.nextBB + 1) from cur_ne_fresh hwf (Nat.le_succ _)
      have hcurB2B : B.2.curBB ≠ some (s.nextBB + 2) :=
        show s.curBB ≠ some (s.nextBB + 2) from cur_ne_fresh hwf (Nat.le_add_right _ 2)
      have Lp : Loc B.2 (ensureInt1 Val.null B.2).2 := loc_ensureInt1 Val.null B.2
      set pc := ensureInt1 Val.null B.2 with hpc
      have qe : pc.2.nextBB = B.2.nextBB := by
        rw [hpc]
        exact ensureInt1_nextBB _ _
      have ffA : findBlock pc.2 s.nextBB = some ⟨s.nextBB, "", s.curFn.getD "", []⟩ :=
        Lp.old_blocks _ _ fA2 hcurB2A
      have ffE : findBlock pc.2 (s.nextBB + 1) = some ⟨s.nextBB + 1, "", s.curFn.getD "", []⟩ :=
        Lp.old_blocks _ _ fE1 hcurB2E
      have ffB : findBlock pc.2 (s.nextBB + 2) = some ⟨s.nextBB + 2, "", s.curFn.getD "", []⟩ :=
        Lp.old_blocks _ _ fB0 hcurB2B
      have hcurpcA : pc.2.curBB ≠ some s.nextBB := by
        rw [hpc, ensureInt1_curBB]
        exact hcurB2A
      have hcurpcE : pc.2.curBB ≠ some (s.nextBB + 1) := by
        rw [hpc, ensureInt1_curBB]
        exact hcurB2E
      have hcurpcB : pc.2.curBB ≠ some (s.nextBB + 2) := by
        rw [hpc, ensureInt1_curBB]
        exact hcurB2B
      have hL : Loc s pc.2 := Loc.trans hwf LBl Lp
      exact loc_ifTail_else s pc.2 hwf pc.1 (visitStmtOpt th) (visitStmt est)
        (fun t hw => loc_visitStmtOpt th t hw) (fun t hw => loc_visitStmt est t hw)
        hL _ _ _ ffA ffE ffB hcurpcA hcurpcE hcurpcB (by omega)
    · -- with else, with cond
      simp only [visitIfStmt]
      have LA : Loc s (createBB "" s).2 := loc_createBB "" s hwf
      set A := createBB "" s with hA
      have WA : WFSt A.2 := LA.wf hwf
      have LE0 : Loc A.2 (createBB "" A.2).2 := loc_createBB "" A.2 WA
      have LEl : Loc s (createBB "" A.2).2 := Loc.trans hwf LA LE0
      set E := createBB "" A.2 with hE
      have WE : WFSt E.2 := LEl.wf hwf
      have LB0 : Loc E.2 (createBB "" E.2).2 := loc_createBB "" E.2 WE
      have LBl : Loc s (createBB "" E.2).2 := Loc.trans hwf LEl LB0
      set B := createBB "" E.2 with hB
      have WB : WFSt B.2 := LBl.wf hwf
      have qB2 : B.2.nextBB = s.nextBB + 3 := rfl
      have fA0 : findBlock A.2 s.nextBB = some ⟨s.nextBB, "", s.curFn.getD "", []⟩ :=
        findBlock_createBB_new hwf
      have fA1 : findBlock E.2 s.nextBB = some ⟨s.nextBB, "", s.curFn.getD "", []⟩ := by
        rw [hE, findBlock_createBB_old s.nextBB (show s.nextBB ≠ s.nextBB + 1 by omega) WA]
        exact fA0
      have fA2 : findBlock B.2 s.nextBB = some ⟨s.nextBB, "", s.curFn.getD "", []⟩ := by
        rw [hB, findBlock_createBB_old s.nextBB (show s.nextBB ≠ s.nextBB + 2 by omega) WE]
        exact fA1
      have fE0 : findBlock E.2 (s.nextBB + 1) = some ⟨s.nextBB + 1, "", s.curFn.getD "", []⟩ :=
        findBlock_createBB_new WA
      have fE1 : findBlock B.2 (s.nextBB + 1) = some ⟨s.nextBB + 1, "", s.curFn.getD "", []⟩ := by
        rw [hB, findBlock_createBB_old (s.nextBB + 1) (show s.nextBB + 1 ≠ s.nextBB + 2 by omega) WE]
        exact fE0
      have fB0 : findBlock B.2 (s.nextBB + 2) = some ⟨s.nextBB + 2, "", s.curFn.getD "", []⟩ :=
        findBlock_createBB_new WE
      have hcurB2A : B.2.curBB ≠ some s.nextBB :=
        show s.curBB ≠ some s.nextBB from cur_ne_fresh hwf (Nat.le_refl _)
      have hcurB2E : B.2.curBB ≠ some (s.nextBB + 1) :=
        show s.curBB ≠ some (s.nextBB + 1) from cur_ne_fresh hwf (Nat.le_succ _)
      have hcurB2B : B.2.curBB ≠ some (s.nextBB + 2) :=
        show s.curBB ≠ some (s.nextBB + 2) from cur_ne_fresh hwf (Nat.le_add_right _ 2)
      have Lcnd : Loc B.2 (visitCond cn B.2).2 := loc_visitCond cn B.2 WB
      set P := visitCond cn B.2 with hP
      have qm : B.2.nextBB ≤ P.2.nextBB := Lcnd.mono
      have Lp : Loc P.2 (ensureInt1 P.1 P.2).2 := loc_ensureInt1 P.1 P.2
      set pc := ensureInt1 P.1 P.2 with hpc
      have qe : pc.2.nextBB = P.2.nextBB := by
        rw [hpc]
        exact ensureInt1_nextBB _ _
      have fmA : findBlock P.2 s.nextBB = some ⟨s.nextBB, "", s.curFn.getD "", []⟩ :=
        Lcnd.old_blocks _ _ fA2 hcurB2A
      have fmE : findBlock P.2 (s.nextBB + 1) = some ⟨s.nextBB + 1, "", s.curFn.getD "", []⟩ :=
        Lcnd.old_blocks _ _ fE1 hcurB2E
      have fmB : findBlock P.2 (s.nextBB + 2) = some ⟨s.nextBB + 2, "", s.curFn.getD "", []⟩ :=
        Lcnd.old_blocks _ _ fB0 hcurB2B
      have hcurPA : P.2.curBB ≠ some s.nextBB := Lcnd.cur_ne (by omega) hcurB2A
      have hcurPE : P.2.curBB ≠ some (s.nextBB + 1) := Lcnd.cur_ne (by omega) hcurB2E
      have hcurPB : P.2.curBB ≠ some (s.nextBB + 2) := Lcnd.cur_ne (by omega) hcurB2B
      have ffA : findBlock pc.2 s.nextBB = some ⟨s.nextBB, "", s.curFn.getD "", []⟩ :=
        Lp.old_blocks _ _ fmA hcurPA
      have ffE : findBlock pc.2 (s.nextBB + 1) = some ⟨s.nextBB + 1, "", s.curFn.getD "", []⟩ :=
        Lp.old_blocks _ _ fmE hcurPE
      have ffB : findBlock pc.2 (s.nextBB + 2) = some ⟨s.nextBB + 2, "", s.curFn.getD "", []⟩ :=
        Lp.old_blocks _ _ fmB hcurPB
      have hcurpcA : pc.2.curBB ≠ some s.nextBB := by
        rw [hpc, ensureInt1_curBB]
        exact hcurPA
      have hcurpcE : pc.2.curBB ≠ some (s.nextBB + 1) := by
        rw [hpc, ensureInt1_curBB]
        exact hcurPE
      have hcurpcB : pc.2.curBB ≠ some (s.nextBB + 2) := by
        rw [hpc, ensureInt1_curBB]
        exact hcurPB
      have hL : Loc s pc.2 := Loc.trans hwf LBl (Loc.trans WB Lcnd Lp)
      exact loc_ifTail_else s pc.2 hwf pc.1 (visitStmtOpt th) (visitStmt est)
        (fun t hw => loc_visitStmtOpt th t hw) (fun t hw => loc_visitStmt est t hw)
        hL _ _ _ ffA ffE ffB hcurpcA hcurpcE hcurpcB (by omega)
termination_by node _ => (sizeOf node, 0)

theorem loc_visitBlock : ∀ (b : Block) (s : GenState), WFSt s → Loc s (visitBlock b s)
  | .mk items, s, hwf => by
    simp only [visitBlock]
    have L1 : Loc s { s with symtab := stEnterScope s.symtab } := loc_symtab_only _
    have L2 : Loc s (visitBlockItems items { s with symtab := stEnterScope s.symtab }) :=
      Loc.trans hwf L1 (loc_visitBlockItems items _ (L1.wf hwf))
    exact Loc.trans hwf L2 (loc_symtab_only _)
termination_by b _ => (sizeOf b, 0)

theorem loc_visitBlockItems : ∀ (l : List (Option BlockItem)) (s : GenState), WFSt s → Loc s (visitBlockItems l s)
  | [], s, _ => by
    simp only [visitBlockItems]
    exact Loc.refl
  | some i :: rest, s, hwf => by
    simp only [visitBlockItems]
    have L1 : Loc s (visitBlockItem i s) := loc_visitBlockItem i s hwf
    exact Loc.trans hwf L1 (loc_visitBlockItems rest _ (L1.wf hwf))
  | none :: rest, s, hwf => by
    simp only [visitBlockItems]
    exact loc_visitBlockItems rest s hwf
termination_by l _ => (sizeOf l, 0)

theorem loc_visitBlockItem : ∀ (i : BlockItem) (s : GenState), WFSt s → Loc s (visitBlockItem i s)
  | .mk (some d) _, s, hwf => by
    simp only [visitBlockItem]
    exact loc_visitDecl d s hwf
  | .mk none (some st), s, hwf => by
    simp only [visitBlockItem]
    exact loc_visitStmt st s hwf
  | .mk none none, s, _ => by
    simp only [visitBlockItem]
    exact Loc.refl
termination_by i _ => (sizeOf i, 0)

end

theorem appendInstr_nextReg (i : Instr) (s : GenState) :
    (appendInstr i s).nextReg = s.nextReg := by
  cases h : s.curBB
  · rw [appendInstr_eq_none i h]
  · rw [appendInstr_eq_some i h]

theorem findBlock_emit (i : Instr) (t : Ty) (s : GenState) (b : Nat) :
    findBlock (emit i t s).2 b = findBlock (appendInstr i s) b := rfl

theorem findBlock_append_self {s : GenState} {b : Nat} {bbl : BBlock} (i : Instr)
    (hcur : s.curBB = some b) (hf : findBlock s b = some bbl) :
    findBlock (appendInstr i s) b = some { bbl with instrs := bbl.instrs ++ [i] } := by
  rw [findBlock_append_update i b hcur, hf]
  simp [(findBlock_mem hf).2]

theorem Loc.cur_isSome {s s' : GenState} (h : Loc s s')
    (hs : s.curBB.isSome = true) : s'.curBB.isSome = true := by
  rcases h.cur_fresh with hc | ⟨b, hb, _⟩
  · rw [hc]; exact hs
  · rw [hb]; rfl

theorem opt_eq_some_getD (o : Option Nat) (h : o.isSome = true) :
    o = some (o.getD 0) := by
  cases o
  · simp at h
  · rfl

/-- C4: short-circuit lowering shape of `visitLAndExp` (and, symmetrically,
`visitLOrExp`) for an extension node `L && R` / `L || R`: the left operand is
evaluated in the current block and truncated to one bit; the block current at
that point receives exactly one further instruction, a conditional branch whose
true edge enters the fresh rhs block (for `&&`; swapped for `||`) and whose
other edge goes directly to the fresh merge block; the right operand is
evaluated between the branch and the final merge; the merge block contains
exactly one phi selecting the short-circuit constant (`false` for `&&`, `true`
for `||`) from the left predecessor and the truncated right value from the
right-end predecessor; the phi register is the expression's value and emission
continues at merge.  In particular no instruction of `R` is placed in the left
block or the merge block, so the false (resp. true) short-circuit path contains
no instruction of `R`. -/
theorem C4_short_circuit_structure (l : LAndExp) (r : Option EqExp)
    (lo : LOrExp) (ro : Option LAndExp) (s : GenState) (b0 : Nat)
    (hwf : WFSt s) (hcur : s.curBB = some b0) :
    (let A := createBB "" s
     let B := createBB "" A.2
     let pl0 := visitLAndExp l B.2
     let pl := ensureInt1 pl0.1 pl0.2
     let leftB := pl.2.curBB.getD 0
     let s2 := setInsertPoint A.1 (appendInstr (Instr.condBr pl.1 A.1 B.1) pl.2)
     let pr0 := visitEqExpOpt r s2
     let pr := ensureInt1 pr0.1 pr0.2
     let s3 := appendInstr (Instr.br B.1) pr.2
     let rightEndB := s3.curBB.getD 0
     let res := visitLAndExp (LAndExp.mk (some l) r) s
     res.1 = Val.reg pr.2.nextReg Ty.i1 ∧
     res.2.curBB = some B.1 ∧
     pl.2.curBB = some leftB ∧
     (∃ lb0, findBlock pl.2 leftB = some lb0 ∧
       findBlock res.2 leftB = some { lb0 with instrs := lb0.instrs ++ [Instr.condBr pl.1 A.1 B.1] }) ∧
     findBlock res.2 B.1 =
       some ⟨B.1, "", s.curFn.getD "", [Instr.phi Ty.i1 [(Val.constB false, leftB), (pr.1, rightEndB)]]⟩)
    ∧
    (let A := createBB "" s
     let B := createBB "" A.2
     let pl0 := visitLOrExp lo B.2
     let pl := ensureInt1 pl0.1 pl0.2
     let leftB := pl.2.curBB.getD 0
     let s2 := setInsertPoint A.1 (appendInstr (Instr.condBr pl.1 B.1 A.1) pl.2)
     let pr0 := visitLAndExpOpt ro s2
     let pr := ensureInt1 pr0.1 pr0.2
     let s3 := appendInstr (Instr.br B.1) pr.2
     let rightEndB := s3.curBB.getD 0
     let res := visitLOrExp (LOrExp.mk (some lo) ro) s
     res.1 = Val.reg pr.2.nextReg Ty.i1 ∧
     res.2.curBB = some B.1 ∧
     pl.2.curBB = some leftB ∧
     (∃ lb0, findBlock pl.2 leftB = some lb0 ∧
       findBlock res.2 leftB = some { lb0 with instrs := lb0.instrs ++ [Instr.condBr pl.1 B.1 A.1] }) ∧
     findBlock res.2 B.1 =
       some ⟨B.1, "", s.curFn.getD "", [Instr.phi Ty.i1 [(Val.constB true, leftB), (pr.1, rightEndB)]]⟩)
    := by
  constructor
  · -- the && half
    have LA : Loc s (createBB "" s).2 := loc_createBB "" s hwf
    have WA : WFSt (createBB "" s).2 := LA.wf hwf
    have LB0 : Loc (createBB "" s).2 (createBB "" (createBB "" s).2).2 := loc_createBB "" (createBB "" s).2 WA
    have LBl : Loc s (createBB "" (createBB "" s).2).2 := Loc.trans hwf LA LB0
    have WB : WFSt (createBB "" (createBB "" s).2).2 := LBl.wf hwf
    have qB2 : (createBB "" (createBB "" s).2).2.nextBB = s.nextBB + 2 := rfl
    have Lc0 : Loc (createBB "" (createBB "" s).2).2 (visitLAndExp l (createBB "" (createBB "" s).2).2).2 := loc_visitLAndExp l (createBB "" (createBB "" s).2).2 WB
    have Lpl0 : Loc s (visitLAndExp l (createBB "" (createBB "" s).2).2).2 := Loc.trans hwf LBl Lc0
    have Le1 : Loc (visitLAndExp l (createBB "" (createBB "" s).2).2).2 (ensureInt1 (visitLAndExp l (createBB "" (createBB "" s).2).2).1 (visitLAndExp l (createBB "" (createBB "" s).2).2).2).2 := loc_ensureInt1 (visitLAndExp l (createBB "" (createBB "" s).2).2).1 (visitLAndExp l (createBB "" (createBB "" s).2).2).2
    have Lpl : Loc s (ensureInt1 (visitLAndExp l (createBB "" (createBB "" s).2).2).1 (visitLAndExp l (createBB "" (createBB "" s).2).2).2).2 := Loc.trans hwf Lpl0 Le1
    have La1 : Loc (ensureInt1 (visitLAndExp l (createBB "" (createBB "" s).2).2).1 (visitLAndExp l (createBB "" (createBB "" s).2).2).2).2 (appendInstr (Instr.condBr (ensureInt1 (visitLAndExp l (createBB "" (createBB "" s).2).2).1 (visitLAndExp l (createBB "" (createBB "" s).2).2).2).1 s.nextBB (s.nextBB + 1)) (ensureInt1 (visitLAndExp l (createBB "" (createBB "" s).2).2).1 (visitLAndExp l (createBB "" (createBB "" s).2).2).2).2) := loc_appendInstr (Instr.condBr (ensureInt1 (visitLAndExp l (createBB "" (createBB "" s).2).2).1 (visitLAndExp l (createBB "" (createBB "" s).2).2).2).1 s.nextBB (s.nextBB + 1)) (ensureInt1 (visitLAndExp l (createBB "" (createBB "" s).2).2).1 (visitLAndExp l (createBB "" (createBB "" s).2).2).2).2
    have Ls1 : Loc s (appendInstr (Instr.condBr (ensureInt1 (visitLAndExp l (createBB "" (createBB "" s).2).2).1 (visitLAndExp l (createBB "" (createBB "" s).2).2).2).1 s.nextBB (s.nextBB + 1)) (ensureInt1 (visitLAndExp l (createBB "" (createBB "" s).2).2).1 (visitLAndExp l (createBB "" (createBB "" s).2).2).2).2) := Loc.trans hwf Lpl La1
    have q3 : (createBB "" (createBB "" s).2).2.nextBB ≤ (visitLAndExp l (createBB "" (createBB "" s).2).2).2.nextBB := Lc0.mono
    have q4 : (ensureInt1 (visitLAndExp l (createBB "" (createBB "" s).2).2).1 (visitLAndExp l (createBB "" (createBB "" s).2).2).2).2.nextBB = (visitLAndExp l (createBB "" (createBB "" s).2).2).2.nextBB := ensureInt1_nextBB _ _
    have q5 : (appendInstr (Instr.condBr (ensureInt1 (visitLAndExp l (createBB "" (createBB "" s).2).2).1 (visitLAndExp l (createBB "" (createBB "" s).2).2).2).1 s.nextBB (s.nextBB + 1)) (ensureInt1 (visitLAndExp l (createBB "" (createBB "" s).2).2).1 (visitLAndExp l (createBB "" (createBB "" s).2).2).2).2).nextBB = (ensureInt1 (visitLAndExp l (createBB "" (createBB "" s).2).2).1 (visitLAndExp l (createBB "" (createBB "" s).2).2).2).2.nextBB := appendInstr_nextBB _ _
    have fA0 : findBlock (createBB "" s).2 s.nextBB = some ⟨s.nextBB, "", s.curFn.getD "", []⟩ := findBlock_createBB_new hwf
    have fA1 : findBlock (createBB "" (createBB "" s).2).2 s.nextBB = some ⟨s.nextBB, "", s.curFn.getD "", []⟩ := by
      rw [findBlock_createBB_old s.nextBB (show s.nextBB ≠ s.nextBB + 1 by omega) WA]
      exact fA0
    have hcurB2A : (createBB "" (createBB "" s).2).2.curBB ≠ some s.nextBB :=
      show s.curBB ≠ some s.nextBB from cur_ne_fresh hwf (Nat.le_refl _)
    have hcurB2B : (createBB "" (createBB "" s).2).2.curBB ≠ some (s.nextBB + 1) :=
      show s.curBB ≠ some (s.nextBB + 1) from cur_ne_fresh hwf (Nat.le_succ _)
    have fA2 : findBlock (visitLAndExp l (createBB "" (createBB "" s).2).2).2 s.nextBB = some ⟨s.nextBB, "", s.curFn.getD "", []⟩ := Lc0.old_blocks _ _ fA1 hcurB2A
    have hcurpl0A : (visitLAndExp l (createBB "" (createBB "" s).2).2).2.curBB ≠ some s.nextBB := Lc0.cur_ne (by omega) hcurB2A
    have fA3 : findBlock (ensureInt1 (visitLAndExp l (createBB "" (createBB "" s).2).2).1 (visitLAndExp l (createBB "" (createBB "" s).2).2).2).2 s.nextBB = some ⟨s.nextBB, "", s.curFn.getD "", []⟩ := Le1.old_blocks _ _ fA2 hcurpl0A
    have hcurplA : (ensureInt1 (visitLAndExp l (createBB "" (createBB "" s).2).2).1 (visitLAndExp l (createBB "" (createBB "" s).2).2).2).2.curBB ≠ some s.nextBB := by
      rw [ensureInt1_curBB]
      exact hcurpl0A
    have fA4 : findBlock (appendInstr (Instr.condBr (ensureInt1 (visitLAndExp l (createBB "" (createBB "" s).2).2).1 (visitLAndExp l (createBB "" (createBB "" s).2).2).2).1 s.nextBB (s.nextBB + 1)) (ensureInt1 (visitLAndExp l (createBB "" (createBB "" s).2).2).1 (visitLAndExp l (createBB "" (createBB "" s).2).2).2).2) s.nextBB = some ⟨s.nextBB, "", s.curFn.getD "", []⟩ := La1.old_blocks _ _ fA3 hcurplA
    have Ls2 : Loc s (setInsertPoint s.nextBB (appendInstr (Instr.condBr (ensureInt1 (visitLAndExp l (createBB "" (createBB "" s).2).2).1 (visitLAndExp l (createBB "" (createBB "" s).2).2).2).1 s.nextBB (s.nextBB + 1)) (ensureInt1 (visitLAndExp l (createBB "" (createBB "" s).2).2).1 (visitLAndExp l (createBB "" (createBB "" s).2).2).2).2)) := loc_setCur s.nextBB Ls1 (Nat.le_refl _) (by omega) (by rw [fA4]; rfl)
    have Lr0 : Loc (setInsertPoint s.nextBB (appendInstr (Instr.condBr (ensureInt1 (visitLAndExp l (createBB "" (createBB "" s).2).2).1 (visitLAndExp l (createBB "" (createBB "" s).2).2).2).1 s.nextBB (s.nextBB + 1)) (ensureInt1 (visitLAndExp l (createBB "" (createBB "" s).2).2).1 (visitLAndExp l (createBB "" (createBB "" s).2).2).2).2)) (visitEqExpOpt r (setInsertPoint s.nextBB (appendInstr (Instr.condBr (ensureInt1 (visitLAndExp l (createBB "" (createBB "" s).2).2).1 (visitLAndExp l (createBB "" (createBB "" s).2).2).2).1 s.nextBB (s.nextBB + 1)) (ensureInt1 (visitLAndExp l (createBB "" (createBB "" s).2).2).1 (visitLAndExp l (createBB "" (createBB "" s).2).2).2).2))).2 := loc_visitEqExpOpt r (setInsertPoint s.nextBB (appendInstr (Instr.condBr (ensureInt1 (visitLAndExp l (createBB "" (createBB "" s).2).2).1 (visitLAndExp l (createBB "" (createBB "" s).2).2).2).1 s.nextBB (s.nextBB + 1)) (ensureInt1 (visitLAndExp l (createBB "" (createBB "" s).2).2).1 (visitLAndExp l (createBB "" (createBB "" s).2).2).2).2)) (Ls2.wf hwf)
    have Lpr0 : Loc s (visitEqExpOpt r (setInsertPoint s.nextBB (appendInstr (Instr.condBr (ensureInt1 (visitLAndExp l (createBB "" (createBB "" s).2).2).1 (visitLAndExp l (createBB "" (createBB "" s).2).2).2).1 s.nextBB (s.nextBB + 1)) (ensureInt1 (visitLAndExp l (createBB "" (createBB "" s).2).2).1 (visitLAndExp l (createBB "" (createBB "" s).2).2).2).2))).2 := Loc.trans hwf Ls2 Lr0
    have Le2 : Loc (visitEqExpOpt r (setInsertPoint s.nextBB (appendInstr (Instr.condBr (ensureInt1 (visitLAndExp l (createBB "" (createBB "" s).2).2).1 (visitLAndExp l (createBB "" (createBB "" s).2).2).2).1 s.nextBB (s.nextBB + 1)) (ensureInt1 (visitLAndExp l (createBB "" (createBB "" s).2).2).1 (visitLAndExp l (createBB "" (createBB "" s).2).2).2).2))).2 (ensureInt1 (visitEqExpOpt r (setInsertPoint s.nextBB (appendInstr (Instr.condBr (ensureInt1 (visitLAndExp l (createBB "" (createBB "" s).2).2).1 (visitLAndExp l (createBB "" (createBB "" s).2).2).2).1 s.nextBB (s.nextBB + 1)) (ensureInt1 (visitLAndExp l (createBB "" (createBB "" s).2).2).1 (visitLAndExp l (createBB "" (createBB "" s).2).2).2).2))).1 (visitEqExpOpt r (setInsertPoint s.nextBB (appendInstr (Instr.condBr (ensureInt1 (visitLAndExp l (createBB "" (createBB "" s).2).2).1 (visitLAndExp l (createBB "" (createBB "" s).2).2).2).1 s.nextBB (s.nextBB + 1)) (ensureInt1 (visitLAndExp l (createBB "" (createBB "" s).2).2).1 (visitLAndExp l (createBB "" (createBB "" s).2).2).2).2))).2).2 := loc_ensureInt1 (visitEqExpOpt r (setInsertPoint s.nextBB (appendInstr (Instr.condBr (ensureInt1 (visitLAndExp l (createBB "" (createBB "" s).2).2).1 (visitLAndExp l (createBB "" (createBB "" s).2).2).2).1 s.nextBB (s.nextBB + 1)) (ensureInt1 (visitLAndExp l (createBB "" (createBB "" s).2).2).1 (visitLAndExp l (createBB "" (createBB "" s).2).2).2).2))).1 (visitEqExpOpt r (setInsertPoint s.nextBB (appendInstr (Instr.condBr (ensureInt1 (visitLAndExp l (createBB "" (createBB "" s).2).2).1 (visitLAndExp l (createBB "" (createBB "" s).2).2).2).1 s.nextBB (s.nextBB + 1)) (ensureInt1 (visitLAndExp l (createBB "" (createBB "" s).2).2).1 (visitLAndExp l (createBB "" (createBB "" s).2).2).2).2))).2
    have Lpr : Loc s (ensureInt1 (visitEqExpOpt r (setInsertPoint s.nextBB (appendInstr (Instr.condBr (ensureInt1 (visitLAndExp l (createBB "" (createBB "" s).2).2).1 (visitLAndExp l (createBB "" (createBB "" s).2).2).2).1 s.nextBB (s.nextBB + 1)) (ensureInt1 (visitLAndExp l (createBB "" (createBB "" s).2).2).1 (visitLAndExp l (createBB "" (createBB "" s).2).2).2).2))).1 (visitEqExpOpt r (setInsertPoint s.nextBB (appendInstr (Instr.condBr (ensureInt1 (visitLAndExp l (createBB "" (createBB "" s).2).2).1 (visitLAndExp l (createBB "" (createBB "" s).2).2).2).1 s.nextBB (s.nextBB + 1)) (ensureInt1 (visitLAndExp l (createBB "" (createBB "" s).2).2).1 (visitLAndExp l (createBB "" (createBB "" s).2).2).2).2))).2).2 := Loc.trans hwf Lpr0 Le2
    have La2 : Loc (ensureInt1 (visitEqExpOpt r (setInsertPoint s.nextBB (appendInstr (Instr.condBr (ensureInt1 (visitLAndExp l (createBB "" (createBB "" s).2).2).1 (visitLAndExp l (createBB "" (createBB "" s).2).2).2).1 s.nextBB (s.nextBB + 1)) (ensureInt1 (visitLAndExp l (createBB "" (createBB "" s).2).2).1 (visitLAndExp l (createBB "" (createBB "" s).2).2).2).2))).1 (visitEqExpOpt r (setInsertPoint s.nextBB (appendInstr (Instr.condBr (ensureInt1 (visitLAndExp l (createBB "" (createBB "" s).2).2).1 (visitLAndExp l (createBB "" (createBB "" s).2).2).2).1 s.nextBB (s.nextBB + 1)) (ensureInt1 (visitLAndExp l (createBB "" (createBB "" s).2).2).1 (visitLAndExp l (createBB "" (createBB "" s).2).2).2).2))).2).2 (appendInstr (Instr.br (s.nextBB + 1)) (ensureInt1 (visitEqExpOpt r (setInsertPoint s.nextBB (appendInstr (Instr.condBr (ensureInt1 (visitLAndExp l (createBB "" (createBB "" s).2).2).1 (visitLAndExp l (createBB "" (createBB "" s).2).2).2).1 s.nextBB (s.nextBB + 1)) (ensureInt1 (visitLAndExp l (createBB "" (createBB "" s).2).2).1 (visitLAndExp l (createBB "" (createBB "" s).2).2).2).2))).1 (visitEqExpOpt r (setInsertPoint s.nextBB (appendInstr (Instr.condBr (ensureInt1 (visitLAndExp l (createBB "" (createBB "" s).2).2).1 (visitLAndExp l (createBB "" (createBB "" s).2).2).2).1 s.nextBB (s.nextBB + 1)) (ensureInt1 (visitLAndExp l (createBB "" (createBB "" s).2).2).1 (visitLAndExp l (createBB "" (createBB "" s).2).2).2).2))).2).2) := loc_appendInstr (Instr.br (s.nextBB + 1)) (ensureInt1 (visitEqExpOpt r (setInsertPoint s.nextBB (appendInstr (Instr.condBr (ensureInt1 (visitLAndExp l (createBB "" (createBB "" s).2).2).1 (visitLAndExp l (createBB "" (createBB "" s).2).2).2).1 s.nextBB (s.nextBB + 1)) (ensureInt1 (visitLAndExp l (createBB "" (createBB "" s).2).2).1 (visitLAndExp l (createBB "" (createBB "" s).2).2).2).2))).1 (visitEqExpOpt r (setInsertPoint s.nextBB (appendInstr (Instr.condBr (ensureInt1 (visitLAndExp l (createBB "" (createBB "" s).2).2).1 (visitLAndExp l (createBB "" (createBB "" s).2).2).2).1 s.nextBB (s.nextBB + 1)) (ensureInt1 (visitLAndExp l (createBB "" (createBB "" s).2).2).1 (visitLAndExp l (createBB "" (createBB "" s).2).2).2).2))).2).2
    have q6 : (setInsertPoint s.nextBB (appendInstr (Instr.condBr (ensureInt1 (visitLAndExp l (createBB "" (createBB "" s).2).2).1 (visitLAndExp l (createBB "" (createBB "" s).2).2).2).1 s.nextBB (s.nextBB + 1)) (ensureInt1 (visitLAndExp l (createBB "" (createBB "" s).2).2).1 (visitLAndExp l (createBB "" (createBB "" s).2).2).2).2)).nextBB = (appendInstr (Instr.condBr (ensureInt1 (visitLAndExp l (createBB "" (createBB "" s).2).2).1 (visitLAndExp l (createBB "" (createBB "" s).2).2).2).1 s.nextBB (s.nextBB + 1)) (ensureInt1 (visitLAndExp l (createBB "" (createBB "" s).2).2).1 (visitLAndExp l (createBB "" (createBB "" s).2).2).2).2).nextBB := rfl
    have q7 : (setInsertPoint s.nextBB (appendInstr (Instr.condBr (ensureInt1 (visitLAndExp l (createBB "" (createBB "" s).2).2).1 (visitLAndExp l (createBB "" (createBB "" s).2).2).2).1 s.nextBB (s.nextBB + 1)) (ensureInt1 (visitLAndExp l (createBB "" (createBB "" s).2).2).1 (visitLAndExp l (createBB "" (createBB "" s).2).2).2).2)).nextBB ≤ (visitEqExpOpt r (setInsertPoint s.nextBB (appendInstr (Instr.condBr (ensureInt1 (visitLAndExp l (createBB "" (createBB "" s).2).2).1 (visitLAndExp l (createBB "" (createBB "" s).2).2).2).1 s.nextBB (s.nextBB + 1)) (ensureInt1 (visitLAndExp l (createBB "" (createBB "" s).2).2).1 (visitLAndExp l (createBB "" (createBB "" s).2).2).2).2))).2.nextBB := Lr0.mono
    have q8 : (ensureInt1 (visitEqExpOpt r (setInsertPoint s.nextBB (appendInstr (Instr.condBr (ensureInt1 (visitLAndExp l (createBB "" (createBB "" s).2).2).1 (visitLAndExp l (createBB "" (createBB "" s).2).2).2).1 s.nextBB (s.nextBB + 1)) (ensureInt1 (visitLAndExp l (createBB "" (createBB "" s).2).2).1 (visitLAndExp l (createBB "" (createBB "" s).2).2).2).2))).1 (visitEqExpOpt r (setInsertPoint s.nextBB (appendInstr (Instr.condBr (ensureInt1 (visitLAndExp l (createBB "" (createBB "" s).2).2).1 (visitLAndExp l (createBB "" (createBB "" s).2).2).2).1 s.nextBB (s.nextBB + 1)) (ensureInt1 (visitLAndExp l (createBB "" (createBB "" s).2).2).1 (visitLAndExp l (createBB "" (createBB "" s).2).2).2).2))).2).2.nextBB = (visitEqExpOpt r (setInsertPoint s.nextBB (appendInstr (Instr.condBr (ensureInt1 (visitLAndExp l (createBB "" (createBB "" s).2).2).1 (visitLAndExp l (createBB "" (createBB "" s).2).2).2).1 s.nextBB (s.nextBB + 1)) (ensureInt1 (visitLAndExp l (createBB "" (createBB "" s).2).2).1 (visitLAndExp l (createBB "" (createBB "" s).2).2).2).2))).2.nextBB := ensureInt1_nextBB _ _
    have g0 : findBlock (createBB "" (createBB "" s).2).2 (s.nextBB + 1) = some ⟨s.nextBB + 1, "", s.curFn.getD "", []⟩ := findBlock_createBB_new WA
    have g1 : findBlock (visitLAndExp l (createBB "" (createBB "" s).2).2).2 (s.nextBB + 1) = some ⟨s.nextBB + 1, "", s.curFn.getD "", []⟩ := Lc0.old_blocks _ _ g0 hcurB2B
    have hcurpl0B : (visitLAndExp l (createBB "" (createBB "" s).2).2).2.curBB ≠ some (s.nextBB + 1) := Lc0.cur_ne (by omega) hcurB2B
    have g2 : findBlock (ensureInt1 (visitLAndExp l (createBB "" (createBB "" s).2).2).1 (visitLAndExp l (createBB "" (createBB "" s).2).2).2).2 (s.nextBB + 1) = some ⟨s.nextBB + 1, "", s.curFn.getD "", []⟩ := Le1.old_blocks _ _ g1 hcurpl0B
    have hcurplB : (ensureInt1 (visitLAndExp l (createBB "" (createBB "" s).2).2).1 (visitLAndExp l (createBB "" (createBB "" s).2).2).2).2.curBB ≠ some (s.nextBB + 1) := by
      rw [ensureInt1_curBB]
      exact hcurpl0B
    have g3 : findBlock (appendInstr (Instr.condBr (ensureInt1 (visitLAndExp l (createBB "" (createBB "" s).2).2).1 (visitLAndExp l (createBB "" (createBB "" s).2).2).2).1 s.nextBB (s.nextBB + 1)) (ensureInt1 (visitLAndExp l (createBB "" (createBB "" s).2).2).1 (visitLAndExp l (createBB "" (createBB "" s).2).2).2).2) (s.nextBB + 1) = some ⟨s.nextBB + 1, "", s.curFn.getD "", []⟩ := La1.old_blocks _ _ g2 hcurplB
    have g4 : findBlock (setInsertPoint s.nextBB (appendInstr (Instr.condBr (ensureInt1 (visitLAndExp l (createBB "" (createBB "" s).2).2).1 (visitLAndExp l (createBB "" (createBB "" s).2).2).2).1 s.nextBB (s.nextBB + 1)) (ensureInt1 (visitLAndExp l (createBB "" (createBB "" s).2).2).1 (visitLAndExp l (createBB "" (createBB "" s).2).2).2).2)) (s.nextBB + 1) = some ⟨s.nextBB + 1, "", s.curFn.getD "", []⟩ := g3
    have hcurs2B : (setInsertPoint s.nextBB (appendInstr (Instr.condBr (ensureInt1 (visitLAndExp l (createBB "" (createBB "" s).2).2).1 (visitLAndExp l (createBB "" (createBB "" s).2).2).2).1 s.nextBB (s.nextBB + 1)) (ensureInt1 (visitLAndExp l (createBB "" (createBB "" s).2).2).1 (visitLAndExp l (createBB "" (createBB "" s).2).2).2).2)).curBB ≠ some (s.nextBB + 1) := by
      intro h
      have h2 : some s.nextBB = some (s.nextBB + 1) := h
      injection h2 with h3
      omega
    have g5 : findBlock (visitEqExpOpt r (setInsertPoint s.nextBB (appendInstr (Instr.condBr (ensureInt1 (visitLAndExp l (createBB "" (createBB "" s).2).2).1 (visitLAndExp l (createBB "" (createBB "" s).2).2).2).1 s.nextBB (s.nextBB + 1)) (ensureInt1 (visitLAndExp l (createBB "" (createBB "" s).2).2).1 (visitLAndExp l (createBB "" (createBB "" s).2).2).2).2))).2 (s.nextBB + 1) = some ⟨s.nextBB + 1, "", s.curFn.getD "", []⟩ := Lr0.old_blocks _ _ g4 hcurs2B
    have hcurpr0B : (visitEqExpOpt r (setInsertPoint s.nextBB (appendInstr (Instr.condBr (ensureInt1 (visitLAndExp l (createBB "" (createBB "" s).2).2).1 (visitLAndExp l (createBB "" (createBB "" s).2).2).2).1 s.nextBB (s.nextBB + 1)) (ensureInt1 (visitLAndExp l (createBB "" (createBB "" s).2).2).1 (visitLAndExp l (createBB "" (createBB "" s).2).2).2).2))).2.curBB ≠ some (s.nextBB + 1) := Lr0.cur_ne (by omega) hcurs2B
    have g6 : findBlock (ensureInt1 (visitEqExpOpt r (setInsertPoint s.nextBB (appendInstr (Instr.condBr (ensureInt1 (visitLAndExp l (createBB "" (createBB "" s).2).2).1 (visitLAndExp l (createBB "" (createBB "" s).2).2).2).1 s.nextBB (s.nextBB + 1)) (ensureInt1 (visitLAndExp l (createBB "" (createBB "" s).2).2).1 (visitLAndExp l (createBB "" (createBB "" s).2).2).2).2))).1 (visitEqExpOpt r (setInsertPoint s.nextBB (appendInstr (Instr.condBr (ensureInt1 (visitLAndExp l (createBB "" (createBB "" s).2).2).1 (visitLAndExp l (createBB "" (createBB "" s).2).2).2).1 s.nextBB (s.nextBB + 1)) (ensureInt1 (visitLAndExp l (createBB "" (createBB "" s).2).2).1 (visitLAndExp l (createBB "" (createBB "" s).2).2).2).2))).2).2 (s.nextBB + 1) = some ⟨s.nextBB + 1, "", s.curFn.getD "", []⟩ := Le2.old_blocks _ _ g5 hcurpr0B
    have hcurprB : (ensureInt1 (visitEqExpOpt r (setInsertPoint s.nextBB (appendInstr (Instr.condBr (ensureInt1 (visitLAndExp l (createBB "" (createBB "" s).2).2).1 (visitLAndExp l (createBB "" (createBB "" s).2).2).2).1 s.nextBB (s.nextBB + 1)) (ensureInt1 (visitLAndExp l (createBB "" (createBB "" s).2).2).1 (visitLAndExp l (createBB "" (createBB "" s).2).2).2).2))).1 (visitEqExpOpt r (setInsertPoint s.nextBB (appendInstr (Instr.condBr (ensureInt1 (visitLAndExp l (createBB "" (createBB "" s).2).2).1 (visitLAndExp l (createBB "" (createBB "" s).2).2).2).1 s.nextBB (s.nextBB + 1)) (ensureInt1 (visitLAndExp l (createBB "" (createBB "" s).2).2).1 (visitLAndExp l (createBB "" (createBB "" s).2).2).2).2))).2).2.curBB ≠ some (s.nextBB + 1) := by
      rw [ensureInt1_curBB]
      exact hcurpr0B
    have g7 : findBlock (appendInstr (Instr.br (s.nextBB + 1)) (ensureInt1 (visitEqExpOpt r (setInsertPoint s.nextBB (appendInstr (Instr.condBr (ensureInt1 (visitLAndExp l (createBB "" (createBB "" s).2).2).1 (visitLAndExp l (createBB "" (createBB "" s).2).2).2).1 s.nextBB (s.nextBB + 1)) (ensureInt1 (visitLAndExp l (createBB "" (createBB "" s).2).2).1 (visitLAndExp l (createBB "" (createBB "" s).2).2).2).2))).1 (visitEqExpOpt r (setInsertPoint s.nextBB (appendInstr (Instr.condBr (ensureInt1 (visitLAndExp l (createBB "" (createBB "" s).2).2).1 (visitLAndExp l (createBB "" (createBB "" s).2).2).2).1 s.nextBB (s.nextBB + 1)) (ensureInt1 (visitLAndExp l (createBB "" (createBB "" s).2).2).1 (visitLAndExp l (createBB "" (createBB "" s).2).2).2).2))).2).2) (s.nextBB + 1) = some ⟨s.nextBB + 1, "", s.curFn.getD "", []⟩ := La2.old_blocks _ _ g6 hcurprB
    have hB2cur : (createBB "" (createBB "" s).2).2.curBB = some b0 := hcur
    have hpl0some : (visitLAndExp l (createBB "" (createBB "" s).2).2).2.curBB.isSome = true := Lc0.cur_isSome (by rw [hB2cur]; rfl)
    have hplsome : (ensureInt1 (visitLAndExp l (createBB "" (createBB "" s).2).2).1 (visitLAndExp l (createBB "" (createBB "" s).2).2).2).2.curBB.isSome = true := by
      rw [ensureInt1_curBB]
      exact hpl0some
    have hplcur : (ensureInt1 (visitLAndExp l (createBB "" (createBB "" s).2).2).1 (visitLAndExp l (createBB "" (createBB "" s).2).2).2).2.curBB = some ((ensureInt1 (visitLAndExp l (createBB "" (createBB "" s).2).2).1 (visitLAndExp l (createBB "" (createBB "" s).2).2).2).2.curBB.getD 0) := opt_eq_some_getD _ hplsome
    have hb0lt : b0 < s.nextBB := (hwf.2 b0 (by simp [hcur])).1
    have hLBcases : ((ensureInt1 (visitLAndExp l (createBB "" (createBB "" s).2).2).1 (visitLAndExp l (createBB "" (createBB "" s).2).2).2).2.curBB.getD 0) = b0 ∨ s.nextBB + 2 ≤ ((ensureInt1 (visitLAndExp l (createBB "" (createBB "" s).2).2).1 (visitLAndExp l (createBB "" (createBB "" s).2).2).2).2.curBB.getD 0) := by
      rcases Lc0.cur_fresh with hceq | ⟨b, hb, hge⟩
      · left
        have hx : (ensureInt1 (visitLAndExp l (createBB "" (createBB "" s).2).2).1 (visitLAndExp l (createBB "" (createBB "" s).2).2).2).2.curBB = some b0 := by rw [ensureInt1_curBB, hceq, hB2cur]
        rw [hx]
        rfl
      · right
        have hx : (ensureInt1 (visitLAndExp l (createBB "" (createBB "" s).2).2).1 (visitLAndExp l (createBB "" (createBB "" s).2).2).2).2.curBB = some b := by rw [ensureInt1_curBB, hb]
        rw [hx]
        simp only [Option.getD_some]
        omega
    obtain ⟨lb, hlb⟩ := Option.isSome_iff_exists.mp hplsome
    have hmem : ((ensureInt1 (visitLAndExp l (createBB "" (createBB "" s).2).2).1 (visitLAndExp l (createBB "" (createBB "" s).2).2).2).2.curBB.getD 0) ∈ (ensureInt1 (visitLAndExp l (createBB "" (createBB "" s).2).2).1 (visitLAndExp l (createBB "" (createBB "" s).2).2).2).2.curBB.toList := by
      rw [hlb]
      simp
    have hLB_lt : ((ensureInt1 (visitLAndExp l (createBB "" (createBB "" s).2).2).1 (visitLAndExp l (createBB "" (createBB "" s).2).2).2).2.curBB.getD 0) < (ensureInt1 (visitLAndExp l (createBB "" (createBB "" s).2).2).1 (visitLAndExp l (createBB "" (createBB "" s).2).2).2).2.nextBB := ((Lpl.wf hwf).2 ((ensureInt1 (visitLAndExp l (createBB "" (createBB "" s).2).2).1 (visitLAndExp l (createBB "" (createBB "" s).2).2).2).2.curBB.getD 0) hmem).1
    have hLBneA : ((ensureInt1 (visitLAndExp l (createBB "" (createBB "" s).2).2).1 (visitLAndExp l (createBB "" (createBB "" s).2).2).2).2.curBB.getD 0) ≠ s.nextBB := by rcases hLBcases with h | h <;> omega
    have hLBneB : ((ensureInt1 (visitLAndExp l (createBB "" (createBB "" s).2).2).1 (visitLAndExp l (createBB "" (createBB "" s).2).2).2).2.curBB.getD 0) ≠ s.nextBB + 1 := by rcases hLBcases with h | h <;> omega
    obtain ⟨lb0, hlb0⟩ := Option.isSome_iff_exists.mp ((Lpl.wf hwf).2 ((ensureInt1 (visitLAndExp l (createBB "" (createBB "" s).2).2).1 (visitLAndExp l (createBB "" (createBB "" s).2).2).2).2.curBB.getD 0) hmem).2
    have fL1 : findBlock (appendInstr (Instr.condBr (ensureInt1 (visitLAndExp l (createBB "" (createBB "" s).2).2).1 (visitLAndExp l (createBB "" (createBB "" s).2).2).2).1 s.nextBB (s.nextBB + 1)) (ensureInt1 (visitLAndExp l (createBB "" (createBB "" s).2).2).1 (visitLAndExp l (createBB "" (createBB "" s).2).2).2).2) ((ensureInt1 (visitLAndExp l (createBB "" (createBB "" s).2).2).1 (visitLAndExp l (createBB "" (createBB "" s).2).2).2).2.curBB.getD 0) = some { lb0 with instrs := lb0.instrs ++ [(Instr.condBr (ensureInt1 (visitLAndExp l (createBB "" (createBB "" s).2).2).1 (visitLAndExp l (createBB "" (createBB "" s).2).2).2).1 s.nextBB (s.nextBB + 1))] } :=
      findBlock_append_self (Instr.condBr (ensureInt1 (visitLAndExp l (createBB "" (createBB "" s).2).2).1 (visitLAndExp l (createBB "" (createBB "" s).2).2).2).1 s.nextBB (s.nextBB + 1)) hplcur hlb0
    have fL2 : findBlock (setInsertPoint s.nextBB (appendInstr (Instr.condBr (ensureInt1 (visitLAndExp l (createBB "" (createBB "" s).2).2).1 (visitLAndExp l (createBB "" (createBB "" s).2).2).2).1 s.nextBB (s.nextBB + 1)) (ensureInt1 (visitLAndExp l (createBB "" (createBB "" s).2).2).1 (visitLAndExp l (createBB "" (createBB "" s).2).2).2).2)) ((ensureInt1 (visitLAndExp l (createBB "" (createBB "" s).2).2).1 (visitLAndExp l (createBB "" (createBB "" s).2).2).2).2.curBB.getD 0) = some { lb0 with instrs := lb0.instrs ++ [(Instr.condBr (ensureInt1 (visitLAndExp l (createBB "" (createBB "" s).2).2).1 (visitLAndExp l (createBB "" (createBB "" s).2).2).2).1 s.nextBB (s.nextBB + 1))] } := fL1
    have hcurs2L : (setInsertPoint s.nextBB (appendInstr (Instr.condBr (ensureInt1 (visitLAndExp l (createBB "" (createBB "" s).2).2).1 (visitLAndExp l (createBB "" (createBB "" s).2).2).2).1 s.nextBB (s.nextBB + 1)) (ensureInt1 (visitLAndExp l (createBB "" (createBB "" s).2).2).1 (visitLAndExp l (createBB "" (createBB "" s).2).2).2).2)).curBB ≠ some ((ensureInt1 (visitLAndExp l (createBB "" (createBB "" s).2).2).1 (visitLAndExp l (createBB "" (createBB "" s).2).2).2).2.curBB.getD 0) := by
      intro h
      have h2 : some s.nextBB = some ((ensureInt1 (visitLAndExp l (createBB "" (createBB "" s).2).2).1 (visitLAndExp l (createBB "" (createBB "" s).2).2).2).2.curBB.getD 0) := h
      injection h2 with h3
      exact hLBneA h3.symm
    have fL3 : findBlock (visitEqExpOpt r (setInsertPoint s.nextBB (appendInstr (Instr.condBr (ensureInt1 (visitLAndExp l (createBB "" (createBB "" s).2).2).1 (visitLAndExp l (createBB "" (createBB "" s).2).2).2).1 s.nextBB (s.nextBB + 1)) (ensureInt1 (visitLAndExp l (createBB "" (createBB "" s).2).2).1 (visitLAndExp l (createBB "" (createBB "" s).2).2).2).2))).2 ((ensureInt1 (visitLAndExp l (createBB "" (createBB "" s).2).2).1 (visitLAndExp l (createBB "" (createBB "" s).2).2).2).2.curBB.getD 0) = some { lb0 with instrs := lb0.instrs ++ [(Instr.condBr (ensureInt1 (visitLAndExp l (createBB "" (createBB "" s).2).2).1 (visitLAndExp l (createBB "" (createBB "" s).2).2).2).1 s.nextBB (s.nextBB + 1))] } :=
      Lr0.old_blocks _ _ fL2 hcurs2L
    have hcurpr0L : (visitEqExpOpt r (setInsertPoint s.nextBB (appendInstr (Instr.condBr (ensureInt1 (visitLAndExp l (createBB "" (createBB "" s).2).2).1 (visitLAndExp l (createBB "" (createBB "" s).2).2).2).1 s.nextBB (s.nextBB + 1)) (ensureInt1 (visitLAndExp l (createBB "" (createBB "" s).2).2).1 (visitLAndExp l (createBB "" (createBB "" s).2).2).2).2))).2.curBB ≠ some ((ensureInt1 (visitLAndExp l (createBB "" (createBB "" s).2).2).1 (visitLAndExp l (createBB "" (createBB "" s).2).2).2).2.curBB.getD 0) := Lr0.cur_ne (by omega) hcurs2L
    have fL4 : findBlock (ensureInt1 (visitEqExpOpt r (setInsertPoint s.nextBB (appendInstr (Instr.condBr (ensureInt1 (visitLAndExp l (createBB "" (createBB "" s).2).2).1 (visitLAndExp l (createBB "" (createBB "" s).2).2).2).1 s.nextBB (s.nextBB + 1)) (ensureInt1 (visitLAndExp l (createBB "" (createBB "" s).2).2).1 (visitLAndExp l (createBB "" (createBB "" s).2).2).2).2))).1 (visitEqExpOpt r (setInsertPoint s.nextBB (appendInstr (Instr.condBr (ensureInt1 (visitLAndExp l (createBB "" (createBB "" s).2).2).1 (visitLAndExp l (createBB "" (createBB "" s).2).2).2).1 s.nextBB (s.nextBB + 1)) (ensureInt1 (visitLAndExp l (createBB "" (createBB "" s).2).2).1 (visitLAndExp l (createBB "" (createBB "" s).2).2).2).2))).2).2 ((ensureInt1 (visitLAndExp l (createBB "" (createBB "" s).2).2).1 (visitLAndExp l (createBB "" (createBB "" s).2).2).2).2.curBB.getD 0) = some { lb0 with instrs := lb0.instrs ++ [(Instr.condBr (ensureInt1 (visitLAndExp l (createBB "" (createBB "" s).2).2).1 (visitLAndExp l (createBB "" (createBB "" s).2).2).2).1 s.nextBB (s.nextBB + 1))] } :=
      Le2.old_blocks _ _ fL3 hcurpr0L
    have hcurprL : (ensureInt1 (visitEqExpOpt r (setInsertPoint s.nextBB (appendInstr (Instr.condBr (ensureInt1 (visitLAndExp l (createBB "" (createBB "" s).2).2).1 (visitLAndExp l (createBB "" (createBB "" s).2).2).2).1 s.nextBB (s.nextBB + 1)) (ensureInt1 (visitLAndExp l (createBB "" (createBB "" s).2).2).1 (visitLAndExp l (createBB "" (createBB "" s).2).2).2).2))).1 (visitEqExpOpt r (setInsertPoint s.nextBB (appendInstr (Instr.condBr (ensureInt1 (visitLAndExp l (createBB "" (createBB "" s).2).2).1 (visitLAndExp l (createBB "" (createBB "" s).2).2).2).1 s.nextBB (s.nextBB + 1)) (ensureInt1 (visitLAndExp l (createBB "" (createBB "" s).2).2).1 (visitLAndExp l (createBB "" (createBB "" s).2).2).2).2))).2).2.curBB ≠ some ((ensureInt1 (visitLAndExp l (createBB "" (createBB "" s).2).2).1 (visitLAndExp l (createBB "" (createBB "" s).2).2).2).2.curBB.getD 0) := by
      rw [ensureInt1_curBB]
      exact hcurpr0L
    have fL5 : findBlock (appendInstr (Instr.br (s.nextBB + 1)) (ensureInt1 (visitEqExpOpt r (setInsertPoint s.nextBB (appendInstr (Instr.condBr (ensureInt1 (visitLAndExp l (createBB "" (createBB "" s).2).2).1 (visitLAndExp l (createBB "" (createBB "" s).2).2).2).1 s.nextBB (s.nextBB + 1)) (ensureInt1 (visitLAndExp l (createBB "" (createBB "" s).2).2).1 (visitLAndExp l (createBB "" (createBB "" s).2).2).2).2))).1 (visitEqExpOpt r (setInsertPoint s.nextBB (appendInstr (Instr.condBr (ensureInt1 (visitLAndExp l (createBB "" (createBB "" s).2).2).1 (visitLAndExp l (createBB "" (createBB "" s).2).2).2).1 s.nextBB (s.nextBB + 1)) (ensureInt1 (visitLAndExp l (createBB "" (createBB "" s).2).2).1 (visitLAndExp l (createBB "" (createBB "" s).2).2).2).2))).2).2) ((ensureInt1 (visitLAndExp l (createBB "" (createBB "" s).2).2).1 (visitLAndExp l (createBB "" (createBB "" s).2).2).2).2.curBB.getD 0) = some { lb0 with instrs := lb0.instrs ++ [(Instr.condBr (ensureInt1 (visitLAndExp l (createBB "" (createBB "" s).2).2).1 (visitLAndExp l (createBB "" (createBB "" s).2).2).2).1 s.nextBB (s.nextBB + 1))] } :=
      La2.old_blocks _ _ fL4 hcurprL
    have fL6 : findBlock (setInsertPoint (s.nextBB + 1) (appendInstr (Instr.br (s.nextBB + 1)) (ensureInt1 (visitEqExpOpt r (setInsertPoint s.nextBB (appendInstr (Instr.condBr (ensureInt1 (visitLAndExp l (createBB "" (createBB "" s).2).2).1 (visitLAndExp l (createBB "" (createBB "" s).2).2).2).1 s.nextBB (s.nextBB + 1)) (ensureInt1 (visitLAndExp l (createBB "" (createBB "" s).2).2).1 (visitLAndExp l (createBB "" (createBB "" s).2).2).2).2))).1 (visitEqExpOpt r (setInsertPoint s.nextBB (appendInstr (Instr.condBr (ensureInt1 (visitLAndExp l (createBB "" (createBB "" s).2).2).1 (visitLAndExp l (createBB "" (createBB "" s).2).2).2).1 s.nextBB (s.nextBB + 1)) (ensureInt1 (visitLAndExp l (createBB "" (createBB "" s).2).2).1 (visitLAndExp l (createBB "" (createBB "" s).2).2).2).2))).2).2)) ((ensureInt1 (visitLAndExp l (createBB "" (createBB "" s).2).2).1 (visitLAndExp l (createBB "" (createBB "" s).2).2).2).2.curBB.getD 0) = some { lb0 with instrs := lb0.instrs ++ [(Instr.condBr (ensureInt1 (visitLAndExp l (createBB "" (createBB "" s).2).2).1 (visitLAndExp l (createBB "" (createBB "" s).2).2).2).1 s.nextBB (s.nextBB + 1))] } := fL5
    have hcurs4L : (setInsertPoint (s.nextBB + 1) (appendInstr (Instr.br (s.nextBB + 1)) (ensureInt1 (visitEqExpOpt r (setInsertPoint s.nextBB (appendInstr (Instr.condBr (ensureInt1 (visitLAndExp l (createBB "" (createBB "" s).2).2).1 (visitLAndExp l (createBB "" (createBB "" s).2).2).2).1 s.nextBB (s.nextBB + 1)) (ensureInt1 (visitLAndExp l (createBB "" (createBB "" s).2).2).1 (visitLAndExp l (createBB "" (createBB "" s).2).2).2).2))).1 (visitEqExpOpt r (setInsertPoint s.nextBB (appendInstr (Instr.condBr (ensureInt1 (visitLAndExp l (createBB "" (createBB "" s).2).2).1 (visitLAndExp l (createBB "" (createBB "" s).2).2).2).1 s.nextBB (s.nextBB + 1)) (ensureInt1 (visitLAndExp l (createBB "" (createBB "" s).2).2).1 (visitLAndExp l (createBB "" (createBB "" s).2).2).2).2))).2).2)).curBB ≠ some ((ensureInt1 (visitLAndExp l (createBB "" (createBB "" s).2).2).1 (visitLAndExp l (createBB "" (createBB "" s).2).2).2).2.curBB.getD 0) := by
      intro h
      have h2 : some (s.nextBB + 1) = some ((ensureInt1 (visitLAndExp l (createBB "" (createBB "" s).2).2).1 (visitLAndExp l (createBB "" (createBB "" s).2).2).2).2.curBB.getD 0) := h
      injection h2 with h3
      exact hLBneB h3.symm
    have fL7 : findBlock (appendInstr (Instr.phi Ty.i1 [(Val.constB false, ((ensureInt1 (visitLAndExp l (createBB "" (createBB "" s).2).2).1 (visitLAndExp l (createBB "" (createBB "" s).2).2).2).2.curBB.getD 0)), ((ensureInt1 (visitEqExpOpt r (setInsertPoint s.nextBB (appendInstr (Instr.condBr (ensureInt1 (visitLAndExp l (createBB "" (createBB "" s).2).2).1 (visitLAndExp l (createBB "" (createBB "" s).2).2).2).1 s.nextBB (s.nextBB + 1)) (ensureInt1 (visitLAndExp l (createBB "" (createBB "" s).2).2).1 (visitLAndExp l (createBB "" (createBB "" s).2).2).2).2))).1 (visitEqExpOpt r (setInsertPoint s.nextBB (appendInstr (Instr.condBr (ensureInt1 (visitLAndExp l (createBB "" (createBB "" s).2).2).1 (visitLAndExp l (createBB "" (createBB "" s).2).2).2).1 s.nextBB (s.nextBB + 1)) (ensureInt1 (visitLAndExp l (createBB "" (createBB "" s).2).2).1 (visitLAndExp l (createBB "" (createBB "" s).2).2).2).2))).2).1, ((appendInstr (Instr.br (s.nextBB + 1)) (ensureInt1 (visitEqExpOpt r (setInsertPoint s.nextBB (appendInstr (Instr.condBr (ensureInt1 (visitLAndExp l (createBB "" (createBB "" s).2).2).1 (visitLAndExp l (createBB "" (createBB "" s).2).2).2).1 s.nextBB (s.nextBB + 1)) (ensureInt1 (visitLAndExp l (createBB "" (createBB "" s).2).2).1 (visitLAndExp l (createBB "" (createBB "" s).2).2).2).2))).1 (visitEqExpOpt r (setInsertPoint s.nextBB (appendInstr (Instr.condBr (ensureInt1 (visitLAndExp l (createBB "" (createBB "" s).2).2).1 (visitLAndExp l (createBB "" (createBB "" s).2).2).2).1 s.nextBB (s.nextBB + 1)) (ensureInt1 (visitLAndExp l (createBB "" (createBB "" s).2).2).1 (visitLAndExp l (createBB "" (createBB "" s).2).2).2).2))).2).2).curBB.getD 0))]) (setInsertPoint (s.nextBB + 1) (appendInstr (Instr.br (s.nextBB + 1)) (ensureInt1 (visitEqExpOpt r (setInsertPoint s.nextBB (appendInstr (Instr.condBr (ensureInt1 (visitLAndExp l (createBB "" (createBB "" s).2).2).1 (visitLAndExp l (createBB "" (createBB "" s).2).2).2).1 s.nextBB (s.nextBB + 1)) (ensureInt1 (visitLAndExp l (createBB "" (createBB "" s).2).2).1 (visitLAndExp l (createBB "" (createBB "" s).2).2).2).2))).1 (visitEqExpOpt r (setInsertPoint s.nextBB (appendInstr (Instr.condBr (ensureInt1 (visitLAndExp l (createBB "" (createBB "" s).2).2).1 (visitLAndExp l (createBB "" (createBB "" s).2).2).2).1 s.nextBB (s.nextBB + 1)) (ensureInt1 (visitLAndExp l (createBB "" (createBB "" s).2).2).1 (visitLAndExp l (createBB "" (createBB "" s).2).2).2).2))).2).2))) ((ensureInt1 (visitLAndExp l (createBB "" (createBB "" s).2).2).1 (visitLAndExp l (createBB "" (createBB "" s).2).2).2).2.curBB.getD 0) = some { lb0 with instrs := lb0.instrs ++ [(Instr.condBr (ensureInt1 (visitLAndExp l (createBB "" (createBB "" s).2).2).1 (visitLAndExp l (createBB "" (createBB "" s).2).2).2).1 s.nextBB (s.nextBB + 1))] } :=
      (loc_appendInstr (Instr.phi Ty.i1 [(Val.constB false, ((ensureInt1 (visitLAndExp l (createBB "" (createBB "" s).2).2).1 (visitLAndExp l (createBB "" (createBB "" s).2).2).2).2.curBB.getD 0)), ((ensureInt1 (visitEqExpOpt r (setInsertPoint s.nextBB (appendInstr (Instr.condBr (ensureInt1 (visitLAndExp l (createBB "" (createBB "" s).2).2).1 (visitLAndExp l (createBB "" (createBB "" s).2).2).2).1 s.nextBB (s.nextBB + 1)) (ensureInt1 (visitLAndExp l (createBB "" (createBB "" s).2).2).1 (visitLAndExp l (createBB "" (createBB "" s).2).2).2).2))).1 (visitEqExpOpt r (setInsertPoint s.nextBB (appendInstr (Instr.condBr (ensureInt1 (visitLAndExp l (createBB "" (createBB "" s).2).2).1 (visitLAndExp l (createBB "" (createBB "" s).2).2).2).1 s.nextBB (s.nextBB + 1)) (ensureInt1 (visitLAndExp l (createBB "" (createBB "" s).2).2).1 (visitLAndExp l (createBB "" (createBB "" s).2).2).2).2))).2).1, ((appendInstr (Instr.br (s.nextBB + 1)) (ensureInt1 (visitEqExpOpt r (setInsertPoint s.nextBB (appendInstr (Instr.condBr (ensureInt1 (visitLAndExp l (createBB "" (createBB "" s).2).2).1 (visitLAndExp l (createBB "" (createBB "" s).2).2).2).1 s.nextBB (s.nextBB + 1)) (ensureInt1 (visitLAndExp l (createBB "" (createBB "" s).2).2).1 (visitLAndExp l (createBB "" (createBB "" s).2).2).2).2))).1 (visitEqExpOpt r (setInsertPoint s.nextBB (appendInstr (Instr.condBr (ensureInt1 (visitLAndExp l (createBB "" (createBB "" s).2).2).1 (visitLAndExp l (createBB "" (createBB "" s).2).2).2).1 s.nextBB (s.nextBB + 1)) (ensureInt1 (visitLAndExp l (createBB "" (createBB "" s).2).2).1 (visitLAndExp l (createBB "" (createBB "" s).2).2).2).2))).2).2).curBB.getD 0))]) (setInsertPoint (s.nextBB + 1) (appendInstr (Instr.br (s.nextBB + 1)) (ensureInt1 (visitEqExpOpt r (setInsertPoint s.nextBB (appendInstr (Instr.condBr (ensureInt1 (visitLAndExp l (createBB "" (createBB "" s).2).2).1 (visitLAndExp l (createBB "" (createBB "" s).2).2).2).1 s.nextBB (s.nextBB + 1)) (ensureInt1 (visitLAndExp l (createBB "" (createBB "" s).2).2).1 (visitLAndExp l (createBB "" (createBB "" s).2).2).2).2))).1 (visitEqExpOpt r (setInsertPoint s.nextBB (appendInstr (Instr.condBr (ensureInt1 (visitLAndExp l (createBB "" (createBB "" s).2).2).1 (visitLAndExp l (createBB "" (createBB "" s).2).2).2).1 s.nextBB (s.nextBB + 1)) (ensureInt1 (visitLAndExp l (createBB "" (createBB "" s).2).2).1 (visitLAndExp l (createBB "" (createBB "" s).2).2).2).2))).2).2))).old_blocks _ _ fL6 hcurs4L
    have hres : (visitLAndExp (LAndExp.mk (some l) r) s) = emit (Instr.phi Ty.i1 [(Val.constB false, ((ensureInt1 (visitLAndExp l (createBB "" (createBB "" s).2).2).1 (visitLAndExp l (createBB "" (createBB "" s).2).2).2).2.curBB.getD 0)), ((ensureInt1 (visitEqExpOpt r (setInsertPoint s.nextBB (appendInstr (Instr.condBr (ensureInt1 (visitLAndExp l (createBB "" (createBB "" s).2).2).1 (visitLAndExp l (createBB "" (createBB "" s).2).2).2).1 s.nextBB (s.nextBB + 1)) (ensureInt1 (visitLAndExp l (createBB "" (createBB "" s).2).2).1 (visitLAndExp l (createBB "" (createBB "" s).2).2).2).2))).1 (visitEqExpOpt r (setInsertPoint s.nextBB (appendInstr (Instr.condBr (ensureInt1 (visitLAndExp l (createBB "" (createBB "" s).2).2).1 (visitLAndExp l (createBB "" (createBB "" s).2).2).2).1 s.nextBB (s.nextBB + 1)) (ensureInt1 (visitLAndExp l (createBB "" (createBB "" s).2).2).1 (visitLAndExp l (createBB "" (createBB "" s).2).2).2).2))).2).1, ((appendInstr (Instr.br (s.nextBB + 1)) (ensureInt1 (visitEqExpOpt r (setInsertPoint s.nextBB (appendInstr (Instr.condBr (ensureInt1 (visitLAndExp l (createBB "" (createBB "" s).2).2).1 (visitLAndExp l (createBB "" (createBB "" s).2).2).2).1 s.nextBB (s.nextBB + 1)) (ensureInt1 (visitLAndExp l (createBB "" (createBB "" s).2).2).1 (visitLAndExp l (createBB "" (createBB "" s).2).2).2).2))).1 (visitEqExpOpt r (setInsertPoint s.nextBB (appendInstr (Instr.condBr (ensureInt1 (visitLAndExp l (createBB "" (createBB "" s).2).2).1 (visitLAndExp l (createBB "" (createBB "" s).2).2).2).1 s.nextBB (s.nextBB + 1)) (ensureInt1 (visitLAndExp l (createBB "" (createBB "" s).2).2).1 (visitLAndExp l (createBB "" (createBB "" s).2).2).2).2))).2).2).curBB.getD 0))]) Ty.i1 (setInsertPoint (s.nextBB + 1) (appendInstr (Instr.br (s.nextBB + 1)) (ensureInt1 (visitEqExpOpt r (setInsertPoint s.nextBB (appendInstr (Instr.condBr (ensureInt1 (visitLAndExp l (createBB "" (createBB "" s).2).2).1 (visitLAndExp l (createBB "" (createBB "" s).2).2).2).1 s.nextBB (s.nextBB + 1)) (ensureInt1 (visitLAndExp l (createBB "" (createBB "" s).2).2).1 (visitLAndExp l (createBB "" (createBB "" s).2).2).2).2))).1 (visitEqExpOpt r (setInsertPoint s.nextBB (appendInstr (Instr.condBr (ensureInt1 (visitLAndExp l (createBB "" (createBB "" s).2).2).1 (visitLAndExp l (createBB "" (createBB "" s).2).2).2).1 s.nextBB (s.nextBB + 1)) (ensureInt1 (visitLAndExp l (createBB "" (createBB "" s).2).2).1 (visitLAndExp l (createBB "" (createBB "" s).2).2).2).2))).2).2)) := by
      simp only [visitLAndExp]
      rfl
    have fFinal : findBlock (visitLAndExp (LAndExp.mk (some l) r) s).2 ((ensureInt1 (visitLAndExp l (createBB "" (createBB "" s).2).2).1 (visitLAndExp l (createBB "" (createBB "" s).2).2).2).2.curBB.getD 0) = some { lb0 with instrs := lb0.instrs ++ [(Instr.condBr (ensureInt1 (visitLAndExp l (createBB "" (createBB "" s).2).2).1 (visitLAndExp l (createBB "" (createBB "" s).2).2).2).1 s.nextBB (s.nextBB + 1))] } := by
      rw [hres, findBlock_emit]
      exact fL7
    have g8 : findBlock (setInsertPoint (s.nextBB + 1) (appendInstr (Instr.br (s.nextBB + 1)) (ensureInt1 (visitEqExpOpt r (setInsertPoint s.nextBB (appendInstr (Instr.condBr (ensureInt1 (visitLAndExp l (createBB "" (createBB "" s).2).2).1 (visitLAndExp l (createBB "" (createBB "" s).2).2).2).1 s.nextBB (s.nextBB + 1)) (ensureInt1 (visitLAndExp l (createBB "" (createBB "" s).2).2).1 (visitLAndExp l (createBB "" (createBB "" s).2).2).2).2))).1 (visitEqExpOpt r (setInsertPoint s.nextBB (appendInstr (Instr.condBr (ensureInt1 (visitLAndExp l (createBB "" (createBB "" s).2).2).1 (visitLAndExp l (createBB "" (createBB "" s).2).2).2).1 s.nextBB (s.nextBB + 1)) (ensureInt1 (visitLAndExp l (createBB "" (createBB "" s).2).2).1 (visitLAndExp l (createBB "" (createBB "" s).2).2).2).2))).2).2)) (s.nextBB + 1) = some ⟨s.nextBB + 1, "", s.curFn.getD "", []⟩ := g7
    have hcurs4 : (setInsertPoint (s.nextBB + 1) (appendInstr (Instr.br (s.nextBB + 1)) (ensureInt1 (visitEqExpOpt r (setInsertPoint s.nextBB (appendInstr (Instr.condBr (ensureInt1 (visitLAndExp l (createBB "" (createBB "" s).2).2).1 (visitLAndExp l (createBB "" (createBB "" s).2).2).2).1 s.nextBB (s.nextBB + 1)) (ensureInt1 (visitLAndExp l (createBB "" (createBB "" s).2).2).1 (visitLAndExp l (createBB "" (createBB "" s).2).2).2).2))).1 (visitEqExpOpt r (setInsertPoint s.nextBB (appendInstr (Instr.condBr (ensureInt1 (visitLAndExp l (createBB "" (createBB "" s).2).2).1 (visitLAndExp l (createBB "" (createBB "" s).2).2).2).1 s.nextBB (s.nextBB + 1)) (ensureInt1 (visitLAndExp l (createBB "" (createBB "" s).2).2).1 (visitLAndExp l (createBB "" (createBB "" s).2).2).2).2))).2).2)).curBB = some (s.nextBB + 1) := rfl
    have gPhi : findBlock (appendInstr (Instr.phi Ty.i1 [(Val.constB false, ((ensureInt1 (visitLAndExp l (createBB "" (createBB "" s).2).2).1 (visitLAndExp l (createBB "" (createBB "" s).2).2).2).2.curBB.getD 0)), ((ensureInt1 (visitEqExpOpt r (setInsertPoint s.nextBB (appendInstr (Instr.condBr (ensureInt1 (visitLAndExp l (createBB "" (createBB "" s).2).2).1 (visitLAndExp l (createBB "" (createBB "" s).2).2).2).1 s.nextBB (s.nextBB + 1)) (ensureInt1 (visitLAndExp l (createBB "" (createBB "" s).2).2).1 (visitLAndExp l (createBB "" (createBB "" s).2).2).2).2))).1 (visitEqExpOpt r (setInsertPoint s.nextBB (appendInstr (Instr.condBr (ensureInt1 (visitLAndExp l (createBB "" (createBB "" s).2).2).1 (visitLAndExp l (createBB "" (createBB "" s).2).2).2).1 s.nextBB (s.nextBB + 1)) (ensureInt1 (visitLAndExp l (createBB "" (createBB "" s).2).2).1 (visitLAndExp l (createBB "" (createBB "" s).2).2).2).2))).2).1, ((appendInstr (Instr.br (s.nextBB + 1)) (ensureInt1 (visitEqExpOpt r (setInsertPoint s.nextBB (appendInstr (Instr.condBr (ensureInt1 (visitLAndExp l (createBB "" (createBB "" s).2).2).1 (visitLAndExp l (createBB "" (createBB "" s).2).2).2).1 s.nextBB (s.nextBB + 1)) (ensureInt1 (visitLAndExp l (createBB "" (createBB "" s).2).2).1 (visitLAndExp l (createBB "" (createBB "" s).2).2).2).2))).1 (visitEqExpOpt r (setInsertPoint s.nextBB (appendInstr (Instr.condBr (ensureInt1 (visitLAndExp l (createBB "" (createBB "" s).2).2).1 (visitLAndExp l (createBB "" (createBB "" s).2).2).2).1 s.nextBB (s.nextBB + 1)) (ensureInt1 (visitLAndExp l (createBB "" (createBB "" s).2).2).1 (visitLAndExp l (createBB "" (createBB "" s).2).2).2).2))).2).2).curBB.getD 0))]) (setInsertPoint (s.nextBB + 1) (appendInstr (Instr.br (s.nextBB + 1)) (ensureInt1 (visitEqExpOpt r (setInsertPoint s.nextBB (appendInstr (Instr.condBr (ensureInt1 (visitLAndExp l (createBB "" (createBB "" s).2).2).1 (visitLAndExp l (createBB "" (createBB "" s).2).2).2).1 s.nextBB (s.nextBB + 1)) (ensureInt1 (visitLAndExp l (createBB "" (createBB "" s).2).2).1 (visitLAndExp l (createBB "" (createBB "" s).2).2).2).2))).1 (visitEqExpOpt r (setInsertPoint s.nextBB (appendInstr (Instr.condBr (ensureInt1 (visitLAndExp l (createBB "" (createBB "" s).2).2).1 (visitLAndExp l (createBB "" (createBB "" s).2).2).2).1 s.nextBB (s.nextBB + 1)) (ensureInt1 (visitLAndExp l (createBB "" (createBB "" s).2).2).1 (visitLAndExp l (createBB "" (createBB "" s).2).2).2).2))).2).2))) (s.nextBB + 1) =
        some ⟨s.nextBB + 1, "", s.curFn.getD "", [(Instr.phi Ty.i1 [(Val.constB false, ((ensureInt1 (visitLAndExp l (createBB "" (createBB "" s).2).2).1 (visitLAndExp l (createBB "" (createBB "" s).2).2).2).2.curBB.getD 0)), ((ensureInt1 (visitEqExpOpt r (setInsertPoint s.nextBB (appendInstr (Instr.condBr (ensureInt1 (visitLAndExp l (createBB "" (createBB "" s).2).2).1 (visitLAndExp l (createBB "" (createBB "" s).2).2).2).1 s.nextBB (s.nextBB + 1)) (ensureInt1 (visitLAndExp l (createBB "" (createBB "" s).2).2).1 (visitLAndExp l (createBB "" (createBB "" s).2).2).2).2))).1 (visitEqExpOpt r (setInsertPoint s.nextBB (appendInstr (Instr.condBr (ensureInt1 (visitLAndExp l (createBB "" (createBB "" s).2).2).1 (visitLAndExp l (createBB "" (createBB "" s).2).2).2).1 s.nextBB (s.nextBB + 1)) (ensureInt1 (visitLAndExp l (createBB "" (createBB "" s).2).2).1 (visitLAndExp l (createBB "" (createBB "" s).2).2).2).2))).2).1, ((appendInstr (Instr.br (s.nextBB + 1)) (ensureInt1 (visitEqExpOpt r (setInsertPoint s.nextBB (appendInstr (Instr.condBr (ensureInt1 (visitLAndExp l (createBB "" (createBB "" s).2).2).1 (visitLAndExp l (createBB "" (createBB "" s).2).2).2).1 s.nextBB (s.nextBB + 1)) (ensureInt1 (visitLAndExp l (createBB "" (createBB "" s).2).2).1 (visitLAndExp l (createBB "" (createBB "" s).2).2).2).2))).1 (visitEqExpOpt r (setInsertPoint s.nextBB (appendInstr (Instr.condBr (ensureInt1 (visitLAndExp l (createBB "" (createBB "" s).2).2).1 (visitLAndExp l (createBB "" (createBB "" s).2).2).2).1 s.nextBB (s.nextBB + 1)) (ensureInt1 (visitLAndExp l (createBB "" (createBB "" s).2).2).1 (visitLAndExp l (createBB "" (createBB "" s).2).2).2).2))).2).2).curBB.getD 0))])]⟩ :=
      findBlock_append_self (Instr.phi Ty.i1 [(Val.constB false, ((ensureInt1 (visitLAndExp l (createBB "" (createBB "" s).2).2).1 (visitLAndExp l (createBB "" (createBB "" s).2).2).2).2.curBB.getD 0)), ((ensureInt1 (visitEqExpOpt r (setInsertPoint s.nextBB (appendInstr (Instr.condBr (ensureInt1 (visitLAndExp l (createBB "" (createBB "" s).2).2).1 (visitLAndExp l (createBB "" (createBB "" s).2).2).2).1 s.nextBB (s.nextBB + 1)) (ensureInt1 (visitLAndExp l (createBB "" (createBB "" s).2).2).1 (visitLAndExp l (createBB "" (createBB "" s).2).2).2).2))).1 (visitEqExpOpt r (setInsertPoint s.nextBB (appendInstr (Instr.condBr (ensureInt1 (visitLAndExp l (createBB "" (createBB "" s).2).2).1 (visitLAndExp l (createBB "" (createBB "" s).2).2).2).1 s.nextBB (s.nextBB + 1)) (ensureInt1 (visitLAndExp l (createBB "" (createBB "" s).2).2).1 (visitLAndExp l (createBB "" (createBB "" s).2).2).2).2))).2).1, ((appendInstr (Instr.br (s.nextBB + 1)) (ensureInt1 (visitEqExpOpt r (setInsertPoint s.nextBB (appendInstr (Instr.condBr (ensureInt1 (visitLAndExp l (createBB "" (createBB "" s).2).2).1 (visitLAndExp l (createBB "" (createBB "" s).2).2).2).1 s.nextBB (s.nextBB + 1)) (ensureInt1 (visitLAndExp l (createBB "" (createBB "" s).2).2).1 (visitLAndExp l (createBB "" (createBB "" s).2).2).2).2))).1 (visitEqExpOpt r (setInsertPoint s.nextBB (appendInstr (Instr.condBr (ensureInt1 (visitLAndExp l (createBB "" (createBB "" s).2).2).1 (visitLAndExp l (createBB "" (createBB "" s).2).2).2).1 s.nextBB (s.nextBB + 1)) (ensureInt1 (visitLAndExp l (createBB "" (createBB "" s).2).2).1 (visitLAndExp l (createBB "" (createBB "" s).2).2).2).2))).2).2).curBB.getD 0))]) hcurs4 g8
    have gFinal : findBlock (visitLAndExp (LAndExp.mk (some l) r) s).2 (s.nextBB + 1) =
        some ⟨s.nextBB + 1, "", s.curFn.getD "", [(Instr.phi Ty.i1 [(Val.constB false, ((ensureInt1 (visitLAndExp l (createBB "" (createBB "" s).2).2).1 (visitLAndExp l (createBB "" (createBB "" s).2).2).2).2.curBB.getD 0)), ((ensureInt1 (visitEqExpOpt r (setInsertPoint s.nextBB (appendInstr (Instr.condBr (ensureInt1 (visitLAndExp l (createBB "" (createBB "" s).2).2).1 (visitLAndExp l (createBB "" (createBB "" s).2).2).2).1 s.nextBB (s.nextBB + 1)) (ensureInt1 (visitLAndExp l (createBB "" (createBB "" s).2).2).1 (visitLAndExp l (createBB "" (createBB "" s).2).2).2).2))).1 (visitEqExpOpt r (setInsertPoint s.nextBB (appendInstr (Instr.condBr (ensureInt1 (visitLAndExp l (createBB "" (createBB "" s).2).2).1 (visitLAndExp l (createBB "" (createBB "" s).2).2).2).1 s.nextBB (s.nextBB + 1)) (ensureInt1 (visitLAndExp l (createBB "" (createBB "" s).2).2).1 (visitLAndExp l (createBB "" (createBB "" s).2).2).2).2))).2).1, ((appendInstr (Instr.br (s.nextBB + 1)) (ensureInt1 (visitEqExpOpt r (setInsertPoint s.nextBB (appendInstr (Instr.condBr (ensureInt1 (visitLAndExp l (createBB "" (createBB "" s).2).2).1 (visitLAndExp l (createBB "" (createBB "" s).2).2).2).1 s.nextBB (s.nextBB + 1)) (ensureInt1 (visitLAndExp l (createBB "" (createBB "" s).2).2).1 (visitLAndExp l (createBB "" (createBB "" s).2).2).2).2))).1 (visitEqExpOpt r (setInsertPoint s.nextBB (appendInstr (Instr.condBr (ensureInt1 (visitLAndExp l (createBB "" (createBB "" s).2).2).1 (visitLAndExp l (createBB "" (createBB "" s).2).2).2).1 s.nextBB (s.nextBB + 1)) (ensureInt1 (visitLAndExp l (createBB "" (createBB "" s).2).2).1 (visitLAndExp l (createBB "" (createBB "" s).2).2).2).2))).2).2).curBB.getD 0))])]⟩ := by
      rw [hres, findBlock_emit]
      exact gPhi
    have hresv : (visitLAndExp (LAndExp.mk (some l) r) s).1 = Val.reg (ensureInt1 (visitEqExpOpt r (setInsertPoint s.nextBB (appendInstr (Instr.condBr (ensureInt1 (visitLAndExp l (createBB "" (createBB "" s).2).2).1 (visitLAndExp l (createBB "" (createBB "" s).2).2).2).1 s.nextBB (s.nextBB + 1)) (ensureInt1 (visitLAndExp l (createBB "" (createBB "" s).2).2).1 (visitLAndExp l (createBB "" (createBB "" s).2).2).2).2))).1 (visitEqExpOpt r (setInsertPoint s.nextBB (appendInstr (Instr.condBr (ensureInt1 (visitLAndExp l (createBB "" (createBB "" s).2).2).1 (visitLAndExp l (createBB "" (createBB "" s).2).2).2).1 s.nextBB (s.nextBB + 1)) (ensureInt1 (visitLAndExp l (createBB "" (createBB "" s).2).2).1 (visitLAndExp l (createBB "" (createBB "" s).2).2).2).2))).2).2.nextReg Ty.i1 := by
      rw [hres]
      show Val.reg (setInsertPoint (s.nextBB + 1) (appendInstr (Instr.br (s.nextBB + 1)) (ensureInt1 (visitEqExpOpt r (setInsertPoint s.nextBB (appendInstr (Instr.condBr (ensureInt1 (visitLAndExp l (createBB "" (createBB "" s).2).2).1 (visitLAndExp l (createBB "" (createBB "" s).2).2).2).1 s.nextBB (s.nextBB + 1)) (ensureInt1 (visitLAndExp l (createBB "" (createBB "" s).2).2).1 (visitLAndExp l (createBB "" (createBB "" s).2).2).2).2))).1 (visitEqExpOpt r (setInsertPoint s.nextBB (appendInstr (Instr.condBr (ensureInt1 (visitLAndExp l (createBB "" (createBB "" s).2).2).1 (visitLAndExp l (createBB "" (createBB "" s).2).2).2).1 s.nextBB (s.nextBB + 1)) (ensureInt1 (visitLAndExp l (createBB "" (createBB "" s).2).2).1 (visitLAndExp l (createBB "" (createBB "" s).2).2).2).2))).2).2)).nextReg Ty.i1 = Val.reg (ensureInt1 (visitEqExpOpt r (setInsertPoint s.nextBB (appendInstr (Instr.condBr (ensureInt1 (visitLAndExp l (createBB "" (createBB "" s).2).2).1 (visitLAndExp l (createBB "" (createBB "" s).2).2).2).1 s.nextBB (s.nextBB + 1)) (ensureInt1 (visitLAndExp l (createBB "" (createBB "" s).2).2).1 (visitLAndExp l (createBB "" (createBB "" s).2).2).2).2))).1 (visitEqExpOpt r (setInsertPoint s.nextBB (appendInstr (Instr.condBr (ensureInt1 (visitLAndExp l (createBB "" (createBB "" s).2).2).1 (visitLAndExp l (createBB "" (createBB "" s).2).2).2).1 s.nextBB (s.nextBB + 1)) (ensureInt1 (visitLAndExp l (createBB "" (createBB "" s).2).2).1 (visitLAndExp l (createBB "" (createBB "" s).2).2).2).2))).2).2.nextReg Ty.i1
      rw [show (setInsertPoint (s.nextBB + 1) (appendInstr (Instr.br (s.nextBB + 1)) (ensureInt1 (visitEqExpOpt r (setInsertPoint s.nextBB (appendInstr (Instr.condBr (ensureInt1 (visitLAndExp l (createBB "" (createBB "" s).2).2).1 (visitLAndExp l (createBB "" (createBB "" s).2).2).2).1 s.nextBB (s.nextBB + 1)) (ensureInt1 (visitLAndExp l (createBB "" (createBB "" s).2).2).1 (visitLAndExp l (createBB "" (createBB "" s).2).2).2).2))).1 (visitEqExpOpt r (setInsertPoint s.nextBB (appendInstr (Instr.condBr (ensureInt1 (visitLAndExp l (createBB "" (createBB "" s).2).2).1 (visitLAndExp l (createBB "" (createBB "" s).2).2).2).1 s.nextBB (s.nextBB + 1)) (ensureInt1 (visitLAndExp l (createBB "" (createBB "" s).2).2).1 (visitLAndExp l (createBB "" (createBB "" s).2).2).2).2))).2).2)).nextReg = (appendInstr (Instr.br (s.nextBB + 1)) (ensureInt1 (visitEqExpOpt r (setInsertPoint s.nextBB (appendInstr (Instr.condBr (ensureInt1 (visitLAndExp l (createBB "" (createBB "" s).2).2).1 (visitLAndExp l (createBB "" (createBB "" s).2).2).2).1 s.nextBB (s.nextBB + 1)) (ensureInt1 (visitLAndExp l (createBB "" (createBB "" s).2).2).1 (visitLAndExp l (createBB "" (createBB "" s).2).2).2).2))).1 (visitEqExpOpt r (setInsertPoint s.nextBB (appendInstr (Instr.condBr (ensureInt1 (visitLAndExp l (createBB "" (createBB "" s).2).2).1 (visitLAndExp l (createBB "" (createBB "" s).2).2).2).1 s.nextBB (s.nextBB + 1)) (ensureInt1 (visitLAndExp l (createBB "" (createBB "" s).2).2).1 (visitLAndExp l (createBB "" (createBB "" s).2).2).2).2))).2).2).nextReg from rfl, appendInstr_nextReg]
    have hrescur : (visitLAndExp (LAndExp.mk (some l) r) s).2.curBB = some (s.nextBB + 1) := by
      rw [hres, emit_curBB]
      rfl
    exact ⟨hresv, hrescur, hplcur, ⟨lb0, hlb0, fFinal⟩, gFinal⟩
  · -- the || half
    have LA : Loc s (createBB "" s).2 := loc_createBB "" s hwf
    have WA : WFSt (createBB "" s).2 := LA.wf hwf
    have LB0 : Loc (createBB "" s).2 (createBB "" (createBB "" s).2).2 := loc_createBB "" (createBB "" s).2 WA
    have LBl : Loc s (createBB "" (createBB "" s).2).2 := Loc.trans hwf LA LB0
    have WB : WFSt (createBB "" (createBB "" s).2).2 := LBl.wf hwf
    have qB2 : (createBB "" (createBB "" s).2).2.nextBB = s.nextBB + 2 := rfl
    have Lc0 : Loc (createBB "" (createBB "" s).2).2 (visitLOrExp lo (createBB "" (createBB "" s).2).2).2 := loc_visitLOrExp lo (createBB "" (createBB "" s).2).2 WB
    have Lpl0 : Loc s (visitLOrExp lo (createBB "" (createBB "" s).2).2).2 := Loc.trans hwf LBl Lc0
    have Le1 : Loc (visitLOrExp lo (createBB "" (createBB "" s).2).2).2 (ensureInt1 (visitLOrExp lo (createBB "" (createBB "" s).2).2).1 (visitLOrExp lo (createBB "" (createBB "" s).2).2).2).2 := loc_ensureInt1 (visitLOrExp lo (createBB "" (createBB "" s).2).2).1 (visitLOrExp lo (createBB "" (createBB "" s).2).2).2
    have Lpl : Loc s (ensureInt1 (visitLOrExp lo (createBB "" (createBB "" s).2).2).1 (visitLOrExp lo (createBB "" (createBB "" s).2).2).2).2 := Loc.trans hwf Lpl0 Le1
    have La1 : Loc (ensureInt1 (visitLOrExp lo (createBB "" (createBB "" s).2).2).1 (visitLOrExp lo (createBB "" (createBB "" s).2).2).2).2 (appendInstr (Instr.condBr (ensureInt1 (visitLOrExp lo (createBB "" (createBB "" s).2).2).1 (visitLOrExp lo (createBB "" (createBB "" s).2).2).2).1 (s.nextBB + 1) s.nextBB) (ensureInt1 (visitLOrExp lo (createBB "" (createBB "" s).2).2).1 (visitLOrExp lo (createBB "" (createBB "" s).2).2).2).2) := loc_appendInstr (Instr.condBr (ensureInt1 (visitLOrExp lo (createBB "" (createBB "" s).2).2).1 (visitLOrExp lo (createBB "" (createBB "" s).2).2).2).1 (s.nextBB + 1) s.nextBB) (ensureInt1 (visitLOrExp lo (createBB "" (createBB "" s).2).2).1 (visitLOrExp lo (createBB "" (createBB "" s).2).2).2).2
    have Ls1 : Loc s (appendInstr (Instr.condBr (ensureInt1 (visitLOrExp lo (createBB "" (createBB "" s).2).2).1 (visitLOrExp lo (createBB "" (createBB "" s).2).2).2).1 (s.nextBB + 1) s.nextBB) (ensureInt1 (visitLOrExp lo (createBB "" (createBB "" s).2).2).1 (visitLOrExp lo (createBB "" (createBB "" s).2).2).2).2) := Loc.trans hwf Lpl La1
    have q3 : (createBB "" (createBB "" s).2).2.nextBB ≤ (visitLOrExp lo (createBB "" (createBB "" s).2).2).2.nextBB := Lc0.mono
    have q4 : (ensureInt1 (visitLOrExp lo (createBB "" (createBB "" s).2).2).1 (visitLOrExp lo (createBB "" (createBB "" s).2).2).2).2.nextBB = (visitLOrExp lo (createBB "" (createBB "" s).2).2).2.nextBB := ensureInt1_nextBB _ _
    have q5 : (appendInstr (Instr.condBr (ensureInt1 (visitLOrExp lo (createBB "" (createBB "" s).2).2).1 (visitLOrExp lo (createBB "" (createBB "" s).2).2).2).1 (s.nextBB + 1) s.nextBB) (ensureInt1 (visitLOrExp lo (createBB "" (createBB "" s).2).2).1 (visitLOrExp lo (createBB "" (createBB "" s).2).2).2).2).nextBB = (ensureInt1 (visitLOrExp lo (createBB "" (createBB "" s).2).2).1 (visitLOrExp lo (createBB "" (createBB "" s).2).2).2).2.nextBB := appendInstr_nextBB _ _
    have fA0 : findBlock (createBB "" s).2 s.nextBB = some ⟨s.nextBB, "", s.curFn.getD "", []⟩ := findBlock_createBB_new hwf
    have fA1 : findBlock (createBB "" (createBB "" s).2).2 s.nextBB = some ⟨s.nextBB, "", s.curFn.getD "", []⟩ := by
      rw [findBlock_createBB_old s.nextBB (show s.nextBB ≠ s.nextBB + 1 by omega) WA]
      exact fA0
    have hcurB2A : (createBB "" (createBB "" s).2).2.curBB ≠ some s.nextBB :=
      show s.curBB ≠ some s.nextBB from cur_ne_fresh hwf (Nat.le_refl _)
    have hcurB2B : (createBB "" (createBB "" s).2).2.curBB ≠ some (s.nextBB + 1) :=
      show s.curBB ≠ some (s.nextBB + 1) from cur_ne_fresh hwf (Nat.le_succ _)
    have fA2 : findBlock (visitLOrExp lo (createBB "" (createBB "" s).2).2).2 s.nextBB = some ⟨s.nextBB, "", s.curFn.getD "", []⟩ := Lc0.old_blocks _ _ fA1 hcurB2A
    have hcurpl0A : (visitLOrExp lo (createBB "" (createBB "" s).2).2).2.curBB ≠ some s.nextBB := Lc0.cur_ne (by omega) hcurB2A
    have fA3 : findBlock (ensureInt1 (visitLOrExp lo (createBB "" (createBB "" s).2).2).1 (visitLOrExp lo (createBB "" (createBB "" s).2).2).2).2 s.nextBB = some ⟨s.nextBB, "", s.curFn.getD "", []⟩ := Le1.old_blocks _ _ fA2 hcurpl0A
    have hcurplA : (ensureInt1 (visitLOrExp lo (createBB "" (createBB "" s).2).2).1 (visitLOrExp lo (createBB "" (createBB "" s).2).2).2).2.curBB ≠ some s.nextBB := by
      rw [ensureInt1_curBB]
      exact hcurpl0A
    have fA4 : findBlock (appendInstr (Instr.condBr (ensureInt1 (visitLOrExp lo (createBB "" (createBB "" s).2).2).1 (visitLOrExp lo (createBB "" (createBB "" s).2).2).2).1 (s.nextBB + 1) s.nextBB) (ensureInt1 (visitLOrExp lo (createBB "" (createBB "" s).2).2).1 (visitLOrExp lo (createBB "" (createBB "" s).2).2).2).2) s.nextBB = some ⟨s.nextBB, "", s.curFn.getD "", []⟩ := La1.old_blocks _ _ fA3 hcurplA
    have Ls2 : Loc s (setInsertPoint s.nextBB (appendInstr (Instr.condBr (ensureInt1 (visitLOrExp lo (createBB "" (createBB "" s).2).2).1 (visitLOrExp lo (createBB "" (createBB "" s).2).2).2).1 (s.nextBB + 1) s.nextBB) (ensureInt1 (visitLOrExp lo (createBB "" (createBB "" s).2).2).1 (visitLOrExp lo (createBB "" (createBB "" s).2).2).2).2)) := loc_setCur s.nextBB Ls1 (Nat.le_refl _) (by omega) (by rw [fA4]; rfl)
    have Lr0 : Loc (setInsertPoint s.nextBB (appendInstr (Instr.condBr (ensureInt1 (visitLOrExp lo (createBB "" (createBB "" s).2).2).1 (visitLOrExp lo (createBB "" (createBB "" s).2).2).2).1 (s.nextBB + 1) s.nextBB) (ensureInt1 (visitLOrExp lo (createBB "" (createBB "" s).2).2).1 (visitLOrExp lo (createBB "" (createBB "" s).2).2).2).2)) (visitLAndExpOpt ro (setInsertPoint s.nextBB (appendInstr (Instr.condBr (ensureInt1 (visitLOrExp lo (createBB "" (createBB "" s).2).2).1 (visitLOrExp lo (createBB "" (createBB "" s).2).2).2).1 (s.nextBB + 1) s.nextBB) (ensureInt1 (visitLOrExp lo (createBB "" (createBB "" s).2).2).1 (visitLOrExp lo (createBB "" (createBB "" s).2).2).2).2))).2 := loc_visitLAndExpOpt ro (setInsertPoint s.nextBB (appendInstr (Instr.condBr (ensureInt1 (visitLOrExp lo (createBB "" (createBB "" s).2).2).1 (visitLOrExp lo (createBB "" (createBB "" s).2).2).2).1 (s.nextBB + 1) s.nextBB) (ensureInt1 (visitLOrExp lo (createBB "" (createBB "" s).2).2).1 (visitLOrExp lo (createBB "" (createBB "" s).2).2).2).2)) (Ls2.wf hwf)
    have Lpr0 : Loc s (visitLAndExpOpt ro (setInsertPoint s.nextBB (appendInstr (Instr.condBr (ensureInt1 (visitLOrExp lo (createBB "" (createBB "" s).2).2).1 (visitLOrExp lo (createBB "" (createBB "" s).2).2).2).1 (s.nextBB + 1) s.nextBB) (ensureInt1 (visitLOrExp lo (createBB "" (createBB "" s).2).2).1 (visitLOrExp lo (createBB "" (createBB "" s).2).2).2).2))).2 := Loc.trans hwf Ls2 Lr0
    have Le2 : Loc (visitLAndExpOpt ro (setInsertPoint s.nextBB (appendInstr (Instr.condBr (ensureInt1 (visitLOrExp lo (createBB "" (createBB "" s).2).2).1 (visitLOrExp lo (createBB "" (createBB "" s).2).2).2).1 (s.nextBB + 1) s.nextBB) (ensureInt1 (visitLOrExp lo (createBB "" (createBB "" s).2).2).1 (visitLOrExp lo (createBB "" (createBB "" s).2).2).2).2))).2 (ensureInt1 (visitLAndExpOpt ro (setInsertPoint s.nextBB (appendInstr (Instr.condBr (ensureInt1 (visitLOrExp lo (createBB "" (createBB "" s).2).2).1 (visitLOrExp lo (createBB "" (createBB "" s).2).2).2).1 (s.nextBB + 1) s.nextBB) (ensureInt1 (visitLOrExp lo (createBB "" (createBB "" s).2).2).1 (visitLOrExp lo (createBB "" (createBB "" s).2).2).2).2))).1 (visitLAndExpOpt ro (setInsertPoint s.nextBB (appendInstr (Instr.condBr (ensureInt1 (visitLOrExp lo (createBB "" (createBB "" s).2).2).1 (visitLOrExp lo (createBB "" (createBB "" s).2).2).2).1 (s.nextBB + 1) s.nextBB) (ensureInt1 (visitLOrExp lo (createBB "" (createBB "" s).2).2).1 (visitLOrExp lo (createBB "" (createBB "" s).2).2).2).2))).2).2 := loc_ensureInt1 (visitLAndExpOpt ro (setInsertPoint s.nextBB (appendInstr (Instr.condBr (ensureInt1 (visitLOrExp lo (createBB "" (createBB "" s).2).2).1 (visitLOrExp lo (createBB "" (createBB "" s).2).2).2).1 (s.nextBB + 1) s.nextBB) (ensureInt1 (visitLOrExp lo (createBB "" (createBB "" s).2).2).1 (visitLOrExp lo (createBB "" (createBB "" s).2).2).2).2))).1 (visitLAndExpOpt ro (setInsertPoint s.nextBB (appendInstr (Instr.condBr (ensureInt1 (visitLOrExp lo (createBB "" (createBB "" s).2).2).1 (visitLOrExp lo (createBB "" (createBB "" s).2).2).2).1 (s.nextBB + 1) s.nextBB) (ensureInt1 (visitLOrExp lo (createBB "" (createBB "" s).2).2).1 (visitLOrExp lo (createBB "" (createBB "" s).2).2).2).2))).2
    have Lpr : Loc s (ensureInt1 (visitLAndExpOpt ro (setInsertPoint s.nextBB (appendInstr (Instr.condBr (ensureInt1 (visitLOrExp lo (createBB "" (createBB "" s).2).2).1 (visitLOrExp lo (createBB "" (createBB "" s).2).2).2).1 (s.nextBB + 1) s.nextBB) (ensureInt1 (visitLOrExp lo (createBB "" (createBB "" s).2).2).1 (visitLOrExp lo (createBB "" (createBB "" s).2).2).2).2))).1 (visitLAndExpOpt ro (setInsertPoint s.nextBB (appendInstr (Instr.condBr (ensureInt1 (visitLOrExp lo (createBB "" (createBB "" s).2).2).1 (visitLOrExp lo (createBB "" (createBB "" s).2).2).2).1 (s.nextBB + 1) s.nextBB) (ensureInt1 (visitLOrExp lo (createBB "" (createBB "" s).2).2).1 (visitLOrExp lo (createBB "" (createBB "" s).2).2).2).2))).2).2 := Loc.trans hwf Lpr0 Le2
    have La2 : Loc (ensureInt1 (visitLAndExpOpt ro (setInsertPoint s.nextBB (appendInstr (Instr.condBr (ensureInt1 (visitLOrExp lo (createBB "" (createBB "" s).2).2).1 (visitLOrExp lo (createBB "" (createBB "" s).2).2).2).1 (s.nextBB + 1) s.nextBB) (ensureInt1 (visitLOrExp lo (createBB "" (createBB "" s).2).2).1 (visitLOrExp lo (createBB "" (createBB "" s).2).2).2).2))).1 (visitLAndExpOpt ro (setInsertPoint s.nextBB (appendInstr (Instr.condBr (ensureInt1 (visitLOrExp lo (createBB "" (createBB "" s).2).2).1 (visitLOrExp lo (createBB "" (createBB "" s).2).2).2).1 (s.nextBB + 1) s.nextBB) (ensureInt1 (visitLOrExp lo (createBB "" (createBB "" s).2).2).1 (visitLOrExp lo (createBB "" (createBB "" s).2).2).2).2))).2).2 (appendInstr (Instr.br (s.nextBB + 1)) (ensureInt1 (visitLAndExpOpt ro (setInsertPoint s.nextBB (appendInstr (Instr.condBr (ensureInt1 (visitLOrExp lo (createBB "" (createBB "" s).2).2).1 (visitLOrExp lo (createBB "" (createBB "" s).2).2).2).1 (s.nextBB + 1) s.nextBB) (ensureInt1 (visitLOrExp lo (createBB "" (createBB "" s).2).2).1 (visitLOrExp lo (createBB "" (createBB "" s).2).2).2).2))).1 (visitLAndExpOpt ro (setInsertPoint s.nextBB (appendInstr (Instr.condBr (ensureInt1 (visitLOrExp lo (createBB "" (createBB "" s).2).2).1 (visitLOrExp lo (createBB "" (createBB "" s).2).2).2).1 (s.nextBB + 1) s.nextBB) (ensureInt1 (visitLOrExp lo (createBB "" (createBB "" s).2).2).1 (visitLOrExp lo (createBB "" (createBB "" s).2).2).2).2))).2).2) := loc_appendInstr (Instr.br (s.nextBB + 1)) (ensureInt1 (visitLAndExpOpt ro (setInsertPoint s.nextBB (appendInstr (Instr.condBr (ensureInt1 (visitLOrExp lo (createBB "" (createBB "" s).2).2).1 (visitLOrExp lo (createBB "" (createBB "" s).2).2).2).1 (s.nextBB + 1) s.nextBB) (ensureInt1 (visitLOrExp lo (createBB "" (createBB "" s).2).2).1 (visitLOrExp lo (createBB "" (createBB "" s).2).2).2).2))).1 (visitLAndExpOpt ro (setInsertPoint s.nextBB (appendInstr (Instr.condBr (ensureInt1 (visitLOrExp lo (createBB "" (createBB "" s).2).2).1 (visitLOrExp lo (createBB "" (createBB "" s).2).2).2).1 (s.nextBB + 1) s.nextBB) (ensureInt1 (visitLOrExp lo (createBB "" (createBB "" s).2).2).1 (visitLOrExp lo (createBB "" (createBB "" s).2).2).2).2))).2).2
    have q6 : (setInsertPoint s.nextBB (appendInstr (Instr.condBr (ensureInt1 (visitLOrExp lo (createBB "" (createBB "" s).2).2).1 (visitLOrExp lo (createBB "" (createBB "" s).2).2).2).1 (s.nextBB + 1) s.nextBB) (ensureInt1 (visitLOrExp lo (createBB "" (createBB "" s).2).2).1 (visitLOrExp lo (createBB "" (createBB "" s).2).2).2).2)).nextBB = (appendInstr (Instr.condBr (ensureInt1 (visitLOrExp lo (createBB "" (createBB "" s).2).2).1 (visitLOrExp lo (createBB "" (createBB "" s).2).2).2).1 (s.nextBB + 1) s.nextBB) (ensureInt1 (visitLOrExp lo (createBB "" (createBB "" s).2).2).1 (visitLOrExp lo (createBB "" (createBB "" s).2).2).2).2).nextBB := rfl
    have q7 : (setInsertPoint s.nextBB (appendInstr (Instr.condBr (ensureInt1 (visitLOrExp lo (createBB "" (createBB "" s).2).2).1 (visitLOrExp lo (createBB "" (createBB "" s).2).2).2).1 (s.nextBB + 1) s.nextBB) (ensureInt1 (visitLOrExp lo (createBB "" (createBB "" s).2).2).1 (visitLOrExp lo (createBB "" (createBB "" s).2).2).2).2)).nextBB ≤ (visitLAndExpOpt ro (setInsertPoint s.nextBB (appendInstr (Instr.condBr (ensureInt1 (visitLOrExp lo (createBB "" (createBB "" s).2).2).1 (visitLOrExp lo (createBB "" (createBB "" s).2).2).2).1 (s.nextBB + 1) s.nextBB) (ensureInt1 (visitLOrExp lo (createBB "" (createBB "" s).2).2).1 (visitLOrExp lo (createBB "" (createBB "" s).2).2).2).2))).2.nextBB := Lr0.mono
    have q8 : (ensureInt1 (visitLAndExpOpt ro (setInsertPoint s.nextBB (appendInstr (Instr.condBr (ensureInt1 (visitLOrExp lo (createBB "" (createBB "" s).2).2).1 (visitLOrExp lo (createBB "" (createBB "" s).2).2).2).1 (s.nextBB + 1) s.nextBB) (ensureInt1 (visitLOrExp lo (createBB "" (createBB "" s).2).2).1 (visitLOrExp lo (createBB "" (createBB "" s).2).2).2).2))).1 (visitLAndExpOpt ro (setInsertPoint s.nextBB (appendInstr (Instr.condBr (ensureInt1 (visitLOrExp lo (createBB "" (createBB "" s).2).2).1 (visitLOrExp lo (createBB "" (createBB "" s).2).2).2).1 (s.nextBB + 1) s.nextBB) (ensureInt1 (visitLOrExp lo (createBB "" (createBB "" s).2).2).1 (visitLOrExp lo (createBB "" (createBB "" s).2).2).2).2))).2).2.nextBB = (visitLAndExpOpt ro (setInsertPoint s.nextBB (appendInstr (Instr.condBr (ensureInt1 (visitLOrExp lo (createBB "" (createBB "" s).2).2).1 (visitLOrExp lo (createBB "" (createBB "" s).2).2).2).1 (s.nextBB + 1) s.nextBB) (ensureInt1 (visitLOrExp lo (createBB "" (createBB "" s).2).2).1 (visitLOrExp lo (createBB "" (createBB "" s).2).2).2).2))).2.nextBB := ensureInt1_nextBB _ _
    have g0 : findBlock (createBB "" (createBB "" s).2).2 (s.nextBB + 1) = some ⟨s.nextBB + 1, "", s.curFn.getD "", []⟩ := findBlock_createBB_new WA
    have g1 : findBlock (visitLOrExp lo (createBB "" (createBB "" s).2).2).2 (s.nextBB + 1) = some ⟨s.nextBB + 1, "", s.curFn.getD "", []⟩ := Lc0.old_blocks _ _ g0 hcurB2B
    have hcurpl0B : (visitLOrExp lo (createBB "" (createBB "" s).2).2).2.curBB ≠ some (s.nextBB + 1) := Lc0.cur_ne (by omega) hcurB2B
    have g2 : findBlock (ensureInt1 (visitLOrExp lo (createBB "" (createBB "" s).2).2).1 (visitLOrExp lo (createBB "" (createBB "" s).2).2).2).2 (s.nextBB + 1) = some ⟨s.nextBB + 1, "", s.curFn.getD "", []⟩ := Le1.old_blocks _ _ g1 hcurpl0B
    have hcurplB : (ensureInt1 (visitLOrExp lo (createBB "" (createBB "" s).2).2).1 (visitLOrExp lo (createBB "" (createBB "" s).2).2).2).2.curBB ≠ some (s.nextBB + 1) := by
      rw [ensureInt1_curBB]
      exact hcurpl0B
    have g3 : findBlock (appendInstr (Instr.condBr (ensureInt1 (visitLOrExp lo (createBB "" (createBB "" s).2).2).1 (visitLOrExp lo (createBB "" (createBB "" s).2).2).2).1 (s.nextBB + 1) s.nextBB) (ensureInt1 (visitLOrExp lo (createBB "" (createBB "" s).2).2).1 (visitLOrExp lo (createBB "" (createBB "" s).2).2).2).2) (s.nextBB + 1) = some ⟨s.nextBB + 1, "", s.curFn.getD "", []⟩ := La1.old_blocks _ _ g2 hcurplB
    have g4 : findBlock (setInsertPoint s.nextBB (appendInstr (Instr.condBr (ensureInt1 (visitLOrExp lo (createBB "" (createBB "" s).2).2).1 (visitLOrExp lo (createBB "" (createBB "" s).2).2).2).1 (s.nextBB + 1) s.nextBB) (ensureInt1 (visitLOrExp lo (createBB "" (createBB "" s).2).2).1 (visitLOrExp lo (createBB "" (createBB "" s).2).2).2).2)) (s.nextBB + 1) = some ⟨s.nextBB + 1, "", s.curFn.getD "", []⟩ := g3
    have hcurs2B : (setInsertPoint s.nextBB (appendInstr (Instr.condBr (ensureInt1 (visitLOrExp lo (createBB "" (createBB "" s).2).2).1 (visitLOrExp lo (createBB "" (createBB "" s).2).2).2).1 (s.nextBB + 1) s.nextBB) (ensureInt1 (visitLOrExp lo (createBB "" (createBB "" s).2).2).1 (visitLOrExp lo (createBB "" (createBB "" s).2).2).2).2)).curBB ≠ some (s.nextBB + 1) := by
      intro h
      have h2 : some s.nextBB = some (s.nextBB + 1) := h
      injection h2 with h3
      omega
    have g5 : findBlock (visitLAndExpOpt ro (setInsertPoint s.nextBB (appendInstr (Instr.condBr (ensureInt1 (visitLOrExp lo (createBB "" (createBB "" s).2).2).1 (visitLOrExp lo (createBB "" (createBB "" s).2).2).2).1 (s.nextBB + 1) s.nextBB) (ensureInt1 (visitLOrExp lo (createBB "" (createBB "" s).2).2).1 (visitLOrExp lo (createBB "" (createBB "" s).2).2).2).2))).2 (s.nextBB + 1) = some ⟨s.nextBB + 1, "", s.curFn.getD "", []⟩ := Lr0.old_blocks _ _ g4 hcurs2B
    have hcurpr0B : (visitLAndExpOpt ro (setInsertPoint s.nextBB (appendInstr (Instr.condBr (ensureInt1 (visitLOrExp lo (createBB "" (createBB "" s).2).2).1 (visitLOrExp lo (createBB "" (createBB "" s).2).2).2).1 (s.nextBB + 1) s.nextBB) (ensureInt1 (visitLOrExp lo (createBB "" (createBB "" s).2).2).1 (visitLOrExp lo (createBB "" (createBB "" s).2).2).2).2))).2.curBB ≠ some (s.nextBB + 1) := Lr0.cur_ne (by omega) hcurs2B
    have g6 : findBlock (ensureInt1 (visitLAndExpOpt ro (setInsertPoint s.nextBB (appendInstr (Instr.condBr (ensureInt1 (visitLOrExp lo (createBB "" (createBB "" s).2).2).1 (visitLOrExp lo (createBB "" (createBB "" s).2).2).2).1 (s.nextBB + 1) s.nextBB) (ensureInt1 (visitLOrExp lo (createBB "" (createBB "" s).2).2).1 (visitLOrExp lo (createBB "" (createBB "" s).2).2).2).2))).1 (visitLAndExpOpt ro (setInsertPoint s.nextBB (appendInstr (Instr.condBr (ensureInt1 (visitLOrExp lo (createBB "" (createBB "" s).2).2).1 (visitLOrExp lo (createBB "" (createBB "" s).2).2).2).1 (s.nextBB + 1) s.nextBB) (ensureInt1 (visitLOrExp lo (createBB "" (createBB "" s).2).2).1 (visitLOrExp lo (createBB "" (createBB "" s).2).2).2).2))).2).2 (s.nextBB + 1) = some ⟨s.nextBB + 1, "", s.curFn.getD "", []⟩ := Le2.old_blocks _ _ g5 hcurpr0B
    have hcurprB : (ensureInt1 (visitLAndExpOpt ro (setInsertPoint s.nextBB (appendInstr (Instr.condBr (ensureInt1 (visitLOrExp lo (createBB "" (createBB "" s).2).2).1 (visitLOrExp lo (createBB "" (createBB "" s).2).2).2).1 (s.nextBB + 1) s.nextBB) (ensureInt1 (visitLOrExp lo (createBB "" (createBB "" s).2).2).1 (visitLOrExp lo (createBB "" (createBB "" s).2).2).2).2))).1 (visitLAndExpOpt ro (setInsertPoint s.nextBB (appendInstr (Instr.condBr (ensureInt1 (visitLOrExp lo (createBB "" (createBB "" s).2).2).1 (visitLOrExp lo (createBB "" (createBB "" s).2).2).2).1 (s.nextBB + 1) s.nextBB) (ensureInt1 (visitLOrExp lo (createBB "" (createBB "" s).2).2).1 (visitLOrExp lo (createBB "" (createBB "" s).2).2).2).2))).2).2.curBB ≠ some (s.nextBB + 1) := by
      rw [ensureInt1_curBB]
      exact hcurpr0B
    have g7 : findBlock (appendInstr (Instr.br (s.nextBB + 1)) (ensureInt1 (visitLAndExpOpt ro (setInsertPoint s.nextBB (appendInstr (Instr.condBr (ensureInt1 (visitLOrExp lo (createBB "" (createBB "" s).2).2).1 (visitLOrExp lo (createBB "" (createBB "" s).2).2).2).1 (s.nextBB + 1) s.nextBB) (ensureInt1 (visitLOrExp lo (createBB "" (createBB "" s).2).2).1 (visitLOrExp lo (createBB "" (createBB "" s).2).2).2).2))).1 (visitLAndExpOpt ro (setInsertPoint s.nextBB (appendInstr (Instr.condBr (ensureInt1 (visitLOrExp lo (createBB "" (createBB "" s).2).2).1 (visitLOrExp lo (createBB "" (createBB "" s).2).2).2).1 (s.nextBB + 1) s.nextBB) (ensureInt1 (visitLOrExp lo (createBB "" (createBB "" s).2).2).1 (visitLOrExp lo (createBB "" (createBB "" s).2).2).2).2))).2).2) (s.nextBB + 1) = some ⟨s.nextBB + 1, "", s.curFn.getD "", []⟩ := La2.old_blocks _ _ g6 hcurprB
    have hB2cur : (createBB "" (createBB "" s).2).2.curBB = some b0 := hcur
    have hpl0some : (visitLOrExp lo (createBB "" (createBB "" s).2).2).2.curBB.isSome = true := Lc0.cur_isSome (by rw [hB2cur]; rfl)
    have hplsome : (ensureInt1 (visitLOrExp lo (createBB "" (createBB "" s).2).2).1 (visitLOrExp lo (createBB "" (createBB "" s).2).2).2).2.curBB.isSome = true := by
      rw [ensureInt1_curBB]
      exact hpl0some
    have hplcur : (ensureInt1 (visitLOrExp lo (createBB "" (createBB "" s).2).2).1 (visitLOrExp lo (createBB "" (createBB "" s).2).2).2).2.curBB = some ((ensureInt1 (visitLOrExp lo (createBB "" (createBB "" s).2).2).1 (visitLOrExp lo (createBB "" (createBB "" s).2).2).2).2.curBB.getD 0) := opt_eq_some_getD _ hplsome
    have hb0lt : b0 < s.nextBB := (hwf.2 b0 (by simp [hcur])).1
    have hLBcases : ((ensureInt1 (visitLOrExp lo (createBB "" (createBB "" s).2).2).1 (visitLOrExp lo (createBB "" (createBB "" s).2).2).2).2.curBB.getD 0) = b0 ∨ s.nextBB + 2 ≤ ((ensureInt1 (visitLOrExp lo (createBB "" (createBB "" s).2).2).1 (visitLOrExp lo (createBB "" (createBB "" s).2).2).2).2.curBB.getD 0) := by
      rcases Lc0.cur_fresh with hceq | ⟨b, hb, hge⟩
      · left
        have hx : (ensureInt1 (visitLOrExp lo (createBB "" (createBB "" s).2).2).1 (visitLOrExp lo (createBB "" (createBB "" s).2).2).2).2.curBB = some b0 := by rw [ensureInt1_curBB, hceq, hB2cur]
        rw [hx]
        rfl
      · right
        have hx : (ensureInt1 (visitLOrExp lo (createBB "" (createBB "" s).2).2).1 (visitLOrExp lo (createBB "" (createBB "" s).2).2).2).2.curBB = some b := by rw [ensureInt1_curBB, hb]
        rw [hx]
        simp only [Option.getD_some]
        omega
    obtain ⟨lb, hlb⟩ := Option.isSome_iff_exists.mp hplsome
    have hmem : ((ensureInt1 (visitLOrExp lo (createBB "" (createBB "" s).2).2).1 (visitLOrExp lo (createBB "" (createBB "" s).2).2).2).2.curBB.getD 0) ∈ (ensureInt1 (visitLOrExp lo (createBB "" (createBB "" s).2).2).1 (visitLOrExp lo (createBB "" (createBB "" s).2).2).2).2.curBB.toList := by
      rw [hlb]
      simp
    have hLB_lt : ((ensureInt1 (visitLOrExp lo (createBB "" (createBB "" s).2).2).1 (visitLOrExp lo (createBB "" (createBB "" s).2).2).2).2.curBB.getD 0) < (ensureInt1 (visitLOrExp lo (createBB "" (createBB "" s).2).2).1 (visitLOrExp lo (createBB "" (createBB "" s).2).2).2).2.nextBB := ((Lpl.wf hwf).2 ((ensureInt1 (visitLOrExp lo (createBB "" (createBB "" s).2).2).1 (visitLOrExp lo (createBB "" (createBB "" s).2).2).2).2.curBB.getD 0) hmem).1
    have hLBneA : ((ensureInt1 (visitLOrExp lo (createBB "" (createBB "" s).2).2).1 (visitLOrExp lo (createBB "" (createBB "" s).2).2).2).2.curBB.getD 0) ≠ s.nextBB := by rcases hLBcases with h | h <;> omega
    have hLBneB : ((ensureInt1 (visitLOrExp lo (createBB "" (createBB "" s).2).2).1 (visitLOrExp lo (createBB "" (createBB "" s).2).2).2).2.curBB.getD 0) ≠ s.nextBB + 1 := by rcases hLBcases with h | h <;> omega
    obtain ⟨lb0, hlb0⟩ := Option.isSome_iff_exists.mp ((Lpl.wf hwf).2 ((ensureInt1 (visitLOrExp lo (createBB "" (createBB "" s).2).2).1 (visitLOrExp lo (createBB "" (createBB "" s).2).2).2).2.curBB.getD 0) hmem).2
    have fL1 : findBlock (appendInstr (Instr.condBr (ensureInt1 (visitLOrExp lo (createBB "" (createBB "" s).2).2).1 (visitLOrExp lo (createBB "" (createBB "" s).2).2).2).1 (s.nextBB + 1) s.nextBB) (ensureInt1 (visitLOrExp lo (createBB "" (createBB "" s).2).2).1 (visitLOrExp lo (createBB "" (createBB "" s).2).2).2).2) ((ensureInt1 (visitLOrExp lo (createBB "" (createBB "" s).2).2).1 (visitLOrExp lo (createBB "" (createBB "" s).2).2).2).2.curBB.getD 0) = some { lb0 with instrs := lb0.instrs ++ [(Instr.condBr (ensureInt1 (visitLOrExp lo (createBB "" (createBB "" s).2).2).1 (visitLOrExp lo (createBB "" (createBB "" s).2).2).2).1 (s.nextBB + 1) s.nextBB)] } :=
      findBlock_append_self (Instr.condBr (ensureInt1 (visitLOrExp lo (createBB "" (createBB "" s).2).2).1 (visitLOrExp lo (createBB "" (createBB "" s).2).2).2).1 (s.nextBB + 1) s.nextBB) hplcur hlb0
    have fL2 : findBlock (setInsertPoint s.nextBB (appendInstr (Instr.condBr (ensureInt1 (visitLOrExp lo (createBB "" (createBB "" s).2).2).1 (visitLOrExp lo (createBB "" (createBB "" s).2).2).2).1 (s.nextBB + 1) s.nextBB) (ensureInt1 (visitLOrExp lo (createBB "" (createBB "" s).2).2).1 (visitLOrExp lo (createBB "" (createBB "" s).2).2).2).2)) ((ensureInt1 (visitLOrExp lo (createBB "" (createBB "" s).2).2).1 (visitLOrExp lo (createBB "" (createBB "" s).2).2).2).2.curBB.getD 0) = some { lb0 with instrs := lb0.instrs ++ [(Instr.condBr (ensureInt1 (visitLOrExp lo (createBB "" (createBB "" s).2).2).1 (visitLOrExp lo (createBB "" (createBB "" s).2).2).2).1 (s.nextBB + 1) s.nextBB)] } := fL1
    have hcurs2L : (setInsertPoint s.nextBB (appendInstr (Instr.condBr (ensureInt1 (visitLOrExp lo (createBB "" (createBB "" s).2).2).1 (visitLOrExp lo (createBB "" (createBB "" s).2).2).2).1 (s.nextBB + 1) s.nextBB) (ensureInt1 (visitLOrExp lo (createBB "" (createBB "" s).2).2).1 (visitLOrExp lo (createBB "" (createBB "" s).2).2).2).2)).curBB ≠ some ((ensureInt1 (visitLOrExp lo (createBB "" (createBB "" s).2).2).1 (visitLOrExp lo (createBB "" (createBB "" s).2).2).2).2.curBB.getD 0) := by
      intro h
      have h2 : some s.nextBB = some ((ensureInt1 (visitLOrExp lo (createBB "" (createBB "" s).2).2).1 (visitLOrExp lo (createBB "" (createBB "" s).2).2).2).2.curBB.getD 0) := h
      injection h2 with h3
      exact hLBneA h3.symm
    have fL3 : findBlock (visitLAndExpOpt ro (setInsertPoint s.nextBB (appendInstr (Instr.condBr (ensureInt1 (visitLOrExp lo (createBB "" (createBB "" s).2).2).1 (visitLOrExp lo (createBB "" (createBB "" s).2).2).2).1 (s.nextBB + 1) s.nextBB) (ensureInt1 (visitLOrExp lo (createBB "" (createBB "" s).2).2).1 (visitLOrExp lo (createBB "" (createBB "" s).2).2).2).2))).2 ((ensureInt1 (visitLOrExp lo (createBB "" (createBB "" s).2).2).1 (visitLOrExp lo (createBB "" (createBB "" s).2).2).2).2.curBB.getD 0) = some { lb0 with instrs := lb0.instrs ++ [(Instr.condBr (ensureInt1 (visitLOrExp lo (createBB "" (createBB "" s).2).2).1 (visitLOrExp lo (createBB "" (createBB "" s).2).2).2).1 (s.nextBB + 1) s.nextBB)] } :=
      Lr0.old_blocks _ _ fL2 hcurs2L
    have hcurpr0L : (visitLAndExpOpt ro (setInsertPoint s.nextBB (appendInstr (Instr.condBr (ensureInt1 (visitLOrExp lo (createBB "" (createBB "" s).2).2).1 (visitLOrExp lo (createBB "" (createBB "" s).2).2).2).1 (s.nextBB + 1) s.nextBB) (ensureInt1 (visitLOrExp lo (createBB "" (createBB "" s).2).2).1 (visitLOrExp lo (createBB "" (createBB "" s).2).2).2).2))).2.curBB ≠ some ((ensureInt1 (visitLOrExp lo (createBB "" (createBB "" s).2).2).1 (visitLOrExp lo (createBB "" (createBB "" s).2).2).2).2.curBB.getD 0) := Lr0.cur_ne (by omega) hcurs2L
    have fL4 : findBlock (ensureInt1 (visitLAndExpOpt ro (setInsertPoint s.nextBB (appendInstr (Instr.condBr (ensureInt1 (visitLOrExp lo (createBB "" (createBB "" s).2).2).1 (visitLOrExp lo (createBB "" (createBB "" s).2).2).2).1 (s.nextBB + 1) s.nextBB) (ensureInt1 (visitLOrExp lo (createBB "" (createBB "" s).2).2).1 (visitLOrExp lo (createBB "" (createBB "" s).2).2).2).2))).1 (visitLAndExpOpt ro (setInsertPoint s.nextBB (appendInstr (Instr.condBr (ensureInt1 (visitLOrExp lo (createBB "" (createBB "" s).2).2).1 (visitLOrExp lo (createBB "" (createBB "" s).2).2).2).1 (s.nextBB + 1) s.nextBB) (ensureInt1 (visitLOrExp lo (createBB "" (createBB "" s).2).2).1 (visitLOrExp lo (createBB "" (createBB "" s).2).2).2).2))).2).2 ((ensureInt1 (visitLOrExp lo (createBB "" (createBB "" s).2).2).1 (visitLOrExp lo (createBB "" (createBB "" s).2).2).2).2.curBB.getD 0) = some { lb0 with instrs := lb0.instrs ++ [(Instr.condBr (ensureInt1 (visitLOrExp lo (createBB "" (createBB "" s).2).2).1 (visitLOrExp lo (createBB "" (createBB "" s).2).2).2).1 (s.nextBB + 1) s.nextBB)] } :=
      Le2.old_blocks _ _ fL3 hcurpr0L
    have hcurprL : (ensureInt1 (visitLAndExpOpt ro (setInsertPoint s.nextBB (appendInstr (Instr.condBr (ensureInt1 (visitLOrExp lo (createBB "" (createBB "" s).2).2).1 (visitLOrExp lo (createBB "" (createBB "" s).2).2).2).1 (s.nextBB + 1) s.nextBB) (ensureInt1 (visitLOrExp lo (createBB "" (createBB "" s).2).2).1 (visitLOrExp lo (createBB "" (createBB "" s).2).2).2).2))).1 (visitLAndExpOpt ro (setInsertPoint s.nextBB (appendInstr (Instr.condBr (ensureInt1 (visitLOrExp lo (createBB "" (createBB "" s).2).2).1 (visitLOrExp lo (createBB "" (createBB "" s).2).2).2).1 (s.nextBB + 1) s.nextBB) (ensureInt1 (visitLOrExp lo (createBB "" (createBB "" s).2).2).1 (visitLOrExp lo (createBB "" (createBB "" s).2).2).2).2))).2).2.curBB ≠ some ((ensureInt1 (visitLOrExp lo (createBB "" (createBB "" s).2).2).1 (visitLOrExp lo (createBB "" (createBB "" s).2).2).2).2.curBB.getD 0) := by
      rw [ensureInt1_curBB]
      exact hcurpr0L
    have fL5 : findBlock (appendInstr (Instr.br (s.nextBB + 1)) (ensureInt1 (visitLAndExpOpt ro (setInsertPoint s.nextBB (appendInstr (Instr.condBr (ensureInt1 (visitLOrExp lo (createBB "" (createBB "" s).2).2).1 (visitLOrExp lo (createBB "" (createBB "" s).2).2).2).1 (s.nextBB + 1) s.nextBB) (ensureInt1 (visitLOrExp lo (createBB "" (createBB "" s).2).2).1 (visitLOrExp lo (createBB "" (createBB "" s).2).2).2).2))).1 (visitLAndExpOpt ro (setInsertPoint s.nextBB (appendInstr (Instr.condBr (ensureInt1 (visitLOrExp lo (createBB "" (createBB "" s).2).2).1 (visitLOrExp lo (createBB "" (createBB "" s).2).2).2).1 (s.nextBB + 1) s.nextBB) (ensureInt1 (visitLOrExp lo (createBB "" (createBB "" s).2).2).1 (visitLOrExp lo (createBB "" (createBB "" s).2).2).2).2))).2).2) ((ensureInt1 (visitLOrExp lo (createBB "" (createBB "" s).2).2).1 (visitLOrExp lo (createBB "" (createBB "" s).2).2).2).2.curBB.getD 0) = some { lb0 with instrs := lb0.instrs ++ [(Instr.condBr (ensureInt1 (visitLOrExp lo (createBB "" (createBB "" s).2).2).1 (visitLOrExp lo (createBB "" (createBB "" s).2).2).2).1 (s.nextBB + 1) s.nextBB)] } :=
      La2.old_blocks _ _ fL4 hcurprL
    have fL6 : findBlock (setInsertPoint (s.nextBB + 1) (appendInstr (Instr.br (s.nextBB + 1)) (ensureInt1 (visitLAndExpOpt ro (setInsertPoint s.nextBB (appendInstr (Instr.condBr (ensureInt1 (visitLOrExp lo (createBB "" (createBB "" s).2).2).1 (visitLOrExp lo (createBB "" (createBB "" s).2).2).2).1 (s.nextBB + 1) s.nextBB) (ensureInt1 (visitLOrExp lo (createBB "" (createBB "" s).2).2).1 (visitLOrExp lo (createBB "" (createBB "" s).2).2).2).2))).1 (visitLAndExpOpt ro (setInsertPoint s.nextBB (appendInstr (Instr.condBr (ensureInt1 (visitLOrExp lo (createBB "" (createBB "" s).2).2).1 (visitLOrExp lo (createBB "" (createBB "" s).2).2).2).1 (s.nextBB + 1) s.nextBB) (ensureInt1 (visitLOrExp lo (createBB "" (createBB "" s).2).2).1 (visitLOrExp lo (createBB "" (createBB "" s).2).2).2).2))).2).2)) ((ensureInt1 (visitLOrExp lo (createBB "" (createBB "" s).2).2).1 (visitLOrExp lo (createBB "" (createBB "" s).2).2).2).2.curBB.getD 0) = some { lb0 with instrs := lb0.instrs ++ [(Instr.condBr (ensureInt1 (visitLOrExp lo (createBB "" (createBB "" s).2).2).1 (visitLOrExp lo (createBB "" (createBB "" s).2).2).2).1 (s.nextBB + 1) s.nextBB)] } := fL5
    have hcurs4L : (setInsertPoint (s.nextBB + 1) (appendInstr (Instr.br (s.nextBB + 1)) (ensureInt1 (visitLAndExpOpt ro (setInsertPoint s.nextBB (appendInstr (Instr.condBr (ensureInt1 (visitLOrExp lo (createBB "" (createBB "" s).2).2).1 (visitLOrExp lo (createBB "" (createBB "" s).2).2).2).1 (s.nextBB + 1) s.nextBB) (ensureInt1 (visitLOrExp lo (createBB "" (createBB "" s).2).2).1 (visitLOrExp lo (createBB "" (createBB "" s).2).2).2).2))).1 (visitLAndExpOpt ro (setInsertPoint s.nextBB (appendInstr (Instr.condBr (ensureInt1 (visitLOrExp lo (createBB "" (createBB "" s).2).2).1 (visitLOrExp lo (createBB "" (createBB "" s).2).2).2).1 (s.nextBB + 1) s.nextBB) (ensureInt1 (visitLOrExp lo (createBB "" (createBB "" s).2).2).1 (visitLOrExp lo (createBB "" (createBB "" s).2).2).2).2))).2).2)).curBB ≠ some ((ensureInt1 (visitLOrExp lo (createBB "" (createBB "" s).2).2).1 (visitLOrExp lo (createBB "" (createBB "" s).2).2).2).2.curBB.getD 0) := by
      intro h
      have h2 : some (s.nextBB + 1) = some ((ensureInt1 (visitLOrExp lo (createBB "" (createBB "" s).2).2).1 (visitLOrExp lo (createBB "" (createBB "" s).2).2).2).2.curBB.getD 0) := h
      injection h2 with h3
      exact hLBneB h3.symm
    have fL7 : findBlock (appendInstr (Instr.phi Ty.i1 [(Val.constB true, ((ensureInt1 (visitLOrExp lo (createBB "" (createBB "" s).2).2).1 (visitLOrExp lo (createBB "" (createBB "" s).2).2).2).2.curBB.getD 0)), ((ensureInt1 (visitLAndExpOpt ro (setInsertPoint s.nextBB (appendInstr (Instr.condBr (ensureInt1 (visitLOrExp lo (createBB "" (createBB "" s).2).2).1 (visitLOrExp lo (createBB "" (createBB "" s).2).2).2).1 (s.nextBB + 1) s.nextBB) (ensureInt1 (visitLOrExp lo (createBB "" (createBB "" s).2).2).1 (visitLOrExp lo (createBB "" (createBB "" s).2).2).2).2))).1 (visitLAndExpOpt ro (setInsertPoint s.nextBB (appendInstr (Instr.condBr (ensureInt1 (visitLOrExp lo (createBB "" (createBB "" s).2).2).1 (visitLOrExp lo (createBB "" (createBB "" s).2).2).2).1 (s.nextBB + 1) s.nextBB) (ensureInt1 (visitLOrExp lo (createBB "" (createBB "" s).2).2).1 (visitLOrExp lo (createBB "" (createBB "" s).2).2).2).2))).2).1, ((appendInstr (Instr.br (s.nextBB + 1)) (ensureInt1 (visitLAndExpOpt ro (setInsertPoint s.nextBB (appendInstr (Instr.condBr (ensureInt1 (visitLOrExp lo (createBB "" (createBB "" s).2).2).1 (visitLOrExp lo (createBB "" (createBB "" s).2).2).2).1 (s.nextBB + 1) s.nextBB) (ensureInt1 (visitLOrExp lo (createBB "" (createBB "" s).2).2).1 (visitLOrExp lo (createBB "" (createBB "" s).2).2).2).2))).1 (visitLAndExpOpt ro (setInsertPoint s.nextBB (appendInstr (Instr.condBr (ensureInt1 (visitLOrExp lo (createBB "" (createBB "" s).2).2).1 (visitLOrExp lo (createBB "" (createBB "" s).2).2).2).1 (s.nextBB + 1) s.nextBB) (ensureInt1 (visitLOrExp lo (createBB "" (createBB "" s).2).2).1 (visitLOrExp lo (createBB "" (createBB "" s).2).2).2).2))).2).2).curBB.getD 0))]) (setInsertPoint (s.nextBB + 1) (appendInstr (Instr.br (s.nextBB + 1)) (ensureInt1 (visitLAndExpOpt ro (setInsertPoint s.nextBB (appendInstr (Instr.condBr (ensureInt1 (visitLOrExp lo (createBB "" (createBB "" s).2).2).1 (visitLOrExp lo (createBB "" (createBB "" s).2).2).2).1 (s.nextBB + 1) s.nextBB) (ensureInt1 (visitLOrExp lo (createBB "" (createBB "" s).2).2).1 (visitLOrExp lo (createBB "" (createBB "" s).2).2).2).2))).1 (visitLAndExpOpt ro (setInsertPoint s.nextBB (appendInstr (Instr.condBr (ensureInt1 (visitLOrExp lo (createBB "" (createBB "" s).2).2).1 (visitLOrExp lo (createBB "" (createBB "" s).2).2).2).1 (s.nextBB + 1) s.nextBB) (ensureInt1 (visitLOrExp lo (createBB "" (createBB "" s).2).2).1 (visitLOrExp lo (createBB "" (createBB "" s).2).2).2).2))).2).2))) ((ensureInt1 (visitLOrExp lo (createBB "" (createBB "" s).2).2).1 (visitLOrExp lo (createBB "" (createBB "" s).2).2).2).2.curBB.getD 0) = some { lb0 with instrs := lb0.instrs ++ [(Instr.condBr (ensureInt1 (visitLOrExp lo (createBB "" (createBB "" s).2).2).1 (visitLOrExp lo (createBB "" (createBB "" s).2).2).2).1 (s.nextBB + 1) s.nextBB)] } :=
      (loc_appendInstr (Instr.phi Ty.i1 [(Val.constB true, ((ensureInt1 (visitLOrExp lo (createBB "" (createBB "" s).2).2).1 (visitLOrExp lo (createBB "" (createBB "" s).2).2).2).2.curBB.getD 0)), ((ensureInt1 (visitLAndExpOpt ro (setInsertPoint s.nextBB (appendInstr (Instr.condBr (ensureInt1 (visitLOrExp lo (createBB "" (createBB "" s).2).2).1 (visitLOrExp lo (createBB "" (createBB "" s).2).2).2).1 (s.nextBB + 1) s.nextBB) (ensureInt1 (visitLOrExp lo (createBB "" (createBB "" s).2).2).1 (visitLOrExp lo (createBB "" (createBB "" s).2).2).2).2))).1 (visitLAndExpOpt ro (setInsertPoint s.nextBB (appendInstr (Instr.condBr (ensureInt1 (visitLOrExp lo (createBB "" (createBB "" s).2).2).1 (visitLOrExp lo (createBB "" (createBB "" s).2).2).2).1 (s.nextBB + 1) s.nextBB) (ensureInt1 (visitLOrExp lo (createBB "" (createBB "" s).2).2).1 (visitLOrExp lo (createBB "" (createBB "" s).2).2).2).2))).2).1, ((appendInstr (Instr.br (s.nextBB + 1)) (ensureInt1 (visitLAndExpOpt ro (setInsertPoint s.nextBB (appendInstr (Instr.condBr (ensureInt1 (visitLOrExp lo (createBB "" (createBB "" s).2).2).1 (visitLOrExp lo (createBB "" (createBB "" s).2).2).2).1 (s.nextBB + 1) s.nextBB) (ensureInt1 (visitLOrExp lo (createBB "" (createBB "" s).2).2).1 (visitLOrExp lo (createBB "" (createBB "" s).2).2).2).2))).1 (visitLAndExpOpt ro (setInsertPoint s.nextBB (appendInstr (Instr.condBr (ensureInt1 (visitLOrExp lo (createBB "" (createBB "" s).2).2).1 (visitLOrExp lo (createBB "" (createBB "" s).2).2).2).1 (s.nextBB + 1) s.nextBB) (ensureInt1 (visitLOrExp lo (createBB "" (createBB "" s).2).2).1 (visitLOrExp lo (createBB "" (createBB "" s).2).2).2).2))).2).2).curBB.getD 0))]) (setInsertPoint (s.nextBB + 1) (appendInstr (Instr.br (s.nextBB + 1)) (ensureInt1 (visitLAndExpOpt ro (setInsertPoint s.nextBB (appendInstr (Instr.condBr (ensureInt1 (visitLOrExp lo (createBB "" (createBB "" s).2).2).1 (visitLOrExp lo (createBB "" (createBB "" s).2).2).2).1 (s.nextBB + 1) s.nextBB) (ensureInt1 (visitLOrExp lo (createBB "" (createBB "" s).2).2).1 (visitLOrExp lo (createBB "" (createBB "" s).2).2).2).2))).1 (visitLAndExpOpt ro (setInsertPoint s.nextBB (appendInstr (Instr.condBr (ensureInt1 (visitLOrExp lo (createBB "" (createBB "" s).2).2).1 (visitLOrExp lo (createBB "" (createBB "" s).2).2).2).1 (s.nextBB + 1) s.nextBB) (ensureInt1 (visitLOrExp lo (createBB "" (createBB "" s).2).2).1 (visitLOrExp lo (createBB "" (createBB "" s).2).2).2).2))).2).2))).old_blocks _ _ fL6 hcurs4L
    have hres : (visitLOrExp (LOrExp.mk (some lo) ro) s) = emit (Instr.phi Ty.i1 [(Val.constB true, ((ensureInt1 (visitLOrExp lo (createBB "" (createBB "" s).2).2).1 (visitLOrExp lo (createBB "" (createBB "" s).2).2).2).2.curBB.getD 0)), ((ensureInt1 (visitLAndExpOpt ro (setInsertPoint s.nextBB (appendInstr (Instr.condBr (ensureInt1 (visitLOrExp lo (createBB "" (createBB "" s).2).2).1 (visitLOrExp lo (createBB "" (createBB "" s).2).2).2).1 (s.nextBB + 1) s.nextBB) (ensureInt1 (visitLOrExp lo (createBB "" (createBB "" s).2).2).1 (visitLOrExp lo (createBB "" (createBB "" s).2).2).2).2))).1 (visitLAndExpOpt ro (setInsertPoint s.nextBB (appendInstr (Instr.condBr (ensureInt1 (visitLOrExp lo (createBB "" (createBB "" s).2).2).1 (visitLOrExp lo (createBB "" (createBB "" s).2).2).2).1 (s.nextBB + 1) s.nextBB) (ensureInt1 (visitLOrExp lo (createBB "" (createBB "" s).2).2).1 (visitLOrExp lo (createBB "" (createBB "" s).2).2).2).2))).2).1, ((appendInstr (Instr.br (s.nextBB + 1)) (ensureInt1 (visitLAndExpOpt ro (setInsertPoint s.nextBB (appendInstr (Instr.condBr (ensureInt1 (visitLOrExp lo (createBB "" (createBB "" s).2).2).1 (visitLOrExp lo (createBB "" (createBB "" s).2).2).2).1 (s.nextBB + 1) s.nextBB) (ensureInt1 (visitLOrExp lo (createBB "" (createBB "" s).2).2).1 (visitLOrExp lo (createBB "" (createBB "" s).2).2).2).2))).1 (visitLAndExpOpt ro (setInsertPoint s.nextBB (appendInstr (Instr.condBr (ensureInt1 (visitLOrExp lo (createBB "" (createBB "" s).2).2).1 (visitLOrExp lo (createBB "" (createBB "" s).2).2).2).1 (s.nextBB + 1) s.nextBB) (ensureInt1 (visitLOrExp lo (createBB "" (createBB "" s).2).2).1 (visitLOrExp lo (createBB "" (createBB "" s).2).2).2).2))).2).2).curBB.getD 0))]) Ty.i1 (setInsertPoint (s.nextBB + 1) (appendInstr (Instr.br (s.nextBB + 1)) (ensureInt1 (visitLAndExpOpt ro (setInsertPoint s.nextBB (appendInstr (Instr.condBr (ensureInt1 (visitLOrExp lo (createBB "" (createBB "" s).2).2).1 (visitLOrExp lo (createBB "" (createBB "" s).2).2).2).1 (s.nextBB + 1) s.nextBB) (ensureInt1 (visitLOrExp lo (createBB "" (createBB "" s).2).2).1 (visitLOrExp lo (createBB "" (createBB "" s).2).2).2).2))).1 (visitLAndExpOpt ro (setInsertPoint s.nextBB (appendInstr (Instr.condBr (ensureInt1 (visitLOrExp lo (createBB "" (createBB "" s).2).2).1 (visitLOrExp lo (createBB "" (createBB "" s).2).2).2).1 (s.nextBB + 1) s.nextBB) (ensureInt1 (visitLOrExp lo (createBB "" (createBB "" s).2).2).1 (visitLOrExp lo (createBB "" (createBB "" s).2).2).2).2))).2).2)) := by
      simp only [visitLOrExp]
      rfl
    have fFinal : findBlock (visitLOrExp (LOrExp.mk (some lo) ro) s).2 ((ensureInt1 (visitLOrExp lo (createBB "" (createBB "" s).2).2).1 (visitLOrExp lo (createBB "" (createBB "" s).2).2).2).2.curBB.getD 0) = some { lb0 with instrs := lb0.instrs ++ [(Instr.condBr (ensureInt1 (visitLOrExp lo (createBB "" (createBB "" s).2).2).1 (visitLOrExp lo (createBB "" (createBB "" s).2).2).2).1 (s.nextBB + 1) s.nextBB)] } := by
      rw [hres, findBlock_emit]
      exact fL7
    have g8 : findBlock (setInsertPoint (s.nextBB + 1) (appendInstr (Instr.br (s.nextBB + 1)) (ensureInt1 (visitLAndExpOpt ro (setInsertPoint s.nextBB (appendInstr (Instr.condBr (ensureInt1 (visitLOrExp lo (createBB "" (createBB "" s).2).2).1 (visitLOrExp lo (createBB "" (createBB "" s).2).2).2).1 (s.nextBB + 1) s.nextBB) (ensureInt1 (visitLOrExp lo (createBB "" (createBB "" s).2).2).1 (visitLOrExp lo (createBB "" (createBB "" s).2).2).2).2))).1 (visitLAndExpOpt ro (setInsertPoint s.nextBB (appendInstr (Instr.condBr (ensureInt1 (visitLOrExp lo (createBB "" (createBB "" s).2).2).1 (visitLOrExp lo (createBB "" (createBB "" s).2).2).2).1 (s.nextBB + 1) s.nextBB) (ensureInt1 (visitLOrExp lo (createBB "" (createBB "" s).2).2).1 (visitLOrExp lo (createBB "" (createBB "" s).2).2).2).2))).2).2)) (s.nextBB + 1) = some ⟨s.nextBB + 1, "", s.curFn.getD "", []⟩ := g7
    have hcurs4 : (setInsertPoint (s.nextBB + 1) (appendInstr (Instr.br (s.nextBB + 1)) (ensureInt1 (visitLAndExpOpt ro (setInsertPoint s.nextBB (appendInstr (Instr.condBr (ensureInt1 (visitLOrExp lo (createBB "" (createBB "" s).2).2).1 (visitLOrExp lo (createBB "" (createBB "" s).2).2).2).1 (s.nextBB + 1) s.nextBB) (ensureInt1 (visitLOrExp lo (createBB "" (createBB "" s).2).2).1 (visitLOrExp lo (createBB "" (createBB "" s).2).2).2).2))).1 (visitLAndExpOpt ro (setInsertPoint s.nextBB (appendInstr (Instr.condBr (ensureInt1 (visitLOrExp lo (createBB "" (createBB "" s).2).2).1 (visitLOrExp lo (createBB "" (createBB "" s).2).2).2).1 (s.nextBB + 1) s.nextBB) (ensureInt1 (visitLOrExp lo (createBB "" (createBB "" s).2).2).1 (visitLOrExp lo (createBB "" (createBB "" s).2).2).2).2))).2).2)).curBB = some (s.nextBB + 1) := rfl
    have gPhi : findBlock (appendInstr (Instr.phi Ty.i1 [(Val.constB true, ((ensureInt1 (visitLOrExp lo (createBB "" (createBB "" s).2).2).1 (visitLOrExp lo (createBB "" (createBB "" s).2).2).2).2.curBB.getD 0)), ((ensureInt1 (visitLAndExpOpt ro (setInsertPoint s.nextBB (appendInstr (Instr.condBr (ensureInt1 (visitLOrExp lo (createBB "" (createBB "" s).2).2).1 (visitLOrExp lo (createBB "" (createBB "" s).2).2).2).1 (s.nextBB + 1) s.nextBB) (ensureInt1 (visitLOrExp lo (createBB "" (createBB "" s).2).2).1 (visitLOrExp lo (createBB "" (createBB "" s).2).2).2).2))).1 (visitLAndExpOpt ro (setInsertPoint s.nextBB (appendInstr (Instr.condBr (ensureInt1 (visitLOrExp lo (createBB "" (createBB "" s).2).2).1 (visitLOrExp lo (createBB "" (createBB "" s).2).2).2).1 (s.nextBB + 1) s.nextBB) (ensureInt1 (visitLOrExp lo (createBB "" (createBB "" s).2).2).1 (visitLOrExp lo (createBB "" (createBB "" s).2).2).2).2))).2).1, ((appendInstr (Instr.br (s.nextBB + 1)) (ensureInt1 (visitLAndExpOpt ro (setInsertPoint s.nextBB (appendInstr (Instr.condBr (ensureInt1 (visitLOrExp lo (createBB "" (createBB "" s).2).2).1 (visitLOrExp lo (createBB "" (createBB "" s).2).2).2).1 (s.nextBB + 1) s.nextBB) (ensureInt1 (visitLOrExp lo (createBB "" (createBB "" s).2).2).1 (visitLOrExp lo (createBB "" (createBB "" s).2).2).2).2))).1 (visitLAndExpOpt ro (setInsertPoint s.nextBB (appendInstr (Instr.condBr (ensureInt1 (visitLOrExp lo (createBB "" (createBB "" s).2).2).1 (visitLOrExp lo (createBB "" (createBB "" s).2).2).2).1 (s.nextBB + 1) s.nextBB) (ensureInt1 (visitLOrExp lo (createBB "" (createBB "" s).2).2).1 (visitLOrExp lo (createBB "" (createBB "" s).2).2).2).2))).2).2).curBB.getD 0))]) (setInsertPoint (s.nextBB + 1) (appendInstr (Instr.br (s.nextBB + 1)) (ensureInt1 (visitLAndExpOpt ro (setInsertPoint s.nextBB (appendInstr (Instr.condBr (ensureInt1 (visitLOrExp lo (createBB "" (createBB "" s).2).2).1 (visitLOrExp lo (createBB "" (createBB "" s).2).2).2).1 (s.nextBB + 1) s.nextBB) (ensureInt1 (visitLOrExp lo (createBB "" (createBB "" s).2).2).1 (visitLOrExp lo (createBB "" (createBB "" s).2).2).2).2))).1 (visitLAndExpOpt ro (setInsertPoint s.nextBB (appendInstr (Instr.condBr (ensureInt1 (visitLOrExp lo (createBB "" (createBB "" s).2).2).1 (visitLOrExp lo (createBB "" (createBB "" s).2).2).2).1 (s.nextBB + 1) s.nextBB) (ensureInt1 (visitLOrExp lo (createBB "" (createBB "" s).2).2).1 (visitLOrExp lo (createBB "" (createBB "" s).2).2).2).2))).2).2))) (s.nextBB + 1) =
        some ⟨s.nextBB + 1, "", s.curFn.getD "", [(Instr.phi Ty.i1 [(Val.constB true, ((ensureInt1 (visitLOrExp lo (createBB "" (createBB "" s).2).2).1 (visitLOrExp lo (createBB "" (createBB "" s).2).2).2).2.curBB.getD 0)), ((ensureInt1 (visitLAndExpOpt ro (setInsertPoint s.nextBB (appendInstr (Instr.condBr (ensureInt1 (visitLOrExp lo (createBB "" (createBB "" s).2).2).1 (visitLOrExp lo (createBB "" (createBB "" s).2).2).2).1 (s.nextBB + 1) s.nextBB) (ensureInt1 (visitLOrExp lo (createBB "" (createBB "" s).2).2).1 (visitLOrExp lo (createBB "" (createBB "" s).2).2).2).2))).1 (visitLAndExpOpt ro (setInsertPoint s.nextBB (appendInstr (Instr.condBr (ensureInt1 (visitLOrExp lo (createBB "" (createBB "" s).2).2).1 (visitLOrExp lo (createBB "" (createBB "" s).2).2).2).1 (s.nextBB + 1) s.nextBB) (ensureInt1 (visitLOrExp lo (createBB "" (createBB "" s).2).2).1 (visitLOrExp lo (createBB "" (createBB "" s).2).2).2).2))).2).1, ((appendInstr (Instr.br (s.nextBB + 1)) (ensureInt1 (visitLAndExpOpt ro (setInsertPoint s.nextBB (appendInstr (Instr.condBr (ensureInt1 (visitLOrExp lo (createBB "" (createBB "" s).2).2).1 (visitLOrExp lo (createBB "" (createBB "" s).2).2).2).1 (s.nextBB + 1) s.nextBB) (ensureInt1 (visitLOrExp lo (createBB "" (createBB "" s).2).2).1 (visitLOrExp lo (createBB "" (createBB "" s).2).2).2).2))).1 (visitLAndExpOpt ro (setInsertPoint s.nextBB (appendInstr (Instr.condBr (ensureInt1 (visitLOrExp lo (createBB "" (createBB "" s).2).2).1 (visitLOrExp lo (createBB "" (createBB "" s).2).2).2).1 (s.nextBB + 1) s.nextBB) (ensureInt1 (visitLOrExp lo (createBB "" (createBB "" s).2).2).1 (visitLOrExp lo (createBB "" (createBB "" s).2).2).2).2))).2).2).curBB.getD 0))])]⟩ :=
      findBlock_append_self (Instr.phi Ty.i1 [(Val.constB true, ((ensureInt1 (visitLOrExp lo (createBB "" (createBB "" s).2).2).1 (visitLOrExp lo (createBB "" (createBB "" s).2).2).2).2.curBB.getD 0)), ((ensureInt1 (visitLAndExpOpt ro (setInsertPoint s.nextBB (appendInstr (Instr.condBr (ensureInt1 (visitLOrExp lo (createBB "" (createBB "" s).2).2).1 (visitLOrExp lo (createBB "" (createBB "" s).2).2).2).1 (s.nextBB + 1) s.nextBB) (ensureInt1 (visitLOrExp lo (createBB "" (createBB "" s).2).2).1 (visitLOrExp lo (createBB "" (createBB "" s).2).2).2).2))).1 (visitLAndExpOpt ro (setInsertPoint s.nextBB (appendInstr (Instr.condBr (ensureInt1 (visitLOrExp lo (createBB "" (createBB "" s).2).2).1 (visitLOrExp lo (createBB "" (createBB "" s).2).2).2).1 (s.nextBB + 1) s.nextBB) (ensureInt1 (visitLOrExp lo (createBB "" (createBB "" s).2).2).1 (visitLOrExp lo (createBB "" (createBB "" s).2).2).2).2))).2).1, ((appendInstr (Instr.br (s.nextBB + 1)) (ensureInt1 (visitLAndExpOpt ro (setInsertPoint s.nextBB (appendInstr (Instr.condBr (ensureInt1 (visitLOrExp lo (createBB "" (createBB "" s).2).2).1 (visitLOrExp lo (createBB "" (createBB "" s).2).2).2).1 (s.nextBB + 1) s.nextBB) (ensureInt1 (visitLOrExp lo (createBB "" (createBB "" s).2).2).1 (visitLOrExp lo (createBB "" (createBB "" s).2).2).2).2))).1 (visitLAndExpOpt ro (setInsertPoint s.nextBB (appendInstr (Instr.condBr (ensureInt1 (visitLOrExp lo (createBB "" (createBB "" s).2).2).1 (visitLOrExp lo (createBB "" (createBB "" s).2).2).2).1 (s.nextBB + 1) s.nextBB) (ensureInt1 (visitLOrExp lo (createBB "" (createBB "" s).2).2).1 (visitLOrExp lo (createBB "" (createBB "" s).2).2).2).2))).2).2).curBB.getD 0))]) hcurs4 g8
    have gFinal : findBlock (visitLOrExp (LOrExp.mk (some lo) ro) s).2 (s.nextBB + 1) =
        some ⟨s.nextBB + 1, "", s.curFn.getD "", [(Instr.phi Ty.i1 [(Val.constB true, ((ensureInt1 (visitLOrExp lo (createBB "" (createBB "" s).2).2).1 (visitLOrExp lo (createBB "" (createBB "" s).2).2).2).2.curBB.getD 0)), ((ensureInt1 (visitLAndExpOpt ro (setInsertPoint s.nextBB (appendInstr (Instr.condBr (ensureInt1 (visitLOrExp lo (createBB "" (createBB "" s).2).2).1 (visitLOrExp lo (createBB "" (createBB "" s).2).2).2).1 (s.nextBB + 1) s.nextBB) (ensureInt1 (visitLOrExp lo (createBB "" (createBB "" s).2).2).1 (visitLOrExp lo (createBB "" (createBB "" s).2).2).2).2))).1 (visitLAndExpOpt ro (setInsertPoint s.nextBB (appendInstr (Instr.condBr (ensureInt1 (visitLOrExp lo (createBB "" (createBB "" s).2).2).1 (visitLOrExp lo (createBB "" (createBB "" s).2).2).2).1 (s.nextBB + 1) s.nextBB) (ensureInt1 (visitLOrExp lo (createBB "" (createBB "" s).2).2).1 (visitLOrExp lo (createBB "" (createBB "" s).2).2).2).2))).2).1, ((appendInstr (Instr.br (s.nextBB + 1)) (ensureInt1 (visitLAndExpOpt ro (setInsertPoint s.nextBB (appendInstr (Instr.condBr (ensureInt1 (visitLOrExp lo (createBB "" (createBB "" s).2).2).1 (visitLOrExp lo (createBB "" (createBB "" s).2).2).2).1 (s.nextBB + 1) s.nextBB) (ensureInt1 (visitLOrExp lo (createBB "" (createBB "" s).2).2).1 (visitLOrExp lo (createBB "" (createBB "" s).2).2).2).2))).1 (visitLAndExpOpt ro (setInsertPoint s.nextBB (appendInstr (Instr.condBr (ensureInt1 (visitLOrExp lo (createBB "" (createBB "" s).2).2).1 (visitLOrExp lo (createBB "" (createBB "" s).2).2).2).1 (s.nextBB + 1) s.nextBB) (ensureInt1 (visitLOrExp lo (createBB "" (createBB "" s).2).2).1 (visitLOrExp lo (createBB "" (createBB "" s).2).2).2).2))).2).2).curBB.getD 0))])]⟩ := by
      rw [hres, findBlock_emit]
      exact gPhi
    have hresv : (visitLOrExp (LOrExp.mk (some lo) ro) s).1 = Val.reg (ensureInt1 (visitLAndExpOpt ro (setInsertPoint s.nextBB (appendInstr (Instr.condBr (ensureInt1 (visitLOrExp lo (createBB "" (createBB "" s).2).2).1 (visitLOrExp lo (createBB "" (createBB "" s).2).2).2).1 (s.nextBB + 1) s.nextBB) (ensureInt1 (visitLOrExp lo (createBB "" (createBB "" s).2).2).1 (visitLOrExp lo (createBB "" (createBB "" s).2).2).2).2))).1 (visitLAndExpOpt ro (setInsertPoint s.nextBB (appendInstr (Instr.condBr (ensureInt1 (visitLOrExp lo (createBB "" (createBB "" s).2).2).1 (visitLOrExp lo (createBB "" (createBB "" s).2).2).2).1 (s.nextBB + 1) s.nextBB) (ensureInt1 (visitLOrExp lo (createBB "" (createBB "" s).2).2).1 (visitLOrExp lo (createBB "" (createBB "" s).2).2).2).2))).2).2.nextReg Ty.i1 := by
      rw [hres]
      show Val.reg (setInsertPoint (s.nextBB + 1) (appendInstr (Instr.br (s.nextBB + 1)) (ensureInt1 (visitLAndExpOpt ro (setInsertPoint s.nextBB (appendInstr (Instr.condBr (ensureInt1 (visitLOrExp lo (createBB "" (createBB "" s).2).2).1 (visitLOrExp lo (createBB "" (createBB "" s).2).2).2).1 (s.nextBB + 1) s.nextBB) (ensureInt1 (visitLOrExp lo (createBB "" (createBB "" s).2).2).1 (visitLOrExp lo (createBB "" (createBB "" s).2).2).2).2))).1 (visitLAndExpOpt ro (setInsertPoint s.nextBB (appendInstr (Instr.condBr (ensureInt1 (visitLOrExp lo (createBB "" (createBB "" s).2).2).1 (visitLOrExp lo (createBB "" (createBB "" s).2).2).2).1 (s.nextBB + 1) s.nextBB) (ensureInt1 (visitLOrExp lo (createBB "" (createBB "" s).2).2).1 (visitLOrExp lo (createBB "" (createBB "" s).2).2).2).2))).2).2)).nextReg Ty.i1 = Val.reg (ensureInt1 (visitLAndExpOpt ro (setInsertPoint s.nextBB (appendInstr (Instr.condBr (ensureInt1 (visitLOrExp lo (createBB "" (createBB "" s).2).2).1 (visitLOrExp lo (createBB "" (createBB "" s).2).2).2).1 (s.nextBB + 1) s.nextBB) (ensureInt1 (visitLOrExp lo (createBB "" (createBB "" s).2).2).1 (visitLOrExp lo (createBB "" (createBB "" s).2).2).2).2))).1 (visitLAndExpOpt ro (setInsertPoint s.nextBB (appendInstr (Instr.condBr (ensureInt1 (visitLOrExp lo (createBB "" (createBB "" s).2).2).1 (visitLOrExp lo (createBB "" (createBB "" s).2).2).2).1 (s.nextBB + 1) s.nextBB) (ensureInt1 (visitLOrExp lo (createBB "" (createBB "" s).2).2).1 (visitLOrExp lo (createBB "" (createBB "" s).2).2).2).2))).2).2.nextReg Ty.i1
      rw [show (setInsertPoint (s.nextBB + 1) (appendInstr (Instr.br (s.nextBB + 1)) (ensureInt1 (visitLAndExpOpt ro (setInsertPoint s.nextBB (appendInstr (Instr.condBr (ensureInt1 (visitLOrExp lo (createBB "" (createBB "" s).2).2).1 (visitLOrExp lo (createBB "" (createBB "" s).2).2).2).1 (s.nextBB + 1) s.nextBB) (ensureInt1 (visitLOrExp lo (createBB "" (createBB "" s).2).2).1 (visitLOrExp lo (createBB "" (createBB "" s).2).2).2).2))).1 (visitLAndExpOpt ro (setInsertPoint s.nextBB (appendInstr (Instr.condBr (ensureInt1 (visitLOrExp lo (createBB "" (createBB "" s).2).2).1 (visitLOrExp lo (createBB "" (createBB "" s).2).2).2).1 (s.nextBB + 1) s.nextBB) (ensureInt1 (visitLOrExp lo (createBB "" (createBB "" s).2).2).1 (visitLOrExp lo (createBB "" (createBB "" s).2).2).2).2))).2).2)).nextReg = (appendInstr (Instr.br (s.nextBB + 1)) (ensureInt1 (visitLAndExpOpt ro (setInsertPoint s.nextBB (appendInstr (Instr.condBr (ensureInt1 (visitLOrExp lo (createBB "" (createBB "" s).2).2).1 (visitLOrExp lo (createBB "" (createBB "" s).2).2).2).1 (s.nextBB + 1) s.nextBB) (ensureInt1 (visitLOrExp lo (createBB "" (createBB "" s).2).2).1 (visitLOrExp lo (createBB "" (createBB "" s).2).2).2).2))).1 (visitLAndExpOpt ro (setInsertPoint s.nextBB (appendInstr (Instr.condBr (ensureInt1 (visitLOrExp lo (createBB "" (createBB "" s).2).2).1 (visitLOrExp lo (createBB "" (createBB "" s).2).2).2).1 (s.nextBB + 1) s.nextBB) (ensureInt1 (visitLOrExp lo (createBB "" (createBB "" s).2).2).1 (visitLOrExp lo (createBB "" (createBB "" s).2).2).2).2))).2).2).nextReg from rfl, appendInstr_nextReg]
    have hrescur : (visitLOrExp (LOrExp.mk (some lo) ro) s).2.curBB = some (s.nextBB + 1) := by
      rw [hres, emit_curBB]
      rfl
    exact ⟨hresv, hrescur, hplcur, ⟨lb0, hlb0, fFinal⟩, gFinal⟩

/-- C8 (amended): lowering an if statement `if (cn) th [else est]` creates the
then block (plus an else block when the else arm is present) and a merge block,
evaluates the condition in the current block, coerces it with `ensureInt1` —
which compares a 32-bit integer value not-equal-to-zero and passes every other
value (already 1-bit, or float) through unchanged — appends a conditional
branch whose false edge goes to the else block when present and to merge
otherwise, emits each arm starting in its own block, appends a branch to merge
to the block an arm ends in unless that block already ends in a terminator, and
continues emission at the merge block. -/
theorem C8_ifstmt_structure_amended (tg : StmtType) (lv : Option LVal) (ex : Option Exp)
    (blk : Option Block) (cn : Cond) (th : Option Stmt) (est : Stmt)
    (s : GenState) (b0 : Nat) (hwf : WFSt s) (hcur : s.curBB = some b0) :
    (∀ v t, v.isInt32Ty = true → ensureInt1 v t = emit (Instr.icmp .ne v (Val.constInt 0)) Ty.i1 t) ∧
    (∀ v t, v.isInt32Ty = false → ensureInt1 v t = (v, t)) ∧
    (let A := createBB "" s
     let M := createBB "" A.2
     let pc0 := visitCond cn M.2
     let pc := ensureInt1 pc0.1 pc0.2
     let condEnd := pc.2.curBB.getD 0
     let s2 := setInsertPoint A.1 (appendInstr (Instr.condBr pc.1 A.1 M.1) pc.2)
     let s3 := visitStmtOpt th s2
     let res := visitIfStmt (Stmt.mk tg lv ex blk (some cn) th none) s
     res.curBB = some M.1 ∧
     pc.2.curBB = some condEnd ∧
     (∃ cb0, findBlock pc.2 condEnd = some cb0 ∧
       findBlock res condEnd = some { cb0 with instrs := cb0.instrs ++ [Instr.condBr pc.1 A.1 M.1] }) ∧
     s2.curBB = some A.1 ∧
     (curHasTerminator s3 = true → res = setInsertPoint M.1 s3) ∧
     (curHasTerminator s3 = false →
       ∃ tb b3, s3.curBB = some b3 ∧ findBlock s3 b3 = some tb ∧
         findBlock res b3 = some { tb with instrs := tb.instrs ++ [Instr.br M.1] })) ∧
    (let A := createBB "" s
     let E := createBB "" A.2
     let M := createBB "" E.2
     let pc0 := visitCond cn M.2
     let pc := ensureInt1 pc0.1 pc0.2
     let condEnd := pc.2.curBB.getD 0
     let s2 := setInsertPoint A.1 (appendInstr (Instr.condBr pc.1 A.1 E.1) pc.2)
     let s3 := visitStmtOpt th s2
     let s4 := if curHasTerminator s3 then s3 else appendInstr (Instr.br M.1) s3
     let t2 := setInsertPoint E.1 s4
     let t3 := visitStmt est t2
     let res := visitIfStmt (Stmt.mk tg lv ex blk (some cn) th (some est)) s
     res.curBB = some M.1 ∧
     pc.2.curBB = some condEnd ∧
     (∃ cb0, findBlock pc.2 condEnd = some cb0 ∧
       findBlock res condEnd = some { cb0 with instrs := cb0.instrs ++ [Instr.condBr pc.1 A.1 E.1] }) ∧
     s2.curBB = some A.1 ∧
     t2.curBB = some E.1 ∧
     (curHasTerminator s3 = true → s4 = s3) ∧
     (curHasTerminator s3 = false →
       ∃ tb b3, s3.curBB = some b3 ∧ findBlock s3 b3 = some tb ∧
         findBlock res b3 = some { tb with instrs := tb.instrs ++ [Instr.br M.1] }) ∧
     (curHasTerminator t3 = true → res = setInsertPoint M.1 t3) ∧
     (curHasTerminator t3 = false →
       ∃ ub b7, t3.curBB = some b7 ∧ findBlock t3 b7 = some ub ∧
         findBlock res b7 = some { ub with instrs := ub.instrs ++ [Instr.br M.1] }))
    := by
  refine ⟨?_, ?_, ?_, ?_⟩
  · intro v t h
    unfold ensureInt1
    rw [if_pos h]
  · intro v t h
    unfold ensureInt1
    rw [if_neg (by simp [h])]
  · -- no else arm
    have LA : Loc s (createBB "" s).2 := loc_createBB "" s hwf
    have WA : WFSt (createBB "" s).2 := LA.wf hwf
    have LM0 : Loc (createBB "" s).2 (createBB "" (createBB "" s).2).2 := loc_createBB "" (createBB "" s).2 WA
    have LMl : Loc s (createBB "" (createBB "" s).2).2 := Loc.trans hwf LA LM0
    have WM : WFSt (createBB "" (createBB "" s).2).2 := LMl.wf hwf
    have qM2 : (createBB "" (createBB "" s).2).2.nextBB = s.nextBB + 2 := rfl
    have fA0 : findBlock (createBB "" s).2 s.nextBB = some ⟨s.nextBB, "", s.curFn.getD "", []⟩ := findBlock_createBB_new hwf
    have fA1 : findBlock (createBB "" (createBB "" s).2).2 s.nextBB = some ⟨s.nextBB, "", s.curFn.getD "", []⟩ := by
      rw [findBlock_createBB_old s.nextBB (show s.nextBB ≠ s.nextBB + 1 by omega) WA]
      exact fA0
    have hcurM2A : (createBB "" (createBB "" s).2).2.curBB ≠ some s.nextBB :=
      show s.curBB ≠ some s.nextBB from cur_ne_fresh hwf (Nat.le_refl _)
    have Lcnd : Loc (createBB "" (createBB "" s).2).2 (visitCond cn (createBB "" (createBB "" s).2).2).2 := loc_visitCond cn (createBB "" (createBB "" s).2).2 WM
    have Le1 : Loc (visitCond cn (createBB "" (createBB "" s).2).2).2 (ensureInt1 (visitCond cn (createBB "" (createBB "" s).2).2).1 (visitCond cn (createBB "" (createBB "" s).2).2).2).2 := loc_ensureInt1 (visitCond cn (createBB "" (createBB "" s).2).2).1 (visitCond cn (createBB "" (createBB "" s).2).2).2
    have Lpc : Loc s (ensureInt1 (visitCond cn (createBB "" (createBB "" s).2).2).1 (visitCond cn (createBB "" (createBB "" s).2).2).2).2 := Loc.trans hwf LMl (Loc.trans WM Lcnd Le1)
    have q3 : (createBB "" (createBB "" s).2).2.nextBB ≤ (visitCond cn (createBB "" (createBB "" s).2).2).2.nextBB := Lcnd.mono
    have q4 : (ensureInt1 (visitCond cn (createBB "" (createBB "" s).2).2).1 (visitCond cn (createBB "" (createBB "" s).2).2).2).2.nextBB = (visitCond cn (createBB "" (createBB "" s).2).2).2.nextBB := ensureInt1_nextBB _ _
    have fA2 : findBlock (visitCond cn (createBB "" (createBB "" s).2).2).2 s.nextBB = some ⟨s.nextBB, "", s.curFn.getD "", []⟩ := Lcnd.old_blocks _ _ fA1 hcurM2A
    have hcurcndA : (visitCond cn (createBB "" (createBB "" s).2).2).2.curBB ≠ some s.nextBB := Lcnd.cur_ne (by omega) hcurM2A
    have fA3 : findBlock (ensureInt1 (visitCond cn (createBB "" (createBB "" s).2).2).1 (visitCond cn (createBB "" (createBB "" s).2).2).2).2 s.nextBB = some ⟨s.nextBB, "", s.curFn.getD "", []⟩ := Le1.old_blocks _ _ fA2 hcurcndA
    have hcurpcA : (ensureInt1 (visitCond cn (createBB "" (createBB "" s).2).2).1 (visitCond cn (createBB "" (createBB "" s).2).2).2).2.curBB ≠ some s.nextBB := by
      rw [ensureInt1_curBB]
      exact hcurcndA
    have La1 : Loc (ensureInt1 (visitCond cn (createBB "" (createBB "" s).2).2).1 (visitCond cn (createBB "" (createBB "" s).2).2).2).2 (appendInstr (Instr.condBr (ensureInt1 (visitCond cn (createBB "" (createBB "" s).2).2).1 (visitCond cn (createBB "" (createBB "" s).2).2).2).1 s.nextBB (s.nextBB + 1)) (ensureInt1 (visitCond cn (createBB "" (createBB "" s).2).2).1 (visitCond cn (createBB "" (createBB "" s).2).2).2).2) := loc_appendInstr (Instr.condBr (ensureInt1 (visitCond cn (createBB "" (createBB "" s).2).2).1 (visitCond cn (createBB "" (createBB "" s).2).2).2).1 s.nextBB (s.nextBB + 1)) (ensureInt1 (visitCond cn (createBB "" (createBB "" s).2).2).1 (visitCond cn (createBB "" (createBB "" s).2).2).2).2
    have Ls1 : Loc s (appendInstr (Instr.condBr (ensureInt1 (visitCond cn (createBB "" (createBB "" s).2).2).1 (visitCond cn (createBB "" (createBB "" s).2).2).2).1 s.nextBB (s.nextBB + 1)) (ensureInt1 (visitCond cn (createBB "" (createBB "" s).2).2).1 (visitCond cn (createBB "" (createBB "" s).2).2).2).2) := Loc.trans hwf Lpc La1
    have q5 : (appendInstr (Instr.condBr (ensureInt1 (visitCond cn (createBB "" (createBB "" s).2).2).1 (visitCond cn (createBB "" (createBB "" s).2).2).2).1 s.nextBB (s.nextBB + 1)) (ensureInt1 (visitCond cn (createBB "" (createBB "" s).2).2).1 (visitCond cn (createBB "" (createBB "" s).2).2).2).2).nextBB = (ensureInt1 (visitCond cn (createBB "" (createBB "" s).2).2).1 (visitCond cn (createBB "" (createBB "" s).2).2).2).2.nextBB := appendInstr_nextBB _ _
    have fA4 : findBlock (appendInstr (Instr.condBr (ensureInt1 (visitCond cn (createBB "" (createBB "" s).2).2).1 (visitCond cn (createBB "" (createBB "" s).2).2).2).1 s.nextBB (s.nextBB + 1)) (ensureInt1 (visitCond cn (createBB "" (createBB "" s).2).2).1 (visitCond cn (createBB "" (createBB "" s).2).2).2).2) s.nextBB = some ⟨s.nextBB, "", s.curFn.getD "", []⟩ := La1.old_blocks _ _ fA3 hcurpcA
    have Ls2 : Loc s (setInsertPoint s.nextBB (appendInstr (Instr.condBr (ensureInt1 (visitCond cn (createBB "" (createBB "" s).2).2).1 (visitCond cn (createBB "" (createBB "" s).2).2).2).1 s.nextBB (s.nextBB + 1)) (ensureInt1 (visitCond cn (createBB "" (createBB "" s).2).2).1 (visitCond cn (createBB "" (createBB "" s).2).2).2).2)) := loc_setCur s.nextBB Ls1 (Nat.le_refl _) (by omega) (by rw [fA4]; rfl)
    have Larm : Loc (setInsertPoint s.nextBB (appendInstr (Instr.condBr (ensureInt1 (visitCond cn (createBB "" (createBB "" s).2).2).1 (visitCond cn (createBB "" (createBB "" s).2).2).2).1 s.nextBB (s.nextBB + 1)) (ensureInt1 (visitCond cn (createBB "" (createBB "" s).2).2).1 (visitCond cn (createBB "" (createBB "" s).2).2).2).2)) (visitStmtOpt th (setInsertPoint s.nextBB (appendInstr (Instr.condBr (ensureInt1 (visitCond cn (createBB "" (createBB "" s).2).2).1 (visitCond cn (createBB "" (createBB "" s).2).2).2).1 s.nextBB (s.nextBB + 1)) (ensureInt1 (visitCond cn (createBB "" (createBB "" s).2).2).1 (visitCond cn (createBB "" (createBB "" s).2).2).2).2))) := loc_visitStmtOpt th (setInsertPoint s.nextBB (appendInstr (Instr.condBr (ensureInt1 (visitCond cn (createBB "" (createBB "" s).2).2).1 (visitCond cn (createBB "" (createBB "" s).2).2).2).1 s.nextBB (s.nextBB + 1)) (ensureInt1 (visitCond cn (createBB "" (createBB "" s).2).2).1 (visitCond cn (createBB "" (createBB "" s).2).2).2).2)) (Ls2.wf hwf)
    have Ls3 : Loc s (visitStmtOpt th (setInsertPoint s.nextBB (appendInstr (Instr.condBr (ensureInt1 (visitCond cn (createBB "" (createBB "" s).2).2).1 (visitCond cn (createBB "" (createBB "" s).2).2).2).1 s.nextBB (s.nextBB + 1)) (ensureInt1 (visitCond cn (createBB "" (createBB "" s).2).2).1 (visitCond cn (createBB "" (createBB "" s).2).2).2).2))) := Loc.trans hwf Ls2 Larm
    have q6 : (setInsertPoint s.nextBB (appendInstr (Instr.condBr (ensureInt1 (visitCond cn (createBB "" (createBB "" s).2).2).1 (visitCond cn (createBB "" (createBB "" s).2).2).2).1 s.nextBB (s.nextBB + 1)) (ensureInt1 (visitCond cn (createBB "" (createBB "" s).2).2).1 (visitCond cn (createBB "" (createBB "" s).2).2).2).2)).nextBB = (appendInstr (Instr.condBr (ensureInt1 (visitCond cn (createBB "" (createBB "" s).2).2).1 (visitCond cn (createBB "" (createBB "" s).2).2).2).1 s.nextBB (s.nextBB + 1)) (ensureInt1 (visitCond cn (createBB "" (createBB "" s).2).2).1 (visitCond cn (createBB "" (createBB "" s).2).2).2).2).nextBB := rfl
    have q7 : (setInsertPoint s.nextBB (appendInstr (Instr.condBr (ensureInt1 (visitCond cn (createBB "" (createBB "" s).2).2).1 (visitCond cn (createBB "" (createBB "" s).2).2).2).1 s.nextBB (s.nextBB + 1)) (ensureInt1 (visitCond cn (createBB "" (createBB "" s).2).2).1 (visitCond cn (createBB "" (createBB "" s).2).2).2).2)).nextBB ≤ (visitStmtOpt th (setInsertPoint s.nextBB (appendInstr (Instr.condBr (ensureInt1 (visitCond cn (createBB "" (createBB "" s).2).2).1 (visitCond cn (createBB "" (createBB "" s).2).2).2).1 s.nextBB (s.nextBB + 1)) (ensureInt1 (visitCond cn (createBB "" (createBB "" s).2).2).1 (visitCond cn (createBB "" (createBB "" s).2).2).2).2))).nextBB := Larm.mono
    have hres : (visitIfStmt (Stmt.mk tg lv ex blk (some cn) th none) s) = setInsertPoint (s.nextBB + 1) (if curHasTerminator (visitStmtOpt th (setInsertPoint s.nextBB (appendInstr (Instr.condBr (ensureInt1 (visitCond cn (createBB "" (createBB "" s).2).2).1 (visitCond cn (createBB "" (createBB "" s).2).2).2).1 s.nextBB (s.nextBB + 1)) (ensureInt1 (visitCond cn (createBB "" (createBB "" s).2).2).1 (visitCond cn (createBB "" (createBB "" s).2).2).2).2))) = true then (visitStmtOpt th (setInsertPoint s.nextBB (appendInstr (Instr.condBr (ensureInt1 (visitCond cn (createBB "" (createBB "" s).2).2).1 (visitCond cn (createBB "" (createBB "" s).2).2).2).1 s.nextBB (s.nextBB + 1)) (ensureInt1 (visitCond cn (createBB "" (createBB "" s).2).2).1 (visitCond cn (createBB "" (createBB "" s).2).2).2).2))) else appendInstr (Instr.br (s.nextBB + 1)) (visitStmtOpt th (setInsertPoint s.nextBB (appendInstr (Instr.condBr (ensureInt1 (visitCond cn (createBB "" (createBB "" s).2).2).1 (visitCond cn (createBB "" (createBB "" s).2).2).2).1 s.nextBB (s.nextBB + 1)) (ensureInt1 (visitCond cn (createBB "" (createBB "" s).2).2).1 (visitCond cn (createBB "" (createBB "" s).2).2).2).2)))) := by
      simp only [visitIfStmt]
      rfl
    have hM2cur : (createBB "" (createBB "" s).2).2.curBB = some b0 := hcur
    have hpc0some : (visitCond cn (createBB "" (createBB "" s).2).2).2.curBB.isSome = true := Lcnd.cur_isSome (by rw [hM2cur]; rfl)
    have hpcsome : (ensureInt1 (visitCond cn (createBB "" (createBB "" s).2).2).1 (visitCond cn (createBB "" (createBB "" s).2).2).2).2.curBB.isSome = true := by
      rw [ensureInt1_curBB]
      exact hpc0some
    have hpccur : (ensureInt1 (visitCond cn (createBB "" (createBB "" s).2).2).1 (visitCond cn (createBB "" (createBB "" s).2).2).2).2.curBB = some ((ensureInt1 (visitCond cn (createBB "" (createBB "" s).2).2).1 (visitCond cn (createBB "" (createBB "" s).2).2).2).2.curBB.getD 0) := opt_eq_some_getD _ hpcsome
    have hb0lt : b0 < s.nextBB := (hwf.2 b0 (by simp [hcur])).1
    have hCEcases : ((ensureInt1 (visitCond cn (createBB "" (createBB "" s).2).2).1 (visitCond cn (createBB "" (createBB "" s).2).2).2).2.curBB.getD 0) = b0 ∨ s.nextBB + 2 ≤ ((ensureInt1 (visitCond cn (createBB "" (createBB "" s).2).2).1 (visitCond cn (createBB "" (createBB "" s).2).2).2).2.curBB.getD 0) := by
      rcases Lcnd.cur_fresh with hceq | ⟨b, hb, hge⟩
      · left
        have hx : (ensureInt1 (visitCond cn (createBB "" (createBB "" s).2).2).1 (visitCond cn (createBB "" (createBB "" s).2).2).2).2.curBB = some b0 := by rw [ensureInt1_curBB, hceq, hM2cur]
        rw [hx]
        rfl
      · right
        have hx : (ensureInt1 (visitCond cn (createBB "" (createBB "" s).2).2).1 (visitCond cn (createBB "" (createBB "" s).2).2).2).2.curBB = some b := by rw [ensureInt1_curBB, hb]
        rw [hx]
        simp only [Option.getD_some]
        omega
    obtain ⟨ce, hce⟩ := Option.isSome_iff_exists.mp hpcsome
    have hmem : ((ensureInt1 (visitCond cn (createBB "" (createBB "" s).2).2).1 (visitCond cn (createBB "" (createBB "" s).2).2).2).2.curBB.getD 0) ∈ (ensureInt1 (visitCond cn (createBB "" (createBB "" s).2).2).1 (visitCond cn (createBB "" (createBB "" s).2).2).2).2.curBB.toList := by
      rw [hce]
      simp
    have hCE_lt : ((ensureInt1 (visitCond cn (createBB "" (createBB "" s).2).2).1 (visitCond cn (createBB "" (createBB "" s).2).2).2).2.curBB.getD 0) < (ensureInt1 (visitCond cn (createBB "" (createBB "" s).2).2).1 (visitCond cn (createBB "" (createBB "" s).2).2).2).2.nextBB := ((Lpc.wf hwf).2 ((ensureInt1 (visitCond cn (createBB "" (createBB "" s).2).2).1 (visitCond cn (createBB "" (createBB "" s).2).2).2).2.curBB.getD 0) hmem).1
    have hCEneA : ((ensureInt1 (visitCond cn (createBB "" (createBB "" s).2).2).1 (visitCond cn (createBB "" (createBB "" s).2).2).2).2.curBB.getD 0) ≠ s.nextBB := by rcases hCEcases with h | h <;> omega
    obtain ⟨cb0, hcb0⟩ := Option.isSome_iff_exists.mp ((Lpc.wf hwf).2 ((ensureInt1 (visitCond cn (createBB "" (createBB "" s).2).2).1 (visitCond cn (createBB "" (createBB "" s).2).2).2).2.curBB.getD 0) hmem).2
    have fC1 : findBlock (appendInstr (Instr.condBr (ensureInt1 (visitCond cn (createBB "" (createBB "" s).2).2).1 (visitCond cn (createBB "" (createBB "" s).2).2).2).1 s.nextBB (s.nextBB + 1)) (ensureInt1 (visitCond cn (createBB "" (createBB "" s).2).2).1 (visitCond cn (createBB "" (createBB "" s).2).2).2).2) ((ensureInt1 (visitCond cn (createBB "" (createBB "" s).2).2).1 (visitCond cn (createBB "" (createBB "" s).2).2).2).2.curBB.getD 0) = some { cb0 with instrs := cb0.instrs ++ [(Instr.condBr (ensureInt1 (visitCond cn (createBB "" (createBB "" s).2).2).1 (visitCond cn (createBB "" (createBB "" s).2).2).2).1 s.nextBB (s.nextBB + 1))] } :=
      findBlock_append_self (Instr.condBr (ensureInt1 (visitCond cn (createBB "" (createBB "" s).2).2).1 (visitCond cn (createBB "" (createBB "" s).2).2).2).1 s.nextBB (s.nextBB + 1)) hpccur hcb0
    have fC2 : findBlock (setInsertPoint s.nextBB (appendInstr (Instr.condBr (ensureInt1 (visitCond cn (createBB "" (createBB "" s).2).2).1 (visitCond cn (createBB "" (createBB "" s).2).2).2).1 s.nextBB (s.nextBB + 1)) (ensureInt1 (visitCond cn (createBB "" (createBB "" s).2).2).1 (visitCond cn (createBB "" (createBB "" s).2).2).2).2)) ((ensureInt1 (visitCond cn (createBB "" (createBB "" s).2).2).1 (visitCond cn (createBB "" (createBB "" s).2).2).2).2.curBB.getD 0) = some { cb0 with instrs := cb0.instrs ++ [(Instr.condBr (ensureInt1 (visitCond cn (createBB "" (createBB "" s).2).2).1 (visitCond cn (createBB "" (createBB "" s).2).2).2).1 s.nextBB (s.nextBB + 1))] } := fC1
    have hcurs2C : (setInsertPoint s.nextBB (appendInstr (Instr.condBr (ensureInt1 (visitCond cn (createBB "" (createBB "" s).2).2).1 (visitCond cn (createBB "" (createBB "" s).2).2).2).1 s.nextBB (s.nextBB + 1)) (ensureInt1 (visitCond cn (createBB "" (createBB "" s).2).2).1 (visitCond cn (createBB "" (createBB "" s).2).2).2).2)).curBB ≠ some ((ensureInt1 (visitCond cn (createBB "" (createBB "" s).2).2).1 (visitCond cn (createBB "" (createBB "" s).2).2).2).2.curBB.getD 0) := by
      intro h
      have h2 : some s.nextBB = some ((ensureInt1 (visitCond cn (createBB "" (createBB "" s).2).2).1 (visitCond cn (createBB "" (createBB "" s).2).2).2).2.curBB.getD 0) := h
      injection h2 with h3
      exact hCEneA h3.symm
    have fC3 : findBlock (visitStmtOpt th (setInsertPoint s.nextBB (appendInstr (Instr.condBr (ensureInt1 (visitCond cn (createBB "" (createBB "" s).2).2).1 (visitCond cn (createBB "" (createBB "" s).2).2).2).1 s.nextBB (s.nextBB + 1)) (ensureInt1 (visitCond cn (createBB "" (createBB "" s).2).2).1 (visitCond cn (createBB "" (createBB "" s).2).2).2).2))) ((ensureInt1 (visitCond cn (createBB "" (createBB "" s).2).2).1 (visitCond cn (createBB "" (createBB "" s).2).2).2).2.curBB.getD 0) = some { cb0 with instrs := cb0.instrs ++ [(Instr.condBr (ensureInt1 (visitCond cn (createBB "" (createBB "" s).2).2).1 (visitCond cn (createBB "" (createBB "" s).2).2).2).1 s.nextBB (s.nextBB + 1))] } :=
      Larm.old_blocks _ _ fC2 hcurs2C
    have hcurs3C : (visitStmtOpt th (setInsertPoint s.nextBB (appendInstr (Instr.condBr (ensureInt1 (visitCond cn (createBB "" (createBB "" s).2).2).1 (visitCond cn (createBB "" (createBB "" s).2).2).2).1 s.nextBB (s.nextBB + 1)) (ensureInt1 (visitCond cn (createBB "" (createBB "" s).2).2).1 (visitCond cn (createBB "" (createBB "" s).2).2).2).2))).curBB ≠ some ((ensureInt1 (visitCond cn (createBB "" (createBB "" s).2).2).1 (visitCond cn (createBB "" (createBB "" s).2).2).2).2.curBB.getD 0) := Larm.cur_ne (by omega) hcurs2C
    have fC4 : findBlock (if curHasTerminator (visitStmtOpt th (setInsertPoint s.nextBB (appendInstr (Instr.condBr (ensureInt1 (visitCond cn (createBB "" (createBB "" s).2).2).1 (visitCond cn (createBB "" (createBB "" s).2).2).2).1 s.nextBB (s.nextBB + 1)) (ensureInt1 (visitCond cn (createBB "" (createBB "" s).2).2).1 (visitCond cn (createBB "" (createBB "" s).2).2).2).2))) = true then (visitStmtOpt th (setInsertPoint s.nextBB (appendInstr (Instr.condBr (ensureInt1 (visitCond cn (createBB "" (createBB "" s).2).2).1 (visitCond cn (createBB "" (createBB "" s).2).2).2).1 s.nextBB (s.nextBB + 1)) (ensureInt1 (visitCond cn (createBB "" (createBB "" s).2).2).1 (visitCond cn (createBB "" (createBB "" s).2).2).2).2))) else appendInstr (Instr.br (s.nextBB + 1)) (visitStmtOpt th (setInsertPoint s.nextBB (appendInstr (Instr.condBr (ensureInt1 (visitCond cn (createBB "" (createBB "" s).2).2).1 (visitCond cn (createBB "" (createBB "" s).2).2).2).1 s.nextBB (s.nextBB + 1)) (ensureInt1 (visitCond cn (createBB "" (createBB "" s).2).2).1 (visitCond cn (createBB "" (createBB "" s).2).2).2).2)))) ((ensureInt1 (visitCond cn (createBB "" (createBB "" s).2).2).1 (visitCond cn (createBB "" (createBB "" s).2).2).2).2.curBB.getD 0) = some { cb0 with instrs := cb0.instrs ++ [(Instr.condBr (ensureInt1 (visitCond cn (createBB "" (createBB "" s).2).2).1 (visitCond cn (createBB "" (createBB "" s).2).2).2).1 s.nextBB (s.nextBB + 1))] } := by
      split
      · exact fC3
      · exact (loc_appendInstr _ _).old_blocks _ _ fC3 hcurs3C
    have fCfinal : findBlock (visitIfStmt (Stmt.mk tg lv ex blk (some cn) th none) s) ((ensureInt1 (visitCond cn (createBB "" (createBB "" s).2).2).1 (visitCond cn (createBB "" (createBB "" s).2).2).2).2.curBB.getD 0) = some { cb0 with instrs := cb0.instrs ++ [(Instr.condBr (ensureInt1 (visitCond cn (createBB "" (createBB "" s).2).2).1 (visitCond cn (createBB "" (createBB "" s).2).2).2).1 s.nextBB (s.nextBB + 1))] } := by
      rw [hres]
      exact fC4
    have hrescur : (visitIfStmt (Stmt.mk tg lv ex blk (some cn) th none) s).curBB = some (s.nextBB + 1) := by
      rw [hres]
      rfl
    have hs2cur : (setInsertPoint s.nextBB (appendInstr (Instr.condBr (ensureInt1 (visitCond cn (createBB "" (createBB "" s).2).2).1 (visitCond cn (createBB "" (createBB "" s).2).2).2).1 s.nextBB (s.nextBB + 1)) (ensureInt1 (visitCond cn (createBB "" (createBB "" s).2).2).1 (visitCond cn (createBB "" (createBB "" s).2).2).2).2)).curBB = some s.nextBB := rfl
    have htrue : curHasTerminator (visitStmtOpt th (setInsertPoint s.nextBB (appendInstr (Instr.condBr (ensureInt1 (visitCond cn (createBB "" (createBB "" s).2).2).1 (visitCond cn (createBB "" (createBB "" s).2).2).2).1 s.nextBB (s.nextBB + 1)) (ensureInt1 (visitCond cn (createBB "" (createBB "" s).2).2).1 (visitCond cn (createBB "" (createBB "" s).2).2).2).2))) = true → (visitIfStmt (Stmt.mk tg lv ex blk (some cn) th none) s) = setInsertPoint (s.nextBB + 1) (visitStmtOpt th (setInsertPoint s.nextBB (appendInstr (Instr.condBr (ensureInt1 (visitCond cn (createBB "" (createBB "" s).2).2).1 (visitCond cn (createBB "" (createBB "" s).2).2).2).1 s.nextBB (s.nextBB + 1)) (ensureInt1 (visitCond cn (createBB "" (createBB "" s).2).2).1 (visitCond cn (createBB "" (createBB "" s).2).2).2).2))) := by
      intro h
      rw [hres, if_pos h]
    have hfalse : curHasTerminator (visitStmtOpt th (setInsertPoint s.nextBB (appendInstr (Instr.condBr (ensureInt1 (visitCond cn (createBB "" (createBB "" s).2).2).1 (visitCond cn (createBB "" (createBB "" s).2).2).2).1 s.nextBB (s.nextBB + 1)) (ensureInt1 (visitCond cn (createBB "" (createBB "" s).2).2).1 (visitCond cn (createBB "" (createBB "" s).2).2).2).2))) = false →
        ∃ tb b3, (visitStmtOpt th (setInsertPoint s.nextBB (appendInstr (Instr.condBr (ensureInt1 (visitCond cn (createBB "" (createBB "" s).2).2).1 (visitCond cn (createBB "" (createBB "" s).2).2).2).1 s.nextBB (s.nextBB + 1)) (ensureInt1 (visitCond cn (createBB "" (createBB "" s).2).2).1 (visitCond cn (createBB "" (createBB "" s).2).2).2).2))).curBB = some b3 ∧ findBlock (visitStmtOpt th (setInsertPoint s.nextBB (appendInstr (Instr.condBr (ensureInt1 (visitCond cn (createBB "" (createBB "" s).2).2).1 (visitCond cn (createBB "" (createBB "" s).2).2).2).1 s.nextBB (s.nextBB + 1)) (ensureInt1 (visitCond cn (createBB "" (createBB "" s).2).2).1 (visitCond cn (createBB "" (createBB "" s).2).2).2).2))) b3 = some tb ∧
          findBlock (visitIfStmt (Stmt.mk tg lv ex blk (some cn) th none) s) b3 = some { tb with instrs := tb.instrs ++ [Instr.br (s.nextBB + 1)] } := by
      intro h
      obtain ⟨b3, hb3⟩ := Option.isSome_iff_exists.mp (Larm.cur_isSome (show (setInsertPoint s.nextBB (appendInstr (Instr.condBr (ensureInt1 (visitCond cn (createBB "" (createBB "" s).2).2).1 (visitCond cn (createBB "" (createBB "" s).2).2).2).1 s.nextBB (s.nextBB + 1)) (ensureInt1 (visitCond cn (createBB "" (createBB "" s).2).2).1 (visitCond cn (createBB "" (createBB "" s).2).2).2).2)).curBB.isSome = true from rfl))
      obtain ⟨tb, htb⟩ := Option.isSome_iff_exists.mp ((Ls3.wf hwf).2 b3 (by rw [hb3]; simp)).2
      refine ⟨tb, b3, hb3, htb, ?_⟩
      rw [hres, if_neg (by simp [h])]
      exact findBlock_append_self _ hb3 htb
    exact ⟨hrescur, hpccur, ⟨cb0, hcb0, fCfinal⟩, hs2cur, htrue, hfalse⟩
  · -- else arm present
    have LA : Loc s (createBB "" s).2 := loc_createBB "" s hwf
    have WA : WFSt (createBB "" s).2 := LA.wf hwf
    have LE0 : Loc (createBB "" s).2 (createBB "" (createBB "" s).2).2 := loc_createBB "" (createBB "" s).2 WA
    have LEl : Loc s (createBB "" (createBB "" s).2).2 := Loc.trans hwf LA LE0
    have WE : WFSt (createBB "" (createBB "" s).2).2 := LEl.wf hwf
    have LM0 : Loc (createBB "" (createBB "" s).2).2 (createBB "" (createBB "" (createBB "" s).2).2).2 := loc_createBB "" (createBB "" (createBB "" s).2).2 WE
    have LMl : Loc s (createBB "" (createBB "" (createBB "" s).2).2).2 := Loc.trans hwf LEl LM0
    have WM : WFSt (createBB "" (createBB "" (createBB "" s).2).2).2 := LMl.wf hwf
    have qM2 : (createBB "" (createBB "" (createBB "" s).2).2).2.nextBB = s.nextBB + 3 := rfl
    have fA0 : findBlock (createBB "" s).2 s.nextBB = some ⟨s.nextBB, "", s.curFn.getD "", []⟩ := findBlock_createBB_new hwf
    have fA1 : findBlock (createBB "" (createBB "" s).2).2 s.nextBB = some ⟨s.nextBB, "", s.curFn.getD "", []⟩ := by
      rw [findBlock_createBB_old s.nextBB (show s.nextBB ≠ s.nextBB + 1 by omega) WA]
      exact fA0
    have fA2 : findBlock (createBB "" (createBB "" (createBB "" s).2).2).2 s.nextBB = some ⟨s.nextBB, "", s.curFn.getD "", []⟩ := by
      rw [findBlock_createBB_old s.nextBB (show s.nextBB ≠ s.nextBB + 2 by omega) WE]
      exact fA1
    have fE0 : findBlock (createBB "" (createBB "" s).2).2 (s.nextBB + 1) = some ⟨s.nextBB + 1, "", s.curFn.getD "", []⟩ := findBlock_createBB_new WA
    have fE1 : findBlock (createBB "" (createBB "" (createBB "" s).2).2).2 (s.nextBB + 1) = some ⟨s.nextBB + 1, "", s.curFn.getD "", []⟩ := by
      rw [findBlock_createBB_old (s.nextBB + 1) (show s.nextBB + 1 ≠ s.nextBB + 2 by omega) WE]
      exact fE0
    have hcurM2A : (createBB "" (createBB "" (createBB "" s).2).2).2.curBB ≠ some s.nextBB :=
      show s.curBB ≠ some s.nextBB from cur_ne_fresh hwf (Nat.le_refl _)
    have hcurM2E : (createBB "" (createBB "" (createBB "" s).2).2).2.curBB ≠ some (s.nextBB + 1) :=
      show s.curBB ≠ some (s.nextBB + 1) from cur_ne_fresh hwf (Nat.le_succ _)
    have Lcnd : Loc (createBB "" (createBB "" (createBB "" s).2).2).2 (visitCond cn (createBB "" (createBB "" (createBB "" s).2).2).2).2 := loc_visitCond cn (createBB "" (createBB "" (createBB "" s).2).2).2 WM
    have Le1 : Loc (visitCond cn (createBB "" (createBB "" (createBB "" s).2).2).2).2 (ensureInt1 (visitCond cn (createBB "" (createBB "" (createBB "" s).2).2).2).1 (visitCond cn (createBB "" (createBB "" (createBB "" s).2).2).2).2).2 := loc_ensureInt1 (visitCond cn (createBB "" (createBB "" (createBB "" s).2).2).2).1 (visitCond cn (createBB "" (createBB "" (createBB "" s).2).2).2).2
    have Lpc : Loc s (ensureInt1 (visitCond cn (createBB "" (createBB "" (createBB "" s).2).2).2).1 (visitCond cn (createBB "" (createBB "" (createBB "" s).2).2).2).2).2 := Loc.trans hwf LMl (Loc.trans WM Lcnd Le1)
    have q3 : (createBB "" (createBB "" (createBB "" s).2).2).2.nextBB ≤ (visitCond cn (createBB "" (createBB "" (createBB "" s).2).2).2).2.nextBB := Lcnd.mono
    have q4 : (ensureInt1 (visitCond cn (createBB "" (createBB "" (createBB "" s).2).2).2).1 (visitCond cn (createBB "" (createBB "" (createBB "" s).2).2).2).2).2.nextBB = (visitCond cn (createBB "" (createBB "" (createBB "" s).2).2).2).2.nextBB := ensureInt1_nextBB _ _
    have fA3 : findBlock (visitCond cn (createBB "" (createBB "" (createBB "" s).2).2).2).2 s.nextBB = some ⟨s.nextBB, "", s.curFn.getD "", []⟩ := Lcnd.old_blocks _ _ fA2 hcurM2A
    have hcurcndA : (visitCond cn (createBB "" (createBB "" (createBB "" s).2).2).2).2.curBB ≠ some s.nextBB := Lcnd.cur_ne (by omega) hcurM2A
    have fA4 : findBlock (ensureInt1 (visitCond cn (createBB "" (createBB "" (createBB "" s).2).2).2).1 (visitCond cn (createBB "" (createBB "" (createBB "" s).2).2).2).2).2 s.nextBB = some ⟨s.nextBB, "", s.curFn.getD "", []⟩ := Le1.old_blocks _ _ fA3 hcurcndA
    have hcurpcA : (ensureInt1 (visitCond cn (createBB "" (createBB "" (createBB "" s).2).2).2).1 (visitCond cn (createBB "" (createBB "" (createBB "" s).2).2).2).2).2.curBB ≠ some s.nextBB := by
      rw [ensureInt1_curBB]
      exact hcurcndA
    have fE2 : findBlock (visitCond cn (createBB "" (createBB "" (createBB "" s).2).2).2).2 (s.nextBB + 1) = some ⟨s.nextBB + 1, "", s.curFn.getD "", []⟩ := Lcnd.old_blocks _ _ fE1 hcurM2E
    have hcurcndE : (visitCond cn (createBB "" (createBB "" (createBB "" s).2).2).2).2.curBB ≠ some (s.nextBB + 1) := Lcnd.cur_ne (by omega) hcurM2E
    have fE3 : findBlock (ensureInt1 (visitCond cn (createBB "" (createBB "" (createBB "" s).2).2).2).1 (visitCond cn (createBB "" (createBB "" (createBB "" s).2).2).2).2).2 (s.nextBB + 1) = some ⟨s.nextBB + 1, "", s.curFn.getD "", []⟩ := Le1.old_blocks _ _ fE2 hcurcndE
    have hcurpcE : (ensureInt1 (visitCond cn (createBB "" (createBB "" (createBB "" s).2).2).2).1 (visitCond cn (createBB "" (createBB "" (createBB "" s).2).2).2).2).2.curBB ≠ some (s.nextBB + 1) := by
      rw [ensureInt1_curBB]
      exact hcurcndE
    have La1 : Loc (ensureInt1 (visitCond cn (createBB "" (createBB "" (createBB "" s).2).2).2).1 (visitCond cn (createBB "" (createBB "" (createBB "" s).2).2).2).2).2 (appendInstr (Instr.condBr (ensureInt1 (visitCond cn (createBB "" (createBB "" (createBB "" s).2).2).2).1 (visitCond cn (createBB "" (createBB "" (createBB "" s).2).2).2).2).1 s.nextBB (s.nextBB + 1)) (ensureInt1 (visitCond cn (createBB "" (createBB "" (createBB "" s).2).2).2).1 (visitCond cn (createBB "" (createBB "" (createBB "" s).2).2).2).2).2) := loc_appendInstr (Instr.condBr (ensureInt1 (visitCond cn (createBB "" (createBB "" (createBB "" s).2).2).2).1 (visitCond cn (createBB "" (createBB "" (createBB "" s).2).2).2).2).1 s.nextBB (s.nextBB + 1)) (ensureInt1 (visitCond cn (createBB "" (createBB "" (createBB "" s).2).2).2).1 (visitCond cn (createBB "" (createBB "" (createBB "" s).2).2).2).2).2
    have Ls1 : Loc s (appendInstr (Instr.condBr (ensureInt1 (visitCond cn (createBB "" (createBB "" (createBB "" s).2).2).2).1 (visitCond cn (createBB "" (createBB "" (createBB "" s).2).2).2).2).1 s.nextBB (s.nextBB + 1)) (ensureInt1 (visitCond cn (createBB "" (createBB "" (createBB "" s).2).2).2).1 (visitCond cn (createBB "" (createBB "" (createBB "" s).2).2).2).2).2) := Loc.trans hwf Lpc La1
    have q5 : (appendInstr (Instr.condBr (ensureInt1 (visitCond cn (createBB "" (createBB "" (createBB "" s).2).2).2).1 (visitCond cn (createBB "" (createBB "" (createBB "" s).2).2).2).2).1 s.nextBB (s.nextBB + 1)) (ensureInt1 (visitCond cn (createBB "" (createBB "" (createBB "" s).2).2).2).1 (visitCond cn (createBB "" (createBB "" (createBB "" s).2).2).2).2).2).nextBB = (ensureInt1 (visitCond cn (createBB "" (createBB "" (createBB "" s).2).2).2).1 (visitCond cn (createBB "" (createBB "" (createBB "" s).2).2).2).2).2.nextBB := appendInstr_nextBB _ _
    have fA5 : findBlock (appendInstr (Instr.condBr (ensureInt1 (visitCond cn (createBB "" (createBB "" (createBB "" s).2).2).2).1 (visitCond cn (createBB "" (createBB "" (createBB "" s).2).2).2).2).1 s.nextBB (s.nextBB + 1)) (ensureInt1 (visitCond cn (createBB "" (createBB "" (createBB "" s).2).2).2).1 (visitCond cn (createBB "" (createBB "" (createBB "" s).2).2).2).2).2) s.nextBB = some ⟨s.nextBB, "", s.curFn.getD "", []⟩ := La1.old_blocks _ _ fA4 hcurpcA
    have fE4 : findBlock (appendInstr (Instr.condBr (ensureInt1 (visitCond cn (createBB "" (createBB "" (createBB "" s).2).2).2).1 (visitCond cn (createBB "" (createBB "" (createBB "" s).2).2).2).2).1 s.nextBB (s.nextBB + 1)) (ensureInt1 (visitCond cn (createBB "" (createBB "" (createBB "" s).2).2).2).1 (visitCond cn (createBB "" (createBB "" (createBB "" s).2).2).2).2).2) (s.nextBB + 1) = some ⟨s.nextBB + 1, "", s.curFn.getD "", []⟩ := La1.old_blocks _ _ fE3 hcurpcE
    have Ls2 : Loc s (setInsertPoint s.nextBB (appendInstr (Instr.condBr (ensureInt1 (visitCond cn (createBB "" (createBB "" (createBB "" s).2).2).2).1 (visitCond cn (createBB "" (createBB "" (createBB "" s).2).2).2).2).1 s.nextBB (s.nextBB + 1)) (ensureInt1 (visitCond cn (createBB "" (createBB "" (createBB "" s).2).2).2).1 (visitCond cn (createBB "" (createBB "" (createBB "" s).2).2).2).2).2)) := loc_setCur s.nextBB Ls1 (Nat.le_refl _) (by omega) (by rw [fA5]; rfl)
    have Larm : Loc (setInsertPoint s.nextBB (appendInstr (Instr.condBr (ensureInt1 (visitCond cn (createBB "" (createBB "" (createBB "" s).2).2).2).1 (visitCond cn (createBB "" (createBB "" (createBB "" s).2).2).2).2).1 s.nextBB (s.nextBB + 1)) (ensureInt1 (visitCond cn (createBB "" (createBB "" (createBB "" s).2).2).2).1 (visitCond cn (createBB "" (createBB "" (createBB "" s).2).2).2).2).2)) (visitStmtOpt th (setInsertPoint s.nextBB (appendInstr (Instr.condBr (ensureInt1 (visitCond cn (createBB "" (createBB "" (createBB "" s).2).2).2).1 (visitCond cn (createBB "" (createBB "" (createBB "" s).2).2).2).2).1 s.nextBB (s.nextBB + 1)) (ensureInt1 (visitCond cn (createBB "" (createBB "" (createBB "" s).2).2).2).1 (visitCond cn (createBB "" (createBB "" (createBB "" s).2).2).2).2).2))) := loc_visitStmtOpt th (setInsertPoint s.nextBB (appendInstr (Instr.condBr (ensureInt1 (visitCond cn (createBB "" (createBB "" (createBB "" s).2).2).2).1 (visitCond cn (createBB "" (createBB "" (createBB "" s).2).2).2).2).1 s.nextBB (s.nextBB + 1)) (ensureInt1 (visitCond cn (createBB "" (createBB "" (createBB "" s).2).2).2).1 (visitCond cn (createBB "" (createBB "" (createBB "" s).2).2).2).2).2)) (Ls2.wf hwf)
    have Ls3 : Loc s (visitStmtOpt th (setInsertPoint s.nextBB (appendInstr (Instr.condBr (ensureInt1 (visitCond cn (createBB "" (createBB "" (createBB "" s).2).2).2).1 (visitCond cn (createBB "" (createBB "" (createBB "" s).2).2).2).2).1 s.nextBB (s.nextBB + 1)) (ensureInt1 (visitCond cn (createBB "" (createBB "" (createBB "" s).2).2).2).1 (visitCond cn (createBB "" (createBB "" (createBB "" s).2).2).2).2).2))) := Loc.trans hwf Ls2 Larm
    have q6 : (setInsertPoint s.nextBB (appendInstr (Instr.condBr (ensureInt1 (visitCond cn (createBB "" (createBB "" (createBB "" s).2).2).2).1 (visitCond cn (createBB "" (createBB "" (createBB "" s).2).2).2).2).1 s.nextBB (s.nextBB + 1)) (ensureInt1 (visitCond cn (createBB "" (createBB "" (createBB "" s).2).2).2).1 (visitCond cn (createBB "" (createBB "" (createBB "" s).2).2).2).2).2)).nextBB = (appendInstr (Instr.condBr (ensureInt1 (visitCond cn (createBB "" (createBB "" (createBB "" s).2).2).2).1 (visitCond cn (createBB "" (createBB "" (createBB "" s).2).2).2).2).1 s.nextBB (s.nextBB + 1)) (ensureInt1 (visitCond cn (createBB "" (createBB "" (createBB "" s).2).2).2).1 (visitCond cn (createBB "" (createBB "" (createBB "" s).2).2).2).2).2).nextBB := rfl
    have q7 : (setInsertPoint s.nextBB (appendInstr (Instr.condBr (ensureInt1 (visitCond cn (createBB "" (createBB "" (createBB "" s).2).2).2).1 (visitCond cn (createBB "" (createBB "" (createBB "" s).2).2).2).2).1 s.nextBB (s.nextBB + 1)) (ensureInt1 (visitCond cn (createBB "" (createBB "" (createBB "" s).2).2).2).1 (visitCond cn (createBB "" (createBB "" (createBB "" s).2).2).2).2).2)).nextBB ≤ (visitStmtOpt th (setInsertPoint s.nextBB (appendInstr (Instr.condBr (ensureInt1 (visitCond cn (createBB "" (createBB "" (createBB "" s).2).2).2).1 (visitCond cn (createBB "" (createBB "" (createBB "" s).2).2).2).2).1 s.nextBB (s.nextBB + 1)) (ensureInt1 (visitCond cn (createBB "" (createBB "" (createBB "" s).2).2).2).1 (visitCond cn (createBB "" (createBB "" (createBB "" s).2).2).2).2).2))).nextBB := Larm.mono
    have q8 : (if curHasTerminator (visitStmtOpt th (setInsertPoint s.nextBB (appendInstr (Instr.condBr (ensureInt1 (visitCond cn (createBB "" (createBB "" (createBB "" s).2).2).2).1 (visitCond cn (createBB "" (createBB "" (createBB "" s).2).2).2).2).1 s.nextBB (s.nextBB + 1)) (ensureInt1 (visitCond cn (createBB "" (createBB "" (createBB "" s).2).2).2).1 (visitCond cn (createBB "" (createBB "" (createBB "" s).2).2).2).2).2))) = true then (visitStmtOpt th (setInsertPoint s.nextBB (appendInstr (Instr.condBr (ensureInt1 (visitCond cn (createBB "" (createBB "" (createBB "" s).2).2).2).1 (visitCond cn (createBB "" (createBB "" (createBB "" s).2).2).2).2).1 s.nextBB (s.nextBB + 1)) (ensureInt1 (visitCond cn (createBB "" (createBB "" (createBB "" s).2).2).2).1 (visitCond cn (createBB "" (createBB "" (createBB "" s).2).2).2).2).2))) else appendInstr (Instr.br (s.nextBB + 2)) (visitStmtOpt th (setInsertPoint s.nextBB (appendInstr (Instr.condBr (ensureInt1 (visitCond cn (createBB "" (createBB "" (createBB "" s).2).2).2).1 (visitCond cn (createBB "" (createBB "" (createBB "" s).2).2).2).2).1 s.nextBB (s.nextBB + 1)) (ensureInt1 (visitCond cn (createBB "" (createBB "" (createBB "" s).2).2).2).1 (visitCond cn (createBB "" (createBB "" (createBB "" s).2).2).2).2).2)))).nextBB = (visitStmtOpt th (setInsertPoint s.nextBB (appendInstr (Instr.condBr (ensureInt1 (visitCond cn (createBB "" (createBB "" (createBB "" s).2).2).2).1 (visitCond cn (createBB "" (createBB "" (createBB "" s).2).2).2).2).1 s.nextBB (s.nextBB + 1)) (ensureInt1 (visitCond cn (createBB "" (createBB "" (createBB "" s).2).2).2).1 (visitCond cn (createBB "" (createBB "" (createBB "" s).2).2).2).2).2))).nextBB := by
      split
      · rfl
      · exact appendInstr_nextBB _ _
    have fE5 : findBlock (setInsertPoint s.nextBB (appendInstr (Instr.condBr (ensureInt1 (visitCond cn (createBB "" (createBB "" (createBB "" s).2).2).2).1 (visitCond cn (createBB "" (createBB "" (createBB "" s).2).2).2).2).1 s.nextBB (s.nextBB + 1)) (ensureInt1 (visitCond cn (createBB "" (createBB "" (createBB "" s).2).2).2).1 (visitCond cn (createBB "" (createBB "" (createBB "" s).2).2).2).2).2)) (s.nextBB + 1) = some ⟨s.nextBB + 1, "", s.curFn.getD "", []⟩ := fE4
    have hcurs2E : (setInsertPoint s.nextBB (appendInstr (Instr.condBr (ensureInt1 (visitCond cn (createBB "" (createBB "" (createBB "" s).2).2).2).1 (visitCond cn (createBB "" (createBB "" (createBB "" s).2).2).2).2).1 s.nextBB (s.nextBB + 1)) (ensureInt1 (visitCond cn (createBB "" (createBB "" (createBB "" s).2).2).2).1 (visitCond cn (createBB "" (createBB "" (createBB "" s).2).2).2).2).2)).curBB ≠ some (s.nextBB + 1) := by
      intro h
      have h2 : some s.nextBB = some (s.nextBB + 1) := h
      injection h2 with h3
      omega
    have fE6 : findBlock (visitStmtOpt th (setInsertPoint s.nextBB (appendInstr (Instr.condBr (ensureInt1 (visitCond cn (createBB "" (createBB "" (createBB "" s).2).2).2).1 (visitCond cn (createBB "" (createBB "" (createBB "" s).2).2).2).2).1 s.nextBB (s.nextBB + 1)) (ensureInt1 (visitCond cn (createBB "" (createBB "" (createBB "" s).2).2).2).1 (visitCond cn (createBB "" (createBB "" (createBB "" s).2).2).2).2).2))) (s.nextBB + 1) = some ⟨s.nextBB + 1, "", s.curFn.getD "", []⟩ := Larm.old_blocks _ _ fE5 hcurs2E
    have hcurs3E : (visitStmtOpt th (setInsertPoint s.nextBB (appendInstr (Instr.condBr (ensureInt1 (visitCond cn (createBB "" (createBB "" (createBB "" s).2).2).2).1 (visitCond cn (createBB "" (createBB "" (createBB "" s).2).2).2).2).1 s.nextBB (s.nextBB + 1)) (ensureInt1 (visitCond cn (createBB "" (createBB "" (createBB "" s).2).2).2).1 (visitCond cn (createBB "" (createBB "" (createBB "" s).2).2).2).2).2))).curBB ≠ some (s.nextBB + 1) := Larm.cur_ne (by omega) hcurs2E
    have fE7 : findBlock (if curHasTerminator (visitStmtOpt th (setInsertPoint s.nextBB (appendInstr (Instr.condBr (ensureInt1 (visitCond cn (createBB "" (createBB "" (createBB "" s).2).2).2).1 (visitCond cn (createBB "" (createBB "" (createBB "" s).2).2).2).2).1 s.nextBB (s.nextBB + 1)) (ensureInt1 (visitCond cn (createBB "" (createBB "" (createBB "" s).2).2).2).1 (visitCond cn (createBB "" (createBB "" (createBB "" s).2).2).2).2).2))) = true then (visitStmtOpt th (setInsertPoint s.nextBB (appendInstr (Instr.condBr (ensureInt1 (visitCond cn (createBB "" (createBB "" (createBB "" s).2).2).2).1 (visitCond cn (createBB "" (createBB "" (createBB "" s).2).2).2).2).1 s.nextBB (s.nextBB + 1)) (ensureInt1 (visitCond cn (createBB "" (createBB "" (createBB "" s).2).2).2).1 (visitCond cn (createBB "" (createBB "" (createBB "" s).2).2).2).2).2))) else appendInstr (Instr.br (s.nextBB + 2)) (visitStmtOpt th (setInsertPoint s.nextBB (appendInstr (Instr.condBr (ensureInt1 (visitCond cn (createBB "" (createBB "" (createBB "" s).2).2).2).1 (visitCond cn (createBB "" (createBB "" (createBB "" s).2).2).2).2).1 s.nextBB (s.nextBB + 1)) (ensureInt1 (visitCond cn (createBB "" (createBB "" (createBB "" s).2).2).2).1 (visitCond cn (createBB "" (createBB "" (createBB "" s).2).2).2).2).2)))) (s.nextBB + 1) = some ⟨s.nextBB + 1, "", s.curFn.getD "", []⟩ := by
      split
      · exact fE6
      · exact (loc_appendInstr _ _).old_blocks _ _ fE6 hcurs3E
    have Ls4 : Loc s (if curHasTerminator (visitStmtOpt th (setInsertPoint s.nextBB (appendInstr (Instr.condBr (ensureInt1 (visitCond cn (createBB "" (createBB "" (createBB "" s).2).2).2).1 (visitCond cn (createBB "" (createBB "" (createBB "" s).2).2).2).2).1 s.nextBB (s.nextBB + 1)) (ensureInt1 (visitCond cn (createBB "" (createBB "" (createBB "" s).2).2).2).1 (visitCond cn (createBB "" (createBB "" (createBB "" s).2).2).2).2).2))) = true then (visitStmtOpt th (setInsertPoint s.nextBB (appendInstr (Instr.condBr (ensureInt1 (visitCond cn (createBB "" (createBB "" (createBB "" s).2).2).2).1 (visitCond cn (createBB "" (createBB "" (createBB "" s).2).2).2).2).1 s.nextBB (s.nextBB + 1)) (ensureInt1 (visitCond cn (createBB "" (createBB "" (createBB "" s).2).2).2).1 (visitCond cn (createBB "" (createBB "" (createBB "" s).2).2).2).2).2))) else appendInstr (Instr.br (s.nextBB + 2)) (visitStmtOpt th (setInsertPoint s.nextBB (appendInstr (Instr.condBr (ensureInt1 (visitCond cn (createBB "" (createBB "" (createBB "" s).2).2).2).1 (visitCond cn (createBB "" (createBB "" (createBB "" s).2).2).2).2).1 s.nextBB (s.nextBB + 1)) (ensureInt1 (visitCond cn (createBB "" (createBB "" (createBB "" s).2).2).2).1 (visitCond cn (createBB "" (createBB "" (createBB "" s).2).2).2).2).2)))) := by
      split
      · exact Ls3
      · exact Loc.trans hwf Ls3 (loc_appendInstr _ _)
    have LT2 : Loc s (setInsertPoint (s.nextBB + 1) (if curHasTerminator (visitStmtOpt th (setInsertPoint s.nextBB (appendInstr (Instr.condBr (ensureInt1 (visitCond cn (createBB "" (createBB "" (createBB "" s).2).2).2).1 (visitCond cn (createBB "" (createBB "" (createBB "" s).2).2).2).2).1 s.nextBB (s.nextBB + 1)) (ensureInt1 (visitCond cn (createBB "" (createBB "" (createBB "" s).2).2).2).1 (visitCond cn (createBB "" (createBB "" (createBB "" s).2).2).2).2).2))) = true then (visitStmtOpt th (setInsertPoint s.nextBB (appendInstr (Instr.condBr (ensureInt1 (visitCond cn (createBB "" (createBB "" (createBB "" s).2).2).2).1 (visitCond cn (createBB "" (createBB "" (createBB "" s).2).2).2).2).1 s.nextBB (s.nextBB + 1)) (ensureInt1 (visitCond cn (createBB "" (createBB "" (createBB "" s).2).2).2).1 (visitCond cn (createBB "" (createBB "" (createBB "" s).2).2).2).2).2))) else appendInstr (Instr.br (s.nextBB + 2)) (visitStmtOpt th (setInsertPoint s.nextBB (appendInstr (Instr.condBr (ensureInt1 (visitCond cn (createBB "" (createBB "" (createBB "" s).2).2).2).1 (visitCond cn (createBB "" (createBB "" (createBB "" s).2).2).2).2).1 s.nextBB (s.nextBB + 1)) (ensureInt1 (visitCond cn (createBB "" (createBB "" (createBB "" s).2).2).2).1 (visitCond cn (createBB "" (createBB "" (createBB "" s).2).2).2).2).2))))) := loc_setCur (s.nextBB + 1) Ls4 (by omega) (by omega) (by rw [fE7]; rfl)
    have Larm2 : Loc (setInsertPoint (s.nextBB + 1) (if curHasTerminator (visitStmtOpt th (setInsertPoint s.nextBB (appendInstr (Instr.condBr (ensureInt1 (visitCond cn (createBB "" (createBB "" (createBB "" s).2).2).2).1 (visitCond cn (createBB "" (createBB "" (createBB "" s).2).2).2).2).1 s.nextBB (s.nextBB + 1)) (ensureInt1 (visitCond cn (createBB "" (createBB "" (createBB "" s).2).2).2).1 (visitCond cn (createBB "" (createBB "" (createBB "" s).2).2).2).2).2))) = true then (visitStmtOpt th (setInsertPoint s.nextBB (appendInstr (Instr.condBr (ensureInt1 (visitCond cn (createBB "" (createBB "" (createBB "" s).2).2).2).1 (visitCond cn (createBB "" (createBB "" (createBB "" s).2).2).2).2).1 s.nextBB (s.nextBB + 1)) (ensureInt1 (visitCond cn (createBB "" (createBB "" (createBB "" s).2).2).2).1 (visitCond cn (createBB "" (createBB "" (createBB "" s).2).2).2).2).2))) else appendInstr (Instr.br (s.nextBB + 2)) (visitStmtOpt th (setInsertPoint s.nextBB (appendInstr (Instr.condBr (ensureInt1 (visitCond cn (createBB "" (createBB "" (createBB "" s).2).2).2).1 (visitCond cn (createBB "" (createBB "" (createBB "" s).2).2).2).2).1 s.nextBB (s.nextBB + 1)) (ensureInt1 (visitCond cn (createBB "" (createBB "" (createBB "" s).2).2).2).1 (visitCond cn (createBB "" (createBB "" (createBB "" s).2).2).2).2).2))))) (visitStmt est (setInsertPoint (s.nextBB + 1) (if curHasTerminator (visitStmtOpt th (setInsertPoint s.nextBB (appendInstr (Instr.condBr (ensureInt1 (visitCond cn (createBB "" (createBB "" (createBB "" s).2).2).2).1 (visitCond cn (createBB "" (createBB "" (createBB "" s).2).2).2).2).1 s.nextBB (s.nextBB + 1)) (ensureInt1 (visitCond cn (createBB "" (createBB "" (createBB "" s).2).2).2).1 (visitCond cn (createBB "" (createBB "" (createBB "" s).2).2).2).2).2))) = true then (visitStmtOpt th (setInsertPoint s.nextBB (appendInstr (Instr.condBr (ensureInt1 (visitCond cn (createBB "" (createBB "" (createBB "" s).2).2).2).1 (visitCond cn (createBB "" (createBB "" (createBB "" s).2).2).2).2).1 s.nextBB (s.nextBB + 1)) (ensureInt1 (visitCond cn (createBB "" (createBB "" (createBB "" s).2).2).2).1 (visitCond cn (createBB "" (createBB "" (createBB "" s).2).2).2).2).2))) else appendInstr (Instr.br (s.nextBB + 2)) (visitStmtOpt th (setInsertPoint s.nextBB (appendInstr (Instr.condBr (ensureInt1 (visitCond cn (createBB "" (createBB "" (createBB "" s).2).2).2).1 (visitCond cn (createBB "" (createBB "" (createBB "" s).2).2).2).2).1 s.nextBB (s.nextBB + 1)) (ensureInt1 (visitCond cn (createBB "" (createBB "" (createBB "" s).2).2).2).1 (visitCond cn (createBB "" (createBB "" (createBB "" s).2).2).2).2).2)))))) := loc_visitStmt est (setInsertPoint (s.nextBB + 1) (if curHasTerminator (visitStmtOpt th (setInsertPoint s.nextBB (appendInstr (Instr.condBr (ensureInt1 (visitCond cn (createBB "" (createBB "" (createBB "" s).2).2).2).1 (visitCond cn (createBB "" (createBB "" (createBB "" s).2).2).2).2).1 s.nextBB (s.nextBB + 1)) (ensureInt1 (visitCond cn (createBB "" (createBB "" (createBB "" s).2).2).2).1 (visitCond cn (createBB "" (createBB "" (createBB "" s).2).2).2).2).2))) = true then (visitStmtOpt th (setInsertPoint s.nextBB (appendInstr (Instr.condBr (ensureInt1 (visitCond cn (createBB "" (createBB "" (createBB "" s).2).2).2).1 (visitCond cn (createBB "" (createBB "" (createBB "" s).2).2).2).2).1 s.nextBB (s.nextBB + 1)) (ensureInt1 (visitCond cn (createBB "" (createBB "" (createBB "" s).2).2).2).1 (visitCond cn (createBB "" (createBB "" (createBB "" s).2).2).2).2).2))) else appendInstr (Instr.br (s.nextBB + 2)) (visitStmtOpt th (setInsertPoint s.nextBB (appendInstr (Instr.condBr (ensureInt1 (visitCond cn (createBB "" (createBB "" (createBB "" s).2).2).2).1 (visitCond cn (createBB "" (createBB "" (createBB "" s).2).2).2).2).1 s.nextBB (s.nextBB + 1)) (ensureInt1 (visitCond cn (createBB "" (createBB "" (createBB "" s).2).2).2).1 (visitCond cn (createBB "" (createBB "" (createBB "" s).2).2).2).2).2))))) (LT2.wf hwf)
    have LT3 : Loc s (visitStmt est (setInsertPoint (s.nextBB + 1) (if curHasTerminator (visitStmtOpt th (setInsertPoint s.nextBB (appendInstr (Instr.condBr (ensureInt1 (visitCond cn (createBB "" (createBB "" (createBB "" s).2).2).2).1 (visitCond cn (createBB "" (createBB "" (createBB "" s).2).2).2).2).1 s.nextBB (s.nextBB + 1)) (ensureInt1 (visitCond cn (createBB "" (createBB "" (createBB "" s).2).2).2).1 (visitCond cn (createBB "" (createBB "" (createBB "" s).2).2).2).2).2))) = true then (visitStmtOpt th (setInsertPoint s.nextBB (appendInstr (Instr.condBr (ensureInt1 (visitCond cn (createBB "" (createBB "" (createBB "" s).2).2).2).1 (visitCond cn (createBB "" (createBB "" (createBB "" s).2).2).2).2).1 s.nextBB (s.nextBB + 1)) (ensureInt1 (visitCond cn (createBB "" (createBB "" (createBB "" s).2).2).2).1 (visitCond cn (createBB "" (createBB "" (createBB "" s).2).2).2).2).2))) else appendInstr (Instr.br (s.nextBB + 2)) (visitStmtOpt th (setInsertPoint s.nextBB (appendInstr (Instr.condBr (ensureInt1 (visitCond cn (createBB "" (createBB "" (createBB "" s).2).2).2).1 (visitCond cn (createBB "" (createBB "" (createBB "" s).2).2).2).2).1 s.nextBB (s.nextBB + 1)) (ensureInt1 (visitCond cn (createBB "" (createBB "" (createBB "" s).2).2).2).1 (visitCond cn (createBB "" (createBB "" (createBB "" s).2).2).2).2).2)))))) := Loc.trans hwf LT2 Larm2
    have q9 : (setInsertPoint (s.nextBB + 1) (if curHasTerminator (visitStmtOpt th (setInsertPoint s.nextBB (appendInstr (Instr.condBr (ensureInt1 (visitCond cn (createBB "" (createBB "" (createBB "" s).2).2).2).1 (visitCond cn (createBB "" (createBB "" (createBB "" s).2).2).2).2).1 s.nextBB (s.nextBB + 1)) (ensureInt1 (visitCond cn (createBB "" (createBB "" (createBB "" s).2).2).2).1 (visitCond cn (createBB "" (createBB "" (createBB "" s).2).2).2).2).2))) = true then (visitStmtOpt th (setInsertPoint s.nextBB (appendInstr (Instr.condBr (ensureInt1 (visitCond cn (createBB "" (createBB "" (createBB "" s).2).2).2).1 (visitCond cn (createBB "" (createBB "" (createBB "" s).2).2).2).2).1 s.nextBB (s.nextBB + 1)) (ensureInt1 (visitCond cn (createBB "" (createBB "" (createBB "" s).2).2).2).1 (visitCond cn (createBB "" (createBB "" (createBB "" s).2).2).2).2).2))) else appendInstr (Instr.br (s.nextBB + 2)) (visitStmtOpt th (setInsertPoint s.nextBB (appendInstr (Instr.condBr (ensureInt1 (visitCond cn (createBB "" (createBB "" (createBB "" s).2).2).2).1 (visitCond cn (createBB "" (createBB "" (createBB "" s).2).2).2).2).1 s.nextBB (s.nextBB + 1)) (ensureInt1 (visitCond cn (createBB "" (createBB "" (createBB "" s).2).2).2).1 (visitCond cn (createBB "" (createBB "" (createBB "" s).2).2).2).2).2))))).nextBB = (if curHasTerminator (visitStmtOpt th (setInsertPoint s.nextBB (appendInstr (Instr.condBr (ensureInt1 (visitCond cn (createBB "" (createBB "" (createBB "" s).2).2).2).1 (visitCond cn (createBB "" (createBB "" (createBB "" s).2).2).2).2).1 s.nextBB (s.nextBB + 1)) (ensureInt1 (visitCond cn (createBB "" (createBB "" (createBB "" s).2).2).2).1 (visitCond cn (createBB "" (createBB "" (createBB "" s).2).2).2).2).2))) = true then (visitStmtOpt th (setInsertPoint s.nextBB (appendInstr (Instr.condBr (ensureInt1 (visitCond cn (createBB "" (createBB "" (createBB "" s).2).2).2).1 (visitCond cn (createBB "" (createBB "" (createBB "" s).2).2).2).2).1 s.nextBB (s.nextBB + 1)) (ensureInt1 (visitCond cn (createBB "" (createBB "" (createBB "" s).2).2).2).1 (visitCond cn (createBB "" (createBB "" (createBB "" s).2).2).2).2).2))) else appendInstr (Instr.br (s.nextBB + 2)) (visitStmtOpt th (setInsertPoint s.nextBB (appendInstr (Instr.condBr (ensureInt1 (visitCond cn (createBB "" (createBB "" (createBB "" s).2).2).2).1 (visitCond cn (createBB "" (createBB "" (createBB "" s).2).2).2).2).1 s.nextBB (s.nextBB + 1)) (ensureInt1 (visitCond cn (createBB "" (createBB "" (createBB "" s).2).2).2).1 (visitCond cn (createBB "" (createBB "" (createBB "" s).2).2).2).2).2)))).nextBB := rfl
    have q10 : (setInsertPoint (s.nextBB + 1) (if curHasTerminator (visitStmtOpt th (setInsertPoint s.nextBB (appendInstr (Instr.condBr (ensureInt1 (visitCond cn (createBB "" (createBB "" (createBB "" s).2).2).2).1 (visitCond cn (createBB "" (createBB "" (createBB "" s).2).2).2).2).1 s.nextBB (s.nextBB + 1)) (ensureInt1 (visitCond cn (createBB "" (createBB "" (createBB "" s).2).2).2).1 (visitCond cn (createBB "" (createBB "" (createBB "" s).2).2).2).2).2))) = true then (visitStmtOpt th (setInsertPoint s.nextBB (appendInstr (Instr.condBr (ensureInt1 (visitCond cn (createBB "" (createBB "" (createBB "" s).2).2).2).1 (visitCond cn (createBB "" (createBB "" (createBB "" s).2).2).2).2).1 s.nextBB (s.nextBB + 1)) (ensureInt1 (visitCond cn (createBB "" (createBB "" (createBB "" s).2).2).2).1 (visitCond cn (createBB "" (createBB "" (createBB "" s).2).2).2).2).2))) else appendInstr (Instr.br (s.nextBB + 2)) (visitStmtOpt th (setInsertPoint s.nextBB (appendInstr (Instr.condBr (ensureInt1 (visitCond cn (createBB "" (createBB "" (createBB "" s).2).2).2).1 (visitCond cn (createBB "" (createBB "" (createBB "" s).2).2).2).2).1 s.nextBB (s.nextBB + 1)) (ensureInt1 (visitCond cn (createBB "" (createBB "" (createBB "" s).2).2).2).1 (visitCond cn (createBB "" (createBB "" (createBB "" s).2).2).2).2).2))))).nextBB ≤ (visitStmt est (setInsertPoint (s.nextBB + 1) (if curHasTerminator (visitStmtOpt th (setInsertPoint s.nextBB (appendInstr (Instr.condBr (ensureInt1 (visitCond cn (createBB "" (createBB "" (createBB "" s).2).2).2).1 (visitCond cn (createBB "" (createBB "" (createBB "" s).2).2).2).2).1 s.nextBB (s.nextBB + 1)) (ensureInt1 (visitCond cn (createBB "" (createBB "" (createBB "" s).2).2).2).1 (visitCond cn (createBB "" (createBB "" (createBB "" s).2).2).2).2).2))) = true then (visitStmtOpt th (setInsertPoint s.nextBB (appendInstr (Instr.condBr (ensureInt1 (visitCond cn (createBB "" (createBB "" (createBB "" s).2).2).2).1 (visitCond cn (createBB "" (createBB "" (createBB "" s).2).2).2).2).1 s.nextBB (s.nextBB + 1)) (ensureInt1 (visitCond cn (createBB "" (createBB "" (createBB "" s).2).2).2).1 (visitCond cn (createBB "" (createBB "" (createBB "" s).2).2).2).2).2))) else appendInstr (Instr.br (s.nextBB + 2)) (visitStmtOpt th (setInsertPoint s.nextBB (appendInstr (Instr.condBr (ensureInt1 (visitCond cn (createBB "" (createBB "" (createBB "" s).2).2).2).1 (visitCond cn (createBB "" (createBB "" (createBB "" s).2).2).2).2).1 s.nextBB (s.nextBB + 1)) (ensureInt1 (visitCond cn (createBB "" (createBB "" (createBB "" s).2).2).2).1 (visitCond cn (createBB "" (createBB "" (createBB "" s).2).2).2).2).2)))))).nextBB := Larm2.mono
    have hres : (visitIfStmt (Stmt.mk tg lv ex blk (some cn) th (some est)) s) = setInsertPoint (s.nextBB + 2) (if curHasTerminator (visitStmt est (setInsertPoint (s.nextBB + 1) (if curHasTerminator (visitStmtOpt th (setInsertPoint s.nextBB (appendInstr (Instr.condBr (ensureInt1 (visitCond cn (createBB "" (createBB "" (createBB "" s).2).2).2).1 (visitCond cn (createBB "" (createBB "" (createBB "" s).2).2).2).2).1 s.nextBB (s.nextBB + 1)) (ensureInt1 (visitCond cn (createBB "" (createBB "" (createBB "" s).2).2).2).1 (visitCond cn (createBB "" (createBB "" (createBB "" s).2).2).2).2).2))) = true then (visitStmtOpt th (setInsertPoint s.nextBB (appendInstr (Instr.condBr (ensureInt1 (visitCond cn (createBB "" (createBB "" (createBB "" s).2).2).2).1 (visitCond cn (createBB "" (createBB "" (createBB "" s).2).2).2).2).1 s.nextBB (s.nextBB + 1)) (ensureInt1 (visitCond cn (createBB "" (createBB "" (createBB "" s).2).2).2).1 (visitCond cn (createBB "" (createBB "" (createBB "" s).2).2).2).2).2))) else appendInstr (Instr.br (s.nextBB + 2)) (visitStmtOpt th (setInsertPoint s.nextBB (appendInstr (Instr.condBr (ensureInt1 (visitCond cn (createBB "" (createBB "" (createBB "" s).2).2).2).1 (visitCond cn (createBB "" (createBB "" (createBB "" s).2).2).2).2).1 s.nextBB (s.nextBB + 1)) (ensureInt1 (visitCond cn (createBB "" (createBB "" (createBB "" s).2).2).2).1 (visitCond cn (createBB "" (createBB "" (createBB "" s).2).2).2).2).2)))))) = true then (visitStmt est (setInsertPoint (s.nextBB + 1) (if curHasTerminator (visitStmtOpt th (setInsertPoint s.nextBB (appendInstr (Instr.condBr (ensureInt1 (visitCond cn (createBB "" (createBB "" (createBB "" s).2).2).2).1 (visitCond cn (createBB "" (createBB "" (createBB "" s).2).2).2).2).1 s.nextBB (s.nextBB + 1)) (ensureInt1 (visitCond cn (createBB "" (createBB "" (createBB "" s).2).2).2).1 (visitCond cn (createBB "" (createBB "" (createBB "" s).2).2).2).2).2))) = true then (visitStmtOpt th (setInsertPoint s.nextBB (appendInstr (Instr.condBr (ensureInt1 (visitCond cn (createBB "" (createBB "" (createBB "" s).2).2).2).1 (visitCond cn (createBB "" (createBB "" (createBB "" s).2).2).2).2).1 s.nextBB (s.nextBB + 1)) (ensureInt1 (visitCond cn (createBB "" (createBB "" (createBB "" s).2).2).2).1 (visitCond cn (createBB "" (createBB "" (createBB "" s).2).2).2).2).2))) else appendInstr (Instr.br (s.nextBB + 2)) (visitStmtOpt th (setInsertPoint s.nextBB (appendInstr (Instr.condBr (ensureInt1 (visitCond cn (createBB "" (createBB "" (createBB "" s).2).2).2).1 (visitCond cn (createBB "" (createBB "" (createBB "" s).2).2).2).2).1 s.nextBB (s.nextBB + 1)) (ensureInt1 (visitCond cn (createBB "" (createBB "" (createBB "" s).2).2).2).1 (visitCond cn (createBB "" (createBB "" (createBB "" s).2).2).2).2).2)))))) else appendInstr (Instr.br (s.nextBB + 2)) (visitStmt est (setInsertPoint (s.nextBB + 1) (if curHasTerminator (visitStmtOpt th (setInsertPoint s.nextBB (appendInstr (Instr.condBr (ensureInt1 (visitCond cn (createBB "" (createBB "" (createBB "" s).2).2).2).1 (visitCond cn (createBB "" (createBB "" (createBB "" s).2).2).2).2).1 s.nextBB (s.nextBB + 1)) (ensureInt1 (visitCond cn (createBB "" (createBB "" (createBB "" s).2).2).2).1 (visitCond cn (createBB "" (createBB "" (createBB "" s).2).2).2).2).2))) = true then (visitStmtOpt th (setInsertPoint s.nextBB (appendInstr (Instr.condBr (ensureInt1 (visitCond cn (createBB "" (createBB "" (createBB "" s).2).2).2).1 (visitCond cn (createBB "" (createBB "" (createBB "" s).2).2).2).2).1 s.nextBB (s.nextBB + 1)) (ensureInt1 (visitCond cn (createBB "" (createBB "" (createBB "" s).2).2).2).1 (visitCond cn (createBB "" (createBB "" (createBB "" s).2).2).2).2).2))) else appendInstr (Instr.br (s.nextBB + 2)) (visitStmtOpt th (setInsertPoint s.nextBB (appendInstr (Instr.condBr (ensureInt1 (visitCond cn (createBB "" (createBB "" (createBB "" s).2).2).2).1 (visitCond cn (createBB "" (createBB "" (createBB "" s).2).2).2).2).1 s.nextBB (s.nextBB + 1)) (ensureInt1 (visitCond cn (createBB "" (createBB "" (createBB "" s).2).2).2).1 (visitCond cn (createBB "" (createBB "" (createBB "" s).2).2).2).2).2))))))) := by
      simp only [visitIfStmt]
      rfl
    have hM2cur : (createBB "" (createBB "" (createBB "" s).2).2).2.curBB = some b0 := hcur
    have hpc0some : (visitCond cn (createBB "" (createBB "" (createBB "" s).2).2).2).2.curBB.isSome = true := Lcnd.cur_isSome (by rw [hM2cur]; rfl)
    have hpcsome : (ensureInt1 (visitCond cn (createBB "" (createBB "" (createBB "" s).2).2).2).1 (visitCond cn (createBB "" (createBB "" (createBB "" s).2).2).2).2).2.curBB.isSome = true := by
      rw [ensureInt1_curBB]
      exact hpc0some
    have hpccur : (ensureInt1 (visitCond cn (createBB "" (createBB "" (createBB "" s).2).2).2).1 (visitCond cn (createBB "" (createBB "" (createBB "" s).2).2).2).2).2.curBB = some ((ensureInt1 (visitCond cn (createBB "" (createBB "" (createBB "" s).2).2).2).1 (visitCond cn (createBB "" (createBB "" (createBB "" s).2).2).2).2).2.curBB.getD 0) := opt_eq_some_getD _ hpcsome
    have hb0lt : b0 < s.nextBB := (hwf.2 b0 (by simp [hcur])).1
    have hCEcases : ((ensureInt1 (visitCond cn (createBB "" (createBB "" (createBB "" s).2).2).2).1 (visitCond cn (createBB "" (createBB "" (createBB "" s).2).2).2).2).2.curBB.getD 0) = b0 ∨ s.nextBB + 3 ≤ ((ensureInt1 (visitCond cn (createBB "" (createBB "" (createBB "" s).2).2).2).1 (visitCond cn (createBB "" (createBB "" (createBB "" s).2).2).2).2).2.curBB.getD 0) := by
      rcases Lcnd.cur_fresh with hceq | ⟨b, hb, hge⟩
      · left
        have hx : (ensureInt1 (visitCond cn (createBB "" (createBB "" (createBB "" s).2).2).2).1 (visitCond cn (createBB "" (createBB "" (createBB "" s).2).2).2).2).2.curBB = some b0 := by rw [ensureInt1_curBB, hceq, hM2cur]
        rw [hx]
        rfl
      · right
        have hx : (ensureInt1 (visitCond cn (createBB "" (createBB "" (createBB "" s).2).2).2).1 (visitCond cn (createBB "" (createBB "" (createBB "" s).2).2).2).2).2.curBB = some b := by rw [ensureInt1_curBB, hb]
        rw [hx]
        simp only [Option.getD_some]
        omega
    obtain ⟨ce, hce⟩ := Option.isSome_iff_exists.mp hpcsome
    have hmem : ((ensureInt1 (visitCond cn (createBB "" (createBB "" (createBB "" s).2).2).2).1 (visitCond cn (createBB "" (createBB "" (createBB "" s).2).2).2).2).2.curBB.getD 0) ∈ (ensureInt1 (visitCond cn (createBB "" (createBB "" (createBB "" s).2).2).2).1 (visitCond cn (createBB "" (createBB "" (createBB "" s).2).2).2).2).2.curBB.toList := by
      rw [hce]
      simp
    have hCE_lt : ((ensureInt1 (visitCond cn (createBB "" (createBB "" (createBB "" s).2).2).2).1 (visitCond cn (createBB "" (createBB "" (createBB "" s).2).2).2).2).2.curBB.getD 0) < (ensureInt1 (visitCond cn (createBB "" (createBB "" (createBB "" s).2).2).2).1 (visitCond cn (createBB "" (createBB "" (createBB "" s).2).2).2).2).2.nextBB := ((Lpc.wf hwf).2 ((ensureInt1 (visitCond cn (createBB "" (createBB "" (createBB "" s).2).2).2).1 (visitCond cn (createBB "" (createBB "" (createBB "" s).2).2).2).2).2.curBB.getD 0) hmem).1
    have hCEneA : ((ensureInt1 (visitCond cn (createBB "" (createBB "" (createBB "" s).2).2).2).1 (visitCond cn (createBB "" (createBB "" (createBB "" s).2).2).2).2).2.curBB.getD 0) ≠ s.nextBB := by rcases hCEcases with h | h <;> omega
    have hCEneE : ((ensureInt1 (visitCond cn (createBB "" (createBB "" (createBB "" s).2).2).2).1 (visitCond cn (createBB "" (createBB "" (createBB "" s).2).2).2).2).2.curBB.getD 0) ≠ s.nextBB + 1 := by rcases hCEcases with h | h <;> omega
    obtain ⟨cb0, hcb0⟩ := Option.isSome_iff_exists.mp ((Lpc.wf hwf).2 ((ensureInt1 (visitCond cn (createBB "" (createBB "" (createBB "" s).2).2).2).1 (visitCond cn (createBB "" (createBB "" (createBB "" s).2).2).2).2).2.curBB.getD 0) hmem).2
    have fC1 : findBlock (appendInstr (Instr.condBr (ensureInt1 (visitCond cn (createBB "" (createBB "" (createBB "" s).2).2).2).1 (visitCond cn (createBB "" (createBB "" (createBB "" s).2).2).2).2).1 s.nextBB (s.nextBB + 1)) (ensureInt1 (visitCond cn (createBB "" (createBB "" (createBB "" s).2).2).2).1 (visitCond cn (createBB "" (createBB "" (createBB "" s).2).2).2).2).2) ((ensureInt1 (visitCond cn (createBB "" (createBB "" (createBB "" s).2).2).2).1 (visitCond cn (createBB "" (createBB "" (createBB "" s).2).2).2).2).2.curBB.getD 0) = some { cb0 with instrs := cb0.instrs ++ [(Instr.condBr (ensureInt1 (visitCond cn (createBB "" (createBB "" (createBB "" s).2).2).2).1 (visitCond cn (createBB "" (createBB "" (createBB "" s).2).2).2).2).1 s.nextBB (s.nextBB + 1))] } :=
      findBlock_append_self (Instr.condBr (ensureInt1 (visitCond cn (createBB "" (createBB "" (createBB "" s).2).2).2).1 (visitCond cn (createBB "" (createBB "" (createBB "" s).2).2).2).2).1 s.nextBB (s.nextBB + 1)) hpccur hcb0
    have fC2 : findBlock (setInsertPoint s.nextBB (appendInstr (Instr.condBr (ensureInt1 (visitCond cn (createBB "" (createBB "" (createBB "" s).2).2).2).1 (visitCond cn (createBB "" (createBB "" (createBB "" s).2).2).2).2).1 s.nextBB (s.nextBB + 1)) (ensureInt1 (visitCond cn (createBB "" (createBB "" (createBB "" s).2).2).2).1 (visitCond cn (createBB "" (createBB "" (createBB "" s).2).2).2).2).2)) ((ensureInt1 (visitCond cn (createBB "" (createBB "" (createBB "" s).2).2).2).1 (visitCond cn (createBB "" (createBB "" (createBB "" s).2).2).2).2).2.curBB.getD 0) = some { cb0 with instrs := cb0.instrs ++ [(Instr.condBr (ensureInt1 (visitCond cn (createBB "" (createBB "" (createBB "" s).2).2).2).1 (visitCond cn (createBB "" (createBB "" (createBB "" s).2).2).2).2).1 s.nextBB (s.nextBB + 1))] } := fC1
    have hcurs2C : (setInsertPoint s.nextBB (appendInstr (Instr.condBr (ensureInt1 (visitCond cn (createBB "" (createBB "" (createBB "" s).2).2).2).1 (visitCond cn (createBB "" (createBB "" (createBB "" s).2).2).2).2).1 s.nextBB (s.nextBB + 1)) (ensureInt1 (visitCond cn (createBB "" (createBB "" (createBB "" s).2).2).2).1 (visitCond cn (createBB "" (createBB "" (createBB "" s).2).2).2).2).2)).curBB ≠ some ((ensureInt1 (visitCond cn (createBB "" (createBB "" (createBB "" s).2).2).2).1 (visitCond cn (createBB "" (createBB "" (createBB "" s).2).2).2).2).2.curBB.getD 0) := by
      intro h
      have h2 : some s.nextBB = some ((ensureInt1 (visitCond cn (createBB "" (createBB "" (createBB "" s).2).2).2).1 (visitCond cn (createBB "" (createBB "" (createBB "" s).2).2).2).2).2.curBB.getD 0) := h
      injection h2 with h3
      exact hCEneA h3.symm
    have fC3 : findBlock (visitStmtOpt th (setInsertPoint s.nextBB (appendInstr (Instr.condBr (ensureInt1 (visitCond cn (createBB "" (createBB "" (createBB "" s).2).2).2).1 (visitCond cn (createBB "" (createBB "" (createBB "" s).2).2).2).2).1 s.nextBB (s.nextBB + 1)) (ensureInt1 (visitCond cn (createBB "" (createBB "" (createBB "" s).2).2).2).1 (visitCond cn (createBB "" (createBB "" (createBB "" s).2).2).2).2).2))) ((ensureInt1 (visitCond cn (createBB "" (createBB "" (createBB "" s).2).2).2).1 (visitCond cn (createBB "" (createBB "" (createBB "" s).2).2).2).2).2.curBB.getD 0) = some { cb0 with instrs := cb0.instrs ++ [(Instr.condBr (ensureInt1 (visitCond cn (createBB "" (createBB "" (createBB "" s).2).2).2).1 (visitCond cn (createBB "" (createBB "" (createBB "" s).2).2).2).2).1 s.nextBB (s.nextBB + 1))] } :=
      Larm.old_blocks _ _ fC2 hcurs2C
    have hcurs3C : (visitStmtOpt th (setInsertPoint s.nextBB (appendInstr (Instr.condBr (ensureInt1 (visitCond cn (createBB "" (createBB "" (createBB "" s).2).2).2).1 (visitCond cn (createBB "" (createBB "" (createBB "" s).2).2).2).2).1 s.nextBB (s.nextBB + 1)) (ensureInt1 (visitCond cn (createBB "" (createBB "" (createBB "" s).2).2).2).1 (visitCond cn (createBB "" (createBB "" (createBB "" s).2).2).2).2).2))).curBB ≠ some ((ensureInt1 (visitCond cn (createBB "" (createBB "" (createBB "" s).2).2).2).1 (visitCond cn (createBB "" (createBB "" (createBB "" s).2).2).2).2).2.curBB.getD 0) := Larm.cur_ne (by omega) hcurs2C
    have fC4 : findBlock (if curHasTerminator (visitStmtOpt th (setInsertPoint s.nextBB (appendInstr (Instr.condBr (ensureInt1 (visitCond cn (createBB "" (createBB "" (createBB "" s).2).2).2).1 (visitCond cn (createBB "" (createBB "" (createBB "" s).2).2).2).2).1 s.nextBB (s.nextBB + 1)) (ensureInt1 (visitCond cn (createBB "" (createBB "" (createBB "" s).2).2).2).1 (visitCond cn (createBB "" (createBB "" (createBB "" s).2).2).2).2).2))) = true then (visitStmtOpt th (setInsertPoint s.nextBB (appendInstr (Instr.condBr (ensureInt1 (visitCond cn (createBB "" (createBB "" (createBB "" s).2).2).2).1 (visitCond cn (createBB "" (createBB "" (createBB "" s).2).2).2).2).1 s.nextBB (s.nextBB + 1)) (ensureInt1 (visitCond cn (createBB "" (createBB "" (createBB "" s).2).2).2).1 (visitCond cn (createBB "" (createBB "" (createBB "" s).2).2).2).2).2))) else appendInstr (Instr.br (s.nextBB + 2)) (visitStmtOpt th (setInsertPoint s.nextBB (appendInstr (Instr.condBr (ensureInt1 (visitCond cn (createBB "" (createBB "" (createBB "" s).2).2).2).1 (visitCond cn (createBB "" (createBB "" (createBB "" s).2).2).2).2).1 s.nextBB (s.nextBB + 1)) (ensureInt1 (visitCond cn (createBB "" (createBB "" (createBB "" s).2).2).2).1 (visitCond cn (createBB "" (createBB "" (createBB "" s).2).2).2).2).2)))) ((ensureInt1 (visitCond cn (createBB "" (createBB "" (createBB "" s).2).2).2).1 (visitCond cn (createBB "" (createBB "" (createBB "" s).2).2).2).2).2.curBB.getD 0) = some { cb0 with instrs := cb0.instrs ++ [(Instr.condBr (ensureInt1 (visitCond cn (createBB "" (createBB "" (createBB "" s).2).2).2).1 (visitCond cn (createBB "" (createBB "" (createBB "" s).2).2).2).2).1 s.nextBB (s.nextBB + 1))] } := by
      split
      · exact fC3
      · exact (loc_appendInstr _ _).old_blocks _ _ fC3 hcurs3C
    have fC5 : findBlock (setInsertPoint (s.nextBB + 1) (if curHasTerminator (visitStmtOpt th (setInsertPoint s.nextBB (appendInstr (Instr.condBr (ensureInt1 (visitCond cn (createBB "" (createBB "" (createBB "" s).2).2).2).1 (visitCond cn (createBB "" (createBB "" (createBB "" s).2).2).2).2).1 s.nextBB (s.nextBB + 1)) (ensureInt1 (visitCond cn (createBB "" (createBB "" (createBB "" s).2).2).2).1 (visitCond cn (createBB "" (createBB "" (createBB "" s).2).2).2).2).2))) = true then (visitStmtOpt th (setInsertPoint s.nextBB (appendInstr (Instr.condBr (ensureInt1 (visitCond cn (createBB "" (createBB "" (createBB "" s).2).2).2).1 (visitCond cn (createBB "" (createBB "" (createBB "" s).2).2).2).2).1 s.nextBB (s.nextBB + 1)) (ensureInt1 (visitCond cn (createBB "" (createBB "" (createBB "" s).2).2).2).1 (visitCond cn (createBB "" (createBB "" (createBB "" s).2).2).2).2).2))) else appendInstr (Instr.br (s.nextBB + 2)) (visitStmtOpt th (setInsertPoint s.nextBB (appendInstr (Instr.condBr (ensureInt1 (visitCond cn (createBB "" (createBB "" (createBB "" s).2).2).2).1 (visitCond cn (createBB "" (createBB "" (createBB "" s).2).2).2).2).1 s.nextBB (s.nextBB + 1)) (ensureInt1 (visitCond cn (createBB "" (createBB "" (createBB "" s).2).2).2).1 (visitCond cn (createBB "" (createBB "" (createBB "" s).2).2).2).2).2))))) ((ensureInt1 (visitCond cn (createBB "" (createBB "" (createBB "" s).2).2).2).1 (visitCond cn (createBB "" (createBB "" (createBB "" s).2).2).2).2).2.curBB.getD 0) = some { cb0 with instrs := cb0.instrs ++ [(Instr.condBr (ensureInt1 (visitCond cn (createBB "" (createBB "" (createBB "" s).2).2).2).1 (visitCond cn (createBB "" (createBB "" (createBB "" s).2).2).2).2).1 s.nextBB (s.nextBB + 1))] } := fC4
    have hcurT2C : (setInsertPoint (s.nextBB + 1) (if curHasTerminator (visitStmtOpt th (setInsertPoint s.nextBB (appendInstr (Instr.condBr (ensureInt1 (visitCond cn (createBB "" (createBB "" (createBB "" s).2).2).2).1 (visitCond cn (createBB "" (createBB "" (createBB "" s).2).2).2).2).1 s.nextBB (s.nextBB + 1)) (ensureInt1 (visitCond cn (createBB "" (createBB "" (createBB "" s).2).2).2).1 (visitCond cn (createBB "" (createBB "" (createBB "" s).2).2).2).2).2))) = true then (visitStmtOpt th (setInsertPoint s.nextBB (appendInstr (Instr.condBr (ensureInt1 (visitCond cn (createBB "" (createBB "" (createBB "" s).2).2).2).1 (visitCond cn (createBB "" (createBB "" (createBB "" s).2).2).2).2).1 s.nextBB (s.nextBB + 1)) (ensureInt1 (visitCond cn (createBB "" (createBB "" (createBB "" s).2).2).2).1 (visitCond cn (createBB "" (createBB "" (createBB "" s).2).2).2).2).2))) else appendInstr (Instr.br (s.nextBB + 2)) (visitStmtOpt th (setInsertPoint s.nextBB (appendInstr (Instr.condBr (ensureInt1 (visitCond cn (createBB "" (createBB "" (createBB "" s).2).2).2).1 (visitCond cn (createBB "" (createBB "" (createBB "" s).2).2).2).2).1 s.nextBB (s.nextBB + 1)) (ensureInt1 (visitCond cn (createBB "" (createBB "" (createBB "" s).2).2).2).1 (visitCond cn (createBB "" (createBB "" (createBB "" s).2).2).2).2).2))))).curBB ≠ some ((ensureInt1 (visitCond cn (createBB "" (createBB "" (createBB "" s).2).2).2).1 (visitCond cn (createBB "" (createBB "" (createBB "" s).2).2).2).2).2.curBB.getD 0) := by
      intro h
      have h2 : some (s.nextBB + 1) = some ((ensureInt1 (visitCond cn (createBB "" (createBB "" (createBB "" s).2).2).2).1 (visitCond cn (createBB "" (createBB "" (createBB "" s).2).2).2).2).2.curBB.getD 0) := h
      injection h2 with h3
      exact hCEneE h3.symm
    have fC6 : findBlock (visitStmt est (setInsertPoint (s.nextBB + 1) (if curHasTerminator (visitStmtOpt th (setInsertPoint s.nextBB (appendInstr (Instr.condBr (ensureInt1 (visitCond cn (createBB "" (createBB "" (createBB "" s).2).2).2).1 (visitCond cn (createBB "" (createBB "" (createBB "" s).2).2).2).2).1 s.nextBB (s.nextBB + 1)) (ensureInt1 (visitCond cn (createBB "" (createBB "" (createBB "" s).2).2).2).1 (visitCond cn (createBB "" (createBB "" (createBB "" s).2).2).2).2).2))) = true then (visitStmtOpt th (setInsertPoint s.nextBB (appendInstr (Instr.condBr (ensureInt1 (visitCond cn (createBB "" (createBB "" (createBB "" s).2).2).2).1 (visitCond cn (createBB "" (createBB "" (createBB "" s).2).2).2).2).1 s.nextBB (s.nextBB + 1)) (ensureInt1 (visitCond cn (createBB "" (createBB "" (createBB "" s).2).2).2).1 (visitCond cn (createBB "" (createBB "" (createBB "" s).2).2).2).2).2))) else appendInstr (Instr.br (s.nextBB + 2)) (visitStmtOpt th (setInsertPoint s.nextBB (appendInstr (Instr.condBr (ensureInt1 (visitCond cn (createBB "" (createBB "" (createBB "" s).2).2).2).1 (visitCond cn (createBB "" (createBB "" (createBB "" s).2).2).2).2).1 s.nextBB (s.nextBB + 1)) (ensureInt1 (visitCond cn (createBB "" (createBB "" (createBB "" s).2).2).2).1 (visitCond cn (createBB "" (createBB "" (createBB "" s).2).2).2).2).2)))))) ((ensureInt1 (visitCond cn (createBB "" (createBB "" (createBB "" s).2).2).2).1 (visitCond cn (createBB "" (createBB "" (createBB "" s).2).2).2).2).2.curBB.getD 0) = some { cb0 with instrs := cb0.instrs ++ [(Instr.condBr (ensureInt1 (visitCond cn (createBB "" (createBB "" (createBB "" s).2).2).2).1 (visitCond cn (createBB "" (createBB "" (createBB "" s).2).2).2).2).1 s.nextBB (s.nextBB + 1))] } :=
      Larm2.old_blocks _ _ fC5 hcurT2C
    have hcurT3C : (visitStmt est (setInsertPoint (s.nextBB + 1) (if curHasTerminator (visitStmtOpt th (setInsertPoint s.nextBB (appendInstr (Instr.condBr (ensureInt1 (visitCond cn (createBB "" (createBB "" (createBB "" s).2).2).2).1 (visitCond cn (createBB "" (createBB "" (createBB "" s).2).2).2).2).1 s.nextBB (s.nextBB + 1)) (ensureInt1 (visitCond cn (createBB "" (createBB "" (createBB "" s).2).2).2).1 (visitCond cn (createBB "" (createBB "" (createBB "" s).2).2).2).2).2))) = true then (visitStmtOpt th (setInsertPoint s.nextBB (appendInstr (Instr.condBr (ensureInt1 (visitCond cn (createBB "" (createBB "" (createBB "" s).2).2).2).1 (visitCond cn (createBB "" (createBB "" (createBB "" s).2).2).2).2).1 s.nextBB (s.nextBB + 1)) (ensureInt1 (visitCond cn (createBB "" (createBB "" (createBB "" s).2).2).2).1 (visitCond cn (createBB "" (createBB "" (createBB "" s).2).2).2).2).2))) else appendInstr (Instr.br (s.nextBB + 2)) (visitStmtOpt th (setInsertPoint s.nextBB (appendInstr (Instr.condBr (ensureInt1 (visitCond cn (createBB "" (createBB "" (createBB "" s).2).2).2).1 (visitCond cn (createBB "" (createBB "" (createBB "" s).2).2).2).2).1 s.nextBB (s.nextBB + 1)) (ensureInt1 (visitCond cn (createBB "" (createBB "" (createBB "" s).2).2).2).1 (visitCond cn (createBB "" (createBB "" (createBB "" s).2).2).2).2).2)))))).curBB ≠ some ((ensureInt1 (visitCond cn (createBB "" (createBB "" (createBB "" s).2).2).2).1 (visitCond cn (createBB "" (createBB "" (createBB "" s).2).2).2).2).2.curBB.getD 0) := Larm2.cur_ne (by omega) hcurT2C
    have fC7 : findBlock (if curHasTerminator (visitStmt est (setInsertPoint (s.nextBB + 1) (if curHasTerminator (visitStmtOpt th (setInsertPoint s.nextBB (appendInstr (Instr.condBr (ensureInt1 (visitCond cn (createBB "" (createBB "" (createBB "" s).2).2).2).1 (visitCond cn (createBB "" (createBB "" (createBB "" s).2).2).2).2).1 s.nextBB (s.nextBB + 1)) (ensureInt1 (visitCond cn (createBB "" (createBB "" (createBB "" s).2).2).2).1 (visitCond cn (createBB "" (createBB "" (createBB "" s).2).2).2).2).2))) = true then (visitStmtOpt th (setInsertPoint s.nextBB (appendInstr (Instr.condBr (ensureInt1 (visitCond cn (createBB "" (createBB "" (createBB "" s).2).2).2).1 (visitCond cn (createBB "" (createBB "" (createBB "" s).2).2).2).2).1 s.nextBB (s.nextBB + 1)) (ensureInt1 (visitCond cn (createBB "" (createBB "" (createBB "" s).2).2).2).1 (visitCond cn (createBB "" (createBB "" (createBB "" s).2).2).2).2).2))) else appendInstr (Instr.br (s.nextBB + 2)) (visitStmtOpt th (setInsertPoint s.nextBB (appendInstr (Instr.condBr (ensureInt1 (visitCond cn (createBB "" (createBB "" (createBB "" s).2).2).2).1 (visitCond cn (createBB "" (createBB "" (createBB "" s).2).2).2).2).1 s.nextBB (s.nextBB + 1)) (ensureInt1 (visitCond cn (createBB "" (createBB "" (createBB "" s).2).2).2).1 (visitCond cn (createBB "" (createBB "" (createBB "" s).2).2).2).2).2)))))) = true then (visitStmt est (setInsertPoint (s.nextBB + 1) (if curHasTerminator (visitStmtOpt th (setInsertPoint s.nextBB (appendInstr (Instr.condBr (ensureInt1 (visitCond cn (createBB "" (createBB "" (createBB "" s).2).2).2).1 (visitCond cn (createBB "" (createBB "" (createBB "" s).2).2).2).2).1 s.nextBB (s.nextBB + 1)) (ensureInt1 (visitCond cn (createBB "" (createBB "" (createBB "" s).2).2).2).1 (visitCond cn (createBB "" (createBB "" (createBB "" s).2).2).2).2).2))) = true then (visitStmtOpt th (setInsertPoint s.nextBB (appendInstr (Instr.condBr (ensureInt1 (visitCond cn (createBB "" (createBB "" (createBB "" s).2).2).2).1 (visitCond cn (createBB "" (createBB "" (createBB "" s).2).2).2).2).1 s.nextBB (s.nextBB + 1)) (ensureInt1 (visitCond cn (createBB "" (createBB "" (createBB "" s).2).2).2).1 (visitCond cn (createBB "" (createBB "" (createBB "" s).2).2).2).2).2))) else appendInstr (Instr.br (s.nextBB + 2)) (visitStmtOpt th (setInsertPoint s.nextBB (appendInstr (Instr.condBr (ensureInt1 (visitCond cn (createBB "" (createBB "" (createBB "" s).2).2).2).1 (visitCond cn (createBB "" (createBB "" (createBB "" s).2).2).2).2).1 s.nextBB (s.nextBB + 1)) (ensureInt1 (visitCond cn (createBB "" (createBB "" (createBB "" s).2).2).2).1 (visitCond cn (createBB "" (createBB "" (createBB "" s).2).2).2).2).2)))))) else appendInstr (Instr.br (s.nextBB + 2)) (visitStmt est (setInsertPoint (s.nextBB + 1) (if curHasTerminator (visitStmtOpt th (setInsertPoint s.nextBB (appendInstr (Instr.condBr (ensureInt1 (visitCond cn (createBB "" (createBB "" (createBB "" s).2).2).2).1 (visitCond cn (createBB "" (createBB "" (createBB "" s).2).2).2).2).1 s.nextBB (s.nextBB + 1)) (ensureInt1 (visitCond cn (createBB "" (createBB "" (createBB "" s).2).2).2).1 (visitCond cn (createBB "" (createBB "" (createBB "" s).2).2).2).2).2))) = true then (visitStmtOpt th (setInsertPoint s.nextBB (appendInstr (Instr.condBr (ensureInt1 (visitCond cn (createBB "" (createBB "" (createBB "" s).2).2).2).1 (visitCond cn (createBB "" (createBB "" (createBB "" s).2).2).2).2).1 s.nextBB (s.nextBB + 1)) (ensureInt1 (visitCond cn (createBB "" (createBB "" (createBB "" s).2).2).2).1 (visitCond cn (createBB "" (createBB "" (createBB "" s).2).2).2).2).2))) else appendInstr (Instr.br (s.nextBB + 2)) (visitStmtOpt th (setInsertPoint s.nextBB (appendInstr (Instr.condBr (ensureInt1 (visitCond cn (createBB "" (createBB "" (createBB "" s).2).2).2).1 (visitCond cn (createBB "" (createBB "" (createBB "" s).2).2).2).2).1 s.nextBB (s.nextBB + 1)) (ensureInt1 (visitCond cn (createBB "" (createBB "" (createBB "" s).2).2).2).1 (visitCond cn (createBB "" (createBB "" (createBB "" s).2).2).2).2).2))))))) ((ensureInt1 (visitCond cn (createBB "" (createBB "" (createBB "" s).2).2).2).1 (visitCond cn (createBB "" (createBB "" (createBB "" s).2).2).2).2).2.curBB.getD 0) = some { cb0 with instrs := cb0.instrs ++ [(Instr.condBr (ensureInt1 (visitCond cn (createBB "" (createBB "" (createBB "" s).2).2).2).1 (visitCond cn (createBB "" (createBB "" (createBB "" s).2).2).2).2).1 s.nextBB (s.nextBB + 1))] } := by
      by_cases h7 : curHasTerminator (visitStmt est (setInsertPoint (s.nextBB + 1) (if curHasTerminator (visitStmtOpt th (setInsertPoint s.nextBB (appendInstr (Instr.condBr (ensureInt1 (visitCond cn (createBB "" (createBB "" (createBB "" s).2).2).2).1 (visitCond cn (createBB "" (createBB "" (createBB "" s).2).2).2).2).1 s.nextBB (s.nextBB + 1)) (ensureInt1 (visitCond cn (createBB "" (createBB "" (createBB "" s).2).2).2).1 (visitCond cn (createBB "" (createBB "" (createBB "" s).2).2).2).2).2))) = true then (visitStmtOpt th (setInsertPoint s.nextBB (appendInstr (Instr.condBr (ensureInt1 (visitCond cn (createBB "" (createBB "" (createBB "" s).2).2).2).1 (visitCond cn (createBB "" (createBB "" (createBB "" s).2).2).2).2).1 s.nextBB (s.nextBB + 1)) (ensureInt1 (visitCond cn (createBB "" (createBB "" (createBB "" s).2).2).2).1 (visitCond cn (createBB "" (createBB "" (createBB "" s).2).2).2).2).2))) else appendInstr (Instr.br (s.nextBB + 2)) (visitStmtOpt th (setInsertPoint s.nextBB (appendInstr (Instr.condBr (ensureInt1 (visitCond cn (createBB "" (createBB "" (createBB "" s).2).2).2).1 (visitCond cn (createBB "" (createBB "" (createBB "" s).2).2).2).2).1 s.nextBB (s.nextBB + 1)) (ensureInt1 (visitCond cn (createBB "" (createBB "" (createBB "" s).2).2).2).1 (visitCond cn (createBB "" (createBB "" (createBB "" s).2).2).2).2).2)))))) = true
      · rw [if_pos h7]
        exact fC6
      · rw [if_neg h7]
        exact (loc_appendInstr _ _).old_blocks _ _ fC6 hcurT3C
    have fCfinal : findBlock (visitIfStmt (Stmt.mk tg lv ex blk (some cn) th (some est)) s) ((ensureInt1 (visitCond cn (createBB "" (createBB "" (createBB "" s).2).2).2).1 (visitCond cn (createBB "" (createBB "" (createBB "" s).2).2).2).2).2.curBB.getD 0) = some { cb0 with instrs := cb0.instrs ++ [(Instr.condBr (ensureInt1 (visitCond cn (createBB "" (createBB "" (createBB "" s).2).2).2).1 (visitCond cn (createBB "" (createBB "" (createBB "" s).2).2).2).2).1 s.nextBB (s.nextBB + 1))] } := by
      rw [hres]
      exact fC7
    have hrescur : (visitIfStmt (Stmt.mk tg lv ex blk (some cn) th (some est)) s).curBB = some (s.nextBB + 2) := by
      rw [hres]
      rfl
    have hs2cur : (setInsertPoint s.nextBB (appendInstr (Instr.condBr (ensureInt1 (visitCond cn (createBB "" (createBB "" (createBB "" s).2).2).2).1 (visitCond cn (createBB "" (createBB "" (createBB "" s).2).2).2).2).1 s.nextBB (s.nextBB + 1)) (ensureInt1 (visitCond cn (createBB "" (createBB "" (createBB "" s).2).2).2).1 (visitCond cn (createBB "" (createBB "" (createBB "" s).2).2).2).2).2)).curBB = some s.nextBB := rfl
    have ht2cur : (setInsertPoint (s.nextBB + 1) (if curHasTerminator (visitStmtOpt th (setInsertPoint s.nextBB (appendInstr (Instr.condBr (ensureInt1 (visitCond cn (createBB "" (createBB "" (createBB "" s).2).2).2).1 (visitCond cn (createBB "" (createBB "" (createBB "" s).2).2).2).2).1 s.nextBB (s.nextBB + 1)) (ensureInt1 (visitCond cn (createBB "" (createBB "" (createBB "" s).2).2).2).1 (visitCond cn (createBB "" (createBB "" (createBB "" s).2).2).2).2).2))) = true then (visitStmtOpt th (setInsertPoint s.nextBB (appendInstr (Instr.condBr (ensureInt1 (visitCond cn (createBB "" (createBB "" (createBB "" s).2).2).2).1 (visitCond cn (createBB "" (createBB "" (createBB "" s).2).2).2).2).1 s.nextBB (s.nextBB + 1)) (ensureInt1 (visitCond cn (createBB "" (createBB "" (createBB "" s).2).2).2).1 (visitCond cn (createBB "" (createBB "" (createBB "" s).2).2).2).2).2))) else appendInstr (Instr.br (s.nextBB + 2)) (visitStmtOpt th (setInsertPoint s.nextBB (appendInstr (Instr.condBr (ensureInt1 (visitCond cn (createBB "" (createBB "" (createBB "" s).2).2).2).1 (visitCond cn (createBB "" (createBB "" (createBB "" s).2).2).2).2).1 s.nextBB (s.nextBB + 1)) (ensureInt1 (visitCond cn (createBB "" (createBB "" (createBB "" s).2).2).2).1 (visitCond cn (createBB "" (createBB "" (createBB "" s).2).2).2).2).2))))).curBB = some (s.nextBB + 1) := rfl
    have hthenTrue : curHasTerminator (visitStmtOpt th (setInsertPoint s.nextBB (appendInstr (Instr.condBr (ensureInt1 (visitCond cn (createBB "" (createBB "" (createBB "" s).2).2).2).1 (visitCond cn (createBB "" (createBB "" (createBB "" s).2).2).2).2).1 s.nextBB (s.nextBB + 1)) (ensureInt1 (visitCond cn (createBB "" (createBB "" (createBB "" s).2).2).2).1 (visitCond cn (createBB "" (createBB "" (createBB "" s).2).2).2).2).2))) = true → (if curHasTerminator (visitStmtOpt th (setInsertPoint s.nextBB (appendInstr (Instr.condBr (ensureInt1 (visitCond cn (createBB "" (createBB "" (createBB "" s).2).2).2).1 (visitCond cn (createBB "" (createBB "" (createBB "" s).2).2).2).2).1 s.nextBB (s.nextBB + 1)) (ensureInt1 (visitCond cn (createBB "" (createBB "" (createBB "" s).2).2).2).1 (visitCond cn (createBB "" (createBB "" (createBB "" s).2).2).2).2).2))) = true then (visitStmtOpt th (setInsertPoint s.nextBB (appendInstr (Instr.condBr (ensureInt1 (visitCond cn (createBB "" (createBB "" (createBB "" s).2).2).2).1 (visitCond cn (createBB "" (createBB "" (createBB "" s).2).2).2).2).1 s.nextBB (s.nextBB + 1)) (ensureInt1 (visitCond cn (createBB "" (createBB "" (createBB "" s).2).2).2).1 (visitCond cn (createBB "" (createBB "" (createBB "" s).2).2).2).2).2))) else appendInstr (Instr.br (s.nextBB + 2)) (visitStmtOpt th (setInsertPoint s.nextBB (appendInstr (Instr.condBr (ensureInt1 (visitCond cn (createBB "" (createBB "" (createBB "" s).2).2).2).1 (visitCond cn (createBB "" (createBB "" (createBB "" s).2).2).2).2).1 s.nextBB (s.nextBB + 1)) (ensureInt1 (visitCond cn (createBB "" (createBB "" (createBB "" s).2).2).2).1 (visitCond cn (createBB "" (createBB "" (createBB "" s).2).2).2).2).2)))) = (visitStmtOpt th (setInsertPoint s.nextBB (appendInstr (Instr.condBr (ensureInt1 (visitCond cn (createBB "" (createBB "" (createBB "" s).2).2).2).1 (visitCond cn (createBB "" (createBB "" (createBB "" s).2).2).2).2).1 s.nextBB (s.nextBB + 1)) (ensureInt1 (visitCond cn (createBB "" (createBB "" (createBB "" s).2).2).2).1 (visitCond cn (createBB "" (createBB "" (createBB "" s).2).2).2).2).2))) := by
      intro h
      rw [if_pos h]
    have hthenFalse : curHasTerminator (visitStmtOpt th (setInsertPoint s.nextBB (appendInstr (Instr.condBr (ensureInt1 (visitCond cn (createBB "" (createBB "" (createBB "" s).2).2).2).1 (visitCond cn (createBB "" (createBB "" (createBB "" s).2).2).2).2).1 s.nextBB (s.nextBB + 1)) (ensureInt1 (visitCond cn (createBB "" (createBB "" (createBB "" s).2).2).2).1 (visitCond cn (createBB "" (createBB "" (createBB "" s).2).2).2).2).2))) = false →
        ∃ tb b3, (visitStmtOpt th (setInsertPoint s.nextBB (appendInstr (Instr.condBr (ensureInt1 (visitCond cn (createBB "" (createBB "" (createBB "" s).2).2).2).1 (visitCond cn (createBB "" (createBB "" (createBB "" s).2).2).2).2).1 s.nextBB (s.nextBB + 1)) (ensureInt1 (visitCond cn (createBB "" (createBB "" (createBB "" s).2).2).2).1 (visitCond cn (createBB "" (createBB "" (createBB "" s).2).2).2).2).2))).curBB = some b3 ∧ findBlock (visitStmtOpt th (setInsertPoint s.nextBB (appendInstr (Instr.condBr (ensureInt1 (visitCond cn (createBB "" (createBB "" (createBB "" s).2).2).2).1 (visitCond cn (createBB "" (createBB "" (createBB "" s).2).2).2).2).1 s.nextBB (s.nextBB + 1)) (ensureInt1 (visitCond cn (createBB "" (createBB "" (createBB "" s).2).2).2).1 (visitCond cn (createBB "" (createBB "" (createBB "" s).2).2).2).2).2))) b3 = some tb ∧
          findBlock (visitIfStmt (Stmt.mk tg lv ex blk (some cn) th (some est)) s) b3 = some { tb with instrs := tb.instrs ++ [Instr.br (s.nextBB + 2)] } := by
      intro h
      obtain ⟨b3, hb3⟩ := Option.isSome_iff_exists.mp (Larm.cur_isSome (show (setInsertPoint s.nextBB (appendInstr (Instr.condBr (ensureInt1 (visitCond cn (createBB "" (createBB "" (createBB "" s).2).2).2).1 (visitCond cn (createBB "" (createBB "" (createBB "" s).2).2).2).2).1 s.nextBB (s.nextBB + 1)) (ensureInt1 (visitCond cn (createBB "" (createBB "" (createBB "" s).2).2).2).1 (visitCond cn (createBB "" (createBB "" (createBB "" s).2).2).2).2).2)).curBB.isSome = true from rfl))
      obtain ⟨tb, htb⟩ := Option.isSome_iff_exists.mp ((Ls3.wf hwf).2 b3 (by rw [hb3]; simp)).2
      have hb3lt : b3 < (visitStmtOpt th (setInsertPoint s.nextBB (appendInstr (Instr.condBr (ensureInt1 (visitCond cn (createBB "" (createBB "" (createBB "" s).2).2).2).1 (visitCond cn (createBB "" (createBB "" (createBB "" s).2).2).2).2).1 s.nextBB (s.nextBB + 1)) (ensureInt1 (visitCond cn (createBB "" (createBB "" (createBB "" s).2).2).2).1 (visitCond cn (createBB "" (createBB "" (createBB "" s).2).2).2).2).2))).nextBB := ((Ls3.wf hwf).2 b3 (by rw [hb3]; simp)).1
      have hb3cases : b3 = s.nextBB ∨ (setInsertPoint s.nextBB (appendInstr (Instr.condBr (ensureInt1 (visitCond cn (createBB "" (createBB "" (createBB "" s).2).2).2).1 (visitCond cn (createBB "" (createBB "" (createBB "" s).2).2).2).2).1 s.nextBB (s.nextBB + 1)) (ensureInt1 (visitCond cn (createBB "" (createBB "" (createBB "" s).2).2).2).1 (visitCond cn (createBB "" (createBB "" (createBB "" s).2).2).2).2).2)).nextBB ≤ b3 := by
        rcases Larm.cur_fresh with hceq | ⟨b, hb, hge⟩
        · left
          rw [hceq] at hb3
          have h2 : some s.nextBB = some b3 := hb3
          injection h2 with h3
          omega
        · right
          rw [hb] at hb3
          injection hb3 with h3
          omega
      refine ⟨tb, b3, hb3, htb, ?_⟩
      have fT1 : findBlock (if curHasTerminator (visitStmtOpt th (setInsertPoint s.nextBB (appendInstr (Instr.condBr (ensureInt1 (visitCond cn (createBB "" (createBB "" (createBB "" s).2).2).2).1 (visitCond cn (createBB "" (createBB "" (createBB "" s).2).2).2).2).1 s.nextBB (s.nextBB + 1)) (ensureInt1 (visitCond cn (createBB "" (createBB "" (createBB "" s).2).2).2).1 (visitCond cn (createBB "" (createBB "" (createBB "" s).2).2).2).2).2))) = true then (visitStmtOpt th (setInsertPoint s.nextBB (appendInstr (Instr.condBr (ensureInt1 (visitCond cn (createBB "" (createBB "" (createBB "" s).2).2).2).1 (visitCond cn (createBB "" (createBB "" (createBB "" s).2).2).2).2).1 s.nextBB (s.nextBB + 1)) (ensureInt1 (visitCond cn (createBB "" (createBB "" (createBB "" s).2).2).2).1 (visitCond cn (createBB "" (createBB "" (createBB "" s).2).2).2).2).2))) else appendInstr (Instr.br (s.nextBB + 2)) (visitStmtOpt th (setInsertPoint s.nextBB (appendInstr (Instr.condBr (ensureInt1 (visitCond cn (createBB "" (createBB "" (createBB "" s).2).2).2).1 (visitCond cn (createBB "" (createBB "" (createBB "" s).2).2).2).2).1 s.nextBB (s.nextBB + 1)) (ensureInt1 (visitCond cn (createBB "" (createBB "" (createBB "" s).2).2).2).1 (visitCond cn (createBB "" (createBB "" (createBB "" s).2).2).2).2).2)))) b3 = some { tb with instrs := tb.instrs ++ [Instr.br (s.nextBB + 2)] } := by
        rw [if_neg (by simp [h])]
        exact findBlock_append_self _ hb3 htb
      have fT2 : findBlock (setInsertPoint (s.nextBB + 1) (if curHasTerminator (visitStmtOpt th (setInsertPoint s.nextBB (appendInstr (Instr.condBr (ensureInt1 (visitCond cn (createBB "" (createBB "" (createBB "" s).2).2).2).1 (visitCond cn (createBB "" (createBB "" (createBB "" s).2).2).2).2).1 s.nextBB (s.nextBB + 1)) (ensureInt1 (visitCond cn (createBB "" (createBB "" (createBB "" s).2).2).2).1 (visitCond cn (createBB "" (createBB "" (createBB "" s).2).2).2).2).2))) = true then (visitStmtOpt th (setInsertPoint s.nextBB (appendInstr (Instr.condBr (ensureInt1 (visitCond cn (createBB "" (createBB "" (createBB "" s).2).2).2).1 (visitCond cn (createBB "" (createBB "" (createBB "" s).2).2).2).2).1 s.nextBB (s.nextBB + 1)) (ensureInt1 (visitCond cn (createBB "" (createBB "" (createBB "" s).2).2).2).1 (visitCond cn (createBB "" (createBB "" (createBB "" s).2).2).2).2).2))) else appendInstr (Instr.br (s.nextBB + 2)) (visitStmtOpt th (setInsertPoint s.nextBB (appendInstr (Instr.condBr (ensureInt1 (visitCond cn (createBB "" (createBB "" (createBB "" s).2).2).2).1 (visitCond cn (createBB "" (createBB "" (createBB "" s).2).2).2).2).1 s.nextBB (s.nextBB + 1)) (ensureInt1 (visitCond cn (createBB "" (createBB "" (createBB "" s).2).2).2).1 (visitCond cn (createBB "" (createBB "" (createBB "" s).2).2).2).2).2))))) b3 = some { tb with instrs := tb.instrs ++ [Instr.br (s.nextBB + 2)] } := fT1
      have hcurT2b3 : (setInsertPoint (s.nextBB + 1) (if curHasTerminator (visitStmtOpt th (setInsertPoint s.nextBB (appendInstr (Instr.condBr (ensureInt1 (visitCond cn (createBB "" (createBB "" (createBB "" s).2).2).2).1 (visitCond cn (createBB "" (createBB "" (createBB "" s).2).2).2).2).1 s.nextBB (s.nextBB + 1)) (ensureInt1 (visitCond cn (createBB "" (createBB "" (createBB "" s).2).2).2).1 (visitCond cn (createBB "" (createBB "" (createBB "" s).2).2).2).2).2))) = true then (visitStmtOpt th (setInsertPoint s.nextBB (appendInstr (Instr.condBr (ensureInt1 (visitCond cn (createBB "" (createBB "" (createBB "" s).2).2).2).1 (visitCond cn (createBB "" (createBB "" (createBB "" s).2).2).2).2).1 s.nextBB (s.nextBB + 1)) (ensureInt1 (visitCond cn (createBB "" (createBB "" (createBB "" s).2).2).2).1 (visitCond cn (createBB "" (createBB "" (createBB "" s).2).2).2).2).2))) else appendInstr (Instr.br (s.nextBB + 2)) (visitStmtOpt th (setInsertPoint s.nextBB (appendInstr (Instr.condBr (ensureInt1 (visitCond cn (createBB "" (createBB "" (createBB "" s).2).2).2).1 (visitCond cn (createBB "" (createBB "" (createBB "" s).2).2).2).2).1 s.nextBB (s.nextBB + 1)) (ensureInt1 (visitCond cn (createBB "" (createBB "" (createBB "" s).2).2).2).1 (visitCond cn (createBB "" (createBB "" (createBB "" s).2).2).2).2).2))))).curBB ≠ some b3 := by
        intro hx
        have h2 : some (s.nextBB + 1) = some b3 := hx
        injection h2 with h3
        rcases hb3cases with hb | hb <;> omega
      have fT3 : findBlock (visitStmt est (setInsertPoint (s.nextBB + 1) (if curHasTerminator (visitStmtOpt th (setInsertPoint s.nextBB (appendInstr (Instr.condBr (ensureInt1 (visitCond cn (createBB "" (createBB "" (createBB "" s).2).2).2).1 (visitCond cn (createBB "" (createBB "" (createBB "" s).2).2).2).2).1 s.nextBB (s.nextBB + 1)) (ensureInt1 (visitCond cn (createBB "" (createBB "" (createBB "" s).2).2).2).1 (visitCond cn (createBB "" (createBB "" (createBB "" s).2).2).2).2).2))) = true then (visitStmtOpt th (setInsertPoint s.nextBB (appendInstr (Instr.condBr (ensureInt1 (visitCond cn (createBB "" (createBB "" (createBB "" s).2).2).2).1 (visitCond cn (createBB "" (createBB "" (createBB "" s).2).2).2).2).1 s.nextBB (s.nextBB + 1)) (ensureInt1 (visitCond cn (createBB "" (createBB "" (createBB "" s).2).2).2).1 (visitCond cn (createBB "" (createBB "" (createBB "" s).2).2).2).2).2))) else appendInstr (Instr.br (s.nextBB + 2)) (visitStmtOpt th (setInsertPoint s.nextBB (appendInstr (Instr.condBr (ensureInt1 (visitCond cn (createBB "" (createBB "" (createBB "" s).2).2).2).1 (visitCond cn (createBB "" (createBB "" (createBB "" s).2).2).2).2).1 s.nextBB (s.nextBB + 1)) (ensureInt1 (visitCond cn (createBB "" (createBB "" (createBB "" s).2).2).2).1 (visitCond cn (createBB "" (createBB "" (createBB "" s).2).2).2).2).2)))))) b3 = some { tb with instrs := tb.instrs ++ [Instr.br (s.nextBB + 2)] } :=
        Larm2.old_blocks _ _ fT2 hcurT2b3
      have hcurT3b3 : (visitStmt est (setInsertPoint (s.nextBB + 1) (if curHasTerminator (visitStmtOpt th (setInsertPoint s.nextBB (appendInstr (Instr.condBr (ensureInt1 (visitCond cn (createBB "" (createBB "" (createBB "" s).2).2).2).1 (visitCond cn (createBB "" (createBB "" (createBB "" s).2).2).2).2).1 s.nextBB (s.nextBB + 1)) (ensureInt1 (visitCond cn (createBB "" (createBB "" (createBB "" s).2).2).2).1 (visitCond cn (createBB "" (createBB "" (createBB "" s).2).2).2).2).2))) = true then (visitStmtOpt th (setInsertPoint s.nextBB (appendInstr (Instr.condBr (ensureInt1 (visitCond cn (createBB "" (createBB "" (createBB "" s).2).2).2).1 (visitCond cn (createBB "" (createBB "" (createBB "" s).2).2).2).2).1 s.nextBB (s.nextBB + 1)) (ensureInt1 (visitCond cn (createBB "" (createBB "" (createBB "" s).2).2).2).1 (visitCond cn (createBB "" (createBB "" (createBB "" s).2).2).2).2).2))) else appendInstr (Instr.br (s.nextBB + 2)) (visitStmtOpt th (setInsertPoint s.nextBB (appendInstr (Instr.condBr (ensureInt1 (visitCond cn (createBB "" (createBB "" (createBB "" s).2).2).2).1 (visitCond cn (createBB "" (createBB "" (createBB "" s).2).2).2).2).1 s.nextBB (s.nextBB + 1)) (ensureInt1 (visitCond cn (createBB "" (createBB "" (createBB "" s).2).2).2).1 (visitCond cn (createBB "" (createBB "" (createBB "" s).2).2).2).2).2)))))).curBB ≠ some b3 := Larm2.cur_ne (by omega) hcurT2b3
      have fT4 : findBlock (if curHasTerminator (visitStmt est (setInsertPoint (s.nextBB + 1) (if curHasTerminator (visitStmtOpt th (setInsertPoint s.nextBB (appendInstr (Instr.condBr (ensureInt1 (visitCond cn (createBB "" (createBB "" (createBB "" s).2).2).2).1 (visitCond cn (createBB "" (createBB "" (createBB "" s).2).2).2).2).1 s.nextBB (s.nextBB + 1)) (ensureInt1 (visitCond cn (createBB "" (createBB "" (createBB "" s).2).2).2).1 (visitCond cn (createBB "" (createBB "" (createBB "" s).2).2).2).2).2))) = true then (visitStmtOpt th (setInsertPoint s.nextBB (appendInstr (Instr.condBr (ensureInt1 (visitCond cn (createBB "" (createBB "" (createBB "" s).2).2).2).1 (visitCond cn (createBB "" (createBB "" (createBB "" s).2).2).2).2).1 s.nextBB (s.nextBB + 1)) (ensureInt1 (visitCond cn (createBB "" (createBB "" (createBB "" s).2).2).2).1 (visitCond cn (createBB "" (createBB "" (createBB "" s).2).2).2).2).2))) else appendInstr (Instr.br (s.nextBB + 2)) (visitStmtOpt th (setInsertPoint s.nextBB (appendInstr (Instr.condBr (ensureInt1 (visitCond cn (createBB "" (createBB "" (createBB "" s).2).2).2).1 (visitCond cn (createBB "" (createBB "" (createBB "" s).2).2).2).2).1 s.nextBB (s.nextBB + 1)) (ensureInt1 (visitCond cn (createBB "" (createBB "" (createBB "" s).2).2).2).1 (visitCond cn (createBB "" (createBB "" (createBB "" s).2).2).2).2).2)))))) = true then (visitStmt est (setInsertPoint (s.nextBB + 1) (if curHasTerminator (visitStmtOpt th (setInsertPoint s.nextBB (appendInstr (Instr.condBr (ensureInt1 (visitCond cn (createBB "" (createBB "" (createBB "" s).2).2).2).1 (visitCond cn (createBB "" (createBB "" (createBB "" s).2).2).2).2).1 s.nextBB (s.nextBB + 1)) (ensureInt1 (visitCond cn (createBB "" (createBB "" (createBB "" s).2).2).2).1 (visitCond cn (createBB "" (createBB "" (createBB "" s).2).2).2).2).2))) = true then (visitStmtOpt th (setInsertPoint s.nextBB (appendInstr (Instr.condBr (ensureInt1 (visitCond cn (createBB "" (createBB "" (createBB "" s).2).2).2).1 (visitCond cn (createBB "" (createBB "" (createBB "" s).2).2).2).2).1 s.nextBB (s.nextBB + 1)) (ensureInt1 (visitCond cn (createBB "" (createBB "" (createBB "" s).2).2).2).1 (visitCond cn (createBB "" (createBB "" (createBB "" s).2).2).2).2).2))) else appendInstr (Instr.br (s.nextBB + 2)) (visitStmtOpt th (setInsertPoint s.nextBB (appendInstr (Instr.condBr (ensureInt1 (visitCond cn (createBB "" (createBB "" (createBB "" s).2).2).2).1 (visitCond cn (createBB "" (createBB "" (createBB "" s).2).2).2).2).1 s.nextBB (s.nextBB + 1)) (ensureInt1 (visitCond cn (createBB "" (createBB "" (createBB "" s).2).2).2).1 (visitCond cn (createBB "" (createBB "" (createBB "" s).2).2).2).2).2)))))) else appendInstr (Instr.br (s.nextBB + 2)) (visitStmt est (setInsertPoint (s.nextBB + 1) (if curHasTerminator (visitStmtOpt th (setInsertPoint s.nextBB (appendInstr (Instr.condBr (ensureInt1 (visitCond cn (createBB "" (createBB "" (createBB "" s).2).2).2).1 (visitCond cn (createBB "" (createBB "" (createBB "" s).2).2).2).2).1 s.nextBB (s.nextBB + 1)) (ensureInt1 (visitCond cn (createBB "" (createBB "" (createBB "" s).2).2).2).1 (visitCond cn (createBB "" (createBB "" (createBB "" s).2).2).2).2).2))) = true then (visitStmtOpt th (setInsertPoint s.nextBB (appendInstr (Instr.condBr (ensureInt1 (visitCond cn (createBB "" (createBB "" (createBB "" s).2).2).2).1 (visitCond cn (createBB "" (createBB "" (createBB "" s).2).2).2).2).1 s.nextBB (s.nextBB + 1)) (ensureInt1 (visitCond cn (createBB "" (createBB "" (createBB "" s).2).2).2).1 (visitCond cn (createBB "" (createBB "" (createBB "" s).2).2).2).2).2))) else appendInstr (Instr.br (s.nextBB + 2)) (visitStmtOpt th (setInsertPoint s.nextBB (appendInstr (Instr.condBr (ensureInt1 (visitCond cn (createBB "" (createBB "" (createBB "" s).2).2).2).1 (visitCond cn (createBB "" (createBB "" (createBB "" s).2).2).2).2).1 s.nextBB (s.nextBB + 1)) (ensureInt1 (visitCond cn (createBB "" (createBB "" (createBB "" s).2).2).2).1 (visitCond cn (createBB "" (createBB "" (createBB "" s).2).2).2).2).2))))))) b3 = some { tb with instrs := tb.instrs ++ [Instr.br (s.nextBB + 2)] } := by
        by_cases h7 : curHasTerminator (visitStmt est (setInsertPoint (s.nextBB + 1) (if curHasTerminator (visitStmtOpt th (setInsertPoint s.nextBB (appendInstr (Instr.condBr (ensureInt1 (visitCond cn (createBB "" (createBB "" (createBB "" s).2).2).2).1 (visitCond cn (createBB "" (createBB "" (createBB "" s).2).2).2).2).1 s.nextBB (s.nextBB + 1)) (ensureInt1 (visitCond cn (createBB "" (createBB "" (createBB "" s).2).2).2).1 (visitCond cn (createBB "" (createBB "" (createBB "" s).2).2).2).2).2))) = true then (visitStmtOpt th (setInsertPoint s.nextBB (appendInstr (Instr.condBr (ensureInt1 (visitCond cn (createBB "" (createBB "" (createBB "" s).2).2).2).1 (visitCond cn (createBB "" (createBB "" (createBB "" s).2).2).2).2).1 s.nextBB (s.nextBB + 1)) (ensureInt1 (visitCond cn (createBB "" (createBB "" (createBB "" s).2).2).2).1 (visitCond cn (createBB "" (createBB "" (createBB "" s).2).2).2).2).2))) else appendInstr (Instr.br (s.nextBB + 2)) (visitStmtOpt th (setInsertPoint s.nextBB (appendInstr (Instr.condBr (ensureInt1 (visitCond cn (createBB "" (createBB "" (createBB "" s).2).2).2).1 (visitCond cn (createBB "" (createBB "" (createBB "" s).2).2).2).2).1 s.nextBB (s.nextBB + 1)) (ensureInt1 (visitCond cn (createBB "" (createBB "" (createBB "" s).2).2).2).1 (visitCond cn (createBB "" (createBB "" (createBB "" s).2).2).2).2).2)))))) = true
        · rw [if_pos h7]
          exact fT3
        · rw [if_neg h7]
          exact (loc_appendInstr _ _).old_blocks _ _ fT3 hcurT3b3
      rw [hres]
      exact fT4
    have helseTrue : curHasTerminator (visitStmt est (setInsertPoint (s.nextBB + 1) (if curHasTerminator (visitStmtOpt th (setInsertPoint s.nextBB (appendInstr (Instr.condBr (ensureInt1 (visitCond cn (createBB "" (createBB "" (createBB "" s).2).2).2).1 (visitCond cn (createBB "" (createBB "" (createBB "" s).2).2).2).2).1 s.nextBB (s.nextBB + 1)) (ensureInt1 (visitCond cn (createBB "" (createBB "" (createBB "" s).2).2).2).1 (visitCond cn (createBB "" (createBB "" (createBB "" s).2).2).2).2).2))) = true then (visitStmtOpt th (setInsertPoint s.nextBB (appendInstr (Instr.condBr (ensureInt1 (visitCond cn (createBB "" (createBB "" (createBB "" s).2).2).2).1 (visitCond cn (createBB "" (createBB "" (createBB "" s).2).2).2).2).1 s.nextBB (s.nextBB + 1)) (ensureInt1 (visitCond cn (createBB "" (createBB "" (createBB "" s).2).2).2).1 (visitCond cn (createBB "" (createBB "" (createBB "" s).2).2).2).2).2))) else appendInstr (Instr.br (s.nextBB + 2)) (visitStmtOpt th (setInsertPoint s.nextBB (appendInstr (Instr.condBr (ensureInt1 (visitCond cn (createBB "" (createBB "" (createBB "" s).2).2).2).1 (visitCond cn (createBB "" (createBB "" (createBB "" s).2).2).2).2).1 s.nextBB (s.nextBB + 1)) (ensureInt1 (visitCond cn (createBB "" (createBB "" (createBB "" s).2).2).2).1 (visitCond cn (createBB "" (createBB "" (createBB "" s).2).2).2).2).2)))))) = true → (visitIfStmt (Stmt.mk tg lv ex blk (some cn) th (some est)) s) = setInsertPoint (s.nextBB + 2) (visitStmt est (setInsertPoint (s.nextBB + 1) (if curHasTerminator (visitStmtOpt th (setInsertPoint s.nextBB (appendInstr (Instr.condBr (ensureInt1 (visitCond cn (createBB "" (createBB "" (createBB "" s).2).2).2).1 (visitCond cn (createBB "" (createBB "" (createBB "" s).2).2).2).2).1 s.nextBB (s.nextBB + 1)) (ensureInt1 (visitCond cn (createBB "" (createBB "" (createBB "" s).2).2).2).1 (visitCond cn (createBB "" (createBB "" (createBB "" s).2).2).2).2).2))) = true then (visitStmtOpt th (setInsertPoint s.nextBB (appendInstr (Instr.condBr (ensureInt1 (visitCond cn (createBB "" (createBB "" (createBB "" s).2).2).2).1 (visitCond cn (createBB "" (createBB "" (createBB "" s).2).2).2).2).1 s.nextBB (s.nextBB + 1)) (ensureInt1 (visitCond cn (createBB "" (createBB "" (createBB "" s).2).2).2).1 (visitCond cn (createBB "" (createBB "" (createBB "" s).2).2).2).2).2))) else appendInstr (Instr.br (s.nextBB + 2)) (visitStmtOpt th (setInsertPoint s.nextBB (appendInstr (Instr.condBr (ensureInt1 (visitCond cn (createBB "" (createBB "" (createBB "" s).2).2).2).1 (visitCond cn (createBB "" (createBB "" (createBB "" s).2).2).2).2).1 s.nextBB (s.nextBB + 1)) (ensureInt1 (visitCond cn (createBB "" (createBB "" (createBB "" s).2).2).2).1 (visitCond cn (createBB "" (createBB "" (createBB "" s).2).2).2).2).2)))))) := by
      intro h
      rw [hres, if_pos h]
    have helseFalse : curHasTerminator (visitStmt est (setInsertPoint (s.nextBB + 1) (if curHasTerminator (visitStmtOpt th (setInsertPoint s.nextBB (appendInstr (Instr.condBr (ensureInt1 (visitCond cn (createBB "" (createBB "" (createBB "" s).2).2).2).1 (visitCond cn (createBB "" (createBB "" (createBB "" s).2).2).2).2).1 s.nextBB (s.nextBB + 1)) (ensureInt1 (visitCond cn (createBB "" (createBB "" (createBB "" s).2).2).2).1 (visitCond cn (createBB "" (createBB "" (createBB "" s).2).2).2).2).2))) = true then (visitStmtOpt th (setInsertPoint s.nextBB (appendInstr (Instr.condBr (ensureInt1 (visitCond cn (createBB "" (createBB "" (createBB "" s).2).2).2).1 (visitCond cn (createBB "" (createBB "" (createBB "" s).2).2).2).2).1 s.nextBB (s.nextBB + 1)) (ensureInt1 (visitCond cn (createBB "" (createBB "" (createBB "" s).2).2).2).1 (visitCond cn (createBB "" (createBB "" (createBB "" s).2).2).2).2).2))) else appendInstr (Instr.br (s.nextBB + 2)) (visitStmtOpt th (setInsertPoint s.nextBB (appendInstr (Instr.condBr (ensureInt1 (visitCond cn (createBB "" (createBB "" (createBB "" s).2).2).2).1 (visitCond cn (createBB "" (createBB "" (createBB "" s).2).2).2).2).1 s.nextBB (s.nextBB + 1)) (ensureInt1 (visitCond cn (createBB "" (createBB "" (createBB "" s).2).2).2).1 (visitCond cn (createBB "" (createBB "" (createBB "" s).2).2).2).2).2)))))) = false →
        ∃ ub b7, (visitStmt est (setInsertPoint (s.nextBB + 1) (if curHasTerminator (visitStmtOpt th (setInsertPoint s.nextBB (appendInstr (Instr.condBr (ensureInt1 (visitCond cn (createBB "" (createBB "" (createBB "" s).2).2).2).1 (visitCond cn (createBB "" (createBB "" (createBB "" s).2).2).2).2).1 s.nextBB (s.nextBB + 1)) (ensureInt1 (visitCond cn (createBB "" (createBB "" (createBB "" s).2).2).2).1 (visitCond cn (createBB "" (createBB "" (createBB "" s).2).2).2).2).2))) = true then (visitStmtOpt th (setInsertPoint s.nextBB (appendInstr (Instr.condBr (ensureInt1 (visitCond cn (createBB "" (createBB "" (createBB "" s).2).2).2).1 (visitCond cn (createBB "" (createBB "" (createBB "" s).2).2).2).2).1 s.nextBB (s.nextBB + 1)) (ensureInt1 (visitCond cn (createBB "" (createBB "" (createBB "" s).2).2).2).1 (visitCond cn (createBB "" (createBB "" (createBB "" s).2).2).2).2).2))) else appendInstr (Instr.br (s.nextBB + 2)) (visitStmtOpt th (setInsertPoint s.nextBB (appendInstr (Instr.condBr (ensureInt1 (visitCond cn (createBB "" (createBB "" (createBB "" s).2).2).2).1 (visitCond cn (createBB "" (createBB "" (createBB "" s).2).2).2).2).1 s.nextBB (s.nextBB + 1)) (ensureInt1 (visitCond cn (createBB "" (createBB "" (createBB "" s).2).2).2).1 (visitCond cn (createBB "" (createBB "" (createBB "" s).2).2).2).2).2)))))).curBB = some b7 ∧ findBlock (visitStmt est (setInsertPoint (s.nextBB + 1) (if curHasTerminator (visitStmtOpt th (setInsertPoint s.nextBB (appendInstr (Instr.condBr (ensureInt1 (visitCond cn (createBB "" (createBB "" (createBB "" s).2).2).2).1 (visitCond cn (createBB "" (createBB "" (createBB "" s).2).2).2).2).1 s.nextBB (s.nextBB + 1)) (ensureInt1 (visitCond cn (createBB "" (createBB "" (createBB "" s).2).2).2).1 (visitCond cn (createBB "" (createBB "" (createBB "" s).2).2).2).2).2))) = true then (visitStmtOpt th (setInsertPoint s.nextBB (appendInstr (Instr.condBr (ensureInt1 (visitCond cn (createBB "" (createBB "" (createBB "" s).2).2).2).1 (visitCond cn (createBB "" (createBB "" (createBB "" s).2).2).2).2).1 s.nextBB (s.nextBB + 1)) (ensureInt1 (visitCond cn (createBB "" (createBB "" (createBB "" s).2).2).2).1 (visitCond cn (createBB "" (createBB "" (createBB "" s).2).2).2).2).2))) else appendInstr (Instr.br (s.nextBB + 2)) (visitStmtOpt th (setInsertPoint s.nextBB (appendInstr (Instr.condBr (ensureInt1 (visitCond cn (createBB "" (createBB "" (createBB "" s).2).2).2).1 (visitCond cn (createBB "" (createBB "" (createBB "" s).2).2).2).2).1 s.nextBB (s.nextBB + 1)) (ensureInt1 (visitCond cn (createBB "" (createBB "" (createBB "" s).2).2).2).1 (visitCond cn (createBB "" (createBB "" (createBB "" s).2).2).2).2).2)))))) b7 = some ub ∧
          findBlock (visitIfStmt (Stmt.mk tg lv ex blk (some cn) th (some est)) s) b7 = some { ub with instrs := ub.instrs ++ [Instr.br (s.nextBB + 2)] } := by
      intro h
      obtain ⟨b7, hb7⟩ := Option.isSome_iff_exists.mp (Larm2.cur_isSome (show (setInsertPoint (s.nextBB + 1) (if curHasTerminator (visitStmtOpt th (setInsertPoint s.nextBB (appendInstr (Instr.condBr (ensureInt1 (visitCond cn (createBB "" (createBB "" (createBB "" s).2).2).2).1 (visitCond cn (createBB "" (createBB "" (createBB "" s).2).2).2).2).1 s.nextBB (s.nextBB + 1)) (ensureInt1 (visitCond cn (createBB "" (createBB "" (createBB "" s).2).2).2).1 (visitCond cn (createBB "" (createBB "" (createBB "" s).2).2).2).2).2))) = true then (visitStmtOpt th (setInsertPoint s.nextBB (appendInstr (Instr.condBr (ensureInt1 (visitCond cn (createBB "" (createBB "" (createBB "" s).2).2).2).1 (visitCond cn (createBB "" (createBB "" (createBB "" s).2).2).2).2).1 s.nextBB (s.nextBB + 1)) (ensureInt1 (visitCond cn (createBB "" (createBB "" (createBB "" s).2).2).2).1 (visitCond cn (createBB "" (createBB "" (createBB "" s).2).2).2).2).2))) else appendInstr (Instr.br (s.nextBB + 2)) (visitStmtOpt th (setInsertPoint s.nextBB (appendInstr (Instr.condBr (ensureInt1 (visitCond cn (createBB "" (createBB "" (createBB "" s).2).2).2).1 (visitCond cn (createBB "" (createBB "" (createBB "" s).2).2).2).2).1 s.nextBB (s.nextBB + 1)) (ensureInt1 (visitCond cn (createBB "" (createBB "" (createBB "" s).2).2).2).1 (visitCond cn (createBB "" (createBB "" (createBB "" s).2).2).2).2).2))))).curBB.isSome = true from rfl))
      obtain ⟨ub, hub⟩ := Option.isSome_iff_exists.mp ((LT3.wf hwf).2 b7 (by rw [hb7]; simp)).2
      refine ⟨ub, b7, hb7, hub, ?_⟩
      rw [hres, if_neg (by simp [h])]
      exact findBlock_append_self _ hb7 hub
    exact ⟨hrescur, hpccur, ⟨cb0, hcb0, fCfinal⟩, hs2cur, ht2cur, hthenTrue, hthenFalse, helseTrue, helseFalse⟩

theorem C4_witness :
    WFSt entryState ∧ entryState.curBB = some 0 ∧
    (visitLAndExp (LAndExp.mk (some (LAndExp.mk none (some eqOneChain)))
      (some eqOneChain)) entryState).2.curBB = some 2 :=
  ⟨by decide, rfl,
   (C4_short_circuit_structure (LAndExp.mk none (some eqOneChain)) (some eqOneChain)
     (LOrExp.mk none (some (LAndExp.mk none (some eqOneChain))))
     (some (LAndExp.mk none (some eqOneChain))) entryState 0 (by decide) rfl).1.2.1⟩

theorem C8_witness :
    WFSt entryState ∧ entryState.curBB = some 0 ∧
    (visitIfStmt (Stmt.mk .IF none none none (some intCond) none none)
      entryState).curBB = some 2 :=
  ⟨by decide, rfl,
   (C8_ifstmt_structure_amended .IF none none none intCond none
     (Stmt.mk .EXP none none none none none none) entryState 0
     (by decide) rfl).2.2.1.1⟩

/-- Lowering `if (1.5) ;`-style code: the float condition value reaches the
conditional branch unconverted — no not-equal-to-zero comparison is emitted
for it, although its type is not 1-bit. -/
theorem C8_counterexample :
    findBlock (visitIfStmt (Stmt.mk .IF none none none (some floatCond) none none)
        entryState) 0 =
      some ⟨0, "entry", "main", [Instr.condBr (Val.constFP (3/2)) 1 2]⟩ ∧
    (Val.constFP (3/2)).getType ≠ some Ty.i1 := by
  constructor
  · simp only [visitIfStmt, visitStmtOpt]
    rfl
  · decide

theorem parseStep_cont_astRoot (aT : ActionTable) (gT : GotoTable)
    (tokens : List Token) (st st2 : ParserSt)
    (h : parseStep aT gT tokens st = .cont st2) : st2.astRoot = st.astRoot := by
  simp only [parseStep] at h
  rcases ha : lookupAction aT (st.stateStack.headD 0)
      (if st.ip ≥ tokens.length then "$"
       else getTokenSymbol (tokens.getD st.ip default)) with _ | act
  · simp only [ha] at h
    simp at h
  · simp only [ha] at h
    cases act with
    | SHIFT t =>
      have h2 : StepRes.cont { st with
          stateStack := t :: st.stateStack
          valueStack := (if st.ip < tokens.length then
            { terminal := (tokens.getD st.ip default).value } else {}) :: st.valueStack
          ip := st.ip + 1 } = StepRes.cont st2 := h
      injection h2 with h3
      rw [← h3]
    | REDUCE pid =>
      rcases hg : lookupGoto gT ((st.stateStack.drop
          (if (grammar.getD (pid - 1) default).rhs.headD "" == "epsilon" then 0
           else (grammar.getD (pid - 1) default).rhs.length)).headD 0)
          (grammar.getD (pid - 1) default).lhs with _ | ns
      · simp only [hg] at h
        simp at h
      · simp only [hg] at h
        have h2 := h
        injection h2 with h3
        rw [← h3]
    | ACC =>
      simp at h
    | ERR =>
      have h2 : StepRes.cont st = StepRes.cont st2 := h
      injection h2 with h3
      rw [← h3]

theorem parseStep_done_false (aT : ActionTable) (gT : GotoTable)
    (tokens : List Token) (st res : ParserSt)
    (h : parseStep aT gT tokens st = .done false res) :
    res.hasError = true ∧ res.astRoot = st.astRoot ∧
    ((lookupAction aT (st.stateStack.headD 0)
        (if st.ip ≥ tokens.length then "$"
         else getTokenSymbol (tokens.getD st.ip default)) = none ∧
      res.diags = st.diags ++ ["Parse error at token: " ++
        (if st.ip < tokens.length then (tokens.getD st.ip default).value else "$")]) ∨
     (∃ pid, lookupAction aT (st.stateStack.headD 0)
        (if st.ip ≥ tokens.length then "$"
         else getTokenSymbol (tokens.getD st.ip default)) = some (.REDUCE pid) ∧
      lookupGoto gT ((st.stateStack.drop
        (if (grammar.getD (pid - 1) default).rhs.headD "" == "epsilon" then 0
         else (grammar.getD (pid - 1) default).rhs.length)).headD 0)
        (grammar.getD (pid - 1) default).lhs = none ∧
      res.diags = st.diags ++ ["Goto error"])) := by
  simp only [parseStep] at h
  rcases ha : lookupAction aT (st.stateStack.headD 0)
      (if st.ip ≥ tokens.length then "$"
       else getTokenSymbol (tokens.getD st.ip default)) with _ | act
  · simp only [ha] at h
    have h2 := h
    injection h2 with _ h3
    refine ⟨by rw [← h3], by rw [← h3], Or.inl ⟨rfl, by rw [← h3]⟩⟩
  · simp only [ha] at h
    cases act with
    | SHIFT t =>
      simp at h
    | REDUCE pid =>
      rcases hg : lookupGoto gT ((st.stateStack.drop
          (if (grammar.getD (pid - 1) default).rhs.headD "" == "epsilon" then 0
           else (grammar.getD (pid - 1) default).rhs.length)).headD 0)
          (grammar.getD (pid - 1) default).lhs with _ | ns
      · simp only [hg] at h
        have h2 := h
        injection h2 with _ h3
        refine ⟨by rw [← h3], by rw [← h3], Or.inr ⟨pid, rfl, hg, by rw [← h3]⟩⟩
      · simp only [hg] at h
        simp at h
    | ACC =>
      have h2 := h
      injection h2 with h3 _
      simp at h3
    | ERR =>
      simp at h

/-- A run of the parse loop that returns failure halts at a single step
with no recovery, and that step either finds no ACTION entry for the
current state and lookahead — appending the "Parse error at token"
report naming the offending token — or finds a REDUCE action whose GOTO
entry is missing — appending "Goto error"; in both cases `hasError` is set
and the AST root, which no continuing step ever assigns, is still null. -/
theorem parseLoop_done_false_cases (aT : ActionTable) (gT : GotoTable) (tokens : List Token) :
    ∀ (fuel : Nat) (st res : ParserSt), st.astRoot = none →
    parseLoop aT gT tokens fuel st = some (false, res) →
    res.hasError = true ∧ res.astRoot = none ∧
    ∃ st2 : ParserSt, st2.astRoot = none ∧
      parseStep aT gT tokens st2 = .done false res ∧
      ((lookupAction aT (st2.stateStack.headD 0)
          (if st2.ip ≥ tokens.length then "$"
           else getTokenSymbol (tokens.getD st2.ip default)) = none ∧
        res.diags = st2.diags ++ ["Parse error at token: " ++
          (if st2.ip < tokens.length then (tokens.getD st2.ip default).value else "$")]) ∨
       (∃ pid, lookupAction aT (st2.stateStack.headD 0)
          (if st2.ip ≥ tokens.length then "$"
           else getTokenSymbol (tokens.getD st2.ip default)) = some (.REDUCE pid) ∧
        lookupGoto gT ((st2.stateStack.drop
          (if (grammar.getD (pid - 1) default).rhs.headD "" == "epsilon" then 0
           else (grammar.getD (pid - 1) default).rhs.length)).headD 0)
          (grammar.getD (pid - 1) default).lhs = none ∧
        res.diags = st2.diags ++ ["Goto error"]))
  | 0, st, res, _, h => by simp [parseLoop] at h
  | fuel + 1, st, res, hroot, h => by
    simp only [parseLoop] at h
    rcases hs : parseStep aT gT tokens st with st2 | ⟨ok, st2⟩
    · rw [hs] at h
      have hroot2 : st2.astRoot = none := by
        rw [parseStep_cont_astRoot aT gT tokens st st2 hs]
        exact hroot
      exact parseLoop_done_false_cases aT gT tokens fuel st2 res hroot2 h
    · rw [hs] at h
      have h2 : some (ok, st2) = some (false, res) := h
      injection h2 with h3
      injection h3 with h4 h5
      subst h4
      rw [h5] at hs
      have hd := parseStep_done_false aT gT tokens st res hs
      exact ⟨hd.1, by rw [hd.2.1]; exact hroot, st, hroot, hs, hd.2.2⟩

/-- An undefined ACTION entry makes the loop halt at once: it returns
failure with `hasError` set and the offending token reported, everything
else (the AST root included) untouched. -/
theorem parseLoop_action_miss (aT : ActionTable) (gT : GotoTable)
    (tokens : List Token) (fuel : Nat) (st : ParserSt)
    (h : lookupAction aT (st.stateStack.headD 0)
      (if st.ip ≥ tokens.length then "$"
       else getTokenSymbol (tokens.getD st.ip default)) = none) :
    parseLoop aT gT tokens (fuel + 1) st =
      some (false, { st with
        hasError := true,
        diags := st.diags ++ ["Parse error at token: " ++
          (if st.ip < tokens.length then (tokens.getD st.ip default).value
           else "$")] }) := by
  have hstep : parseStep aT gT tokens st = .done false { st with
      hasError := true,
      diags := st.diags ++ ["Parse error at token: " ++
        (if st.ip < tokens.length then (tokens.getD st.ip default).value
         else "$")] } := by
    simp only [parseStep, h]
  simp only [parseLoop, hstep]

/-- C7 (amended): (a) whenever the loop reaches a configuration whose
ACTION entry is undefined it halts at that step with no recovery,
reporting the offending token (or "$" at end of input) and returning
failure with the state otherwise untouched — in particular the AST root
stays null; (b) conversely, every failing run of the loop ends in a
single step that either found no ACTION entry for the current state and
lookahead (appending the "Parse error at token" report) or found a
REDUCE action whose GOTO entry was missing (appending "Goto error"),
and in both cases `hasError` is set and the AST root, which no
continuing step ever assigns, is still null. -/
theorem C7_loop_failure (aT : ActionTable) (gT : GotoTable) (tokens : List Token) :
    (∀ (fuel : Nat) (st : ParserSt),
      lookupAction aT (st.stateStack.headD 0)
        (if st.ip ≥ tokens.length then "$"
         else getTokenSymbol (tokens.getD st.ip default)) = none →
      parseLoop aT gT tokens (fuel + 1) st =
        some (false, { st with
          hasError := true,
          diags := st.diags ++ ["Parse error at token: " ++
            (if st.ip < tokens.length then (tokens.getD st.ip default).value
             else "$")] })) ∧
    (∀ (fuel : Nat) (st res : ParserSt), st.astRoot = none →
      parseLoop aT gT tokens fuel st = some (false, res) →
      res.hasError = true ∧ res.astRoot = none ∧
      ∃ st2 : ParserSt, st2.astRoot = none ∧
        parseStep aT gT tokens st2 = .done false res ∧
        ((lookupAction aT (st2.stateStack.headD 0)
            (if st2.ip ≥ tokens.length then "$"
             else getTokenSymbol (tokens.getD st2.ip default)) = none ∧
          res.diags = st2.diags ++ ["Parse error at token: " ++
            (if st2.ip < tokens.length then (tokens.getD st2.ip default).value else "$")]) ∨
         (∃ pid, lookupAction aT (st2.stateStack.headD 0)
            (if st2.ip ≥ tokens.length then "$"
             else getTokenSymbol (tokens.getD st2.ip default)) = some (.REDUCE pid) ∧
          lookupGoto gT ((st2.stateStack.drop
            (if (grammar.getD (pid - 1) default).rhs.headD "" == "epsilon" then 0
             else (grammar.getD (pid - 1) default).rhs.length)).headD 0)
            (grammar.getD (pid - 1) default).lhs = none ∧
          res.diags = st2.diags ++ ["Goto error"]))) :=
  ⟨fun fuel st h => parseLoop_action_miss aT gT tokens fuel st h,
   fun fuel st res hroot h => parseLoop_done_false_cases aT gT tokens fuel st res hroot h⟩

/-- The loop also fails when every consulted ACTION entry is defined:
shifting the identifier and then reducing the one-symbol production
`blockItem -> decl` pops one state and one value off non-empty stacks —
every vector access of the source is in bounds on this trace — and then
fails the GOTO lookup, returning failure with "Goto error".  So failure
is not exhausted by undefined ACTION entries. -/
theorem C7_counterexample :
    parse gotoFailActions [] [identToken] 2 =
      some (false, { stateStack := [0], valueStack := [], ip := 1, astRoot := none,
                     hasError := true, diags := ["Goto error"] }) ∧
    lookupAction gotoFailActions 0 "Ident" = some (PAction.SHIFT 1) ∧
    lookupAction gotoFailActions 1 "$" = some (PAction.REDUCE 34) :=
  ⟨rfl, rfl, rfl⟩

theorem C7_witness :
    parseLoop gotoFailActions [] [identToken] 1
        { stateStack := [99], valueStack := [], ip := 1, astRoot := none,
          hasError := false, diags := [] } =
      some (false,
        { stateStack := [99], valueStack := [], ip := 1, astRoot := none,
          hasError := true, diags := ["Parse error at token: $"] }) ∧
    ({} : ParserSt).astRoot = none ∧
    ({ stateStack := [0], valueStack := [], ip := 1, astRoot := none,
       hasError := true, diags := ["Goto error"] } : ParserSt).hasError = true :=
  ⟨(C7_loop_failure gotoFailActions [] [identToken]).1 0
      { stateStack := [99], valueStack := [], ip := 1, astRoot := none,
        hasError := false, diags := [] } rfl,
   rfl,
   ((C7_loop_failure gotoFailActions [] [identToken]).2 2 {}
      { stateStack := [0], valueStack := [], ip := 1, astRoot := none,
        hasError := true, diags := ["Goto error"] } rfl rfl).1⟩

end SysY
